import Mathlib

/-!
srv-event: partial mutation query builders and update operations

A shallow embedding of the data-access layer of the `srv-event` REST service
(Go, `pgx` + `gin`).  Every request record is a struct of pointer fields; a nil
pointer is `none`.  Builders are pure functions from a record (and, for the
`updated_at` column, the instant returned by `time.Now()`) to SQL text and an
argument list.  Data-access operations run against a store that is passed
explicitly: `Pool.exec` stands for `r.db.Exec`.
-/

namespace SrvEvent

/-! ## Values and request records -/

/-- A Go `time.Time`; the builders only carry it around. -/
structure Time where
  unixNano : Int
  deriving DecidableEq, Repr

/-- One element of the `[]interface{}` argument list handed to `pgx`. -/
inductive Value where
  | bool (b : Bool)
  | int (n : Int)
  | str (s : String)
  | time (t : Time)
  deriving DecidableEq, Repr

/-- Record `audience` of `audience/audience.go`. -/
structure audience where
  Name : Option String := none
  Description : Option String := none
  deriving DecidableEq, Repr

/-- Record `broadcastURL` of `broadcasturl/broadhcast_url.go`. -/
structure broadcastURL where
  URL : Option String := none
  Platform : Option String := none
  Language : Option String := none
  deriving DecidableEq, Repr

/-- Record `event` of `event/event.go`. -/
structure event where
  RegistrationRequired : Option Bool := none
  RegistrationStatus : Option String := none
  Audience : Option String := none
  Slug : Option String := none
  Name : Option String := none
  Logo : Option String := none
  Content : Option String := none
  Deleted : Option Bool := none
  StartsOn : Option Time := none
  EndsOn : Option Time := none
  DateConfirmed : Option Bool := none
  deriving DecidableEq, Repr

/-- Record `eventItem` of `event/event_item.go`. -/
structure eventItem where
  EventID : Option Int := none
  ItemID : Option Int := none
  Deleted : Option Bool := none
  deriving DecidableEq, Repr

/-- Record `eventPartOption` of `event/event_participation_option.go`. -/
structure eventPartOption where
  EventID : Option Int := none
  ParticipationOption : Option String := none
  Deleted : Option Bool := none
  deriving DecidableEq, Repr

/-- Record `item` of `item/item.go`. -/
structure item where
  StartDate : Option Time := none
  Duration : Option Int := none
  Name : Option String := none
  Content : Option String := none
  OriginalLanguage : Option String := none
  Translated : Option Bool := none
  deriving DecidableEq, Repr

/-- Record `itemBroadcastURL` of `item/item_broadcast_url.go`. -/
structure itemBroadcastURL where
  ItemID : Option Int := none
  BoradcastURLID : Option Int := none
  deriving DecidableEq, Repr

/-- Record `part` of `participant/participant.go`. -/
structure part where
  KeycloakID : Option String := none
  FirstLanguage : Option String := none
  EmailLanguage : Option String := none
  DOB : Option Time := none
  Gender : Option String := none
  Email : Option String := none
  Country : Option String := none
  FirstName : Option String := none
  LastName : Option String := none
  deriving DecidableEq, Repr

/-- Record `participationStatus` of `partstatus/participation_status.go`. -/
structure participationStatus where
  ParticipationOption : Option String := none
  ParticipantID : Option Int := none
  EventID : Option Int := none
  Confirmed : Option Bool := none
  RegistrationDate : Option Time := none
  Deleted : Option Bool := none
  deriving DecidableEq, Repr

/-- Record `platform` of `platform/platform.go`. -/
structure platform where
  Name : Option String := none
  deriving DecidableEq, Repr

/-- Record `partOption` of `partoptn/participation_option.go`. -/
structure partOption where
  Name : Option String := none
  deriving DecidableEq, Repr

/-! ## Records seen through their `db` tags

Each field of a request record carries a `db:"<column>"` tag.  `fields` lists
the fields of a record in declaration order as pairs of column name and
(optional) value.  The two `Name` fields tagged `db:"Name"` are listed under
`name`, the spelling every statement of the repository uses for that column. -/

/-- Fields of a record: column name and value, `none` when the pointer is nil. -/
abbrev Fields := List (String × Option Value)

/-- Fields of `audience`. -/
def audience.fields (r : audience) : Fields :=
  [("name", r.Name.map Value.str), ("description", r.Description.map Value.str)]

/-- Fields of `broadcastURL`. -/
def broadcastURL.fields (r : broadcastURL) : Fields :=
  [("url", r.URL.map Value.str), ("platform", r.Platform.map Value.str),
   ("language", r.Language.map Value.str)]

/-- Fields of `event`. -/
def event.fields (r : event) : Fields :=
  [("registration_required", r.RegistrationRequired.map Value.bool),
   ("registration_status", r.RegistrationStatus.map Value.str),
   ("audience", r.Audience.map Value.str),
   ("slug", r.Slug.map Value.str),
   ("name", r.Name.map Value.str),
   ("logo", r.Logo.map Value.str),
   ("content", r.Content.map Value.str),
   ("deleted", r.Deleted.map Value.bool),
   ("starts_on", r.StartsOn.map Value.time),
   ("ends_on", r.EndsOn.map Value.time),
   ("date_confirmed", r.DateConfirmed.map Value.bool)]

/-- Fields of `eventItem`. -/
def eventItem.fields (r : eventItem) : Fields :=
  [("event_id", r.EventID.map Value.int), ("item_id", r.ItemID.map Value.int),
   ("deleted", r.Deleted.map Value.bool)]

/-- Fields of `eventPartOption`. -/
def eventPartOption.fields (r : eventPartOption) : Fields :=
  [("event_id", r.EventID.map Value.int),
   ("participation_option", r.ParticipationOption.map Value.str),
   ("deleted", r.Deleted.map Value.bool)]

/-- Fields of `item`. -/
def item.fields (r : item) : Fields :=
  [("start_date", r.StartDate.map Value.time),
   ("duration", r.Duration.map Value.int),
   ("name", r.Name.map Value.str),
   ("content", r.Content.map Value.str),
   ("original_language", r.OriginalLanguage.map Value.str),
   ("translated", r.Translated.map Value.bool)]

/-- Fields of `itemBroadcastURL`. -/
def itemBroadcastURL.fields (r : itemBroadcastURL) : Fields :=
  [("item_id", r.ItemID.map Value.int),
   ("broadcast_url_id", r.BoradcastURLID.map Value.int)]

/-- Fields of `part`. -/
def part.fields (r : part) : Fields :=
  [("keycloak_id", r.KeycloakID.map Value.str),
   ("first_language", r.FirstLanguage.map Value.str),
   ("email_language", r.EmailLanguage.map Value.str),
   ("dob", r.DOB.map Value.time),
   ("gender", r.Gender.map Value.str),
   ("email", r.Email.map Value.str),
   ("country", r.Country.map Value.str),
   ("first_name", r.FirstName.map Value.str),
   ("last_name", r.LastName.map Value.str)]

/-- Fields of `participationStatus`. -/
def participationStatus.fields (r : participationStatus) : Fields :=
  [("participation_option", r.ParticipationOption.map Value.str),
   ("participant_id", r.ParticipantID.map Value.int),
   ("event_id", r.EventID.map Value.int),
   ("confirmed", r.Confirmed.map Value.bool),
   ("registration_date", r.RegistrationDate.map Value.time),
   ("deleted", r.Deleted.map Value.bool)]

/-- Fields of `platform`. -/
def platform.fields (r : platform) : Fields := [("name", r.Name.map Value.str)]

/-- Fields of `partOption`. -/
def partOption.fields (r : partOption) : Fields := [("name", r.Name.map Value.str)]

/-! ## Builder blocks

Every builder is a straight-line sequence of blocks
`if req.F != nil { strs = append(strs, ...); args = append(args, *req.F) }`.
The two local slices are threaded as a pair. -/

/-- Locals `updateStrings` and `args` of an update builder. -/
abbrev UpdateAcc := List String × List Value

/-- Locals `createStrings`, `numString` and `args` of a create builder. -/
abbrev CreateAcc := List String × List String × List Value

/-- Block `if req.F != nil { updateStrings = append(updateStrings,
fmt.Sprintf("<col>=$%d", len(updateStrings)+1)); args = append(args, *req.F) }`. -/
def setIfPresent (col : String) (v : Option Value) (st : UpdateAcc) : UpdateAcc :=
  match v with
  | none => st
  | some x => (st.1 ++ [col ++ "=$" ++ toString (st.1.length + 1)], st.2 ++ [x])

/-- Block `if len(args) != 0 { updateStrings = append(updateStrings,
fmt.Sprintf("updated_at=$%d", len(updateStrings)+1)); args = append(args, time.Now()) }`. -/
def touchUpdatedAt (now : Time) (st : UpdateAcc) : UpdateAcc :=
  if st.2.length != 0 then
    (st.1 ++ ["updated_at=$" ++ toString (st.1.length + 1)], st.2 ++ [Value.time now])
  else st

/-- Tail `updateArgument := strings.Join(updateStrings, ","); return updateArgument, args`. -/
def joinUpdate (st : UpdateAcc) : String × List Value :=
  (",".intercalate st.1, st.2)

/-- Block `if req.F != nil { createStrings = append(createStrings, "<col>");
numString = append(numString, fmt.Sprintf("$%d", len(numString)+1));
args = append(args, *req.F) }`. -/
def addIfPresent (col : String) (v : Option Value) (st : CreateAcc) : CreateAcc :=
  match v with
  | none => st
  | some x => (st.1 ++ [col], st.2.1 ++ ["$" ++ toString (st.2.1.length + 1)], st.2.2 ++ [x])

/-- Tail of a create builder: both string slices joined with `","`. -/
def joinCreate (st : CreateAcc) : String × String × List Value :=
  (",".intercalate st.1, ",".intercalate st.2.1, st.2.2)

/-! ## Update builders -/

/-- Function `prepareAudienceUpdateQuery` of `audience/audience.go`. -/
def prepareAudienceUpdateQuery (req : audience) : String × List Value :=
  let st : UpdateAcc := ([], [])
  let st := setIfPresent "name" (req.Name.map Value.str) st
  let st := setIfPresent "description" (req.Description.map Value.str) st
  joinUpdate st

/-- Function `prepareURLUpdateQuery` of `broadcasturl/broadhcast_url.go`. -/
def prepareURLUpdateQuery (req : broadcastURL) (now : Time) : String × List Value :=
  let st : UpdateAcc := ([], [])
  let st := setIfPresent "url" (req.URL.map Value.str) st
  let st := setIfPresent "platform" (req.Platform.map Value.str) st
  let st := setIfPresent "language" (req.Language.map Value.str) st
  let st := touchUpdatedAt now st
  joinUpdate st

/-- Function `prepareEventUpdateQuery` of `event/event.go`. -/
def prepareEventUpdateQuery (req : event) (now : Time) : String × List Value :=
  let st : UpdateAcc := ([], [])
  let st := setIfPresent "registration_required" (req.RegistrationRequired.map Value.bool) st
  let st := setIfPresent "registration_status" (req.RegistrationStatus.map Value.str) st
  let st := setIfPresent "audience" (req.Audience.map Value.str) st
  let st := setIfPresent "slug" (req.Slug.map Value.str) st
  let st := setIfPresent "name" (req.Name.map Value.str) st
  let st := setIfPresent "logo" (req.Logo.map Value.str) st
  let st := setIfPresent "content" (req.Content.map Value.str) st
  let st := setIfPresent "deleted" (req.Deleted.map Value.bool) st
  let st := setIfPresent "starts_on" (req.StartsOn.map Value.time) st
  let st := setIfPresent "ends_on" (req.EndsOn.map Value.time) st
  let st := setIfPresent "date_confirmed" (req.DateConfirmed.map Value.bool) st
  let st := touchUpdatedAt now st
  joinUpdate st

/-- Function `prepareEventItemUpdateQuery` of `event/event_item.go`. -/
def prepareEventItemUpdateQuery (req : eventItem) (now : Time) : String × List Value :=
  let st : UpdateAcc := ([], [])
  let st := setIfPresent "event_id" (req.EventID.map Value.int) st
  let st := setIfPresent "item_id" (req.ItemID.map Value.int) st
  let st := touchUpdatedAt now st
  joinUpdate st

/-- Function `prepareEventPartOptionUpdateQuery` of `event/event_participation_option.go`. -/
def prepareEventPartOptionUpdateQuery (req : eventPartOption) (now : Time) : String × List Value :=
  let st : UpdateAcc := ([], [])
  let st := setIfPresent "event_id" (req.EventID.map Value.int) st
  let st := setIfPresent "participation_option" (req.ParticipationOption.map Value.str) st
  let st := setIfPresent "deleted" (req.Deleted.map Value.bool) st
  let st := touchUpdatedAt now st
  joinUpdate st

/-- Function `prepareItemUpdateQuery` of `item/item.go`. -/
def prepareItemUpdateQuery (req : item) (now : Time) : String × List Value :=
  let st : UpdateAcc := ([], [])
  let st := setIfPresent "start_date" (req.StartDate.map Value.time) st
  let st := setIfPresent "duration" (req.Duration.map Value.int) st
  let st := setIfPresent "name" (req.Name.map Value.str) st
  let st := setIfPresent "original_language" (req.OriginalLanguage.map Value.str) st
  let st := setIfPresent "translated" (req.Translated.map Value.bool) st
  let st := touchUpdatedAt now st
  joinUpdate st

/-- Function `prepareItemBroadcastURLUpdateQuery` of `item/item_broadcast_url.go`. -/
def prepareItemBroadcastURLUpdateQuery (req : itemBroadcastURL) (now : Time) : String × List Value :=
  let st : UpdateAcc := ([], [])
  let st := setIfPresent "broadcast_url_id" (req.BoradcastURLID.map Value.int) st
  let st := setIfPresent "item_id" (req.ItemID.map Value.int) st
  let st := touchUpdatedAt now st
  joinUpdate st

/-- Function `prepareParticipantUpdateQuery` of `participant/participant.go`. -/
def prepareParticipantUpdateQuery (req : part) (now : Time) : String × List Value :=
  let st : UpdateAcc := ([], [])
  let st := setIfPresent "keycloak_id" (req.KeycloakID.map Value.str) st
  let st := setIfPresent "first_language" (req.FirstLanguage.map Value.str) st
  let st := setIfPresent "email_language" (req.EmailLanguage.map Value.str) st
  let st := setIfPresent "dob" (req.DOB.map Value.time) st
  let st := setIfPresent "gender" (req.Gender.map Value.str) st
  let st := setIfPresent "email" (req.Email.map Value.str) st
  let st := setIfPresent "country" (req.Country.map Value.str) st
  let st := setIfPresent "first_name" (req.FirstName.map Value.str) st
  let st := setIfPresent "last_name" (req.LastName.map Value.str) st
  let st := touchUpdatedAt now st
  joinUpdate st

/-- Function `prepareParticipationStatusUpdateQuery` of `partstatus/participation_status.go`. -/
def prepareParticipationStatusUpdateQuery (req : participationStatus) (now : Time) : String × List Value :=
  let st : UpdateAcc := ([], [])
  let st := setIfPresent "participation_option" (req.ParticipationOption.map Value.str) st
  let st := setIfPresent "participant_id" (req.ParticipantID.map Value.int) st
  let st := setIfPresent "event_id" (req.EventID.map Value.int) st
  let st := setIfPresent "confirmed" (req.Confirmed.map Value.bool) st
  let st := setIfPresent "registration_date" (req.RegistrationDate.map Value.time) st
  let st := setIfPresent "deleted" (req.Deleted.map Value.bool) st
  let st := touchUpdatedAt now st
  joinUpdate st

/-! ## Create builders -/

/-- Function `prepareAudienceCreateQuery` of `audience/audience.go`. -/
def prepareAudienceCreateQuery (req : audience) : String × String × List Value :=
  let st : CreateAcc := ([], [], [])
  let st := addIfPresent "name" (req.Name.map Value.str) st
  let st := addIfPresent "description" (req.Description.map Value.str) st
  joinCreate st

/-- Function `prepareEventCreateQuery` of `event/event.go`. -/
def prepareEventCreateQuery (req : event) : String × String × List Value :=
  let st : CreateAcc := ([], [], [])
  let st := addIfPresent "registration_required" (req.RegistrationRequired.map Value.bool) st
  let st := addIfPresent "registration_status" (req.RegistrationStatus.map Value.str) st
  let st := addIfPresent "audience" (req.Audience.map Value.str) st
  let st := addIfPresent "slug" (req.Slug.map Value.str) st
  let st := addIfPresent "name" (req.Name.map Value.str) st
  let st := addIfPresent "logo" (req.Logo.map Value.str) st
  let st := addIfPresent "content" (req.Content.map Value.str) st
  let st := addIfPresent "deleted" (req.Deleted.map Value.bool) st
  let st := addIfPresent "starts_on" (req.StartsOn.map Value.time) st
  let st := addIfPresent "ends_on" (req.EndsOn.map Value.time) st
  let st := addIfPresent "date_confirmed" (req.DateConfirmed.map Value.bool) st
  joinCreate st

/-- Function `prepareEventItemCreateQuery` of `event/event_item.go`. -/
def prepareEventItemCreateQuery (req : eventItem) : String × String × List Value :=
  let st : CreateAcc := ([], [], [])
  let st := addIfPresent "event_id" (req.EventID.map Value.int) st
  let st := addIfPresent "item_id" (req.ItemID.map Value.int) st
  let st := addIfPresent "deleted" (req.Deleted.map Value.bool) st
  joinCreate st

/-- Function `prepareEventPartOptionCreateQuery` of `event/event_participation_option.go`. -/
def prepareEventPartOptionCreateQuery (req : eventPartOption) : String × String × List Value :=
  let st : CreateAcc := ([], [], [])
  let st := addIfPresent "event_id" (req.EventID.map Value.int) st
  let st := addIfPresent "participation_option" (req.ParticipationOption.map Value.str) st
  let st := addIfPresent "deleted" (req.Deleted.map Value.bool) st
  joinCreate st

/-- Function `prepareItemCreateQuery` of `item/item.go`. -/
def prepareItemCreateQuery (req : item) : String × String × List Value :=
  let st : CreateAcc := ([], [], [])
  let st := addIfPresent "start_date" (req.StartDate.map Value.time) st
  let st := addIfPresent "duration" (req.Duration.map Value.int) st
  let st := addIfPresent "name" (req.Name.map Value.str) st
  let st := addIfPresent "content" (req.Content.map Value.str) st
  let st := addIfPresent "original_language" (req.OriginalLanguage.map Value.str) st
  let st := addIfPresent "translated" (req.Translated.map Value.bool) st
  joinCreate st

/-- Function `prepareParticipantCreateQuery` of `participant/participant.go`. -/
def prepareParticipantCreateQuery (req : part) : String × String × List Value :=
  let st : CreateAcc := ([], [], [])
  let st := addIfPresent "keycloak_id" (req.KeycloakID.map Value.str) st
  let st := addIfPresent "first_language" (req.FirstLanguage.map Value.str) st
  let st := addIfPresent "email_language" (req.EmailLanguage.map Value.str) st
  let st := addIfPresent "dob" (req.DOB.map Value.time) st
  let st := addIfPresent "gender" (req.Gender.map Value.str) st
  let st := addIfPresent "email" (req.Email.map Value.str) st
  let st := addIfPresent "country" (req.Country.map Value.str) st
  let st := addIfPresent "first_name" (req.FirstName.map Value.str) st
  let st := addIfPresent "last_name" (req.LastName.map Value.str) st
  joinCreate st

/-- Function `prepareParticipationStatusCreateQuery` of `partstatus/participation_status.go`. -/
def prepareParticipationStatusCreateQuery (req : participationStatus) : String × String × List Value :=
  let st : CreateAcc := ([], [], [])
  let st := addIfPresent "participation_option" (req.ParticipationOption.map Value.str) st
  let st := addIfPresent "participant_id" (req.ParticipantID.map Value.int) st
  let st := addIfPresent "event_id" (req.EventID.map Value.int) st
  let st := addIfPresent "confirmed" (req.Confirmed.map Value.bool) st
  let st := addIfPresent "registration_date" (req.RegistrationDate.map Value.time) st
  let st := addIfPresent "deleted" (req.Deleted.map Value.bool) st
  joinCreate st

/-! ## The store

`r.db.Exec(ctx, sql, args...)` sends one statement to the connection pool and
returns either an error or a command tag, of which only `RowsAffected()` is
read.  The store sits behind the pool as a transition function on a state of
an arbitrary type; every statement handed to the pool is also recorded. -/

/-- A statement as handed to `Exec`: SQL text and positional arguments. -/
structure Statement where
  sql : String
  args : List Value
  deriving DecidableEq, Repr

/-- What `Exec` returns: `rows n` for a nil error with `RowsAffected() = n`,
`error msg` for a non-nil error whose `Error()` is `msg`. -/
inductive ExecResult where
  | rows (n : Nat)
  | error (msg : String)
  deriving DecidableEq, Repr

/-- The connection pool `*pgxpool.Pool`: how the store answers a statement. -/
structure Pool (σ : Type) where
  exec : Statement → σ → ExecResult × σ

/-- Store state together with the statements issued so far. -/
structure Conn (σ : Type) where
  store : σ
  issued : List Statement

/-- Call `r.db.Exec`: the store answers and the statement is recorded. -/
def Pool.Exec {σ : Type} (db : Pool σ) (c : Conn σ) (stmt : Statement) : ExecResult × Conn σ :=
  let r := db.exec stmt c.store
  (r.1, { store := r.2, issued := c.issued ++ [stmt] })

/-! ## Update operations

Each returns the Go `error` as `Option String` (`none` for nil, otherwise the
text of `err.Error()`) and the connection afterwards. -/

/-- Function `UpdateAudienceByName` of `audience/audience.go`. -/
def UpdateAudienceByName {σ : Type} (r : Pool σ) (c : Conn σ) (req : audience) (name : String) :
    Option String × Conn σ :=
  let (toUpdate, toUpdateArgs) := prepareAudienceUpdateQuery req
  if toUpdateArgs.length != 0 then
    match r.Exec c ⟨"UPDATE audience SET " ++ toUpdate ++ " WHERE name=" ++ name, toUpdateArgs⟩ with
    | (ExecResult.error err, c1) => (some ("problem updating audience: " ++ err), c1)
    | (ExecResult.rows n, c1) => if n == 0 then (some "not found", c1) else (none, c1)
  else (some "invalid values", c)

/-- Function `updateURLByID` of `broadcasturl/broadhcast_url.go`. -/
def updateURLByID {σ : Type} (r : Pool σ) (c : Conn σ) (req : broadcastURL) (id : String) (now : Time) :
    Option String × Conn σ :=
  let (toUpdate, toUpdateArgs) := prepareURLUpdateQuery req now
  if toUpdateArgs.length != 0 then
    match r.Exec c ⟨"UPDATE broadcast_url SET " ++ toUpdate ++ " WHERE id=" ++ id, toUpdateArgs⟩ with
    | (ExecResult.error err, c1) => (some ("problem updating broadcast url: " ++ err), c1)
    | (ExecResult.rows n, c1) => if n == 0 then (some "not found", c1) else (none, c1)
  else (some "invalid values", c)

/-- Function `updateEventByID` of `event/event.go`. -/
def updateEventByID {σ : Type} (r : Pool σ) (c : Conn σ) (req : event) (id : String) (now : Time) :
    Option String × Conn σ :=
  let (toUpdate, toUpdateArgs) := prepareEventUpdateQuery req now
  if toUpdateArgs.length != 0 then
    match r.Exec c ⟨"UPDATE event SET " ++ toUpdate ++ " WHERE id=" ++ id, toUpdateArgs⟩ with
    | (ExecResult.error err, c1) => (some ("problem updating event: " ++ err), c1)
    | (ExecResult.rows n, c1) => if n == 0 then (some "not found", c1) else (none, c1)
  else (some "invalid values", c)

/-- Function `updateEventItemByID` of `event/event_item.go`. -/
def updateEventItemByID {σ : Type} (r : Pool σ) (c : Conn σ) (req : eventItem) (id : String) (now : Time) :
    Option String × Conn σ :=
  let (toUpdate, toUpdateArgs) := prepareEventItemUpdateQuery req now
  if toUpdateArgs.length != 0 then
    match r.Exec c ⟨"UPDATE event_item SET " ++ toUpdate ++ " WHERE id=" ++ id, toUpdateArgs⟩ with
    | (ExecResult.error err, c1) => (some ("problem updating Event Item: " ++ err), c1)
    | (ExecResult.rows n, c1) => if n == 0 then (some "not found", c1) else (none, c1)
  else (some "invalid values", c)

/-- Function `updateEventPartOptionByID` of `event/event_participation_option.go`. -/
def updateEventPartOptionByID {σ : Type} (r : Pool σ) (c : Conn σ) (req : eventPartOption) (id : String) (now : Time) :
    Option String × Conn σ :=
  let (toUpdate, toUpdateArgs) := prepareEventPartOptionUpdateQuery req now
  if toUpdateArgs.length != 0 then
    match r.Exec c ⟨"UPDATE event_participation_option SET " ++ toUpdate ++ " WHERE id=" ++ id, toUpdateArgs⟩ with
    | (ExecResult.error err, c1) => (some ("problem updating Event Participation Option: " ++ err), c1)
    | (ExecResult.rows n, c1) => if n == 0 then (some "not found", c1) else (none, c1)
  else (some "invalid values", c)

/-- Function `updateItemByID` of `item/item.go`. -/
def updateItemByID {σ : Type} (r : Pool σ) (c : Conn σ) (req : item) (id : String) (now : Time) :
    Option String × Conn σ :=
  let (toUpdate, toUpdateArgs) := prepareItemUpdateQuery req now
  if toUpdateArgs.length != 0 then
    match r.Exec c ⟨"UPDATE item SET " ++ toUpdate ++ " WHERE id=" ++ id, toUpdateArgs⟩ with
    | (ExecResult.error err, c1) => (some ("problem updating item: " ++ err), c1)
    | (ExecResult.rows n, c1) => if n == 0 then (some "not found", c1) else (none, c1)
  else (some "invalid values", c)

/-- Function `updateItemBroadcastURLByID` of `item/item_broadcast_url.go`. -/
def updateItemBroadcastURLByID {σ : Type} (r : Pool σ) (c : Conn σ) (req : itemBroadcastURL) (id : String) (now : Time) :
    Option String × Conn σ :=
  let (toUpdate, toUpdateArgs) := prepareItemBroadcastURLUpdateQuery req now
  if toUpdateArgs.length != 0 then
    match r.Exec c ⟨"UPDATE item_broadcast_url SET " ++ toUpdate ++ " WHERE id=" ++ id, toUpdateArgs⟩ with
    | (ExecResult.error err, c1) => (some ("problem updating item broadcast url: " ++ err), c1)
    | (ExecResult.rows n, c1) => if n == 0 then (some "not found", c1) else (none, c1)
  else (some "invalid values", c)

/-- Function `UpdatePartByID` of `participant/participant.go`. -/
def UpdatePartByID {σ : Type} (r : Pool σ) (c : Conn σ) (req : part) (id : String) (now : Time) :
    Option String × Conn σ :=
  let (toUpdate, toUpdateArgs) := prepareParticipantUpdateQuery req now
  if toUpdateArgs.length != 0 then
    match r.Exec c ⟨"UPDATE participant SET " ++ toUpdate ++ " WHERE id=" ++ id, toUpdateArgs⟩ with
    | (ExecResult.error err, c1) => (some ("problem updating participant: " ++ err), c1)
    | (ExecResult.rows n, c1) => if n == 0 then (some "not found", c1) else (none, c1)
  else (some "invalid values", c)

/-- Function `updateParticipationStatusByID` of `partstatus/participation_status.go`. -/
def updateParticipationStatusByID {σ : Type} (r : Pool σ) (c : Conn σ) (req : participationStatus) (id : String) (now : Time) :
    Option String × Conn σ :=
  let (toUpdate, toUpdateArgs) := prepareParticipationStatusUpdateQuery req now
  if toUpdateArgs.length != 0 then
    match r.Exec c ⟨"UPDATE participation_status SET " ++ toUpdate ++ " WHERE id=" ++ id, toUpdateArgs⟩ with
    | (ExecResult.error err, c1) => (some ("problem updating Participation Status: " ++ err), c1)
    | (ExecResult.rows n, c1) => if n == 0 then (some "not found", c1) else (none, c1)
  else (some "invalid values", c)

/-- Function `UpdatePlatformByName` of `platform/platform.go`. -/
def UpdatePlatformByName {σ : Type} (r : Pool σ) (c : Conn σ) (req : platform) (name : String) :
    Option String × Conn σ :=
  match req.Name with
  | some reqName =>
    match r.Exec c ⟨"UPDATE platform SET name=$1 WHERE name=$2", [Value.str reqName, Value.str name]⟩ with
    | (ExecResult.error err, c1) => (some ("problem updating platform: " ++ err), c1)
    | (ExecResult.rows n, c1) => if n == 0 then (some "not found", c1) else (none, c1)
  | none => (some "invalid values", c)

/-- Function `UpdatePartOptionByName` of `partoptn/participation_option.go`. -/
def UpdatePartOptionByName {σ : Type} (r : Pool σ) (c : Conn σ) (req : partOption) (name : String) :
    Option String × Conn σ :=
  match req.Name with
  | some reqName =>
    match r.Exec c ⟨"UPDATE participation_option SET name=$1 WHERE name=$2", [Value.str reqName, Value.str name]⟩ with
    | (ExecResult.error err, c1) => (some ("problem updating participation_option: " ++ err), c1)
    | (ExecResult.rows n, c1) => if n == 0 then (some "not found", c1) else (none, c1)
  | none => (some "invalid values", c)

/-! ## Fields read by the update builders

An update builder has one block per field it reads.  Three builders do not
read the fields of their record in declaration order. -/

/-- Fields read by `prepareEventItemUpdateQuery`, in block order: `EventID`, `ItemID`. -/
def eventItem.updateFields (r : eventItem) : Fields :=
  [("event_id", r.EventID.map Value.int), ("item_id", r.ItemID.map Value.int)]

/-- Fields read by `prepareItemUpdateQuery`, in block order: `StartDate`,
`Duration`, `Name`, `OriginalLanguage`, `Translated`. -/
def item.updateFields (r : item) : Fields :=
  [("start_date", r.StartDate.map Value.time),
   ("duration", r.Duration.map Value.int),
   ("name", r.Name.map Value.str),
   ("original_language", r.OriginalLanguage.map Value.str),
   ("translated", r.Translated.map Value.bool)]

/-- Fields read by `prepareItemBroadcastURLUpdateQuery`, in block order:
`BoradcastURLID`, `ItemID`. -/
def itemBroadcastURL.updateFields (r : itemBroadcastURL) : Fields :=
  [("broadcast_url_id", r.BoradcastURLID.map Value.int),
   ("item_id", r.ItemID.map Value.int)]

/-! ## Reading SQL text back -/

/-- Pieces of a comma-joined text, the inverse of `strings.Join(_, ",")`; the
empty text has none. -/
def splitComma (s : String) : List String :=
  if s = "" then [] else (s.data.splitOn ',').map String.mk

/-- Column named by an assignment `<column>=<placeholder>`: the text before
the first `=`. -/
def columnOf (a : String) : String := String.mk (a.data.takeWhile (fun ch => ch != '='))

/-- Columns assigned by a `SET` clause. -/
def assignedColumns (s : String) : List String := (splitComma s).map columnOf

/-- Assignments `<column>=$<k+1>`, `<column>=$<k+2>`, ... for a list of columns. -/
def numbered (k : Nat) (cols : List String) : List String :=
  (cols.enumFrom k).map (fun p => p.2 ++ "=$" ++ toString (p.1 + 1))

/-- Placeholders `$<k+1>`, ..., `$<k+n>`. -/
def placeholders (k n : Nat) : List String :=
  (List.range' k n).map (fun i => "$" ++ toString (i + 1))

/-- Value a column is bound to: the request field tagged with that column, or
the current time for `updated_at`. -/
def boundValue (fs : Fields) (now : Time) (col : String) : Option Value :=
  if col = "updated_at" then some (Value.time now) else (fs.lookup col).join

/-- Which fields are present, whatever their values. -/
def presence (fs : Fields) : List (String × Bool) := fs.map (fun f => (f.1, f.2.isSome))

/-- Number of fields that are set. -/
def countSet (fs : Fields) : Nat := fs.countP (fun f => f.2.isSome)

/-- Some field of the list is set. -/
def SomeSet (fs : Fields) : Prop := ∃ f ∈ fs, f.2.isSome = true

/-- No field of the list is set. -/
def NoneSet (fs : Fields) : Prop := ∀ f ∈ fs, f.2 = none

/-! ## Properties of a builder result -/

/-- No assignment names the column of an absent field. -/
def OmitsAbsent (fs : Fields) (sql : String) : Prop :=
  ∀ col, (col, none) ∈ fs → col ∉ assignedColumns sql

/-- The result `r` of an update builder is `n` assignments joined by `","` with
`n` arguments: for some columns `cols`, the text is the join of
`cols[0]=$1`, `cols[1]=$2`, ..., and argument `i` is the value bound to `cols[i]`. -/
def NumberedAssignments (fs : Fields) (now : Time) (r : String × List Value) : Prop :=
  ∃ cols : List String,
    r.1 = ",".intercalate (numbered 0 cols) ∧
    r.2.length = cols.length ∧
    ∀ i (h : i < cols.length), r.2[i]? = boundValue fs now cols[i]

/-- The result `r` of a create builder for a record with fields `fs`, of which
`n` are set: the column text is the join of `n` column names, the placeholder
text is `$1,...,$n`, there are `n` arguments, and argument `i` is the value of
the field whose column is the `i`-th of the column text. -/
def CreateShape (fs : Fields) (r : String × String × List Value) : Prop :=
  r.1 = ",".intercalate (splitComma r.1) ∧
  (splitComma r.1).length = countSet fs ∧
  r.2.1 = ",".intercalate (placeholders 0 (countSet fs)) ∧
  r.2.2.length = countSet fs ∧
  ∀ i (h : i < (splitComma r.1).length), r.2.2[i]? = (fs.lookup (splitComma r.1)[i]).join

/-! ## Properties of an update operation -/

/-- The store reports zero affected rows for the statement an operation sent:
`before` is the connection the operation started from, `after` the one it left. -/
def ZeroRowsAffected {σ : Type} (r : Pool σ) (before after : Conn σ) : Prop :=
  ∀ stmt, after.issued = before.issued ++ [stmt] →
    (r.exec stmt before.store).1 = ExecResult.rows 0

/-- A pool over a store in which no key matches a row: every statement is
answered with zero affected rows and no error. -/
def noRowPool : Pool Unit := { exec := fun _ s => (ExecResult.rows 0, s) }

/-- A fresh connection to the store of `noRowPool`. -/
def freshConn : Conn Unit := { store := (), issued := [] }

/-! ## Response records

The structs `xResponse` into which rows are scanned. -/

/-- Record `audienceResponse` of `audience/audience.go`. -/
structure audienceResponse where
  Name : Option String := none
  Description : Option String := none
  deriving DecidableEq, Repr

/-- Record `broadcastURLResponse` of `broadcasturl/broadhcast_url.go`. -/
structure broadcastURLResponse where
  ID : Option Int := none
  URL : Option String := none
  Platform : Option String := none
  Language : Option String := none
  CreatedAt : Option Time := none
  UpdatedAt : Option Time := none
  deriving DecidableEq, Repr

/-- Record `eventResponse` of `event/event.go`. -/
structure eventResponse where
  ID : Option Int := none
  RegistrationRequired : Option Bool := none
  RegistrationStatus : Option String := none
  Audience : Option String := none
  Slug : Option String := none
  Name : Option String := none
  Logo : Option String := none
  Content : Option String := none
  Deleted : Option Bool := none
  StartsOn : Option Time := none
  EndsOn : Option Time := none
  DateConfirmed : Option Bool := none
  CreatedAt : Option Time := none
  UpdatedAt : Option Time := none
  deriving DecidableEq, Repr

/-- Record `eventItemResponse` of `event/event_item.go`. -/
structure eventItemResponse where
  ID : Option Int := none
  EventID : Option Int := none
  ItemID : Option Int := none
  Deleted : Option Bool := none
  CreatedAt : Option Time := none
  UpdatedAt : Option Time := none
  deriving DecidableEq, Repr

/-- Record `eventPartOptionResponse` of `event/event_participation_option.go`. -/
structure eventPartOptionResponse where
  ID : Option Int := none
  EventID : Option Int := none
  ParticipationOption : Option String := none
  Deleted : Option Bool := none
  CreatedAt : Option Time := none
  UpdatedAt : Option Time := none
  deriving DecidableEq, Repr

/-- Record `itemResponse` of `item/item.go`. -/
structure itemResponse where
  ID : Option Int := none
  StartDate : Option Time := none
  Duration : Option Int := none
  Name : Option String := none
  Content : Option String := none
  OriginalLanguage : Option String := none
  Translated : Option Bool := none
  CreatedAt : Option Time := none
  UpdatedAt : Option Time := none
  deriving DecidableEq, Repr

/-- Record `itemBroadcastURLResponse` of `item/item_broadcast_url.go`. -/
structure itemBroadcastURLResponse where
  ID : Option Int := none
  ItemID : Option Int := none
  BoradcastURLID : Option Int := none
  CreatedAt : Option Time := none
  UpdatedAt : Option Time := none
  deriving DecidableEq, Repr

/-- Record `partResponse` of `participant/participant.go`. -/
structure partResponse where
  ID : Option Int := none
  KeycloakID : Option String := none
  FirstLanguage : Option String := none
  EmailLanguage : Option String := none
  DOB : Option Time := none
  Gender : Option String := none
  Email : Option String := none
  Country : Option String := none
  FirstName : Option String := none
  LastName : Option String := none
  CreatedAt : Option Time := none
  UpdatedAt : Option Time := none
  deriving DecidableEq, Repr

/-- Record `partOptionResponse` of `partoptn/participation_option.go`. -/
structure partOptionResponse where
  Name : Option String := none
  deriving DecidableEq, Repr

/-- Record `participationStatusResponse` of `partstatus/participation_status.go`. -/
structure participationStatusResponse where
  ID : Option Int := none
  ParticipationOption : Option String := none
  ParticipantID : Option Int := none
  EventID : Option Int := none
  Confirmed : Option Bool := none
  RegistrationDate : Option Time := none
  Deleted : Option Bool := none
  CreatedAt : Option Time := none
  UpdatedAt : Option Time := none
  deriving DecidableEq, Repr

/-- Record `platformResponse` of `platform/platform.go`. -/
structure platformResponse where
  Name : Option String := none
  deriving DecidableEq, Repr

/-! ## Reading rows from the store

`r.db.QueryRow(ctx, sql, key).Scan(&u.F1, ...)` and the loop
`rows, _ := r.db.Query(ctx, sql); for rows.Next() { rows.Scan(...) }` read rows
into response records.  What the store answers is given per record type; a
query does not change the store, and the statement is recorded like any other. -/

/-- What `QueryRow(...).Scan(...)` yields: the scanned record, `pgx.ErrNoRows`,
or another error with the given `Error()` text. -/
inductive RowAnswer (ρ : Type) where
  | row (u : ρ)
  | noRows
  | error (msg : String)
  deriving DecidableEq, Repr

/-- What `Query` and the row loop yield: `queryError msg` when `Query` itself
fails (then `rows.Next()` is false at once and `rows.Err()` is that error);
otherwise the records scanned before the loop stopped, and the error it stopped
with, if any (a failing `Scan`, else `rows.Err()`). -/
inductive RowsAnswer (ρ : Type) where
  | queryError (msg : String)
  | rows (scanned : List ρ) (err : Option String)
  deriving DecidableEq, Repr

/-- How the store answers reads into records of type `ρ`. -/
structure Rows (σ ρ : Type) where
  queryRow : Statement → σ → RowAnswer ρ
  query : Statement → σ → RowsAnswer ρ

/-- The handler structs `XDB struct { db *pgxpool.Pool }`: the pool, together
with the way its rows scan into the response record of the entity. -/
structure DB (σ ρ : Type) where
  db : Pool σ
  rows : Rows σ ρ

/-- Call `r.db.QueryRow(...).Scan(...)`. -/
def DB.QueryRow {σ ρ : Type} (r : DB σ ρ) (c : Conn σ) (stmt : Statement) :
    RowAnswer ρ × Conn σ :=
  (r.rows.queryRow stmt c.store, { store := c.store, issued := c.issued ++ [stmt] })

/-- Call `r.db.Query(...)` and run the row loop. -/
def DB.Query {σ ρ : Type} (r : DB σ ρ) (c : Conn σ) (stmt : Statement) :
    RowsAnswer ρ × Conn σ :=
  (r.rows.query stmt c.store, { store := c.store, issued := c.issued ++ [stmt] })

/-- Struct `AudienceDB` of `audience/audience.go`. -/
abbrev AudienceDB (σ : Type) := DB σ audienceResponse

/-- Struct `BroadcastURLDB` of `broadcasturl/broadhcast_url.go`. -/
abbrev BroadcastURLDB (σ : Type) := DB σ broadcastURLResponse

/-- Struct `EventDB` of `event/event.go`. -/
abbrev EventDB (σ : Type) := DB σ eventResponse

/-- Struct `EventItemDB` of `event/event_item.go`. -/
abbrev EventItemDB (σ : Type) := DB σ eventItemResponse

/-- Struct `EventPartOptionDB` of `event/event_participation_option.go`. -/
abbrev EventPartOptionDB (σ : Type) := DB σ eventPartOptionResponse

/-- Struct `ItemDB` of `item/item.go`. -/
abbrev ItemDB (σ : Type) := DB σ itemResponse

/-- Struct `ItemBroadcastURLDB` of `item/item_broadcast_url.go`. -/
abbrev ItemBroadcastURLDB (σ : Type) := DB σ itemBroadcastURLResponse

/-- Struct `ParticipantDB` of `participant/participant.go`. -/
abbrev ParticipantDB (σ : Type) := DB σ partResponse

/-- Struct `ParticipationOptionDB` of `partoptn/participation_option.go`. -/
abbrev ParticipationOptionDB (σ : Type) := DB σ partOptionResponse

/-- Struct `ParticipationStatusDB` of `partstatus/participation_status.go`. -/
abbrev ParticipationStatusDB (σ : Type) := DB σ participationStatusResponse

/-- Struct `PlatformDB` of `platform/platform.go`. -/
abbrev PlatformDB (σ : Type) := DB σ platformResponse

/-! ## The HTTP layer

A handler reads route parameters and query values from the `gin.Context`, and
answers with `ctx.JSON(status, gin.H{...})`. -/

/-- The parts of `*gin.Context` the handlers read. -/
structure Context where
  Params : List (String × String) := []
  QueryValues : List (String × String) := []
  deriving DecidableEq, Repr

/-- Method `ctx.Param(key)`: the value of the route parameter, `""` when the
route has no parameter of that name. -/
def Context.Param (ctx : Context) (key : String) : String :=
  (ctx.Params.lookup key).getD ""

/-- Method `ctx.Query(key)`: the first value of the query key, `""` when absent. -/
def Context.Query (ctx : Context) (key : String) : String :=
  (ctx.QueryValues.lookup key).getD ""

/-- A value of a `gin.H` literal: a string, a boolean, or the payload. -/
inductive Entry (α : Type) where
  | text (s : String)
  | flag (b : Bool)
  | data (a : α)
  deriving DecidableEq, Repr

/-- What `ctx.JSON(status, gin.H{...})` sends: the status and the entries of the
map, listed in the order of the literal (the map itself has no order). -/
structure Response (α : Type) where
  status : Nat
  body : List (String × Entry α)
  deriving DecidableEq, Repr

/-- Constant `http.StatusOK`. -/
abbrev StatusOK : Nat := 200

/-- Constant `http.StatusCreated`. -/
abbrev StatusCreated : Nat := 201

/-- Constant `http.StatusBadRequest`. -/
abbrev StatusBadRequest : Nat := 400

/-- Constant `http.StatusNotFound`. -/
abbrev StatusNotFound : Nat := 404

/-- Constant `http.StatusInternalServerError`. -/
abbrev StatusInternalServerError : Nat := 500

/-! ## Library functions the handlers call -/

/-- Function `strconv.Atoi` for a 64-bit `int`: an optional sign followed by at
least one decimal digit, within the range of `int64`; `none` for an error. -/
def Atoi (s : String) : Option Int :=
  let digits : List Char :=
    match s.data with
    | '+' :: rest => rest
    | '-' :: rest => rest
    | all => all
  let negative : Bool :=
    match s.data with
    | '-' :: _ => true
    | _ => false
  if digits.isEmpty || !digits.all Char.isDigit then none
  else
    let n : Nat := digits.foldl (fun acc ch => 10 * acc + (ch.toNat - '0'.toNat)) 0
    let v : Int := if negative then -(n : Int) else (n : Int)
    if v < -9223372036854775808 || 9223372036854775807 < v then none else some v

/-- Text `%!(EXTRA int=a, int=b)` that `fmt.Sprintf` appends for the integer
arguments no verb has used, empty when there is none. -/
def sprintfExtra (args : List Int) : String :=
  if args.isEmpty then ""
  else "%!(EXTRA " ++ ", ".intercalate (args.map (fun a => "int=" ++ toString a)) ++ ")"

/-- Function `fmt.Sprintf(format, args...)` for integer arguments, on the verbs
`%d` and `%%`: text is copied, `%d` prints the next argument in decimal or
`%!d(MISSING)` when none is left, `%%` prints `%`, a final lone `%` prints
`%!(NOVERB)`, and unused arguments are reported at the end.  For any other text
after a `%` (flags, width, other verbs) the output of the library from there on
is the parameter `other`, applied to the rest of the format and of the arguments. -/
def Sprintf (other : List Char → List Int → String) : List Char → List Int → String
  | [], args => sprintfExtra args
  | ch :: rest, args =>
    if ch != '%' then String.singleton ch ++ Sprintf other rest args
    else
      match rest with
      | [] => "%!(NOVERB)" ++ sprintfExtra args
      | verb :: rest1 =>
        if verb == '%' then "%" ++ Sprintf other rest1 args
        else if verb == 'd' then
          match args with
          | a :: args1 => toString a ++ Sprintf other rest1 args1
          | [] => "%!d(MISSING)" ++ Sprintf other rest1 []
        else other rest args

/-- The go-playground validator as the create handlers use it
(`validator.New().Struct(s)`).  The library is not part of the repository: its
format checks and the text of its error are parameters.  A check is a pair of
field name and tag; `required` on a pointer field fails exactly when the pointer
is nil. -/
structure Validator where
  uuid : String → Bool
  email : String → Bool
  describe : List (String × String) → String

/-- Result of `validator.New().Struct(s)` given the checks that failed: nil when
none failed, else the error with the text the library gives it. -/
def Validator.Struct (v : Validator) (failed : List (String × String)) : Option String :=
  if failed.isEmpty then none else some (v.describe failed)

/-- Tag `validate:"required"` on the pointer field `name`. -/
def required {α : Type} (name : String) (field : Option α) : List (String × String) :=
  match field with
  | none => [(name, "required")]
  | some _ => []

/-- Tag `validate:"required,<tag>"` on the string pointer field `name`: `required`
first, then the format check `tag` on the value. -/
def requiredAnd (name tag : String) (check : String → Bool) (field : Option String) :
    List (String × String) :=
  match field with
  | none => [(name, "required")]
  | some s => if check s then [] else [(name, tag)]

/-! ## Validation tags of the request records -/

/-- Checks of `audience` that fail on `s`, in field order; tagged fields: `Name` (required). -/
def audience.failedChecks (s : audience) : List (String × String) :=
  required "Name" s.Name

/-- Checks of `broadcastURL` that fail on `s`, in field order; tagged fields: `URL` (required), `Platform` (required), `Language` (required). -/
def broadcastURL.failedChecks (s : broadcastURL) : List (String × String) :=
  required "URL" s.URL ++
    required "Platform" s.Platform ++
    required "Language" s.Language

/-- Checks of `event` that fail on `s`, in field order; tagged fields: `Slug` (required), `Name` (required), `StartsOn` (required), `EndsOn` (required). -/
def event.failedChecks (s : event) : List (String × String) :=
  required "Slug" s.Slug ++
    required "Name" s.Name ++
    required "StartsOn" s.StartsOn ++
    required "EndsOn" s.EndsOn

/-- Checks of `eventItem` that fail on `s`, in field order; tagged fields: `EventID` (required), `ItemID` (required). -/
def eventItem.failedChecks (s : eventItem) : List (String × String) :=
  required "EventID" s.EventID ++
    required "ItemID" s.ItemID

/-- Checks of `eventPartOption` that fail on `s`, in field order; tagged fields: `EventID` (required), `ParticipationOption` (required). -/
def eventPartOption.failedChecks (s : eventPartOption) : List (String × String) :=
  required "EventID" s.EventID ++
    required "ParticipationOption" s.ParticipationOption

/-- Checks of `item` that fail on `s`, in field order; tagged fields: `StartDate` (required), `Duration` (required), `Name` (required), `OriginalLanguage` (required), `Translated` (required). -/
def item.failedChecks (s : item) : List (String × String) :=
  required "StartDate" s.StartDate ++
    required "Duration" s.Duration ++
    required "Name" s.Name ++
    required "OriginalLanguage" s.OriginalLanguage ++
    required "Translated" s.Translated

/-- Checks of `itemBroadcastURL` that fail on `s`, in field order; tagged fields: `ItemID` (required), `BoradcastURLID` (required). -/
def itemBroadcastURL.failedChecks (s : itemBroadcastURL) : List (String × String) :=
  required "ItemID" s.ItemID ++
    required "BoradcastURLID" s.BoradcastURLID

/-- Checks of `part` that fail on `s`, in field order; tagged fields: `KeycloakID` (required,uuid), `Email` (required,email), `FirstName` (required), `LastName` (required). -/
def part.failedChecks (v : Validator) (s : part) : List (String × String) :=
  requiredAnd "KeycloakID" "uuid" v.uuid s.KeycloakID ++
    requiredAnd "Email" "email" v.email s.Email ++
    required "FirstName" s.FirstName ++
    required "LastName" s.LastName

/-- Checks of `partOption` that fail on `s`, in field order; tagged fields: `Name` (required). -/
def partOption.failedChecks (s : partOption) : List (String × String) :=
  required "Name" s.Name

/-- Checks of `participationStatus` that fail on `s`, in field order; tagged fields: `ParticipationOption` (required), `ParticipantID` (required), `EventID` (required), `RegistrationDate` (required). -/
def participationStatus.failedChecks (s : participationStatus) : List (String × String) :=
  required "ParticipationOption" s.ParticipationOption ++
    required "ParticipantID" s.ParticipantID ++
    required "EventID" s.EventID ++
    required "RegistrationDate" s.RegistrationDate

/-- Checks of `platform` that fail on `s`, in field order; tagged fields: `Name` (required). -/
def platform.failedChecks (s : platform) : List (String × String) :=
  required "Name" s.Name

/-! ## Get by key -/

/-- Statement text of `getAudienceByName` (`audience/audience.go`). -/
def getAudienceByNameSQL : String :=
  "select \n\tname, description  \n\tfrom audience where name = $1"

/-- Function `getAudienceByName` of `audience/audience.go`. -/
def getAudienceByName {σ : Type} (r : AudienceDB σ) (c : Conn σ) (name : String) :
    (audienceResponse × Option String) × Conn σ :=
  match DB.QueryRow r c ⟨getAudienceByNameSQL, [Value.str name]⟩ with
  | (RowAnswer.row u, c1) => ((u, none), c1)
  | (RowAnswer.noRows, c1) => (({}, some "not found"), c1)
  | (RowAnswer.error err, c1) => (({}, some err), c1)

/-- Statement text of `getURLByID` (`broadcasturl/broadhcast_url.go`). -/
def getURLByIDSQL : String :=
  "select \n\tid,\n\turl,\n\tplatform,\n\tlanguage,\n\tcreated_at,\n\tupdated_at \n\tfrom broadcast_url where id = $1"

/-- Function `getURLByID` of `broadcasturl/broadhcast_url.go`. -/
def getURLByID {σ : Type} (r : BroadcastURLDB σ) (c : Conn σ) (id : String) :
    (broadcastURLResponse × Option String) × Conn σ :=
  match DB.QueryRow r c ⟨getURLByIDSQL, [Value.str id]⟩ with
  | (RowAnswer.row u, c1) => ((u, none), c1)
  | (RowAnswer.noRows, c1) => (({}, some "not found"), c1)
  | (RowAnswer.error err, c1) => (({}, some err), c1)

/-- Statement text of `getEventByID` (`event/event.go`). -/
def getEventByIDSQL : String :=
  "select \n\tid,\n\tregistration_required,\n\tregistration_status,\n\taudience,\n\tslug,\n\tname,\n\tlogo,\n\tcontent,\n\tdeleted,\n\tstarts_on,\n\tends_on,\n\tdate_confirmed,\n\tcreated_at,\n\tupdated_at \n\tfrom event where id = $1"

/-- Function `getEventByID` of `event/event.go`. -/
def getEventByID {σ : Type} (r : EventDB σ) (c : Conn σ) (id : String) :
    (eventResponse × Option String) × Conn σ :=
  match DB.QueryRow r c ⟨getEventByIDSQL, [Value.str id]⟩ with
  | (RowAnswer.row u, c1) => ((u, none), c1)
  | (RowAnswer.noRows, c1) => (({}, some "not found"), c1)
  | (RowAnswer.error err, c1) => (({}, some err), c1)

/-- Statement text of `getEventItemByID` (`event/event_item.go`). -/
def getEventItemByIDSQL : String :=
  "select \n\tid,\n\tevent_id,\n\titem_id,\n\tdeleted,\n\tcreated_at,\n\tupdated_at \n\tfrom event_item where id = $1"

/-- Function `getEventItemByID` of `event/event_item.go`. -/
def getEventItemByID {σ : Type} (r : EventItemDB σ) (c : Conn σ) (id : String) :
    (eventItemResponse × Option String) × Conn σ :=
  match DB.QueryRow r c ⟨getEventItemByIDSQL, [Value.str id]⟩ with
  | (RowAnswer.row u, c1) => ((u, none), c1)
  | (RowAnswer.noRows, c1) => (({}, some "not found"), c1)
  | (RowAnswer.error err, c1) => (({}, some err), c1)

/-- Statement text of `getEventPartOptionByID` (`event/event_participation_option.go`). -/
def getEventPartOptionByIDSQL : String :=
  "select \n\tid,\n\tevent_id,\n\tparticipation_option,\n\tdeleted,\n\tcreated_at,\n\tupdated_at \n\tfrom event_participation_option where id = $1"

/-- Function `getEventPartOptionByID` of `event/event_participation_option.go`. -/
def getEventPartOptionByID {σ : Type} (r : EventPartOptionDB σ) (c : Conn σ) (id : String) :
    (eventPartOptionResponse × Option String) × Conn σ :=
  match DB.QueryRow r c ⟨getEventPartOptionByIDSQL, [Value.str id]⟩ with
  | (RowAnswer.row u, c1) => ((u, none), c1)
  | (RowAnswer.noRows, c1) => (({}, some "not found"), c1)
  | (RowAnswer.error err, c1) => (({}, some err), c1)

/-- Statement text of `getItemByID` (`item/item.go`). -/
def getItemByIDSQL : String :=
  "select \n\tid,\n\tstart_date,\n\tduration,\n\tname,\n\toriginal_language,\n\ttranslated,\n\tcreated_at,\n\tupdated_at \n\tfrom item where id = $1"

/-- Function `getItemByID` of `item/item.go`. -/
def getItemByID {σ : Type} (r : ItemDB σ) (c : Conn σ) (id : String) :
    (itemResponse × Option String) × Conn σ :=
  match DB.QueryRow r c ⟨getItemByIDSQL, [Value.str id]⟩ with
  | (RowAnswer.row u, c1) => ((u, none), c1)
  | (RowAnswer.noRows, c1) => (({}, some "not found"), c1)
  | (RowAnswer.error err, c1) => (({}, some err), c1)

/-- Statement text of `getItemBroadcastURLByID` (`item/item_broadcast_url.go`). -/
def getItemBroadcastURLByIDSQL : String :=
  "select \n\tid,\n\titem_id,\n\tbroadcast_url_id,\n\tcreated_at,\n\tupdated_at \n\tfrom item_broadcast_url where id = $1"

/-- Function `getItemBroadcastURLByID` of `item/item_broadcast_url.go`. -/
def getItemBroadcastURLByID {σ : Type} (r : ItemBroadcastURLDB σ) (c : Conn σ) (id : String) :
    (itemBroadcastURLResponse × Option String) × Conn σ :=
  match DB.QueryRow r c ⟨getItemBroadcastURLByIDSQL, [Value.str id]⟩ with
  | (RowAnswer.row u, c1) => ((u, none), c1)
  | (RowAnswer.noRows, c1) => (({}, some "not found"), c1)
  | (RowAnswer.error err, c1) => (({}, some err), c1)

/-- Statement text of `getPartById` (`participant/participant.go`). -/
def getPartByIdSQL : String :=
  "select \n\tid,\n\tkeycloak_id,\n\tfirst_language,\n\temail_language,\n\tdob,\n\tgender,\n\temail,\n\tcountry,\n\tfirst_name,\n\tlast_name,\n\tcreated_at,\n\tupdated_at \n\tfrom participant where id = $1"

/-- Function `getPartById` of `participant/participant.go`. -/
def getPartById {σ : Type} (r : ParticipantDB σ) (c : Conn σ) (id : String) :
    (partResponse × Option String) × Conn σ :=
  match DB.QueryRow r c ⟨getPartByIdSQL, [Value.str id]⟩ with
  | (RowAnswer.row u, c1) => ((u, none), c1)
  | (RowAnswer.noRows, c1) => (({}, some "not found"), c1)
  | (RowAnswer.error err, c1) => (({}, some err), c1)

/-- Statement text of `getPartByEmail` (`participant/participant.go`). -/
def getPartByEmailSQL : String :=
  "select \n\tid,\n\tkeycloak_id,\n\tfirst_language,\n\temail_language,\n\tdob,\n\tgender,\n\temail,\n\tcountry,\n\tfirst_name,\n\tlast_name,\n\tcreated_at,\n\tupdated_at \n\tfrom participant where email = $1"

/-- Function `getPartByEmail` of `participant/participant.go`. -/
def getPartByEmail {σ : Type} (r : ParticipantDB σ) (c : Conn σ) (email : String) :
    (partResponse × Option String) × Conn σ :=
  match DB.QueryRow r c ⟨getPartByEmailSQL, [Value.str email]⟩ with
  | (RowAnswer.row u, c1) => ((u, none), c1)
  | (RowAnswer.noRows, c1) => (({}, some "not found"), c1)
  | (RowAnswer.error err, c1) => (({}, some err), c1)

/-- Statement text of `getPartByKeycloakID` (`participant/participant.go`). -/
def getPartByKeycloakIDSQL : String :=
  "select \n\tid,\n\tkeycloak_id,\n\tfirst_language,\n\temail_language,\n\tdob,\n\tgender,\n\temail,\n\tcountry,\n\tfirst_name,\n\tlast_name,\n\tcreated_at,\n\tupdated_at \n\tfrom participant where keycloak_id = $1"

/-- Function `getPartByKeycloakID` of `participant/participant.go`. -/
def getPartByKeycloakID {σ : Type} (r : ParticipantDB σ) (c : Conn σ) (id : String) :
    (partResponse × Option String) × Conn σ :=
  match DB.QueryRow r c ⟨getPartByKeycloakIDSQL, [Value.str id]⟩ with
  | (RowAnswer.row u, c1) => ((u, none), c1)
  | (RowAnswer.noRows, c1) => (({}, some "not found"), c1)
  | (RowAnswer.error err, c1) => (({}, some err), c1)

/-- Statement text of `getPartOptionByName` (`partoptn/participation_option.go`). -/
def getPartOptionByNameSQL : String :=
  "select \n\tname \n\tfrom participation_option where name = $1"

/-- Function `getPartOptionByName` of `partoptn/participation_option.go`. -/
def getPartOptionByName {σ : Type} (r : ParticipationOptionDB σ) (c : Conn σ) (name : String) :
    (partOptionResponse × Option String) × Conn σ :=
  match DB.QueryRow r c ⟨getPartOptionByNameSQL, [Value.str name]⟩ with
  | (RowAnswer.row u, c1) => ((u, none), c1)
  | (RowAnswer.noRows, c1) => (({}, some "not found"), c1)
  | (RowAnswer.error err, c1) => (({}, some err), c1)

/-- Statement text of `getParticipationStatusByID` (`partstatus/participation_status.go`). -/
def getParticipationStatusByIDSQL : String :=
  "select \n\tid,\n\tparticipation_option,\n\tparticipant_id,\n\tevent_id,\n\tconfirmed,\n\tregistration_date,\n\tdeleted,\n\tcreated_at,\n\tupdated_at \n\tfrom participation_status where id = $1"

/-- Function `getParticipationStatusByID` of `partstatus/participation_status.go`. -/
def getParticipationStatusByID {σ : Type} (r : ParticipationStatusDB σ) (c : Conn σ) (id : String) :
    (participationStatusResponse × Option String) × Conn σ :=
  match DB.QueryRow r c ⟨getParticipationStatusByIDSQL, [Value.str id]⟩ with
  | (RowAnswer.row u, c1) => ((u, none), c1)
  | (RowAnswer.noRows, c1) => (({}, some "not found"), c1)
  | (RowAnswer.error err, c1) => (({}, some err), c1)

/-- Statement text of `getPlatformByName` (`platform/platform.go`). -/
def getPlatformByNameSQL : String :=
  "select \n\tname \n\tfrom platform where name = $1"

/-- Function `getPlatformByName` of `platform/platform.go`. -/
def getPlatformByName {σ : Type} (r : PlatformDB σ) (c : Conn σ) (name : String) :
    (platformResponse × Option String) × Conn σ :=
  match DB.QueryRow r c ⟨getPlatformByNameSQL, [Value.str name]⟩ with
  | (RowAnswer.row u, c1) => ((u, none), c1)
  | (RowAnswer.noRows, c1) => (({}, some "not found"), c1)
  | (RowAnswer.error err, c1) => (({}, some err), c1)

/-! ## Lists -/

/-- Function `buildAndGetWhereEventQuery` of `event/event.go`. -/
def buildAndGetWhereEventQuery (slug : String) : String :=
  let whereString := " WHERE"
  let whereCondition := ""
  let whereCondition := if slug != "" then whereCondition ++ (" slug='" ++ slug ++ "'") else whereCondition
  if whereCondition != "" then whereString ++ whereCondition else ""

/-- Function `buildAndGetWhereQuery` of `partstatus/participation_status.go`. -/
def buildAndGetWhereQuery (eventID : String) : String × String :=
  let whereString := " WHERE"
  let orderBy := ""
  let whereCondition := ""
  let whereCondition := if eventID != "" then whereCondition ++ (" event_id=" ++ eventID) else whereCondition
  let orderBy := orderBy ++ (" ORDER BY created_at " ++ "asc")
  if whereCondition != "" then (whereString ++ whereCondition, orderBy) else ("", orderBy)

/-- Fixed part of the format of `GetAllAudience` (`audience/audience.go`), up to the table name. -/
def GetAllAudienceSQL : String :=
  "select \n\tname, description \n\tfrom audience"

/-- Function `GetAllAudience` of `audience/audience.go`: the format is the fixed part followed by
`" LIMIT %d OFFSET %d"`, with the arguments `limit, skip`. -/
def GetAllAudience {σ : Type} (r : AudienceDB σ) (c : Conn σ) (skip : Int) (limit : Int) :
    (List audienceResponse × Option String) × Conn σ :=
  match DB.Query r c
      ⟨GetAllAudienceSQL ++ " LIMIT " ++ toString limit ++ " OFFSET " ++ toString skip, []⟩ with
  | (RowsAnswer.queryError err, c1) => (([], some err), c1)
  | (RowsAnswer.rows u err, c1) => ((u, err), c1)

/-- Fixed part of the format of `getAllURL` (`broadcasturl/broadhcast_url.go`), up to the table name. -/
def getAllURLSQL : String :=
  "select \n\tid,\n\turl,\n\tplatform,\n\tlanguage,\n\tcreated_at,\n\tupdated_at \n\tfrom broadcast_url"

/-- Function `getAllURL` of `broadcasturl/broadhcast_url.go`: the format is the fixed part followed by
`" LIMIT %d OFFSET %d"`, with the arguments `limit, skip`. -/
def getAllURL {σ : Type} (r : BroadcastURLDB σ) (c : Conn σ) (skip : Int) (limit : Int) :
    (List broadcastURLResponse × Option String) × Conn σ :=
  match DB.Query r c
      ⟨getAllURLSQL ++ " LIMIT " ++ toString limit ++ " OFFSET " ++ toString skip, []⟩ with
  | (RowsAnswer.queryError err, c1) => (([], some err), c1)
  | (RowsAnswer.rows u err, c1) => ((u, err), c1)

/-- Fixed part of the format of `getAllEvent` (`event/event.go`), up to the table name. -/
def getAllEventSQL : String :=
  "select \n\tid,\n\tregistration_required,\n\tregistration_status,\n\taudience,\n\tslug,\n\tname,\n\tlogo,\n\tcontent,\n\tdeleted,\n\tstarts_on,\n\tends_on,\n\tdate_confirmed,\n\tcreated_at,\n\tupdated_at \n\tfrom event"

/-- Function `getAllEvent` of `event/event.go`.  The clause `whereQuery` is part of the
format handed to `fmt.Sprintf`. -/
def getAllEvent {σ : Type} (other : List Char → List Int → String) (r : EventDB σ) (c : Conn σ)
    (skip : Int) (limit : Int) (slug : String) : (List eventResponse × Option String) × Conn σ :=
  let whereQuery := buildAndGetWhereEventQuery slug
  match DB.Query r c
      ⟨Sprintf other (getAllEventSQL ++ whereQuery ++ " LIMIT %d OFFSET %d").data [limit, skip], []⟩ with
  | (RowsAnswer.queryError err, c1) => (([], some err), c1)
  | (RowsAnswer.rows u err, c1) => ((u, err), c1)

/-- Fixed part of the format of `getAllEventItem` (`event/event_item.go`), up to the table name. -/
def getAllEventItemSQL : String :=
  "select \n\tid,\n\tevent_id,\n\titem_id,\n\tdeleted,\n\tcreated_at,\n\tupdated_at \n\tfrom event_item"

/-- Function `getAllEventItem` of `event/event_item.go`: the format is the fixed part followed by
`" LIMIT %d OFFSET %d"`, with the arguments `limit, skip`. -/
def getAllEventItem {σ : Type} (r : EventItemDB σ) (c : Conn σ) (skip : Int) (limit : Int) :
    (List eventItemResponse × Option String) × Conn σ :=
  match DB.Query r c
      ⟨getAllEventItemSQL ++ " LIMIT " ++ toString limit ++ " OFFSET " ++ toString skip, []⟩ with
  | (RowsAnswer.queryError err, c1) => (([], some err), c1)
  | (RowsAnswer.rows u err, c1) => ((u, err), c1)

/-- Fixed part of the format of `getAllEventPartOption` (`event/event_participation_option.go`), up to the table name. -/
def getAllEventPartOptionSQL : String :=
  "select \n\tid,\n\tevent_id,\n\tparticipation_option,\n\tdeleted,\n\tcreated_at,\n\tupdated_at \n\tfrom event_participation_option"

/-- Function `getAllEventPartOption` of `event/event_participation_option.go`: the format is the fixed part followed by
`" LIMIT %d OFFSET %d"`, with the arguments `limit, skip`. -/
def getAllEventPartOption {σ : Type} (r : EventPartOptionDB σ) (c : Conn σ) (skip : Int) (limit : Int) :
    (List eventPartOptionResponse × Option String) × Conn σ :=
  match DB.Query r c
      ⟨getAllEventPartOptionSQL ++ " LIMIT " ++ toString limit ++ " OFFSET " ++ toString skip, []⟩ with
  | (RowsAnswer.queryError err, c1) => (([], some err), c1)
  | (RowsAnswer.rows u err, c1) => ((u, err), c1)

/-- Fixed part of the format of `getAllItem` (`item/item.go`), up to the table name. -/
def getAllItemSQL : String :=
  "select \n\tid,\n\tstart_date,\n\tduration,\n\tname,\n\toriginal_language,\n\ttranslated,\n\tcreated_at,\n\tupdated_at \n\tfrom item"

/-- Function `getAllItem` of `item/item.go`: the format is the fixed part followed by
`" LIMIT %d OFFSET %d"`, with the arguments `limit, skip`. -/
def getAllItem {σ : Type} (r : ItemDB σ) (c : Conn σ) (skip : Int) (limit : Int) :
    (List itemResponse × Option String) × Conn σ :=
  match DB.Query r c
      ⟨getAllItemSQL ++ " LIMIT " ++ toString limit ++ " OFFSET " ++ toString skip, []⟩ with
  | (RowsAnswer.queryError err, c1) => (([], some err), c1)
  | (RowsAnswer.rows u err, c1) => ((u, err), c1)

/-- Fixed part of the format of `getAllItemBroadcastURL` (`item/item_broadcast_url.go`), up to the table name. -/
def getAllItemBroadcastURLSQL : String :=
  "select \n\tid,\n\titem_id,\n\tbroadcast_url_id,\n\tcreated_at,\n\tupdated_at \n\tfrom item_broadcast_url"

/-- Function `getAllItemBroadcastURL` of `item/item_broadcast_url.go`: the format is the fixed part followed by
`" LIMIT %d OFFSET %d"`, with the arguments `limit, skip`. -/
def getAllItemBroadcastURL {σ : Type} (r : ItemBroadcastURLDB σ) (c : Conn σ) (skip : Int) (limit : Int) :
    (List itemBroadcastURLResponse × Option String) × Conn σ :=
  match DB.Query r c
      ⟨getAllItemBroadcastURLSQL ++ " LIMIT " ++ toString limit ++ " OFFSET " ++ toString skip, []⟩ with
  | (RowsAnswer.queryError err, c1) => (([], some err), c1)
  | (RowsAnswer.rows u err, c1) => ((u, err), c1)

/-- Fixed part of the format of `GetAllPart` (`participant/participant.go`), up to the table name. -/
def GetAllPartSQL : String :=
  "select \n\tid,\n\tkeycloak_id,\n\tfirst_language,\n\temail_language,\n\tdob,\n\tgender,\n\temail,\n\tcountry,\n\tfirst_name,\n\tlast_name,\n\tcreated_at,\n\tupdated_at \n\tfrom participant"

/-- Function `GetAllPart` of `participant/participant.go`: the format is the fixed part followed by
`" LIMIT %d OFFSET %d"`, with the arguments `limit, skip`. -/
def GetAllPart {σ : Type} (r : ParticipantDB σ) (c : Conn σ) (skip : Int) (limit : Int) :
    (List partResponse × Option String) × Conn σ :=
  match DB.Query r c
      ⟨GetAllPartSQL ++ " LIMIT " ++ toString limit ++ " OFFSET " ++ toString skip, []⟩ with
  | (RowsAnswer.queryError err, c1) => (([], some err), c1)
  | (RowsAnswer.rows u err, c1) => ((u, err), c1)

/-- Fixed part of the format of `GetAllPartOption` (`partoptn/participation_option.go`), up to the table name. -/
def GetAllPartOptionSQL : String :=
  "select \n\tname \n\tfrom participation_option"

/-- Function `GetAllPartOption` of `partoptn/participation_option.go`: the format is the fixed part followed by
`" LIMIT %d OFFSET %d"`, with the arguments `limit, skip`. -/
def GetAllPartOption {σ : Type} (r : ParticipationOptionDB σ) (c : Conn σ) (skip : Int) (limit : Int) :
    (List partOptionResponse × Option String) × Conn σ :=
  match DB.Query r c
      ⟨GetAllPartOptionSQL ++ " LIMIT " ++ toString limit ++ " OFFSET " ++ toString skip, []⟩ with
  | (RowsAnswer.queryError err, c1) => (([], some err), c1)
  | (RowsAnswer.rows u err, c1) => ((u, err), c1)

/-- Fixed part of the statement of `getAllParticipationStatus` (`partstatus/participation_status.go`), up to the table name. -/
def getAllParticipationStatusSQL : String :=
  "select \n\tid,\n\tparticipation_option,\n\tparticipant_id,\n\tevent_id,\n\tconfirmed,\n\tregistration_date,\n\tdeleted,\n\tcreated_at,\n\tupdated_at \n\tfrom participation_status"

/-- Function `getAllParticipationStatus` of `partstatus/participation_status.go`. -/
def getAllParticipationStatus {σ : Type} (r : ParticipationStatusDB σ) (c : Conn σ) (skip : Int) (limit : Int)
    (eventID : String) : (List participationStatusResponse × Option String) × Conn σ :=
  let (userDbWhereQuery, orderByQuery) := buildAndGetWhereQuery eventID
  match DB.Query r c
      ⟨getAllParticipationStatusSQL ++ userDbWhereQuery ++ orderByQuery ++ " LIMIT $1 OFFSET $2",
        [Value.int limit, Value.int skip]⟩ with
  | (RowsAnswer.queryError err, c1) => (([], some err), c1)
  | (RowsAnswer.rows u err, c1) => ((u, err), c1)

/-- Fixed part of the format of `GetAllPlatform` (`platform/platform.go`), up to the table name. -/
def GetAllPlatformSQL : String :=
  "select \n\tname \n\tfrom platform"

/-- Function `GetAllPlatform` of `platform/platform.go`: the format is the fixed part followed by
`" LIMIT %d OFFSET %d"`, with the arguments `limit, skip`. -/
def GetAllPlatform {σ : Type} (r : PlatformDB σ) (c : Conn σ) (skip : Int) (limit : Int) :
    (List platformResponse × Option String) × Conn σ :=
  match DB.Query r c
      ⟨GetAllPlatformSQL ++ " LIMIT " ++ toString limit ++ " OFFSET " ++ toString skip, []⟩ with
  | (RowsAnswer.queryError err, c1) => (([], some err), c1)
  | (RowsAnswer.rows u err, c1) => ((u, err), c1)

/-! ## Create and delete operations -/

/-- Function `CreateNewAudience` of `audience/audience.go`. -/
def CreateNewAudience {σ : Type} (r : Pool σ) (c : Conn σ) (req : audience) : Option String × Conn σ :=
  let (createString, numString, createQueryArgs) := prepareAudienceCreateQuery req
  if createQueryArgs.length != 0 then
    match r.Exec c
        ⟨"INSERT INTO audience (" ++ createString ++ ") VALUES (" ++ numString ++ ")",
          createQueryArgs⟩ with
    | (ExecResult.error err, c1) => (some ("problem creating item: " ++ err), c1)
    | (ExecResult.rows _, c1) => (none, c1)
  else (some "invalid values", c)

/-- Function `createNewURL` of `broadcasturl/broadhcast_url.go`.  It dereferences `req.URL`, `req.Platform`, `req.Language`
without a nil check: `none` stands for the nil-pointer panic. -/
def createNewURL {σ : Type} (r : Pool σ) (c : Conn σ) (req : broadcastURL) :
    Option (Option String × Conn σ) :=
  match req.URL, req.Platform, req.Language with
  | some uRL, some platform, some language =>
    match r.Exec c
        ⟨"INSERT INTO broadcast_url (\n\t\t\turl,\n\t\t\tplatform,\n\t\t\tlanguage)\n\t\tVALUES (\n\t\t\t$1,\n\t\t\t$2,\n\t\t\t$3)  ",
          [Value.str uRL, Value.str platform, Value.str language]⟩ with
    | (ExecResult.error err, c1) => some (some err, c1)
    | (ExecResult.rows _, c1) => some (none, c1)
  | _, _, _ => none

/-- Function `CreateEvent` of `event/event.go`. -/
def CreateEvent {σ : Type} (r : Pool σ) (c : Conn σ) (req : event) : Option String × Conn σ :=
  let (createString, numString, createQueryArgs) := prepareEventCreateQuery req
  if createQueryArgs.length != 0 then
    match r.Exec c
        ⟨"INSERT INTO event (" ++ createString ++ ") VALUES (" ++ numString ++ ")",
          createQueryArgs⟩ with
    | (ExecResult.error err, c1) => (some ("problem creating event: " ++ err), c1)
    | (ExecResult.rows _, c1) => (none, c1)
  else (some "invalid values", c)

/-- Function `createNewEventItem` of `event/event_item.go`. -/
def createNewEventItem {σ : Type} (r : Pool σ) (c : Conn σ) (req : eventItem) : Option String × Conn σ :=
  let (createString, numString, createQueryArgs) := prepareEventItemCreateQuery req
  if createQueryArgs.length != 0 then
    match r.Exec c
        ⟨"INSERT INTO event_item (" ++ createString ++ ") VALUES (" ++ numString ++ ")",
          createQueryArgs⟩ with
    | (ExecResult.error err, c1) => (some ("problem creating event item: " ++ err), c1)
    | (ExecResult.rows _, c1) => (none, c1)
  else (some "invalid values", c)

/-- Function `createNewEventPartOption` of `event/event_participation_option.go`. -/
def createNewEventPartOption {σ : Type} (r : Pool σ) (c : Conn σ) (req : eventPartOption) : Option String × Conn σ :=
  let (createString, numString, createQueryArgs) := prepareEventPartOptionCreateQuery req
  if createQueryArgs.length != 0 then
    match r.Exec c
        ⟨"INSERT INTO event_participation_option (" ++ createString ++ ") VALUES (" ++ numString ++ ")",
          createQueryArgs⟩ with
    | (ExecResult.error err, c1) => (some ("problem creating participation status: " ++ err), c1)
    | (ExecResult.rows _, c1) => (none, c1)
  else (some "invalid values", c)

/-- Function `createNewItem` of `item/item.go`. -/
def createNewItem {σ : Type} (r : Pool σ) (c : Conn σ) (req : item) : Option String × Conn σ :=
  let (createString, numString, createQueryArgs) := prepareItemCreateQuery req
  if createQueryArgs.length != 0 then
    match r.Exec c
        ⟨"INSERT INTO item (" ++ createString ++ ") VALUES (" ++ numString ++ ")",
          createQueryArgs⟩ with
    | (ExecResult.error err, c1) => (some ("problem creating item: " ++ err), c1)
    | (ExecResult.rows _, c1) => (none, c1)
  else (some "invalid values", c)

/-- Function `createNewItemBroadcastURL` of `item/item_broadcast_url.go`.  It dereferences `req.ItemID`, `req.BoradcastURLID`
without a nil check: `none` stands for the nil-pointer panic. -/
def createNewItemBroadcastURL {σ : Type} (r : Pool σ) (c : Conn σ) (req : itemBroadcastURL) :
    Option (Option String × Conn σ) :=
  match req.ItemID, req.BoradcastURLID with
  | some itemID, some boradcastURLID =>
    match r.Exec c
        ⟨"INSERT INTO item_broadcast_url (\n\t\t\titem_id,\n\t\t\tbroadcast_url_id)\n\t\tVALUES (\n\t\t\t$1,\n\t\t\t$2)",
          [Value.int itemID, Value.int boradcastURLID]⟩ with
    | (ExecResult.error err, c1) => some (some err, c1)
    | (ExecResult.rows _, c1) => some (none, c1)
  | _, _ => none

/-- Function `CreateNewPart` of `participant/participant.go`. -/
def CreateNewPart {σ : Type} (r : Pool σ) (c : Conn σ) (req : part) : Option String × Conn σ :=
  let (createString, numString, createQueryArgs) := prepareParticipantCreateQuery req
  if createQueryArgs.length != 0 then
    match r.Exec c
        ⟨"INSERT INTO participant (" ++ createString ++ ") VALUES (" ++ numString ++ ")",
          createQueryArgs⟩ with
    | (ExecResult.error err, c1) => (some ("problem creating participant: " ++ err), c1)
    | (ExecResult.rows _, c1) => (none, c1)
  else (some "invalid values", c)

/-- Function `CreateNewPartOption` of `partoptn/participation_option.go`.  It dereferences `req.Name`
without a nil check: `none` stands for the nil-pointer panic. -/
def CreateNewPartOption {σ : Type} (r : Pool σ) (c : Conn σ) (req : partOption) :
    Option (Option String × Conn σ) :=
  match req.Name with
  | some name =>
    match r.Exec c
        ⟨"INSERT INTO participation_option (\n\t\t\tname)\n\t\tVALUES (\n\t\t\t$1)  ",
          [Value.str name]⟩ with
    | (ExecResult.error err, c1) => some (some err, c1)
    | (ExecResult.rows _, c1) => some (none, c1)
  | _ => none

/-- Function `createNewParticipationStatus` of `partstatus/participation_status.go`. -/
def createNewParticipationStatus {σ : Type} (r : Pool σ) (c : Conn σ) (req : participationStatus) : Option String × Conn σ :=
  let (createString, numString, createQueryArgs) := prepareParticipationStatusCreateQuery req
  if createQueryArgs.length != 0 then
    match r.Exec c
        ⟨"INSERT INTO participation_status (" ++ createString ++ ") VALUES (" ++ numString ++ ")",
          createQueryArgs⟩ with
    | (ExecResult.error err, c1) => (some ("problem creating participation status: " ++ err), c1)
    | (ExecResult.rows _, c1) => (none, c1)
  else (some "invalid values", c)

/-- Function `CreateNewPlatform` of `platform/platform.go`.  It dereferences `req.Name`
without a nil check: `none` stands for the nil-pointer panic. -/
def CreateNewPlatform {σ : Type} (r : Pool σ) (c : Conn σ) (req : platform) :
    Option (Option String × Conn σ) :=
  match req.Name with
  | some name =>
    match r.Exec c
        ⟨"INSERT INTO platform (\n\t\t\tname)\n\t\tVALUES (\n\t\t\t$1)  ",
          [Value.str name]⟩ with
    | (ExecResult.error err, c1) => some (some err, c1)
    | (ExecResult.rows _, c1) => some (none, c1)
  | _ => none

/-- Function `DeleteAudienceByName` of `audience/audience.go`. -/
def DeleteAudienceByName {σ : Type} (r : Pool σ) (c : Conn σ) (name : String) : Option String × Conn σ :=
  match r.Exec c ⟨"delete from audience where name=$1", [Value.str name]⟩ with
  | (ExecResult.error err, c1) => (some err, c1)
  | (ExecResult.rows _, c1) => (none, c1)

/-- Function `deleteURLByID` of `broadcasturl/broadhcast_url.go`. -/
def deleteURLByID {σ : Type} (r : Pool σ) (c : Conn σ) (id : String) : Option String × Conn σ :=
  match r.Exec c ⟨"delete from broadcast_url where id=$1", [Value.str id]⟩ with
  | (ExecResult.error err, c1) => (some err, c1)
  | (ExecResult.rows _, c1) => (none, c1)

/-- Function `deleteEventByID` of `event/event.go`. -/
def deleteEventByID {σ : Type} (r : Pool σ) (c : Conn σ) (id : String) : Option String × Conn σ :=
  let eventQuery := "UPDATE event SET deleted = true WHERE id=" ++ id ++ ";"
  let eventItemQuery := "UPDATE event_item SET deleted = true WHERE event_id=" ++ id ++ ";"
  let eventPartQuery :=
    "UPDATE event_participation_option SET deleted = true WHERE event_id=" ++ id ++ ";"
  let eventStatusQuery :=
    "UPDATE participation_status SET deleted = true WHERE event_id=" ++ id ++ ";"
  match r.Exec c ⟨eventQuery ++ eventItemQuery ++ eventPartQuery ++ eventStatusQuery, []⟩ with
  | (ExecResult.error err, c1) => (some err, c1)
  | (ExecResult.rows _, c1) => (none, c1)

/-- Function `deleteHardEventByID` of `event/event.go`. -/
def deleteHardEventByID {σ : Type} (r : Pool σ) (c : Conn σ) (id : String) : Option String × Conn σ :=
  match r.Exec c ⟨"delete from event where id=$1", [Value.str id]⟩ with
  | (ExecResult.error err, c1) => (some err, c1)
  | (ExecResult.rows _, c1) => (none, c1)

/-- Function `deleteEventItemByID` of `event/event_item.go`. -/
def deleteEventItemByID {σ : Type} (r : Pool σ) (c : Conn σ) (id : String) : Option String × Conn σ :=
  match r.Exec c ⟨"delete from event_item where id=$1", [Value.str id]⟩ with
  | (ExecResult.error err, c1) => (some err, c1)
  | (ExecResult.rows _, c1) => (none, c1)

/-- Function `deleteEventPartOptionByID` of `event/event_participation_option.go`. -/
def deleteEventPartOptionByID {σ : Type} (r : Pool σ) (c : Conn σ) (id : String) : Option String × Conn σ :=
  match r.Exec c ⟨"delete from event_participation_option where id=$1", [Value.str id]⟩ with
  | (ExecResult.error err, c1) => (some err, c1)
  | (ExecResult.rows _, c1) => (none, c1)

/-- Function `deleteItemByID` of `item/item.go`. -/
def deleteItemByID {σ : Type} (r : Pool σ) (c : Conn σ) (id : String) : Option String × Conn σ :=
  match r.Exec c ⟨"delete from item where id=$1", [Value.str id]⟩ with
  | (ExecResult.error err, c1) => (some err, c1)
  | (ExecResult.rows _, c1) => (none, c1)

/-- Function `deleteItemBroadcastURLByID` of `item/item_broadcast_url.go`. -/
def deleteItemBroadcastURLByID {σ : Type} (r : Pool σ) (c : Conn σ) (id : String) : Option String × Conn σ :=
  match r.Exec c ⟨"delete from item_broadcast_url where id=$1", [Value.str id]⟩ with
  | (ExecResult.error err, c1) => (some err, c1)
  | (ExecResult.rows _, c1) => (none, c1)

/-- Function `DeletePartByID` of `participant/participant.go`. -/
def DeletePartByID {σ : Type} (r : Pool σ) (c : Conn σ) (id : String) : Option String × Conn σ :=
  match r.Exec c ⟨"delete from participant where id=$1", [Value.str id]⟩ with
  | (ExecResult.error err, c1) => (some err, c1)
  | (ExecResult.rows _, c1) => (none, c1)

/-- Function `DeletePartOptionByName` of `partoptn/participation_option.go`. -/
def DeletePartOptionByName {σ : Type} (r : Pool σ) (c : Conn σ) (name : String) : Option String × Conn σ :=
  match r.Exec c ⟨"delete from participation_option where name=$1", [Value.str name]⟩ with
  | (ExecResult.error err, c1) => (some err, c1)
  | (ExecResult.rows _, c1) => (none, c1)

/-- Function `deleteParticipationStatusByID` of `partstatus/participation_status.go`. -/
def deleteParticipationStatusByID {σ : Type} (r : Pool σ) (c : Conn σ) (id : String) : Option String × Conn σ :=
  match r.Exec c ⟨"delete from participation_status where id=$1", [Value.str id]⟩ with
  | (ExecResult.error err, c1) => (some err, c1)
  | (ExecResult.rows _, c1) => (none, c1)

/-- Function `DeletePlatformByName` of `platform/platform.go`. -/
def DeletePlatformByName {σ : Type} (r : Pool σ) (c : Conn σ) (name : String) : Option String × Conn σ :=
  match r.Exec c ⟨"delete from platform where name=$1", [Value.str name]⟩ with
  | (ExecResult.error err, c1) => (some err, c1)
  | (ExecResult.rows _, c1) => (none, c1)

/-! ## Handlers -/

/-- Method `GetAudienceByName` of `*AudienceDB` (`audience/audience.go`). -/
def AudienceDB.GetAudienceByName {σ : Type} (r : AudienceDB σ) (c : Conn σ) (ctx : Context) :
    Response audienceResponse × Conn σ :=
  let name := ctx.Param "name"
  match getAudienceByName r c name with
  | ((_, some err), c1) =>
    if err == "not found" then
      (⟨StatusNotFound, [("error", Entry.text err), ("success", Entry.flag false)]⟩, c1)
    else
      (⟨StatusInternalServerError, [("error", Entry.text err), ("success", Entry.flag false)]⟩, c1)
  | ((u, none), c1) =>
    (⟨StatusOK, [("message", Entry.text "Fetched!"), ("data", Entry.data u),
      ("success", Entry.flag true)]⟩, c1)

/-- Method `GetAllAudience` of `*AudienceDB` (`audience/audience.go`). -/
def AudienceDB.GetAllAudience {σ : Type} (r : AudienceDB σ) (c : Conn σ) (ctx : Context) :
    Response (List audienceResponse) × Conn σ :=
  let skip := ctx.Query "skip"
  let limit := ctx.Query "limit"
  let skip := if skip == "" then "0" else skip
  let limit := if limit == "" then "10" else limit
  match Atoi skip with
  | none =>
    (⟨StatusBadRequest, [("error", Entry.text "Invalid skip value! Accepted value is INTEGER"), ("success", Entry.flag false)]⟩, c)
  | some intSkip =>
    match Atoi limit with
    | none =>
      (⟨StatusBadRequest, [("error", Entry.text "Invalid limit value! Accepted value is INTEGER"), ("success", Entry.flag false)]⟩, c)
    | some intLimit =>
      match SrvEvent.GetAllAudience r c intSkip intLimit with
      | ((_, some err), c1) => (⟨StatusInternalServerError, [("error", Entry.text err), ("success", Entry.flag false)]⟩, c1)
      | ((u, none), c1) =>
        (⟨StatusOK, [("message", Entry.text "Fetched!"), ("data", Entry.data u),
          ("success", Entry.flag true)]⟩, c1)

/-- Method `CreateNewAudience` of `*AudienceDB` (`audience/audience.go`). -/
def AudienceDB.CreateNewAudience {σ : Type} (v : Validator) (r : AudienceDB σ) (c : Conn σ)
    (body : Except String audience) : Response audience × Conn σ :=
  match body with
  | Except.error err => (⟨StatusInternalServerError, [("error", Entry.text err), ("success", Entry.flag false)]⟩, c)
  | Except.ok s =>
    match v.Struct (audience.failedChecks s) with
    | some err => (⟨StatusBadRequest, [("error", Entry.text err), ("success", Entry.flag false)]⟩, c)
    | none =>
      match SrvEvent.CreateNewAudience r.db c s with
      | (some err, c1) => (⟨StatusInternalServerError, [("error", Entry.text err), ("success", Entry.flag false)]⟩, c1)
      | (none, c1) =>
        (⟨StatusCreated, [("message", Entry.text "Created new audience!"), ("data", Entry.data s),
          ("success", Entry.flag true)]⟩, c1)

/-- Method `UpdateAudienceByName` of `*AudienceDB` (`audience/audience.go`). -/
def AudienceDB.UpdateAudienceByName {σ : Type} (r : AudienceDB σ) (c : Conn σ) (body : Except String audience)
    (ctx : Context) : Response audience × Conn σ :=
  match body with
  | Except.error err => (⟨StatusInternalServerError, [("error", Entry.text err), ("success", Entry.flag false)]⟩, c)
  | Except.ok u =>
    let name := ctx.Param "name"
    match SrvEvent.UpdateAudienceByName r.db c u name with
    | (some err, c1) =>
      if err == "not found" then
        (⟨StatusNotFound, [("error", Entry.text err), ("success", Entry.flag false)]⟩, c1)
      else if err == "invalid values" then
        (⟨StatusBadRequest, [("error", Entry.text err), ("success", Entry.flag false)]⟩, c1)
      else
        (⟨StatusInternalServerError, [("error", Entry.text err), ("success", Entry.flag false)]⟩, c1)
    | (none, c1) =>
      (⟨StatusOK, [("message", Entry.text "Audience updated successfully"), ("data", Entry.data u),
        ("success", Entry.flag true)]⟩, c1)

/-- Method `DeleteAudienceByName` of `*AudienceDB` (`audience/audience.go`). -/
def AudienceDB.DeleteAudienceByName {σ : Type} (r : AudienceDB σ) (c : Conn σ) (ctx : Context) :
    Response Unit × Conn σ :=
  let name := ctx.Param "name"
  match SrvEvent.DeleteAudienceByName r.db c name with
  | (some err, c1) => (⟨StatusInternalServerError, [("error", Entry.text err), ("success", Entry.flag false)]⟩, c1)
  | (none, c1) =>
    (⟨StatusOK, [("message", Entry.text "Audience deleted successfully!"), ("success", Entry.flag true)]⟩, c1)

/-- Method `GetBroadcastURLByID` of `*BroadcastURLDB` (`broadcasturl/broadhcast_url.go`). -/
def BroadcastURLDB.GetBroadcastURLByID {σ : Type} (r : BroadcastURLDB σ) (c : Conn σ) (ctx : Context) :
    Response broadcastURLResponse × Conn σ :=
  let id := ctx.Param "id"
  match getURLByID r c id with
  | ((_, some err), c1) =>
    if err == "not found" then
      (⟨StatusNotFound, [("error", Entry.text err), ("success", Entry.flag false)]⟩, c1)
    else
      (⟨StatusInternalServerError, [("error", Entry.text err), ("success", Entry.flag false)]⟩, c1)
  | ((u, none), c1) =>
    (⟨StatusOK, [("message", Entry.text "Fetched!"), ("data", Entry.data u),
      ("success", Entry.flag true)]⟩, c1)

/-- Method `GetAllBroadcastURL` of `*BroadcastURLDB` (`broadcasturl/broadhcast_url.go`). -/
def BroadcastURLDB.GetAllBroadcastURL {σ : Type} (r : BroadcastURLDB σ) (c : Conn σ) (ctx : Context) :
    Response (List broadcastURLResponse) × Conn σ :=
  let skip := ctx.Query "skip"
  let limit := ctx.Query "limit"
  let skip := if skip == "" then "0" else skip
  let limit := if limit == "" then "10" else limit
  match Atoi skip with
  | none =>
    (⟨StatusBadRequest, [("error", Entry.text "Invalid skip value! Accepted value is INTEGER"), ("success", Entry.flag false)]⟩, c)
  | some intSkip =>
    match Atoi limit with
    | none =>
      (⟨StatusBadRequest, [("error", Entry.text "Invalid limit value! Accepted value is INTEGER"), ("success", Entry.flag false)]⟩, c)
    | some intLimit =>
      match getAllURL r c intSkip intLimit with
      | ((_, some err), c1) => (⟨StatusInternalServerError, [("error", Entry.text err), ("success", Entry.flag false)]⟩, c1)
      | ((u, none), c1) =>
        (⟨StatusOK, [("message", Entry.text "Fetched!"), ("data", Entry.data u),
          ("success", Entry.flag true)]⟩, c1)

/-- Method `CreateNewBroadcastURL` of `*BroadcastURLDB` (`broadcasturl/broadhcast_url.go`).  `none` stands for a nil-pointer panic
in `createNewURL`. -/
def BroadcastURLDB.CreateNewBroadcastURL {σ : Type} (v : Validator) (r : BroadcastURLDB σ) (c : Conn σ)
    (body : Except String broadcastURL) : Option (Response broadcastURL × Conn σ) :=
  match body with
  | Except.error err => some (⟨StatusInternalServerError, [("error", Entry.text err), ("success", Entry.flag false)]⟩, c)
  | Except.ok s =>
    match v.Struct (broadcastURL.failedChecks s) with
    | some err => some (⟨StatusBadRequest, [("error", Entry.text err), ("success", Entry.flag false)]⟩, c)
    | none =>
      match createNewURL r.db c s with
      | none => none
      | some (some err, c1) => some (⟨StatusInternalServerError, [("error", Entry.text err), ("success", Entry.flag false)]⟩, c1)
      | some (none, c1) =>
        some (⟨StatusCreated, [("message", Entry.text "Created new Broadcast url!"), ("data", Entry.data s),
          ("success", Entry.flag true)]⟩, c1)

/-- Method `UpdateBroadcastURLByID` of `*BroadcastURLDB` (`broadcasturl/broadhcast_url.go`). -/
def BroadcastURLDB.UpdateBroadcastURLByID {σ : Type} (r : BroadcastURLDB σ) (c : Conn σ) (body : Except String broadcastURL)
    (ctx : Context) (now : Time) : Response broadcastURL × Conn σ :=
  match body with
  | Except.error err => (⟨StatusInternalServerError, [("error", Entry.text err), ("success", Entry.flag false)]⟩, c)
  | Except.ok u =>
    let id := ctx.Param "id"
    match updateURLByID r.db c u id now with
    | (some err, c1) =>
      if err == "not found" then
        (⟨StatusNotFound, [("error", Entry.text err), ("success", Entry.flag false)]⟩, c1)
      else if err == "invalid values" then
        (⟨StatusBadRequest, [("error", Entry.text err), ("success", Entry.flag false)]⟩, c1)
      else
        (⟨StatusInternalServerError, [("error", Entry.text err), ("success", Entry.flag false)]⟩, c1)
    | (none, c1) =>
      (⟨StatusOK, [("message", Entry.text "Broadcast url updated successfully"), ("data", Entry.data u),
        ("success", Entry.flag true)]⟩, c1)

/-- Method `DeleteBroadcastURLByID` of `*BroadcastURLDB` (`broadcasturl/broadhcast_url.go`). -/
def BroadcastURLDB.DeleteBroadcastURLByID {σ : Type} (r : BroadcastURLDB σ) (c : Conn σ) (ctx : Context) :
    Response Unit × Conn σ :=
  let id := ctx.Param "id"
  match deleteURLByID r.db c id with
  | (some err, c1) => (⟨StatusInternalServerError, [("error", Entry.text err), ("success", Entry.flag false)]⟩, c1)
  | (none, c1) =>
    (⟨StatusOK, [("message", Entry.text "Broadcast url deleted successfully!"), ("success", Entry.flag true)]⟩, c1)

/-- Method `GetEventByID` of `*EventDB` (`event/event.go`). -/
def EventDB.GetEventByID {σ : Type} (r : EventDB σ) (c : Conn σ) (ctx : Context) :
    Response eventResponse × Conn σ :=
  let id := ctx.Param "id"
  match getEventByID r c id with
  | ((_, some err), c1) =>
    if err == "not found" then
      (⟨StatusNotFound, [("error", Entry.text err), ("success", Entry.flag false)]⟩, c1)
    else
      (⟨StatusInternalServerError, [("error", Entry.text err), ("success", Entry.flag false)]⟩, c1)
  | ((u, none), c1) =>
    (⟨StatusOK, [("message", Entry.text "Fetched!"), ("data", Entry.data u),
      ("success", Entry.flag true)]⟩, c1)

/-- Method `GetAllEvent` of `*EventDB` (`event/event.go`). -/
def EventDB.GetAllEvent {σ : Type} (other : List Char → List Int → String) (r : EventDB σ) (c : Conn σ) (ctx : Context) :
    Response (List eventResponse) × Conn σ :=
  let skip := ctx.Query "skip"
  let limit := ctx.Query "limit"
  let slug := ctx.Query "slug"
  let skip := if skip == "" then "0" else skip
  let limit := if limit == "" then "10" else limit
  match Atoi skip with
  | none =>
    (⟨StatusBadRequest, [("error", Entry.text "Invalid skip value! Accepted value is INTEGER"), ("success", Entry.flag false)]⟩, c)
  | some intSkip =>
    match Atoi limit with
    | none =>
      (⟨StatusBadRequest, [("error", Entry.text "Invalid limit value! Accepted value is INTEGER"), ("success", Entry.flag false)]⟩, c)
    | some intLimit =>
      match getAllEvent other r c intSkip intLimit slug with
      | ((fetchedEvents, err), c1) =>
        if fetchedEvents.length == 0 then
          (⟨StatusNotFound, [("error", Entry.text "no event found"), ("success", Entry.flag false)]⟩, c1)
        else
          match err with
          | some err => (⟨StatusInternalServerError, [("error", Entry.text err), ("success", Entry.flag false)]⟩, c1)
          | none =>
            (⟨StatusOK, [("message", Entry.text "Fetched!"), ("data", Entry.data fetchedEvents),
              ("success", Entry.flag true)]⟩, c1)

/-- Method `CreateNewEvent` of `*EventDB` (`event/event.go`). -/
def EventDB.CreateNewEvent {σ : Type} (v : Validator) (r : EventDB σ) (c : Conn σ)
    (body : Except String event) : Response event × Conn σ :=
  match body with
  | Except.error err => (⟨StatusInternalServerError, [("error", Entry.text err), ("success", Entry.flag false)]⟩, c)
  | Except.ok s =>
    match v.Struct (event.failedChecks s) with
    | some err => (⟨StatusBadRequest, [("error", Entry.text err), ("success", Entry.flag false)]⟩, c)
    | none =>
      match CreateEvent r.db c s with
      | (some err, c1) => (⟨StatusInternalServerError, [("error", Entry.text err), ("success", Entry.flag false)]⟩, c1)
      | (none, c1) =>
        (⟨StatusCreated, [("message", Entry.text "Created new Event!"), ("data", Entry.data s),
          ("success", Entry.flag true)]⟩, c1)

/-- Method `UpdateEventByID` of `*EventDB` (`event/event.go`). -/
def EventDB.UpdateEventByID {σ : Type} (r : EventDB σ) (c : Conn σ) (body : Except String event)
    (ctx : Context) (now : Time) : Response event × Conn σ :=
  match body with
  | Except.error err => (⟨StatusInternalServerError, [("error", Entry.text err), ("success", Entry.flag false)]⟩, c)
  | Except.ok u =>
    let id := ctx.Param "id"
    match updateEventByID r.db c u id now with
    | (some err, c1) =>
      if err == "not found" then
        (⟨StatusNotFound, [("error", Entry.text err), ("success", Entry.flag false)]⟩, c1)
      else if err == "invalid values" then
        (⟨StatusBadRequest, [("error", Entry.text err), ("success", Entry.flag false)]⟩, c1)
      else
        (⟨StatusInternalServerError, [("error", Entry.text err), ("success", Entry.flag false)]⟩, c1)
    | (none, c1) =>
      (⟨StatusOK, [("message", Entry.text "Event updated successfully"), ("data", Entry.data u),
        ("success", Entry.flag true)]⟩, c1)

/-- Method `DeleteEventByID` of `*EventDB` (`event/event.go`). -/
def EventDB.DeleteEventByID {σ : Type} (r : EventDB σ) (c : Conn σ) (ctx : Context) :
    Response Unit × Conn σ :=
  let id := ctx.Param "id"
  match deleteEventByID r.db c id with
  | (some err, c1) => (⟨StatusInternalServerError, [("error", Entry.text err), ("success", Entry.flag false)]⟩, c1)
  | (none, c1) =>
    (⟨StatusOK, [("message", Entry.text "Event deleted successfully!"), ("success", Entry.flag true)]⟩, c1)

/-- Method `DeleteHardEventByID` of `*EventDB` (`event/event.go`). -/
def EventDB.DeleteHardEventByID {σ : Type} (r : EventDB σ) (c : Conn σ) (ctx : Context) :
    Response Unit × Conn σ :=
  let id := ctx.Param "id"
  match deleteHardEventByID r.db c id with
  | (some err, c1) => (⟨StatusInternalServerError, [("error", Entry.text err), ("success", Entry.flag false)]⟩, c1)
  | (none, c1) =>
    (⟨StatusOK, [("message", Entry.text "Event deleted successfully!"), ("success", Entry.flag true)]⟩, c1)

/-- Method `GetEventItemByID` of `*EventItemDB` (`event/event_item.go`). -/
def EventItemDB.GetEventItemByID {σ : Type} (r : EventItemDB σ) (c : Conn σ) (ctx : Context) :
    Response eventItemResponse × Conn σ :=
  let id := ctx.Param "id"
  match getEventItemByID r c id with
  | ((_, some err), c1) =>
    if err == "not found" then
      (⟨StatusNotFound, [("error", Entry.text err), ("success", Entry.flag false)]⟩, c1)
    else
      (⟨StatusInternalServerError, [("error", Entry.text err), ("success", Entry.flag false)]⟩, c1)
  | ((u, none), c1) =>
    (⟨StatusOK, [("message", Entry.text "Fetched!"), ("data", Entry.data u),
      ("success", Entry.flag true)]⟩, c1)

/-- Method `GetAllEventItem` of `*EventItemDB` (`event/event_item.go`). -/
def EventItemDB.GetAllEventItem {σ : Type} (r : EventItemDB σ) (c : Conn σ) (ctx : Context) :
    Response (List eventItemResponse) × Conn σ :=
  let skip := ctx.Query "skip"
  let limit := ctx.Query "limit"
  let skip := if skip == "" then "0" else skip
  let limit := if limit == "" then "10" else limit
  match Atoi skip with
  | none =>
    (⟨StatusBadRequest, [("error", Entry.text "Invalid skip value! Accepted value is INTEGER"), ("success", Entry.flag false)]⟩, c)
  | some intSkip =>
    match Atoi limit with
    | none =>
      (⟨StatusBadRequest, [("error", Entry.text "Invalid limit value! Accepted value is INTEGER"), ("success", Entry.flag false)]⟩, c)
    | some intLimit =>
      match getAllEventItem r c intSkip intLimit with
      | ((_, some err), c1) => (⟨StatusInternalServerError, [("error", Entry.text err), ("success", Entry.flag false)]⟩, c1)
      | ((u, none), c1) =>
        (⟨StatusOK, [("message", Entry.text "Fetched!"), ("data", Entry.data u),
          ("success", Entry.flag true)]⟩, c1)

/-- Method `CreateNewEventItem` of `*EventItemDB` (`event/event_item.go`). -/
def EventItemDB.CreateNewEventItem {σ : Type} (v : Validator) (r : EventItemDB σ) (c : Conn σ)
    (body : Except String eventItem) : Response eventItem × Conn σ :=
  match body with
  | Except.error err => (⟨StatusInternalServerError, [("error", Entry.text err), ("success", Entry.flag false)]⟩, c)
  | Except.ok s =>
    match v.Struct (eventItem.failedChecks s) with
    | some err => (⟨StatusBadRequest, [("error", Entry.text err), ("success", Entry.flag false)]⟩, c)
    | none =>
      match createNewEventItem r.db c s with
      | (some err, c1) => (⟨StatusInternalServerError, [("error", Entry.text err), ("success", Entry.flag false)]⟩, c1)
      | (none, c1) =>
        (⟨StatusCreated, [("message", Entry.text "Created new Event Item!"), ("data", Entry.data s),
          ("success", Entry.flag true)]⟩, c1)

/-- Method `UpdateEventItemByID` of `*EventItemDB` (`event/event_item.go`). -/
def EventItemDB.UpdateEventItemByID {σ : Type} (r : EventItemDB σ) (c : Conn σ) (body : Except String eventItem)
    (ctx : Context) (now : Time) : Response eventItem × Conn σ :=
  match body with
  | Except.error err => (⟨StatusInternalServerError, [("error", Entry.text err), ("success", Entry.flag false)]⟩, c)
  | Except.ok u =>
    let id := ctx.Param "id"
    match updateEventItemByID r.db c u id now with
    | (some err, c1) =>
      if err == "not found" then
        (⟨StatusNotFound, [("error", Entry.text err), ("success", Entry.flag false)]⟩, c1)
      else if err == "invalid values" then
        (⟨StatusBadRequest, [("error", Entry.text err), ("success", Entry.flag false)]⟩, c1)
      else
        (⟨StatusInternalServerError, [("error", Entry.text err), ("success", Entry.flag false)]⟩, c1)
    | (none, c1) =>
      (⟨StatusOK, [("message", Entry.text "Event Item updated successfully"), ("data", Entry.data u),
        ("success", Entry.flag true)]⟩, c1)

/-- Method `DeleteEventItemByID` of `*EventItemDB` (`event/event_item.go`). -/
def EventItemDB.DeleteEventItemByID {σ : Type} (r : EventItemDB σ) (c : Conn σ) (ctx : Context) :
    Response Unit × Conn σ :=
  let id := ctx.Param "id"
  match deleteEventItemByID r.db c id with
  | (some err, c1) => (⟨StatusInternalServerError, [("error", Entry.text err), ("success", Entry.flag false)]⟩, c1)
  | (none, c1) =>
    (⟨StatusOK, [("message", Entry.text "Event Item deleted successfully!"), ("success", Entry.flag true)]⟩, c1)

/-- Method `GetEventPartOptionByID` of `*EventPartOptionDB` (`event/event_participation_option.go`). -/
def EventPartOptionDB.GetEventPartOptionByID {σ : Type} (r : EventPartOptionDB σ) (c : Conn σ) (ctx : Context) :
    Response eventPartOptionResponse × Conn σ :=
  let id := ctx.Param "id"
  match getEventPartOptionByID r c id with
  | ((_, some err), c1) =>
    if err == "not found" then
      (⟨StatusNotFound, [("error", Entry.text err), ("success", Entry.flag false)]⟩, c1)
    else
      (⟨StatusInternalServerError, [("error", Entry.text err), ("success", Entry.flag false)]⟩, c1)
  | ((u, none), c1) =>
    (⟨StatusOK, [("message", Entry.text "Fetched!"), ("data", Entry.data u),
      ("success", Entry.flag true)]⟩, c1)

/-- Method `GetAllEventPartOption` of `*EventPartOptionDB` (`event/event_participation_option.go`). -/
def EventPartOptionDB.GetAllEventPartOption {σ : Type} (r : EventPartOptionDB σ) (c : Conn σ) (ctx : Context) :
    Response (List eventPartOptionResponse) × Conn σ :=
  let skip := ctx.Query "skip"
  let limit := ctx.Query "limit"
  let skip := if skip == "" then "0" else skip
  let limit := if limit == "" then "10" else limit
  match Atoi skip with
  | none =>
    (⟨StatusBadRequest, [("error", Entry.text "Invalid skip value! Accepted value is INTEGER"), ("success", Entry.flag false)]⟩, c)
  | some intSkip =>
    match Atoi limit with
    | none =>
      (⟨StatusBadRequest, [("error", Entry.text "Invalid limit value! Accepted value is INTEGER"), ("success", Entry.flag false)]⟩, c)
    | some intLimit =>
      match getAllEventPartOption r c intSkip intLimit with
      | ((_, some err), c1) => (⟨StatusInternalServerError, [("error", Entry.text err), ("success", Entry.flag false)]⟩, c1)
      | ((u, none), c1) =>
        (⟨StatusOK, [("message", Entry.text "Fetched!"), ("data", Entry.data u),
          ("success", Entry.flag true)]⟩, c1)

/-- Method `CreateNewEventPartOption` of `*EventPartOptionDB` (`event/event_participation_option.go`). -/
def EventPartOptionDB.CreateNewEventPartOption {σ : Type} (v : Validator) (r : EventPartOptionDB σ) (c : Conn σ)
    (body : Except String eventPartOption) : Response eventPartOption × Conn σ :=
  match body with
  | Except.error err => (⟨StatusInternalServerError, [("error", Entry.text err), ("success", Entry.flag false)]⟩, c)
  | Except.ok s =>
    match v.Struct (eventPartOption.failedChecks s) with
    | some err => (⟨StatusBadRequest, [("error", Entry.text err), ("success", Entry.flag false)]⟩, c)
    | none =>
      match createNewEventPartOption r.db c s with
      | (some err, c1) => (⟨StatusInternalServerError, [("error", Entry.text err), ("success", Entry.flag false)]⟩, c1)
      | (none, c1) =>
        (⟨StatusCreated, [("message", Entry.text "Created new Event Participation Option!"), ("data", Entry.data s),
          ("success", Entry.flag true)]⟩, c1)

/-- Method `UpdateEventPartOptionByID` of `*EventPartOptionDB` (`event/event_participation_option.go`). -/
def EventPartOptionDB.UpdateEventPartOptionByID {σ : Type} (r : EventPartOptionDB σ) (c : Conn σ) (body : Except String eventPartOption)
    (ctx : Context) (now : Time) : Response eventPartOption × Conn σ :=
  match body with
  | Except.error err => (⟨StatusInternalServerError, [("error", Entry.text err), ("success", Entry.flag false)]⟩, c)
  | Except.ok u =>
    let id := ctx.Param "id"
    match updateEventPartOptionByID r.db c u id now with
    | (some err, c1) =>
      if err == "not found" then
        (⟨StatusNotFound, [("error", Entry.text err), ("success", Entry.flag false)]⟩, c1)
      else if err == "invalid values" then
        (⟨StatusBadRequest, [("error", Entry.text err), ("success", Entry.flag false)]⟩, c1)
      else
        (⟨StatusInternalServerError, [("error", Entry.text err), ("success", Entry.flag false)]⟩, c1)
    | (none, c1) =>
      (⟨StatusOK, [("message", Entry.text "Event Participation Option updated successfully"), ("data", Entry.data u),
        ("success", Entry.flag true)]⟩, c1)

/-- Method `DeleteEventPartOptionByID` of `*EventPartOptionDB` (`event/event_participation_option.go`). -/
def EventPartOptionDB.DeleteEventPartOptionByID {σ : Type} (r : EventPartOptionDB σ) (c : Conn σ) (ctx : Context) :
    Response Unit × Conn σ :=
  let id := ctx.Param "id"
  match deleteEventPartOptionByID r.db c id with
  | (some err, c1) => (⟨StatusInternalServerError, [("error", Entry.text err), ("success", Entry.flag false)]⟩, c1)
  | (none, c1) =>
    (⟨StatusOK, [("message", Entry.text "Event Participation Option deleted successfully!"), ("success", Entry.flag true)]⟩, c1)

/-- Method `GetItemByID` of `*ItemDB` (`item/item.go`). -/
def ItemDB.GetItemByID {σ : Type} (r : ItemDB σ) (c : Conn σ) (ctx : Context) :
    Response itemResponse × Conn σ :=
  let id := ctx.Param "id"
  match getItemByID r c id with
  | ((_, some err), c1) =>
    if err == "not found" then
      (⟨StatusNotFound, [("error", Entry.text err), ("success", Entry.flag false)]⟩, c1)
    else
      (⟨StatusInternalServerError, [("error", Entry.text err), ("success", Entry.flag false)]⟩, c1)
  | ((u, none), c1) =>
    (⟨StatusOK, [("message", Entry.text "Fetched!"), ("data", Entry.data u),
      ("success", Entry.flag true)]⟩, c1)

/-- Method `GetAllItem` of `*ItemDB` (`item/item.go`). -/
def ItemDB.GetAllItem {σ : Type} (r : ItemDB σ) (c : Conn σ) (ctx : Context) :
    Response (List itemResponse) × Conn σ :=
  let skip := ctx.Query "skip"
  let limit := ctx.Query "limit"
  let skip := if skip == "" then "0" else skip
  let limit := if limit == "" then "10" else limit
  match Atoi skip with
  | none =>
    (⟨StatusBadRequest, [("error", Entry.text "Invalid skip value! Accepted value is INTEGER"), ("success", Entry.flag false)]⟩, c)
  | some intSkip =>
    match Atoi limit with
    | none =>
      (⟨StatusBadRequest, [("error", Entry.text "Invalid limit value! Accepted value is INTEGER"), ("success", Entry.flag false)]⟩, c)
    | some intLimit =>
      match getAllItem r c intSkip intLimit with
      | ((_, some err), c1) => (⟨StatusInternalServerError, [("error", Entry.text err), ("success", Entry.flag false)]⟩, c1)
      | ((u, none), c1) =>
        (⟨StatusOK, [("message", Entry.text "Fetched!"), ("data", Entry.data u),
          ("success", Entry.flag true)]⟩, c1)

/-- Method `CreateNewItem` of `*ItemDB` (`item/item.go`). -/
def ItemDB.CreateNewItem {σ : Type} (v : Validator) (r : ItemDB σ) (c : Conn σ)
    (body : Except String item) : Response item × Conn σ :=
  match body with
  | Except.error err => (⟨StatusInternalServerError, [("error", Entry.text err), ("success", Entry.flag false)]⟩, c)
  | Except.ok s =>
    match v.Struct (item.failedChecks s) with
    | some err => (⟨StatusBadRequest, [("error", Entry.text err), ("success", Entry.flag false)]⟩, c)
    | none =>
      match createNewItem r.db c s with
      | (some err, c1) => (⟨StatusInternalServerError, [("error", Entry.text err), ("success", Entry.flag false)]⟩, c1)
      | (none, c1) =>
        (⟨StatusCreated, [("message", Entry.text "Created new Item!"), ("data", Entry.data s),
          ("success", Entry.flag true)]⟩, c1)

/-- Method `UpdateItemByID` of `*ItemDB` (`item/item.go`). -/
def ItemDB.UpdateItemByID {σ : Type} (r : ItemDB σ) (c : Conn σ) (body : Except String item)
    (ctx : Context) (now : Time) : Response item × Conn σ :=
  match body with
  | Except.error err => (⟨StatusInternalServerError, [("error", Entry.text err), ("success", Entry.flag false)]⟩, c)
  | Except.ok u =>
    let id := ctx.Param "id"
    match updateItemByID r.db c u id now with
    | (some err, c1) =>
      if err == "not found" then
        (⟨StatusNotFound, [("error", Entry.text err), ("success", Entry.flag false)]⟩, c1)
      else if err == "invalid values" then
        (⟨StatusBadRequest, [("error", Entry.text err), ("success", Entry.flag false)]⟩, c1)
      else
        (⟨StatusInternalServerError, [("error", Entry.text err), ("success", Entry.flag false)]⟩, c1)
    | (none, c1) =>
      (⟨StatusOK, [("message", Entry.text "Item updated successfully"), ("data", Entry.data u),
        ("success", Entry.flag true)]⟩, c1)

/-- Method `DeleteItemByID` of `*ItemDB` (`item/item.go`). -/
def ItemDB.DeleteItemByID {σ : Type} (r : ItemDB σ) (c : Conn σ) (ctx : Context) :
    Response Unit × Conn σ :=
  let id := ctx.Param "id"
  match deleteItemByID r.db c id with
  | (some err, c1) => (⟨StatusInternalServerError, [("error", Entry.text err), ("success", Entry.flag false)]⟩, c1)
  | (none, c1) =>
    (⟨StatusOK, [("message", Entry.text "Item deleted successfully!"), ("success", Entry.flag true)]⟩, c1)

/-- Method `GetItemBroadcastURLByID` of `*ItemBroadcastURLDB` (`item/item_broadcast_url.go`). -/
def ItemBroadcastURLDB.GetItemBroadcastURLByID {σ : Type} (r : ItemBroadcastURLDB σ) (c : Conn σ) (ctx : Context) :
    Response itemBroadcastURLResponse × Conn σ :=
  let id := ctx.Param "id"
  match getItemBroadcastURLByID r c id with
  | ((_, some err), c1) =>
    if err == "not found" then
      (⟨StatusNotFound, [("error", Entry.text err), ("success", Entry.flag false)]⟩, c1)
    else
      (⟨StatusInternalServerError, [("error", Entry.text err), ("success", Entry.flag false)]⟩, c1)
  | ((u, none), c1) =>
    (⟨StatusOK, [("message", Entry.text "Fetched!"), ("data", Entry.data u),
      ("success", Entry.flag true)]⟩, c1)

/-- Method `GetAllItemBroadcastURL` of `*ItemBroadcastURLDB` (`item/item_broadcast_url.go`). -/
def ItemBroadcastURLDB.GetAllItemBroadcastURL {σ : Type} (r : ItemBroadcastURLDB σ) (c : Conn σ) (ctx : Context) :
    Response (List itemBroadcastURLResponse) × Conn σ :=
  let skip := ctx.Query "skip"
  let limit := ctx.Query "limit"
  let skip := if skip == "" then "0" else skip
  let limit := if limit == "" then "10" else limit
  match Atoi skip with
  | none =>
    (⟨StatusBadRequest, [("error", Entry.text "Invalid skip value! Accepted value is INTEGER"), ("success", Entry.flag false)]⟩, c)
  | some intSkip =>
    match Atoi limit with
    | none =>
      (⟨StatusBadRequest, [("error", Entry.text "Invalid limit value! Accepted value is INTEGER"), ("success", Entry.flag false)]⟩, c)
    | some intLimit =>
      match getAllItemBroadcastURL r c intSkip intLimit with
      | ((_, some err), c1) => (⟨StatusInternalServerError, [("error", Entry.text err), ("success", Entry.flag false)]⟩, c1)
      | ((u, none), c1) =>
        (⟨StatusOK, [("message", Entry.text "Fetched!"), ("data", Entry.data u),
          ("success", Entry.flag true)]⟩, c1)

/-- Method `CreateNewItemBroadcastURL` of `*ItemBroadcastURLDB` (`item/item_broadcast_url.go`).  `none` stands for a nil-pointer panic
in `createNewItemBroadcastURL`. -/
def ItemBroadcastURLDB.CreateNewItemBroadcastURL {σ : Type} (v : Validator) (r : ItemBroadcastURLDB σ) (c : Conn σ)
    (body : Except String itemBroadcastURL) : Option (Response itemBroadcastURL × Conn σ) :=
  match body with
  | Except.error err => some (⟨StatusInternalServerError, [("error", Entry.text err), ("success", Entry.flag false)]⟩, c)
  | Except.ok s =>
    match v.Struct (itemBroadcastURL.failedChecks s) with
    | some err => some (⟨StatusBadRequest, [("error", Entry.text err), ("success", Entry.flag false)]⟩, c)
    | none =>
      match createNewItemBroadcastURL r.db c s with
      | none => none
      | some (some err, c1) => some (⟨StatusInternalServerError, [("error", Entry.text err), ("success", Entry.flag false)]⟩, c1)
      | some (none, c1) =>
        some (⟨StatusCreated, [("message", Entry.text "Created new Item BroadcastURL!"), ("data", Entry.data s),
          ("success", Entry.flag true)]⟩, c1)

/-- Method `UpdateItemBroadcastURLByID` of `*ItemBroadcastURLDB` (`item/item_broadcast_url.go`). -/
def ItemBroadcastURLDB.UpdateItemBroadcastURLByID {σ : Type} (r : ItemBroadcastURLDB σ) (c : Conn σ) (body : Except String itemBroadcastURL)
    (ctx : Context) (now : Time) : Response itemBroadcastURL × Conn σ :=
  match body with
  | Except.error err => (⟨StatusInternalServerError, [("error", Entry.text err), ("success", Entry.flag false)]⟩, c)
  | Except.ok u =>
    let id := ctx.Param "id"
    match updateItemBroadcastURLByID r.db c u id now with
    | (some err, c1) =>
      if err == "not found" then
        (⟨StatusNotFound, [("error", Entry.text err), ("success", Entry.flag false)]⟩, c1)
      else if err == "invalid values" then
        (⟨StatusBadRequest, [("error", Entry.text err), ("success", Entry.flag false)]⟩, c1)
      else
        (⟨StatusInternalServerError, [("error", Entry.text err), ("success", Entry.flag false)]⟩, c1)
    | (none, c1) =>
      (⟨StatusOK, [("message", Entry.text "Item BroadcastURL updated successfully"), ("data", Entry.data u),
        ("success", Entry.flag true)]⟩, c1)

/-- Method `DeleteItemBroadcastURLByID` of `*ItemBroadcastURLDB` (`item/item_broadcast_url.go`). -/
def ItemBroadcastURLDB.DeleteItemBroadcastURLByID {σ : Type} (r : ItemBroadcastURLDB σ) (c : Conn σ) (ctx : Context) :
    Response Unit × Conn σ :=
  let id := ctx.Param "id"
  match deleteItemBroadcastURLByID r.db c id with
  | (some err, c1) => (⟨StatusInternalServerError, [("error", Entry.text err), ("success", Entry.flag false)]⟩, c1)
  | (none, c1) =>
    (⟨StatusOK, [("message", Entry.text "Item BroadcastURL deleted successfully!"), ("success", Entry.flag true)]⟩, c1)

/-- Method `GetParticipantById` of `*ParticipantDB` (`participant/participant.go`). -/
def ParticipantDB.GetParticipantById {σ : Type} (r : ParticipantDB σ) (c : Conn σ) (ctx : Context) :
    Response partResponse × Conn σ :=
  let id := ctx.Param "id"
  match getPartById r c id with
  | ((_, some err), c1) =>
    if err == "not found" then
      (⟨StatusNotFound, [("error", Entry.text err), ("success", Entry.flag false)]⟩, c1)
    else
      (⟨StatusInternalServerError, [("error", Entry.text err), ("success", Entry.flag false)]⟩, c1)
  | ((u, none), c1) =>
    (⟨StatusOK, [("message", Entry.text "Fetched!"), ("data", Entry.data u),
      ("success", Entry.flag true)]⟩, c1)

/-- Method `GetParticipantByKeycloakID` of `*ParticipantDB` (`participant/participant.go`). -/
def ParticipantDB.GetParticipantByKeycloakID {σ : Type} (r : ParticipantDB σ) (c : Conn σ) (ctx : Context) :
    Response partResponse × Conn σ :=
  let id := ctx.Param "id"
  match getPartByKeycloakID r c id with
  | ((_, some err), c1) =>
    if err == "not found" then
      (⟨StatusNotFound, [("error", Entry.text err), ("success", Entry.flag false)]⟩, c1)
    else
      (⟨StatusInternalServerError, [("error", Entry.text err), ("success", Entry.flag false)]⟩, c1)
  | ((u, none), c1) =>
    (⟨StatusOK, [("message", Entry.text "Fetched!"), ("data", Entry.data u),
      ("success", Entry.flag true)]⟩, c1)

/-- Method `GetParticipantByEmail` of `*ParticipantDB` (`participant/participant.go`). -/
def ParticipantDB.GetParticipantByEmail {σ : Type} (r : ParticipantDB σ) (c : Conn σ) (ctx : Context) :
    Response partResponse × Conn σ :=
  let email := ctx.Param "keycloak-id"
  match getPartByEmail r c email with
  | ((_, some err), c1) =>
    if err == "not found" then
      (⟨StatusNotFound, [("error", Entry.text err), ("success", Entry.flag false)]⟩, c1)
    else
      (⟨StatusInternalServerError, [("error", Entry.text err), ("success", Entry.flag false)]⟩, c1)
  | ((u, none), c1) =>
    (⟨StatusOK, [("message", Entry.text "Fetched!"), ("data", Entry.data u),
      ("success", Entry.flag true)]⟩, c1)

/-- Method `GetAllParticipant` of `*ParticipantDB` (`participant/participant.go`). -/
def ParticipantDB.GetAllParticipant {σ : Type} (r : ParticipantDB σ) (c : Conn σ) (ctx : Context) :
    Response (List partResponse) × Conn σ :=
  let skip := ctx.Query "skip"
  let limit := ctx.Query "limit"
  let skip := if skip == "" then "0" else skip
  let limit := if limit == "" then "10" else limit
  match Atoi skip with
  | none =>
    (⟨StatusBadRequest, [("error", Entry.text "Invalid skip value! Accepted value is INTEGER"), ("success", Entry.flag false)]⟩, c)
  | some intSkip =>
    match Atoi limit with
    | none =>
      (⟨StatusBadRequest, [("error", Entry.text "Invalid limit value! Accepted value is INTEGER"), ("success", Entry.flag false)]⟩, c)
    | some intLimit =>
      match GetAllPart r c intSkip intLimit with
      | ((_, some err), c1) => (⟨StatusInternalServerError, [("error", Entry.text err), ("success", Entry.flag false)]⟩, c1)
      | ((u, none), c1) =>
        (⟨StatusOK, [("message", Entry.text "Fetched!"), ("data", Entry.data u),
          ("success", Entry.flag true)]⟩, c1)

/-- Method `CreateNewParticipant` of `*ParticipantDB` (`participant/participant.go`). -/
def ParticipantDB.CreateNewParticipant {σ : Type} (v : Validator) (r : ParticipantDB σ) (c : Conn σ)
    (body : Except String part) : Response part × Conn σ :=
  match body with
  | Except.error err => (⟨StatusInternalServerError, [("error", Entry.text err), ("success", Entry.flag false)]⟩, c)
  | Except.ok s =>
    match v.Struct (part.failedChecks v s) with
    | some err => (⟨StatusBadRequest, [("error", Entry.text err), ("success", Entry.flag false)]⟩, c)
    | none =>
      match CreateNewPart r.db c s with
      | (some err, c1) => (⟨StatusInternalServerError, [("error", Entry.text err), ("success", Entry.flag false)]⟩, c1)
      | (none, c1) =>
        (⟨StatusCreated, [("message", Entry.text "Created new participant!"), ("data", Entry.data s),
          ("success", Entry.flag true)]⟩, c1)

/-- Method `UpdateParticipantByID` of `*ParticipantDB` (`participant/participant.go`). -/
def ParticipantDB.UpdateParticipantByID {σ : Type} (r : ParticipantDB σ) (c : Conn σ) (body : Except String part)
    (ctx : Context) (now : Time) : Response part × Conn σ :=
  match body with
  | Except.error err => (⟨StatusInternalServerError, [("error", Entry.text err), ("success", Entry.flag false)]⟩, c)
  | Except.ok u =>
    let id := ctx.Param "id"
    match UpdatePartByID r.db c u id now with
    | (some err, c1) =>
      if err == "not found" then
        (⟨StatusNotFound, [("error", Entry.text err), ("success", Entry.flag false)]⟩, c1)
      else if err == "invalid values" then
        (⟨StatusBadRequest, [("error", Entry.text err), ("success", Entry.flag false)]⟩, c1)
      else
        (⟨StatusInternalServerError, [("error", Entry.text err), ("success", Entry.flag false)]⟩, c1)
    | (none, c1) =>
      (⟨StatusOK, [("message", Entry.text "Participant updated successfully"), ("data", Entry.data u),
        ("success", Entry.flag true)]⟩, c1)

/-- Method `DeleteParticipantByID` of `*ParticipantDB` (`participant/participant.go`). -/
def ParticipantDB.DeleteParticipantByID {σ : Type} (r : ParticipantDB σ) (c : Conn σ) (ctx : Context) :
    Response Unit × Conn σ :=
  let id := ctx.Param "id"
  match DeletePartByID r.db c id with
  | (some err, c1) => (⟨StatusInternalServerError, [("error", Entry.text err), ("success", Entry.flag false)]⟩, c1)
  | (none, c1) =>
    (⟨StatusOK, [("message", Entry.text "Participant deleted successfully!"), ("success", Entry.flag true)]⟩, c1)

/-- Method `GetParticipationOptionByName` of `*ParticipationOptionDB` (`partoptn/participation_option.go`). -/
def ParticipationOptionDB.GetParticipationOptionByName {σ : Type} (r : ParticipationOptionDB σ) (c : Conn σ) (ctx : Context) :
    Response partOptionResponse × Conn σ :=
  let name := ctx.Param "name"
  match getPartOptionByName r c name with
  | ((_, some err), c1) =>
    if err == "not found" then
      (⟨StatusNotFound, [("error", Entry.text err), ("success", Entry.flag false)]⟩, c1)
    else
      (⟨StatusInternalServerError, [("error", Entry.text err), ("success", Entry.flag false)]⟩, c1)
  | ((u, none), c1) =>
    (⟨StatusOK, [("message", Entry.text "Fetched!"), ("data", Entry.data u),
      ("success", Entry.flag true)]⟩, c1)

/-- Method `GetAllParticipationOption` of `*ParticipationOptionDB` (`partoptn/participation_option.go`). -/
def ParticipationOptionDB.GetAllParticipationOption {σ : Type} (r : ParticipationOptionDB σ) (c : Conn σ) (ctx : Context) :
    Response (List partOptionResponse) × Conn σ :=
  let skip := ctx.Query "skip"
  let limit := ctx.Query "limit"
  let skip := if skip == "" then "0" else skip
  let limit := if limit == "" then "10" else limit
  match Atoi skip with
  | none =>
    (⟨StatusBadRequest, [("error", Entry.text "Invalid skip value! Accepted value is INTEGER"), ("success", Entry.flag false)]⟩, c)
  | some intSkip =>
    match Atoi limit with
    | none =>
      (⟨StatusBadRequest, [("error", Entry.text "Invalid limit value! Accepted value is INTEGER"), ("success", Entry.flag false)]⟩, c)
    | some intLimit =>
      match GetAllPartOption r c intSkip intLimit with
      | ((_, some err), c1) => (⟨StatusInternalServerError, [("error", Entry.text err), ("success", Entry.flag false)]⟩, c1)
      | ((u, none), c1) =>
        (⟨StatusOK, [("message", Entry.text "Fetched!"), ("data", Entry.data u),
          ("success", Entry.flag true)]⟩, c1)

/-- Method `CreateNewParticipationOption` of `*ParticipationOptionDB` (`partoptn/participation_option.go`).  `none` stands for a nil-pointer panic
in `CreateNewPartOption`. -/
def ParticipationOptionDB.CreateNewParticipationOption {σ : Type} (v : Validator) (r : ParticipationOptionDB σ) (c : Conn σ)
    (body : Except String partOption) : Option (Response partOption × Conn σ) :=
  match body with
  | Except.error err => some (⟨StatusInternalServerError, [("error", Entry.text err), ("success", Entry.flag false)]⟩, c)
  | Except.ok s =>
    match v.Struct (partOption.failedChecks s) with
    | some err => some (⟨StatusBadRequest, [("error", Entry.text err), ("success", Entry.flag false)]⟩, c)
    | none =>
      match CreateNewPartOption r.db c s with
      | none => none
      | some (some err, c1) => some (⟨StatusInternalServerError, [("error", Entry.text err), ("success", Entry.flag false)]⟩, c1)
      | some (none, c1) =>
        some (⟨StatusCreated, [("message", Entry.text "Created new participation option!"), ("data", Entry.data s),
          ("success", Entry.flag true)]⟩, c1)

/-- Method `UpdateParticipationOptionByName` of `*ParticipationOptionDB` (`partoptn/participation_option.go`). -/
def ParticipationOptionDB.UpdateParticipationOptionByName {σ : Type} (r : ParticipationOptionDB σ) (c : Conn σ) (body : Except String partOption)
    (ctx : Context) : Response partOption × Conn σ :=
  match body with
  | Except.error err => (⟨StatusInternalServerError, [("error", Entry.text err), ("success", Entry.flag false)]⟩, c)
  | Except.ok u =>
    let name := ctx.Param "name"
    match UpdatePartOptionByName r.db c u name with
    | (some err, c1) =>
      if err == "not found" then
        (⟨StatusNotFound, [("error", Entry.text err), ("success", Entry.flag false)]⟩, c1)
      else if err == "invalid values" then
        (⟨StatusBadRequest, [("error", Entry.text err), ("success", Entry.flag false)]⟩, c1)
      else
        (⟨StatusInternalServerError, [("error", Entry.text err), ("success", Entry.flag false)]⟩, c1)
    | (none, c1) =>
      (⟨StatusOK, [("message", Entry.text "Participation option updated successfully"), ("data", Entry.data u),
        ("success", Entry.flag true)]⟩, c1)

/-- Method `DeleteParticipationOptionByName` of `*ParticipationOptionDB` (`partoptn/participation_option.go`). -/
def ParticipationOptionDB.DeleteParticipationOptionByName {σ : Type} (r : ParticipationOptionDB σ) (c : Conn σ) (ctx : Context) :
    Response Unit × Conn σ :=
  let name := ctx.Param "name"
  match DeletePartOptionByName r.db c name with
  | (some err, c1) => (⟨StatusInternalServerError, [("error", Entry.text err), ("success", Entry.flag false)]⟩, c1)
  | (none, c1) =>
    (⟨StatusOK, [("message", Entry.text "Participation option deleted successfully!"), ("success", Entry.flag true)]⟩, c1)

/-- Method `GetParticipationStatusByID` of `*ParticipationStatusDB` (`partstatus/participation_status.go`). -/
def ParticipationStatusDB.GetParticipationStatusByID {σ : Type} (r : ParticipationStatusDB σ) (c : Conn σ) (ctx : Context) :
    Response participationStatusResponse × Conn σ :=
  let id := ctx.Param "id"
  match getParticipationStatusByID r c id with
  | ((_, some err), c1) =>
    if err == "not found" then
      (⟨StatusNotFound, [("error", Entry.text err), ("success", Entry.flag false)]⟩, c1)
    else
      (⟨StatusInternalServerError, [("error", Entry.text err), ("success", Entry.flag false)]⟩, c1)
  | ((u, none), c1) =>
    (⟨StatusOK, [("message", Entry.text "Fetched!"), ("data", Entry.data u),
      ("success", Entry.flag true)]⟩, c1)

/-- Method `GetAllParticipationStatus` of `*ParticipationStatusDB` (`partstatus/participation_status.go`). -/
def ParticipationStatusDB.GetAllParticipationStatus {σ : Type} (r : ParticipationStatusDB σ) (c : Conn σ) (ctx : Context) :
    Response (List participationStatusResponse) × Conn σ :=
  let skip := ctx.Query "skip"
  let limit := ctx.Query "limit"
  let eventID := ctx.Query "eventid"
  let skip := if skip == "" then "0" else skip
  let limit := if limit == "" then "10" else limit
  match Atoi skip with
  | none =>
    (⟨StatusBadRequest, [("error", Entry.text "Invalid skip value! Accepted value is INTEGER"), ("success", Entry.flag false)]⟩, c)
  | some intSkip =>
    match Atoi limit with
    | none =>
      (⟨StatusBadRequest, [("error", Entry.text "Invalid limit value! Accepted value is INTEGER"), ("success", Entry.flag false)]⟩, c)
    | some intLimit =>
      match getAllParticipationStatus r c intSkip intLimit eventID with
      | ((_, some err), c1) => (⟨StatusInternalServerError, [("error", Entry.text err), ("success", Entry.flag false)]⟩, c1)
      | ((u, none), c1) =>
        (⟨StatusOK, [("message", Entry.text "Fetched!"), ("data", Entry.data u),
          ("success", Entry.flag true)]⟩, c1)

/-- Method `CreateNewParticipationStatus` of `*ParticipationStatusDB` (`partstatus/participation_status.go`). -/
def ParticipationStatusDB.CreateNewParticipationStatus {σ : Type} (v : Validator) (r : ParticipationStatusDB σ) (c : Conn σ)
    (body : Except String participationStatus) : Response participationStatus × Conn σ :=
  match body with
  | Except.error err => (⟨StatusInternalServerError, [("error", Entry.text err), ("success", Entry.flag false)]⟩, c)
  | Except.ok s =>
    match v.Struct (participationStatus.failedChecks s) with
    | some err => (⟨StatusBadRequest, [("error", Entry.text err), ("success", Entry.flag false)]⟩, c)
    | none =>
      match createNewParticipationStatus r.db c s with
      | (some err, c1) => (⟨StatusInternalServerError, [("error", Entry.text err), ("success", Entry.flag false)]⟩, c1)
      | (none, c1) =>
        (⟨StatusCreated, [("message", Entry.text "Created new Participation Status!"), ("data", Entry.data s),
          ("success", Entry.flag true)]⟩, c1)

/-- Method `UpdateParticipationStatusByID` of `*ParticipationStatusDB` (`partstatus/participation_status.go`). -/
def ParticipationStatusDB.UpdateParticipationStatusByID {σ : Type} (r : ParticipationStatusDB σ) (c : Conn σ) (body : Except String participationStatus)
    (ctx : Context) (now : Time) : Response participationStatus × Conn σ :=
  match body with
  | Except.error err => (⟨StatusInternalServerError, [("error", Entry.text err), ("success", Entry.flag false)]⟩, c)
  | Except.ok u =>
    let id := ctx.Param "id"
    match updateParticipationStatusByID r.db c u id now with
    | (some err, c1) =>
      if err == "not found" then
        (⟨StatusNotFound, [("error", Entry.text err), ("success", Entry.flag false)]⟩, c1)
      else if err == "invalid values" then
        (⟨StatusBadRequest, [("error", Entry.text err), ("success", Entry.flag false)]⟩, c1)
      else
        (⟨StatusInternalServerError, [("error", Entry.text err), ("success", Entry.flag false)]⟩, c1)
    | (none, c1) =>
      (⟨StatusOK, [("message", Entry.text "Participation Status updated successfully"), ("data", Entry.data u),
        ("success", Entry.flag true)]⟩, c1)

/-- Method `DeleteParticipationStatusByID` of `*ParticipationStatusDB` (`partstatus/participation_status.go`). -/
def ParticipationStatusDB.DeleteParticipationStatusByID {σ : Type} (r : ParticipationStatusDB σ) (c : Conn σ) (ctx : Context) :
    Response Unit × Conn σ :=
  let id := ctx.Param "id"
  match deleteParticipationStatusByID r.db c id with
  | (some err, c1) => (⟨StatusInternalServerError, [("error", Entry.text err), ("success", Entry.flag false)]⟩, c1)
  | (none, c1) =>
    (⟨StatusOK, [("message", Entry.text "Participation Status deleted successfully!"), ("success", Entry.flag true)]⟩, c1)

/-- Method `GetPlatformByName` of `*PlatformDB` (`platform/platform.go`). -/
def PlatformDB.GetPlatformByName {σ : Type} (r : PlatformDB σ) (c : Conn σ) (ctx : Context) :
    Response platformResponse × Conn σ :=
  let name := ctx.Param "name"
  match getPlatformByName r c name with
  | ((_, some err), c1) =>
    if err == "not found" then
      (⟨StatusNotFound, [("error", Entry.text err), ("success", Entry.flag false)]⟩, c1)
    else
      (⟨StatusInternalServerError, [("error", Entry.text err), ("success", Entry.flag false)]⟩, c1)
  | ((u, none), c1) =>
    (⟨StatusOK, [("message", Entry.text "Fetched!"), ("data", Entry.data u),
      ("success", Entry.flag true)]⟩, c1)

/-- Method `GetAllPlatform` of `*PlatformDB` (`platform/platform.go`). -/
def PlatformDB.GetAllPlatform {σ : Type} (r : PlatformDB σ) (c : Conn σ) (ctx : Context) :
    Response (List platformResponse) × Conn σ :=
  let skip := ctx.Query "skip"
  let limit := ctx.Query "limit"
  let skip := if skip == "" then "0" else skip
  let limit := if limit == "" then "10" else limit
  match Atoi skip with
  | none =>
    (⟨StatusBadRequest, [("error", Entry.text "Invalid skip value! Accepted value is INTEGER"), ("success", Entry.flag false)]⟩, c)
  | some intSkip =>
    match Atoi limit with
    | none =>
      (⟨StatusBadRequest, [("error", Entry.text "Invalid limit value! Accepted value is INTEGER"), ("success", Entry.flag false)]⟩, c)
    | some intLimit =>
      match SrvEvent.GetAllPlatform r c intSkip intLimit with
      | ((_, some err), c1) => (⟨StatusInternalServerError, [("error", Entry.text err), ("success", Entry.flag false)]⟩, c1)
      | ((u, none), c1) =>
        (⟨StatusOK, [("message", Entry.text "Fetched!"), ("data", Entry.data u),
          ("success", Entry.flag true)]⟩, c1)

/-- Method `CreateNewPlatform` of `*PlatformDB` (`platform/platform.go`).  `none` stands for a nil-pointer panic
in `CreateNewPlatform`. -/
def PlatformDB.CreateNewPlatform {σ : Type} (v : Validator) (r : PlatformDB σ) (c : Conn σ)
    (body : Except String platform) : Option (Response platform × Conn σ) :=
  match body with
  | Except.error err => some (⟨StatusInternalServerError, [("error", Entry.text err), ("success", Entry.flag false)]⟩, c)
  | Except.ok s =>
    match v.Struct (platform.failedChecks s) with
    | some err => some (⟨StatusBadRequest, [("error", Entry.text err), ("success", Entry.flag false)]⟩, c)
    | none =>
      match SrvEvent.CreateNewPlatform r.db c s with
      | none => none
      | some (some err, c1) => some (⟨StatusInternalServerError, [("error", Entry.text err), ("success", Entry.flag false)]⟩, c1)
      | some (none, c1) =>
        some (⟨StatusCreated, [("message", Entry.text "Created new platform!"), ("data", Entry.data s),
          ("success", Entry.flag true)]⟩, c1)

/-- Method `UpdatePlatformByName` of `*PlatformDB` (`platform/platform.go`). -/
def PlatformDB.UpdatePlatformByName {σ : Type} (r : PlatformDB σ) (c : Conn σ) (body : Except String platform)
    (ctx : Context) : Response platform × Conn σ :=
  match body with
  | Except.error err => (⟨StatusInternalServerError, [("error", Entry.text err), ("success", Entry.flag false)]⟩, c)
  | Except.ok u =>
    let name := ctx.Param "name"
    match SrvEvent.UpdatePlatformByName r.db c u name with
    | (some err, c1) =>
      if err == "not found" then
        (⟨StatusNotFound, [("error", Entry.text err), ("success", Entry.flag false)]⟩, c1)
      else if err == "invalid values" then
        (⟨StatusBadRequest, [("error", Entry.text err), ("success", Entry.flag false)]⟩, c1)
      else
        (⟨StatusInternalServerError, [("error", Entry.text err), ("success", Entry.flag false)]⟩, c1)
    | (none, c1) =>
      (⟨StatusOK, [("message", Entry.text "platform updated successfully"), ("data", Entry.data u),
        ("success", Entry.flag true)]⟩, c1)

/-- Method `DeletePlatformByName` of `*PlatformDB` (`platform/platform.go`). -/
def PlatformDB.DeletePlatformByName {σ : Type} (r : PlatformDB σ) (c : Conn σ) (ctx : Context) :
    Response Unit × Conn σ :=
  let name := ctx.Param "name"
  match SrvEvent.DeletePlatformByName r.db c name with
  | (some err, c1) => (⟨StatusInternalServerError, [("error", Entry.text err), ("success", Entry.flag false)]⟩, c1)
  | (none, c1) =>
    (⟨StatusOK, [("message", Entry.text "platform deleted successfully!"), ("success", Entry.flag true)]⟩, c1)

/-! ## Routes

`Router.Init` of `main.go` registers each handler under a path; a path segment
`:name` binds the route parameter `name` to the matching segment of the request. -/

/-- Route `participant.GET("email/:email", r.participant.GetParticipantByEmail)` of
`Router.Init`: a request `GET /v1/participant/email/<email>` runs the handler with
the route parameter `email` bound to the segment. -/
def routeParticipantByEmail {σ : Type} (r : ParticipantDB σ) (c : Conn σ) (email : String)
    (queryValues : List (String × String)) : Response partResponse × Conn σ :=
  ParticipantDB.GetParticipantByEmail r c
    { Params := [("email", email)], QueryValues := queryValues }

/-! ## Properties of the handlers -/

/-- A validator whose format checks accept everything and whose error text is
the list of the failed tags. -/
def plainValidator : Validator :=
  { uuid := fun _ => true
    email := fun _ => true
    describe := fun failed => ", ".intercalate (failed.map (fun f => f.1 ++ ": " ++ f.2)) }

/-- The get-by-key contract of one operation `get` (statement text `sql`, empty
record `empty`) and its handler `handler`, which reads the key from the route
parameter `param`: by what the store answers to the statement,
* no row: the operation returns `not found` with the empty record, the handler 404;
* a row: the operation returns its record and no error, the handler 200 with
  `success` true and the record as data;
* another error: the operation returns it unchanged with the empty record, and
  the handler answers 500 unless the text of the error is itself `not found`. -/
def GetByKeyContract {σ ρ : Type} (sql : String) (empty : ρ) (param : String)
    (get : DB σ ρ → Conn σ → String → (ρ × Option String) × Conn σ)
    (handler : DB σ ρ → Conn σ → Context → Response ρ × Conn σ) : Prop :=
  ∀ (r : DB σ ρ) (c : Conn σ) (ctx : Context),
    match r.rows.queryRow ⟨sql, [Value.str (ctx.Param param)]⟩ c.store with
    | RowAnswer.noRows =>
      (get r c (ctx.Param param)).1 = (empty, some "not found") ∧
      (handler r c ctx).1
        = ⟨StatusNotFound, [("error", Entry.text "not found"), ("success", Entry.flag false)]⟩
    | RowAnswer.row u =>
      (get r c (ctx.Param param)).1 = (u, none) ∧
      (handler r c ctx).1
        = ⟨StatusOK, [("message", Entry.text "Fetched!"), ("data", Entry.data u),
            ("success", Entry.flag true)]⟩
    | RowAnswer.error msg =>
      (get r c (ctx.Param param)).1 = (empty, some msg) ∧
      (msg ≠ "not found" →
        (handler r c ctx).1
          = ⟨StatusInternalServerError,
              [("error", Entry.text msg), ("success", Entry.flag false)]⟩)

/-- A participant store with one row, found whatever the statement. -/
def oneParticipant : ParticipantDB Unit :=
  { db := noRowPool
    rows :=
      { queryRow := fun _ _ => RowAnswer.row { ID := some 1, Email := some "a@b.c" }
        query := fun _ _ => RowsAnswer.rows [{ ID := some 1, Email := some "a@b.c" }] none } }

/-- An event store whose reads all fail with the error `msg`. -/
def failingEvents (msg : String) : EventDB Unit :=
  { db := noRowPool
    rows := { queryRow := fun _ _ => RowAnswer.error msg
              query := fun _ _ => RowsAnswer.queryError msg } }

/-- An event store that holds no row. -/
def noEvents : EventDB Unit :=
  { db := noRowPool
    rows := { queryRow := fun _ _ => RowAnswer.noRows
              query := fun _ _ => RowsAnswer.rows [] none } }

/-- The paging of a list request after defaulting: `skip` is 0 when the query
value `skip` is missing or empty and else its integer value, `limit` is 10 when
the query value `limit` is missing or empty and else its integer value. -/
def Paging (ctx : Context) (skip limit : Int) : Prop :=
  (ctx.Query "skip" = "" ∧ skip = 0 ∨ Atoi (ctx.Query "skip") = some skip) ∧
  (ctx.Query "limit" = "" ∧ limit = 10 ∨ Atoi (ctx.Query "limit") = some limit)

/-- Statement of a list function whose format is the fixed text `sql` followed by
`" LIMIT %d OFFSET %d"`, for the arguments `limit, skip`. -/
def listStatement (sql : String) (limit skip : Int) : Statement :=
  ⟨sql ++ " LIMIT " ++ toString limit ++ " OFFSET " ++ toString skip, []⟩

/-- Statement of `getAllEvent` for a slug and the arguments `limit, skip`. -/
def eventListStatement (other : List Char → List Int → String) (slug : String)
    (limit skip : Int) : Statement :=
  ⟨Sprintf other
      (getAllEventSQL ++ buildAndGetWhereEventQuery slug ++ " LIMIT %d OFFSET %d").data
      [limit, skip], []⟩

/-- Statement of `getAllParticipationStatus` for an event id and `limit, skip`. -/
def participationStatusListStatement (eventID : String) (limit skip : Int) : Statement :=
  ⟨getAllParticipationStatusSQL ++ (buildAndGetWhereQuery eventID).1
      ++ (buildAndGetWhereQuery eventID).2 ++ " LIMIT $1 OFFSET $2",
    [Value.int limit, Value.int skip]⟩

/-- A list handler queries the store once, with the statement `stmt` for the
paging of the request. -/
def QueriesWithPaging {σ ρ : Type}
    (handler : DB σ ρ → Conn σ → Context → Response (List ρ) × Conn σ)
    (stmt : Context → Int → Int → Statement) : Prop :=
  ∀ (r : DB σ ρ) (c : Conn σ) (ctx : Context) (skip limit : Int), Paging ctx skip limit →
    (handler r c ctx).2.issued = c.issued ++ [stmt ctx limit skip]

/-- A list handler answers a request with `skip=0` and `limit=10` on a store
without rows with 200, `success` true and the empty sequence. -/
def EmptyListIsOK {σ ρ : Type}
    (handler : DB σ ρ → Conn σ → Context → Response (List ρ) × Conn σ)
    (stmt : Context → Int → Int → Statement) : Prop :=
  ∀ (r : DB σ ρ) (c : Conn σ) (ctx : Context),
    ctx.Query "skip" = "0" → ctx.Query "limit" = "10" →
    r.rows.query (stmt ctx 10 0) c.store = RowsAnswer.rows [] none →
    (handler r c ctx).1
      = ⟨StatusOK, [("message", Entry.text "Fetched!"), ("data", Entry.data []),
          ("success", Entry.flag true)]⟩

/-- A list handler answers 500 with the error when the query fails or the row
loop stops with an error. -/
def FailedListIs500 {σ ρ : Type}
    (handler : DB σ ρ → Conn σ → Context → Response (List ρ) × Conn σ)
    (stmt : Context → Int → Int → Statement) : Prop :=
  ∀ (r : DB σ ρ) (c : Conn σ) (ctx : Context) (skip limit : Int) (msg : String)
    (scanned : List ρ), Paging ctx skip limit →
    (r.rows.query (stmt ctx limit skip) c.store = RowsAnswer.queryError msg ∨
      r.rows.query (stmt ctx limit skip) c.store = RowsAnswer.rows scanned (some msg)) →
    (handler r c ctx).1
      = ⟨StatusInternalServerError, [("error", Entry.text msg), ("success", Entry.flag false)]⟩

/-- How an update handler (success text `message`, key in the route parameter
`param`) maps the result of its data-access function `update`: no error gives
200 with the record as data; the error `not found` gives 404, `invalid values`
400 and any other 500, each with the text of the error. -/
def UpdateStatusMapping {σ α : Type} (message param : String)
    (update : Conn σ → α → String → Option String × Conn σ)
    (handler : Conn σ → Except String α → Context → Response α × Conn σ) : Prop :=
  ∀ (c : Conn σ) (u : α) (ctx : Context),
    (handler c (Except.ok u) ctx).1 =
      match (update c u (ctx.Param param)).1 with
      | none =>
        ⟨StatusOK, [("message", Entry.text message), ("data", Entry.data u),
          ("success", Entry.flag true)]⟩
      | some msg =>
        ⟨if msg = "not found" then StatusNotFound
          else if msg = "invalid values" then StatusBadRequest
          else StatusInternalServerError,
          [("error", Entry.text msg), ("success", Entry.flag false)]⟩

/-- Body with exactly the keys `message`, `data`, `success`, and `success` true. -/
def SuccessBody {α : Type} (body : List (String × Entry α)) : Prop :=
  body.map Prod.fst = ["message", "data", "success"] ∧
  body.lookup "success" = some (Entry.flag true)

/-- Body with exactly the keys `message`, `success`, and `success` true. -/
def BareSuccessBody {α : Type} (body : List (String × Entry α)) : Prop :=
  body.map Prod.fst = ["message", "success"] ∧
  body.lookup "success" = some (Entry.flag true)

/-- Body with exactly the keys `error`, `success`, and `success` false. -/
def FailureBody {α : Type} (body : List (String × Entry α)) : Prop :=
  body.map Prod.fst = ["error", "success"] ∧
  body.lookup "success" = some (Entry.flag false)

/-- The response envelope: a success (status below 400) has the keys `message`,
`data`, `success`; a failure has the keys `error`, `success`. -/
def Envelope {α : Type} (resp : Response α) : Prop :=
  if resp.status < 400 then SuccessBody resp.body else FailureBody resp.body

/-- The envelope of the delete handlers: a success has the keys `message`,
`success`; a failure has the keys `error`, `success`. -/
def DeleteEnvelope {α : Type} (resp : Response α) : Prop :=
  if resp.status < 400 then BareSuccessBody resp.body else FailureBody resp.body

/-- Shape shared by the get-by-key functions. -/
def getByKey {σ ρ : Type} (sql : String) (empty : ρ) (r : DB σ ρ) (c : Conn σ) (key : String) :
    (ρ × Option String) × Conn σ :=
  match DB.QueryRow r c ⟨sql, [Value.str key]⟩ with
  | (RowAnswer.row u, c1) => ((u, none), c1)
  | (RowAnswer.noRows, c1) => ((empty, some "not found"), c1)
  | (RowAnswer.error err, c1) => ((empty, some err), c1)

/-- Shape shared by the get-by-key handlers, after the data-access call. -/
def respondGet {σ ρ : Type} (res : (ρ × Option String) × Conn σ) : Response ρ × Conn σ :=
  match res with
  | ((_, some err), c1) =>
    if err == "not found" then
      (⟨StatusNotFound, [("error", Entry.text err), ("success", Entry.flag false)]⟩, c1)
    else
      (⟨StatusInternalServerError, [("error", Entry.text err), ("success", Entry.flag false)]⟩, c1)
  | ((u, none), c1) =>
    (⟨StatusOK, [("message", Entry.text "Fetched!"), ("data", Entry.data u),
      ("success", Entry.flag true)]⟩, c1)

/-- Shape shared by the list functions. -/
def runList {σ ρ : Type} (r : DB σ ρ) (c : Conn σ) (stmt : Statement) :
    (List ρ × Option String) × Conn σ :=
  match DB.Query r c stmt with
  | (RowsAnswer.queryError err, c1) => (([], some err), c1)
  | (RowsAnswer.rows u err, c1) => ((u, err), c1)

/-- Shape shared by the list handlers, after the data-access call. -/
def respondList {σ ρ : Type} (res : (List ρ × Option String) × Conn σ) :
    Response (List ρ) × Conn σ :=
  match res with
  | ((_, some err), c1) =>
    (⟨StatusInternalServerError, [("error", Entry.text err), ("success", Entry.flag false)]⟩, c1)
  | ((u, none), c1) =>
    (⟨StatusOK, [("message", Entry.text "Fetched!"), ("data", Entry.data u),
      ("success", Entry.flag true)]⟩, c1)

/-- What `GetAllEvent` does after the data-access call. -/
def respondListEvent {σ ρ : Type} (res : (List ρ × Option String) × Conn σ) :
    Response (List ρ) × Conn σ :=
  match res with
  | ((fetchedEvents, err), c1) =>
    if fetchedEvents.length == 0 then
      (⟨StatusNotFound, [("error", Entry.text "no event found"), ("success", Entry.flag false)]⟩,
        c1)
    else
      match err with
      | some err =>
        (⟨StatusInternalServerError, [("error", Entry.text err), ("success", Entry.flag false)]⟩,
          c1)
      | none =>
        (⟨StatusOK, [("message", Entry.text "Fetched!"), ("data", Entry.data fetchedEvents),
          ("success", Entry.flag true)]⟩, c1)

/-- Shape shared by the list handlers, up to the data-access call `next`. -/
def parsePaging {σ α : Type} (ctx : Context) (c : Conn σ)
    (next : Int → Int → Response α × Conn σ) : Response α × Conn σ :=
  let skip := ctx.Query "skip"
  let limit := ctx.Query "limit"
  let skip := if skip == "" then "0" else skip
  let limit := if limit == "" then "10" else limit
  match Atoi skip with
  | none =>
    (⟨StatusBadRequest, [("error", Entry.text "Invalid skip value! Accepted value is INTEGER"),
      ("success", Entry.flag false)]⟩, c)
  | some intSkip =>
    match Atoi limit with
    | none =>
      (⟨StatusBadRequest, [("error", Entry.text "Invalid limit value! Accepted value is INTEGER"),
        ("success", Entry.flag false)]⟩, c)
    | some intLimit => next intSkip intLimit

/-- Shape shared by the update handlers, after the data-access call. -/
def respondUpdate {σ α : Type} (message : String) (u : α) (res : Option String × Conn σ) :
    Response α × Conn σ :=
  match res with
  | (some err, c1) =>
    if err == "not found" then
      (⟨StatusNotFound, [("error", Entry.text err), ("success", Entry.flag false)]⟩, c1)
    else if err == "invalid values" then
      (⟨StatusBadRequest, [("error", Entry.text err), ("success", Entry.flag false)]⟩, c1)
    else
      (⟨StatusInternalServerError, [("error", Entry.text err), ("success", Entry.flag false)]⟩, c1)
  | (none, c1) =>
    (⟨StatusOK, [("message", Entry.text message), ("data", Entry.data u),
      ("success", Entry.flag true)]⟩, c1)

/-- Shape shared by the create handlers, after the data-access call. -/
def respondCreate {σ α : Type} (message : String) (s : α) (res : Option String × Conn σ) :
    Response α × Conn σ :=
  match res with
  | (some err, c1) =>
    (⟨StatusInternalServerError, [("error", Entry.text err), ("success", Entry.flag false)]⟩, c1)
  | (none, c1) =>
    (⟨StatusCreated, [("message", Entry.text message), ("data", Entry.data s),
      ("success", Entry.flag true)]⟩, c1)

/-- Shape shared by the create handlers, up to the data-access call `next`. -/
def bindAndValidate {σ α β : Type} (v : Validator) (failed : α → List (String × String))
    (c : Conn σ) (body : Except String α) (wrap : Response α × Conn σ → β) (next : α → β) : β :=
  match body with
  | Except.error err =>
    wrap (⟨StatusInternalServerError, [("error", Entry.text err), ("success", Entry.flag false)]⟩,
      c)
  | Except.ok s =>
    match v.Struct (failed s) with
    | some err =>
      wrap (⟨StatusBadRequest, [("error", Entry.text err), ("success", Entry.flag false)]⟩, c)
    | none => next s

/-- Shape shared by the delete handlers, after the data-access call. -/
def respondDelete {σ : Type} (message : String) (res : Option String × Conn σ) :
    Response Unit × Conn σ :=
  match res with
  | (some err, c1) =>
    (⟨StatusInternalServerError, [("error", Entry.text err), ("success", Entry.flag false)]⟩, c1)
  | (none, c1) =>
    (⟨StatusOK, [("message", Entry.text message), ("success", Entry.flag true)]⟩, c1)

/-- Shape shared by the delete functions with one placeholder. -/
def execDelete {σ : Type} (r : Pool σ) (c : Conn σ) (stmt : Statement) : Option String × Conn σ :=
  match r.Exec c stmt with
  | (ExecResult.error err, c1) => (some err, c1)
  | (ExecResult.rows _, c1) => (none, c1)

/-! ## Reading column lists back -/

/-- Words of a statement text: the pieces between blanks, line breaks and commas. -/
def sqlWords (sql : String) : List String :=
  ((sql.data.splitOnP (fun ch => ch.isWhitespace || ch == ',')).filter
    (fun w => !w.isEmpty)).map String.mk

/-- Columns that a text `select <columns> from ...` selects: the words after
`select`, up to `from`. -/
def selectedColumns (sql : String) : List String :=
  ((sqlWords sql).drop 1).takeWhile (fun w => w != "from")

/-- Columns that a text `INSERT INTO <table> (<columns>) VALUES ...` writes: the
words between the first `(` and the first `)`. -/
def insertedColumns (sql : String) : List String :=
  sqlWords (String.mk
    (((sql.data.dropWhile (fun ch => ch != '(')).drop 1).takeWhile (fun ch => ch != ')')))

/-- Statements of a text sent in one `Exec` without arguments: the pieces between
`;`, the empty ones left out. -/
def sqlStatements (sql : String) : List String :=
  ((sql.data.splitOn ';').filter (fun p => !p.isEmpty)).map String.mk

/-- Every column that a builder-based create operation can write (the columns of
the text its builder returns, for any request) is selected by the text `sql`. -/
def WritesOnlySelected {α : Type} (builder : α → String × String × List Value)
    (sql : String) : Prop :=
  ∀ (req : α), ∀ col ∈ splitComma (builder req).1, col ∈ selectedColumns sql

/-- Every column that a direct-insert create operation writes (the columns of the
statement it sends) is selected by the text `sql`. -/
def InsertsOnlySelected {σ α : Type}
    (create : Pool σ → Conn σ → α → Option (Option String × Conn σ)) (sql : String) : Prop :=
  ∀ (r : Pool σ) (c : Conn σ) (req : α) (res : Option String × Conn σ) (stmt : Statement),
    create r c req = some res → res.2.issued = c.issued ++ [stmt] →
    ∀ col ∈ insertedColumns stmt.sql, col ∈ selectedColumns sql

/-! ## Properties of statements -/

/-- The statement `UPDATE <table> SET <assignments> WHERE <keyColumn>=<key>` with
the arguments of the assignments: the key is part of the text. -/
def updateStatement (table keyColumn : String) (built : String × List Value) (key : String) :
    Statement :=
  ⟨"UPDATE " ++ table ++ " SET " ++ built.1 ++ " WHERE " ++ keyColumn ++ "=" ++ key, built.2⟩

/-- An update operation `update` with the builder result `built` sends exactly the
statement `updateStatement table keyColumn built key`, and every argument of it
belongs to an assignment: there are as many arguments as assignments. -/
def InterpolatesKey {σ : Type} (table keyColumn : String) (built : String × List Value)
    (update : Pool σ → Conn σ → String → Option String × Conn σ) : Prop :=
  ∀ (r : Pool σ) (c : Conn σ) (key : String),
    (update r c key).2.issued = c.issued ++ [updateStatement table keyColumn built key] ∧
    (updateStatement table keyColumn built key).args.length = (splitComma built.1).length

/-- An update operation `update` for the new name `newName` sends exactly the
statement `sql` with the arguments `newName`, `key`: the key is the second argument. -/
def BindsKey {σ : Type} (sql newName : String)
    (update : Pool σ → Conn σ → String → Option String × Conn σ) : Prop :=
  ∀ (r : Pool σ) (c : Conn σ) (key : String),
    (update r c key).2.issued = c.issued ++ [⟨sql, [Value.str newName, Value.str key]⟩]

/-! ## Further properties of the handlers -/

/-- A list handler answers 400 before it queries the store when a paging value
does not convert with `strconv.Atoi`: a non-empty `skip` that does not convert
gives the skip error whatever `limit` is; when `skip` is empty or converts, a
non-empty `limit` that does not convert gives the limit error.  The connection
is the one the handler was given. -/
def RejectsBadPaging {σ α : Type} (handler : Conn σ → Context → Response α × Conn σ) : Prop :=
  ∀ (c : Conn σ) (ctx : Context),
    (ctx.Query "skip" ≠ "" → Atoi (ctx.Query "skip") = none →
      handler c ctx
        = (⟨StatusBadRequest, [("error", Entry.text "Invalid skip value! Accepted value is INTEGER"),
            ("success", Entry.flag false)]⟩, c)) ∧
    ((ctx.Query "skip" = "" ∨ (Atoi (ctx.Query "skip")).isSome = true) →
      ctx.Query "limit" ≠ "" → Atoi (ctx.Query "limit") = none →
      handler c ctx
        = (⟨StatusBadRequest, [("error", Entry.text "Invalid limit value! Accepted value is INTEGER"),
            ("success", Entry.flag false)]⟩, c))

/-- A list handler passes the converted paging values on as they are: when `skip`
and `limit` convert with `strconv.Atoi`, it queries the store once, with the
statement `stmt` for exactly these two values. -/
def PassesPaging {σ ρ : Type}
    (handler : DB σ ρ → Conn σ → Context → Response (List ρ) × Conn σ)
    (stmt : Context → Int → Int → Statement) : Prop :=
  ∀ (r : DB σ ρ) (c : Conn σ) (ctx : Context) (skip limit : Int),
    Atoi (ctx.Query "skip") = some skip → Atoi (ctx.Query "limit") = some limit →
    (handler r c ctx).2.issued = c.issued ++ [stmt ctx limit skip]

/-- Statement of `deleteEventByID` for an id. -/
def softDeleteEventStatement (id : String) : Statement :=
  ⟨"UPDATE event SET deleted = true WHERE id=" ++ id ++ ";"
      ++ ("UPDATE event_item SET deleted = true WHERE event_id=" ++ id ++ ";")
      ++ ("UPDATE event_participation_option SET deleted = true WHERE event_id=" ++ id ++ ";")
      ++ ("UPDATE participation_status SET deleted = true WHERE event_id=" ++ id ++ ";"), []⟩

/-- The contract of a delete handler with the success text `message` that sends
the statement `stmt`: it sends that one statement; whenever the store returns no
error, whatever the number of affected rows, it answers 200 with `success` true;
when the store returns an error it answers 500 with the text of the error; it
never answers 404 or 400. -/
def DeleteContract {σ ρ : Type} (message : String) (stmt : Context → Statement)
    (handler : DB σ ρ → Conn σ → Context → Response Unit × Conn σ) : Prop :=
  ∀ (r : DB σ ρ) (c : Conn σ) (ctx : Context),
    (handler r c ctx).2.issued = c.issued ++ [stmt ctx] ∧
    (∀ n, (r.db.exec (stmt ctx) c.store).1 = ExecResult.rows n →
      (handler r c ctx).1
        = ⟨StatusOK, [("message", Entry.text message), ("success", Entry.flag true)]⟩) ∧
    (∀ e, (r.db.exec (stmt ctx) c.store).1 = ExecResult.error e →
      (handler r c ctx).1
        = ⟨StatusInternalServerError, [("error", Entry.text e), ("success", Entry.flag false)]⟩) ∧
    (handler r c ctx).1.status ≠ StatusNotFound ∧
    (handler r c ctx).1.status ≠ StatusBadRequest

/-- What a builder-based create operation does with the answer of `Exec`. -/
def execCreate {σ : Type} (r : Pool σ) (c : Conn σ) (stmt : Statement) (msg : String) :
    Option String × Conn σ :=
  match r.Exec c stmt with
  | (ExecResult.error err, c1) => (some (msg ++ err), c1)
  | (ExecResult.rows _, c1) => (none, c1)

/-! ## Auxiliary definitions for the proofs -/

/-- Columns of the fields that are present, in order. -/
def presentCols (fs : Fields) : List String := fs.filterMap (fun f => f.2.map (fun _ => f.1))

/-- Values of the fields that are present, in order. -/
def presentVals (fs : Fields) : List Value := fs.filterMap (fun f => f.2)

/-- The blocks of an update builder, one per listed field. -/
def runUpdate (fs : Fields) (st : UpdateAcc) : UpdateAcc :=
  fs.foldl (fun st f => setIfPresent f.1 f.2 st) st

/-- The blocks of a create builder, one per listed field. -/
def runCreate (fs : Fields) (st : CreateAcc) : CreateAcc :=
  fs.foldl (fun st f => addIfPresent f.1 f.2 st) st

/-- Columns an update builder assigns, given the fields it reads and whether it
ends with the `updated_at` block. -/
def updateCols (fs : Fields) (touch : Bool) : List String :=
  presentCols fs ++ (if touch && (presentVals fs).length != 0 then ["updated_at"] else [])

/-- Arguments an update builder returns. -/
def updateArgs (fs : Fields) (touch : Option Time) : List Value :=
  presentVals fs ++
    (match touch with
     | some now => if (presentVals fs).length != 0 then [Value.time now] else []
     | none => [])

/-- A column name that contains neither `,` nor `=` and is not empty. -/
def Clean (c : String) : Prop := ',' ∉ c.data ∧ '=' ∉ c.data ∧ c ≠ ""

instance (c : String) : Decidable (Clean c) := by unfold Clean; infer_instance

/-- Column names of a record: pairwise distinct, clean, and none is `updated_at`. -/
def GoodCols (names : List String) : Prop :=
  names.Nodup ∧ "updated_at" ∉ names ∧ ∀ c ∈ names, Clean c

instance (names : List String) : Decidable (GoodCols names) := by unfold GoodCols; infer_instance

/-- What an update operation does with the answer of `Exec`. -/
def execUpdate {σ : Type} (r : Pool σ) (c : Conn σ) (stmt : Statement) (msg : String) :
    Option String × Conn σ :=
  match r.Exec c stmt with
  | (ExecResult.error err, c1) => (some (msg ++ err), c1)
  | (ExecResult.rows n, c1) => if n == 0 then (some "not found", c1) else (none, c1)

/-! ## Lemmas on joined text and numbering -/

theorem intercalate_go_data (sep : String) (l : List String) (acc : String) :
    (String.intercalate.go acc sep l).data
      = acc.data ++ (l.map (fun a => sep.data ++ a.data)).flatten := by
  induction l generalizing acc with
  | nil => simp [String.intercalate.go]
  | cons a as ih => simp [String.intercalate.go, ih, String.data_append]

theorem intercalate_comma_data (l : List String) :
    (",".intercalate l).data = [','].intercalate (l.map String.data) := by
  cases l with
  | nil => rfl
  | cons a as =>
    simp only [String.intercalate, intercalate_go_data]
    induction as generalizing a with
    | nil => simp [List.intercalate]
    | cons b bs ih =>
      have := ih b
      simp [List.intercalate, List.intersperse] at this ⊢
      simpa using this

theorem toDigitsCore_mem (f : Nat) : ∀ (n : Nat) (ds : List Char) (c : Char),
    c ∈ Nat.toDigitsCore 10 f n ds → c ∈ ds ∨ c ∈ "0123456789".data := by
  induction f with
  | zero => intro n ds c h; exact Or.inl (by simpa [Nat.toDigitsCore] using h)
  | succ f ih =>
    intro n ds c h
    have hd : Nat.digitChar (n % 10) ∈ "0123456789".data := by
      have : n % 10 < 10 := Nat.mod_lt _ (by decide)
      interval_cases (n % 10) <;> decide
    simp only [Nat.toDigitsCore] at h
    split at h
    · rcases List.mem_cons.1 h with h | h
      · exact Or.inr (h ▸ hd)
      · exact Or.inl h
    · rcases ih _ _ _ h with h | h
      · rcases List.mem_cons.1 h with h | h
        · exact Or.inr (h ▸ hd)
        · exact Or.inl h
      · exact Or.inr h

theorem toString_nat_mem (n : Nat) (c : Char) (h : c ∈ (toString n).data) :
    c ∈ "0123456789".data := by
  have : (toString n).data = Nat.toDigits 10 n := rfl
  rw [this] at h
  rcases toDigitsCore_mem _ _ _ _ h with h | h
  · simp at h
  · exact h

theorem comma_not_mem_toString (n : Nat) : ',' ∉ (toString n).data := fun h => by
  have := toString_nat_mem n _ h
  revert this; decide


theorem numbered_length (k : Nat) (cols : List String) : (numbered k cols).length = cols.length := by
  simp [numbered]

theorem numbered_append (k : Nat) (a b : List String) :
    numbered k (a ++ b) = numbered k a ++ numbered (k + a.length) b := by
  simp [numbered, List.enumFrom_append]

theorem runUpdate_eq (fs : Fields) : ∀ (cols : List String) (vals : List Value),
    runUpdate fs (numbered 0 cols, vals)
      = (numbered 0 (cols ++ presentCols fs), vals ++ presentVals fs) := by
  induction fs with
  | nil => intro cols vals; simp [runUpdate, presentCols, presentVals]
  | cons f fs ih =>
    intro cols vals
    obtain ⟨c, v⟩ := f
    cases v with
    | none =>
      have := ih cols vals
      simpa [runUpdate, setIfPresent, presentCols, presentVals] using this
    | some x =>
      have := ih (cols ++ [c]) (vals ++ [x])
      simp only [runUpdate, List.foldl_cons, setIfPresent] at this ⊢
      rw [numbered_length]
      have e : numbered 0 cols ++ [c ++ "=$" ++ toString (cols.length + 1)]
          = numbered 0 (cols ++ [c]) := by
        rw [numbered_append]; simp [numbered]
      rw [e, this]
      simp [presentCols, presentVals]

theorem presentCols_length (fs : Fields) : (presentCols fs).length = (presentVals fs).length := by
  induction fs with
  | nil => rfl
  | cons f fs ih =>
    obtain ⟨c, v⟩ := f
    cases v <;> simp_all [presentCols, presentVals]

theorem update_touch_eq (fs : Fields) (now : Time) :
    joinUpdate (touchUpdatedAt now (runUpdate fs ([], [])))
      = (",".intercalate (numbered 0 (updateCols fs true)), updateArgs fs (some now)) := by
  have h := runUpdate_eq fs [] []
  simp only [numbered, List.enumFrom_nil, List.map_nil, List.nil_append] at h
  rw [h]
  by_cases hv : (presentVals fs).length = 0
  · simp [touchUpdatedAt, joinUpdate, updateCols, updateArgs, hv, numbered]
  · simp [touchUpdatedAt, joinUpdate, updateCols, updateArgs, hv, numbered, List.enumFrom_append]

theorem update_plain_eq (fs : Fields) :
    joinUpdate (runUpdate fs ([], []))
      = (",".intercalate (numbered 0 (updateCols fs false)), updateArgs fs none) := by
  have h := runUpdate_eq fs [] []
  simp only [numbered, List.enumFrom_nil, List.map_nil, List.nil_append] at h
  rw [h]
  simp [joinUpdate, updateCols, updateArgs, numbered]


theorem splitComma_intercalate (l : List String)
    (h : ∀ a ∈ l, ',' ∉ a.data ∧ a ≠ "") : splitComma (",".intercalate l) = l := by
  cases l with
  | nil => simp [splitComma, String.intercalate]
  | cons a as =>
    have hne : ",".intercalate (a :: as) ≠ "" := by
      intro e
      have e2 := congrArg String.data e
      rw [intercalate_comma_data] at e2
      have ha : a.data ≠ [] := fun h0 => (h a (List.mem_cons_self _ _)).2 (String.ext h0)
      cases as with
      | nil => simp [List.intercalate] at e2; exact ha e2
      | cons b bs =>
        simp [List.intercalate, List.intersperse] at e2
    have hsplit : (",".intercalate (a :: as)).data.splitOn ','
        = (a :: as).map String.data := by
      rw [intercalate_comma_data]
      apply List.splitOn_intercalate
      · intro l hl
        obtain ⟨s, hs, rfl⟩ := List.mem_map.1 hl
        exact (h s hs).1
      · simp
    simp only [splitComma, hne, if_false, hsplit, List.map_map]
    have : (String.mk ∘ String.data) = id := by funext s; rfl
    simp [this]

theorem columnOf_assignment (c : String) (n : Nat) (h : '=' ∉ c.data) :
    columnOf (c ++ "=$" ++ toString n) = c := by
  have h1 : (c ++ "=$" ++ toString n).data = c.data ++ ('=' :: '$' :: (toString n).data) := by
    simp [String.data_append]
  unfold columnOf
  rw [h1]
  have : ∀ (l r : List Char), '=' ∉ l →
      (l ++ '=' :: r).takeWhile (fun ch => ch != '=') = l := by
    intro l r hl
    induction l with
    | nil => simp
    | cons x xs ih =>
      have hx : x ≠ '=' := fun e => hl (e ▸ List.mem_cons_self _ _)
      have hxs : '=' ∉ xs := fun e => hl (List.mem_cons_of_mem _ e)
      have hb : (x != '=') = true := by simpa using hx
      rw [List.cons_append, List.takeWhile_cons, hb]
      simp [ih hxs]
  rw [this _ _ h]

theorem numbered_mem {k : Nat} {cols : List String} {a : String} (h : a ∈ numbered k cols) :
    ∃ c ∈ cols, ∃ n : Nat, a = c ++ "=$" ++ toString n := by
  induction cols generalizing k with
  | nil => simp [numbered] at h
  | cons c cs ih =>
    simp only [numbered, List.enumFrom_cons, List.map_cons, List.mem_cons] at h
    rcases h with h | h
    · exact ⟨c, List.mem_cons_self _ _, k + 1, h⟩
    · obtain ⟨c', hc', n, hn⟩ := ih (k := k + 1) (by simpa [numbered] using h)
      exact ⟨c', List.mem_cons_of_mem _ hc', n, hn⟩

theorem numbered_map_columnOf (k : Nat) (cols : List String) (h : ∀ c ∈ cols, Clean c) :
    (numbered k cols).map columnOf = cols := by
  induction cols generalizing k with
  | nil => rfl
  | cons c cs ih =>
    have hc := (h c (List.mem_cons_self _ _)).2.1
    have := ih (k + 1) (fun c' hc' => h c' (List.mem_cons_of_mem _ hc'))
    simp only [numbered] at this
    simp [numbered, List.enumFrom_cons, columnOf_assignment _ _ hc, this]

theorem assignedColumns_numbered (k : Nat) (cols : List String) (h : ∀ c ∈ cols, Clean c) :
    assignedColumns (",".intercalate (numbered k cols)) = cols := by
  unfold assignedColumns
  rw [splitComma_intercalate, numbered_map_columnOf k cols h]
  intro a ha
  obtain ⟨c, hc, n, rfl⟩ := numbered_mem ha
  constructor
  · simp only [String.data_append, List.mem_append, not_or]
    exact ⟨⟨(h c hc).1, by decide⟩, comma_not_mem_toString n⟩
  · intro e
    have := congrArg String.length e
    simp [String.length_append] at this
    exact absurd this.1.2 (by decide)

/-! ## Each builder as a run of blocks over the fields it reads -/

theorem prepareAudienceUpdateQuery_eq (req : audience) :
    prepareAudienceUpdateQuery req
      = (",".intercalate (numbered 0 (updateCols req.fields false)), updateArgs req.fields none) :=
  update_plain_eq req.fields

theorem prepareURLUpdateQuery_eq (req : broadcastURL) (now : Time) :
    prepareURLUpdateQuery req now
      = (",".intercalate (numbered 0 (updateCols req.fields true)), updateArgs req.fields (some now)) :=
  update_touch_eq req.fields now

theorem prepareEventUpdateQuery_eq (req : event) (now : Time) :
    prepareEventUpdateQuery req now
      = (",".intercalate (numbered 0 (updateCols req.fields true)), updateArgs req.fields (some now)) :=
  update_touch_eq req.fields now

theorem prepareEventItemUpdateQuery_eq (req : eventItem) (now : Time) :
    prepareEventItemUpdateQuery req now
      = (",".intercalate (numbered 0 (updateCols req.updateFields true)),
          updateArgs req.updateFields (some now)) :=
  update_touch_eq req.updateFields now

theorem prepareEventPartOptionUpdateQuery_eq (req : eventPartOption) (now : Time) :
    prepareEventPartOptionUpdateQuery req now
      = (",".intercalate (numbered 0 (updateCols req.fields true)), updateArgs req.fields (some now)) :=
  update_touch_eq req.fields now

theorem prepareItemUpdateQuery_eq (req : item) (now : Time) :
    prepareItemUpdateQuery req now
      = (",".intercalate (numbered 0 (updateCols req.updateFields true)),
          updateArgs req.updateFields (some now)) :=
  update_touch_eq req.updateFields now

theorem prepareItemBroadcastURLUpdateQuery_eq (req : itemBroadcastURL) (now : Time) :
    prepareItemBroadcastURLUpdateQuery req now
      = (",".intercalate (numbered 0 (updateCols req.updateFields true)),
          updateArgs req.updateFields (some now)) :=
  update_touch_eq req.updateFields now

theorem prepareParticipantUpdateQuery_eq (req : part) (now : Time) :
    prepareParticipantUpdateQuery req now
      = (",".intercalate (numbered 0 (updateCols req.fields true)), updateArgs req.fields (some now)) :=
  update_touch_eq req.fields now

theorem prepareParticipationStatusUpdateQuery_eq (req : participationStatus) (now : Time) :
    prepareParticipationStatusUpdateQuery req now
      = (",".intercalate (numbered 0 (updateCols req.fields true)), updateArgs req.fields (some now)) :=
  update_touch_eq req.fields now

/-! ## Column names of the records -/

theorem audience_good (r : audience) : GoodCols (r.fields.map Prod.fst) := by
  have : r.fields.map Prod.fst = ["name", "description"] := rfl
  rw [this]; decide

theorem broadcastURL_good (r : broadcastURL) : GoodCols (r.fields.map Prod.fst) := by
  have : r.fields.map Prod.fst = ["url", "platform", "language"] := rfl
  rw [this]; decide

theorem event_good (r : event) : GoodCols (r.fields.map Prod.fst) := by
  have : r.fields.map Prod.fst = ["registration_required", "registration_status", "audience",
    "slug", "name", "logo", "content", "deleted", "starts_on", "ends_on", "date_confirmed"] := rfl
  rw [this]; decide

theorem eventItem_good (r : eventItem) : GoodCols (r.fields.map Prod.fst) := by
  have : r.fields.map Prod.fst = ["event_id", "item_id", "deleted"] := rfl
  rw [this]; decide

theorem eventPartOption_good (r : eventPartOption) : GoodCols (r.fields.map Prod.fst) := by
  have : r.fields.map Prod.fst = ["event_id", "participation_option", "deleted"] := rfl
  rw [this]; decide

theorem item_good (r : item) : GoodCols (r.fields.map Prod.fst) := by
  have : r.fields.map Prod.fst = ["start_date", "duration", "name", "content",
    "original_language", "translated"] := rfl
  rw [this]; decide

theorem itemBroadcastURL_good (r : itemBroadcastURL) : GoodCols (r.fields.map Prod.fst) := by
  have : r.fields.map Prod.fst = ["item_id", "broadcast_url_id"] := rfl
  rw [this]; decide

theorem part_good (r : part) : GoodCols (r.fields.map Prod.fst) := by
  have : r.fields.map Prod.fst = ["keycloak_id", "first_language", "email_language", "dob",
    "gender", "email", "country", "first_name", "last_name"] := rfl
  rw [this]; decide

theorem participationStatus_good (r : participationStatus) :
    GoodCols (r.fields.map Prod.fst) := by
  have : r.fields.map Prod.fst = ["participation_option", "participant_id", "event_id",
    "confirmed", "registration_date", "deleted"] := rfl
  rw [this]; decide

theorem eventItem_updateFields_subset (r : eventItem) : r.updateFields ⊆ r.fields := by
  intro f hf
  simp only [eventItem.updateFields, eventItem.fields, List.mem_cons, List.mem_singleton,
    List.not_mem_nil, or_false] at hf ⊢
  tauto

theorem item_updateFields_subset (r : item) : r.updateFields ⊆ r.fields := by
  intro f hf
  simp only [item.updateFields, item.fields, List.mem_cons, List.mem_singleton,
    List.not_mem_nil, or_false] at hf ⊢
  tauto

theorem itemBroadcastURL_updateFields_subset (r : itemBroadcastURL) :
    r.updateFields ⊆ r.fields := by
  intro f hf
  simp only [itemBroadcastURL.updateFields, itemBroadcastURL.fields, List.mem_cons,
    List.mem_singleton, List.not_mem_nil, or_false] at hf ⊢
  tauto

/-! ## Present fields -/

theorem mem_presentCols {fs : Fields} {c : String} :
    c ∈ presentCols fs ↔ ∃ v, (c, some v) ∈ fs := by
  induction fs with
  | nil => simp [presentCols]
  | cons f fs ih =>
    obtain ⟨c', v'⟩ := f
    have ih' : c ∈ List.filterMap (fun f : String × Option Value => f.2.map (fun _ => f.1)) fs
        ↔ ∃ v, (c, some v) ∈ fs := ih
    cases v' with
    | none =>
      simp only [presentCols, List.filterMap_cons, Option.map_none', ih', List.mem_cons,
        Prod.mk.injEq, reduceCtorEq, and_false, false_or]
    | some x =>
      simp only [presentCols, List.filterMap_cons, Option.map_some', List.mem_cons, ih',
        Prod.mk.injEq, Option.some.injEq]
      constructor
      · rintro (rfl | ⟨v, hv⟩)
        · exact ⟨x, Or.inl ⟨rfl, rfl⟩⟩
        · exact ⟨v, Or.inr hv⟩
      · rintro ⟨v, ⟨rfl, _⟩ | hv⟩
        · exact Or.inl rfl
        · exact Or.inr ⟨v, hv⟩

theorem fst_unique {fs : Fields} (h : (fs.map Prod.fst).Nodup) {c : String}
    {a b : Option Value} (ha : (c, a) ∈ fs) (hb : (c, b) ∈ fs) : a = b := by
  induction fs with
  | nil => simp at ha
  | cons f fs ih =>
    simp only [List.map_cons, List.nodup_cons, List.mem_map, not_exists, not_and] at h
    rcases List.mem_cons.1 ha with ha | ha <;> rcases List.mem_cons.1 hb with hb | hb
    · have := ha.trans hb.symm
      exact (Prod.mk.inj this).2
    · exact absurd (by rw [← ha]) (h.1 _ hb)
    · exact absurd (by rw [← hb]) (h.1 _ ha)
    · exact ih h.2 ha hb

theorem lookup_of_mem {fs : Fields} (h : (fs.map Prod.fst).Nodup) {c : String}
    {a : Option Value} (ha : (c, a) ∈ fs) : fs.lookup c = some a := by
  induction fs with
  | nil => simp at ha
  | cons f fs ih =>
    obtain ⟨c', v'⟩ := f
    simp only [List.map_cons, List.nodup_cons, List.mem_map, not_exists, not_and] at h
    rcases List.mem_cons.1 ha with ha | ha
    · obtain ⟨rfl, rfl⟩ := Prod.mk.inj ha
      simp
    · have hne : c ≠ c' := fun e => h.1 (c, a) ha (by rw [e])
      rw [List.lookup_cons]
      have : (c == c') = false := by simpa using hne
      rw [this]
      exact ih h.2 ha

theorem presentVals_eq_nil_iff {fs : Fields} : presentVals fs = [] ↔ NoneSet fs := by
  induction fs with
  | nil => simp [presentVals, NoneSet]
  | cons f fs ih =>
    obtain ⟨c, v⟩ := f
    have ih' : List.filterMap (fun f : String × Option Value => f.2) fs = [] ↔ NoneSet fs := ih
    cases v with
    | none => simp [presentVals, NoneSet, ih'] at ih' ⊢
    | some x => simp [presentVals, NoneSet]

theorem someSet_iff {fs : Fields} : SomeSet fs ↔ presentVals fs ≠ [] := by
  rw [Ne, presentVals_eq_nil_iff]
  unfold SomeSet NoneSet
  constructor
  · rintro ⟨f, hf, hs⟩ hn
    rw [hn f hf] at hs
    simp at hs
  · intro hn
    by_contra hc
    apply hn
    intro f hf
    by_contra hne
    exact hc ⟨f, hf, by cases hv : f.2 <;> simp_all⟩

/-! ## What an update builder assigns -/

theorem updateCols_mem {hs : Fields} {touch : Bool} {c : String}
    (h : c ∈ updateCols hs touch) : c = "updated_at" ∨ ∃ v, (c, some v) ∈ hs := by
  unfold updateCols at h
  rcases List.mem_append.1 h with h | h
  · exact Or.inr (mem_presentCols.1 h)
  · split at h
    · exact Or.inl (by simpa using h)
    · simp at h

theorem updateCols_clean {fs hs : Fields} {touch : Bool} (hsub : hs ⊆ fs)
    (hg : GoodCols (fs.map Prod.fst)) : ∀ c ∈ updateCols hs touch, Clean c := by
  intro c hc
  rcases updateCols_mem hc with rfl | ⟨v, hv⟩
  · decide
  · exact hg.2.2 c (List.mem_map.2 ⟨(c, some v), hsub hv, rfl⟩)

theorem assignedColumns_update {fs hs : Fields} {touch : Bool} (hsub : hs ⊆ fs)
    (hg : GoodCols (fs.map Prod.fst)) :
    assignedColumns (",".intercalate (numbered 0 (updateCols hs touch))) = updateCols hs touch :=
  assignedColumns_numbered 0 _ (updateCols_clean hsub hg)

theorem omitsAbsent_update {fs hs : Fields} {touch : Bool} (hsub : hs ⊆ fs)
    (hg : GoodCols (fs.map Prod.fst)) :
    OmitsAbsent fs (",".intercalate (numbered 0 (updateCols hs touch))) := by
  intro col hcol hmem
  rw [assignedColumns_update hsub hg] at hmem
  rcases updateCols_mem hmem with rfl | ⟨v, hv⟩
  · exact hg.2.1 (List.mem_map.2 ⟨_, hcol, rfl⟩)
  · have := fst_unique hg.1 hcol (hsub hv)
    simp at this

theorem presentCols_sublist (fs : Fields) : (presentCols fs).Sublist (fs.map Prod.fst) := by
  induction fs with
  | nil => simp [presentCols]
  | cons f fs ih =>
    obtain ⟨c, v⟩ := f
    have ih' : (List.filterMap (fun f : String × Option Value => f.2.map (fun _ => f.1)) fs).Sublist
        (fs.map Prod.fst) := ih
    cases v with
    | none => simpa [presentCols] using ih'.cons c
    | some x => simpa [presentCols] using ih'.cons₂ c

theorem present_forall₂ {fs hs : Fields} (now : Time) (hsub : hs ⊆ fs)
    (hg : GoodCols (fs.map Prod.fst)) :
    List.Forall₂ (fun c v => boundValue fs now c = some v) (presentCols hs) (presentVals hs) := by
  induction hs with
  | nil => simp [presentCols, presentVals]
  | cons f hs ih =>
    obtain ⟨c, v⟩ := f
    have ih' := ih (fun x hx => hsub (List.mem_cons_of_mem _ hx))
    cases v with
    | none => simpa [presentCols, presentVals] using ih'
    | some x =>
      have hmem : (c, some x) ∈ fs := hsub (List.mem_cons_self _ _)
      have hne : c ≠ "updated_at" := fun e =>
        hg.2.1 (List.mem_map.2 ⟨_, hmem, e⟩)
      have hb : boundValue fs now c = some x := by
        simp [boundValue, hne, lookup_of_mem hg.1 hmem]
      simp only [presentCols, presentVals, List.filterMap_cons, Option.map_some']
      exact List.Forall₂.cons hb ih'

theorem update_forall₂ {fs hs : Fields} (now : Time) (touch : Bool) (hsub : hs ⊆ fs)
    (hg : GoodCols (fs.map Prod.fst)) :
    List.Forall₂ (fun c v => boundValue fs now c = some v) (updateCols hs touch)
      (updateArgs hs (if touch then some now else none)) := by
  unfold updateCols updateArgs
  apply List.rel_append (present_forall₂ now hsub hg)
  cases touch with
  | false => simp
  | true =>
    by_cases hv : (presentVals hs).length = 0
    · simp [hv]
    · simp [hv, boundValue]

theorem numberedAssignments_update {fs hs : Fields} (now : Time) (touch : Bool) (hsub : hs ⊆ fs)
    (hg : GoodCols (fs.map Prod.fst)) :
    NumberedAssignments fs now (",".intercalate (numbered 0 (updateCols hs touch)),
      updateArgs hs (if touch then some now else none)) := by
  have h := update_forall₂ now touch hsub hg
  refine ⟨updateCols hs touch, rfl, h.length_eq.symm, ?_⟩
  intro i hi
  have hi2 : i < (updateArgs hs (if touch then some now else none)).length := by
    rw [← h.length_eq]; exact hi
  have := (List.forall₂_iff_get.1 h).2 i hi hi2
  simp only [List.get_eq_getElem] at this
  rw [this, List.getElem?_eq_getElem hi2]

theorem last_updated_at {fs hs : Fields} (hsub : hs ⊆ fs) (hg : GoodCols (fs.map Prod.fst))
    (hset : SomeSet hs) :
    (assignedColumns (",".intercalate (numbered 0 (updateCols hs true)))).getLast?
      = some "updated_at" := by
  rw [assignedColumns_update hsub hg]
  have hv : (presentVals hs).length ≠ 0 := by
    have := someSet_iff.1 hset
    simpa using this
  simp [updateCols, hv]

/-! ## Claims on the update builders -/

/-- C1: no update builder assigns the column of a field that is absent from the
request: for each of the nine builders and every request, the column of a nil
field is not among the columns assigned by the returned text. -/
theorem update_omits_absent_fields (now : Time) :
    (∀ req : audience, OmitsAbsent req.fields (prepareAudienceUpdateQuery req).1) ∧
    (∀ req : broadcastURL, OmitsAbsent req.fields (prepareURLUpdateQuery req now).1) ∧
    (∀ req : event, OmitsAbsent req.fields (prepareEventUpdateQuery req now).1) ∧
    (∀ req : eventItem, OmitsAbsent req.fields (prepareEventItemUpdateQuery req now).1) ∧
    (∀ req : eventPartOption,
      OmitsAbsent req.fields (prepareEventPartOptionUpdateQuery req now).1) ∧
    (∀ req : item, OmitsAbsent req.fields (prepareItemUpdateQuery req now).1) ∧
    (∀ req : itemBroadcastURL,
      OmitsAbsent req.fields (prepareItemBroadcastURLUpdateQuery req now).1) ∧
    (∀ req : part, OmitsAbsent req.fields (prepareParticipantUpdateQuery req now).1) ∧
    (∀ req : participationStatus,
      OmitsAbsent req.fields (prepareParticipationStatusUpdateQuery req now).1) := by
  refine ⟨fun req => ?_, fun req => ?_, fun req => ?_, fun req => ?_, fun req => ?_,
    fun req => ?_, fun req => ?_, fun req => ?_, fun req => ?_⟩
  · rw [prepareAudienceUpdateQuery_eq]
    exact omitsAbsent_update (List.Subset.refl _) (audience_good req)
  · rw [prepareURLUpdateQuery_eq]
    exact omitsAbsent_update (List.Subset.refl _) (broadcastURL_good req)
  · rw [prepareEventUpdateQuery_eq]
    exact omitsAbsent_update (List.Subset.refl _) (event_good req)
  · rw [prepareEventItemUpdateQuery_eq]
    exact omitsAbsent_update (eventItem_updateFields_subset req) (eventItem_good req)
  · rw [prepareEventPartOptionUpdateQuery_eq]
    exact omitsAbsent_update (List.Subset.refl _) (eventPartOption_good req)
  · rw [prepareItemUpdateQuery_eq]
    exact omitsAbsent_update (item_updateFields_subset req) (item_good req)
  · rw [prepareItemBroadcastURLUpdateQuery_eq]
    exact omitsAbsent_update (itemBroadcastURL_updateFields_subset req)
      (itemBroadcastURL_good req)
  · rw [prepareParticipantUpdateQuery_eq]
    exact omitsAbsent_update (List.Subset.refl _) (part_good req)
  · rw [prepareParticipationStatusUpdateQuery_eq]
    exact omitsAbsent_update (List.Subset.refl _) (participationStatus_good req)

/-- C1 at an event request that sets only `name`: `slug` is absent and is not assigned. -/
theorem update_omits_absent_fields_witness :
    ("slug", none) ∈ ({ Name := some "n" } : event).fields ∧
    "slug" ∉ assignedColumns (prepareEventUpdateQuery { Name := some "n" } ⟨0⟩).1 :=
  ⟨by decide, (update_omits_absent_fields ⟨0⟩).2.2.1 { Name := some "n" } "slug" (by decide)⟩

/-- C2: every update builder returns `n` assignments joined by `","` and `n`
arguments; assignment `i` (from 1) is `<column>=$i` and argument `i` is the value
of the request field of that column, or the current time for `updated_at`. -/
theorem update_assignments_numbered (now : Time) :
    (∀ req : audience, NumberedAssignments req.fields now (prepareAudienceUpdateQuery req)) ∧
    (∀ req : broadcastURL, NumberedAssignments req.fields now (prepareURLUpdateQuery req now)) ∧
    (∀ req : event, NumberedAssignments req.fields now (prepareEventUpdateQuery req now)) ∧
    (∀ req : eventItem,
      NumberedAssignments req.fields now (prepareEventItemUpdateQuery req now)) ∧
    (∀ req : eventPartOption,
      NumberedAssignments req.fields now (prepareEventPartOptionUpdateQuery req now)) ∧
    (∀ req : item, NumberedAssignments req.fields now (prepareItemUpdateQuery req now)) ∧
    (∀ req : itemBroadcastURL,
      NumberedAssignments req.fields now (prepareItemBroadcastURLUpdateQuery req now)) ∧
    (∀ req : part, NumberedAssignments req.fields now (prepareParticipantUpdateQuery req now)) ∧
    (∀ req : participationStatus,
      NumberedAssignments req.fields now (prepareParticipationStatusUpdateQuery req now)) := by
  refine ⟨fun req => ?_, fun req => ?_, fun req => ?_, fun req => ?_, fun req => ?_,
    fun req => ?_, fun req => ?_, fun req => ?_, fun req => ?_⟩
  · rw [prepareAudienceUpdateQuery_eq]
    exact numberedAssignments_update now false (List.Subset.refl _) (audience_good req)
  · rw [prepareURLUpdateQuery_eq]
    exact numberedAssignments_update now true (List.Subset.refl _) (broadcastURL_good req)
  · rw [prepareEventUpdateQuery_eq]
    exact numberedAssignments_update now true (List.Subset.refl _) (event_good req)
  · rw [prepareEventItemUpdateQuery_eq]
    exact numberedAssignments_update now true (eventItem_updateFields_subset req)
      (eventItem_good req)
  · rw [prepareEventPartOptionUpdateQuery_eq]
    exact numberedAssignments_update now true (List.Subset.refl _) (eventPartOption_good req)
  · rw [prepareItemUpdateQuery_eq]
    exact numberedAssignments_update now true (item_updateFields_subset req) (item_good req)
  · rw [prepareItemBroadcastURLUpdateQuery_eq]
    exact numberedAssignments_update now true (itemBroadcastURL_updateFields_subset req)
      (itemBroadcastURL_good req)
  · rw [prepareParticipantUpdateQuery_eq]
    exact numberedAssignments_update now true (List.Subset.refl _) (part_good req)
  · rw [prepareParticipationStatusUpdateQuery_eq]
    exact numberedAssignments_update now true (List.Subset.refl _)
      (participationStatus_good req)

/-- C3 as stated fails: `prepareAudienceUpdateQuery` with `name` set returns the
single assignment `name=$1` and no `updated_at` assignment. -/
theorem audience_update_without_updated_at :
    SomeSet ({ Name := some "x" } : audience).fields ∧
    prepareAudienceUpdateQuery { Name := some "x" } = ("name=$1", [Value.str "x"]) ∧
    "updated_at" ∉ assignedColumns (prepareAudienceUpdateQuery { Name := some "x" }).1 := by
  refine ⟨⟨("name", some (Value.str "x")), by decide, rfl⟩, by decide, by decide⟩

/-- C3 amended: for the eight update builders other than the audience one, whenever
at least one field that the builder reads is set, `updated_at` is the last column
assigned by the returned text. -/
theorem update_appends_updated_at (now : Time) :
    (∀ req : broadcastURL, SomeSet req.fields →
      (assignedColumns (prepareURLUpdateQuery req now).1).getLast? = some "updated_at") ∧
    (∀ req : event, SomeSet req.fields →
      (assignedColumns (prepareEventUpdateQuery req now).1).getLast? = some "updated_at") ∧
    (∀ req : eventItem, SomeSet req.updateFields →
      (assignedColumns (prepareEventItemUpdateQuery req now).1).getLast? = some "updated_at") ∧
    (∀ req : eventPartOption, SomeSet req.fields →
      (assignedColumns (prepareEventPartOptionUpdateQuery req now).1).getLast?
        = some "updated_at") ∧
    (∀ req : item, SomeSet req.updateFields →
      (assignedColumns (prepareItemUpdateQuery req now).1).getLast? = some "updated_at") ∧
    (∀ req : itemBroadcastURL, SomeSet req.fields →
      (assignedColumns (prepareItemBroadcastURLUpdateQuery req now).1).getLast?
        = some "updated_at") ∧
    (∀ req : part, SomeSet req.fields →
      (assignedColumns (prepareParticipantUpdateQuery req now).1).getLast?
        = some "updated_at") ∧
    (∀ req : participationStatus, SomeSet req.fields →
      (assignedColumns (prepareParticipationStatusUpdateQuery req now).1).getLast?
        = some "updated_at") := by
  refine ⟨fun req h => ?_, fun req h => ?_, fun req h => ?_, fun req h => ?_,
    fun req h => ?_, fun req h => ?_, fun req h => ?_, fun req h => ?_⟩
  · rw [prepareURLUpdateQuery_eq]
    exact last_updated_at (List.Subset.refl _) (broadcastURL_good req) h
  · rw [prepareEventUpdateQuery_eq]
    exact last_updated_at (List.Subset.refl _) (event_good req) h
  · rw [prepareEventItemUpdateQuery_eq]
    exact last_updated_at (eventItem_updateFields_subset req) (eventItem_good req) h
  · rw [prepareEventPartOptionUpdateQuery_eq]
    exact last_updated_at (List.Subset.refl _) (eventPartOption_good req) h
  · rw [prepareItemUpdateQuery_eq]
    exact last_updated_at (item_updateFields_subset req) (item_good req) h
  · rw [prepareItemBroadcastURLUpdateQuery_eq]
    refine last_updated_at (itemBroadcastURL_updateFields_subset req)
      (itemBroadcastURL_good req) ?_
    obtain ⟨f, hf, hs⟩ := h
    refine ⟨f, ?_, hs⟩
    simp only [itemBroadcastURL.updateFields, itemBroadcastURL.fields, List.mem_cons,
      List.mem_singleton, List.not_mem_nil, or_false] at hf ⊢
    tauto
  · rw [prepareParticipantUpdateQuery_eq]
    exact last_updated_at (List.Subset.refl _) (part_good req) h
  · rw [prepareParticipationStatusUpdateQuery_eq]
    exact last_updated_at (List.Subset.refl _) (participationStatus_good req) h

/-- C3 amended at an item request that sets only `name`. -/
theorem update_appends_updated_at_witness :
    SomeSet ({ Name := some "n" } : item).updateFields ∧
    (assignedColumns (prepareItemUpdateQuery { Name := some "n" } ⟨7⟩).1).getLast?
      = some "updated_at" :=
  ⟨⟨("name", some (Value.str "n")), by decide, rfl⟩,
   (update_appends_updated_at ⟨7⟩).2.2.2.2.1 { Name := some "n" }
     ⟨("name", some (Value.str "n")), by decide, rfl⟩⟩

/-- C5 fails on the code: `prepareItemUpdateQuery` has no block for `Content` and
`prepareEventItemUpdateQuery` has none for `Deleted`; a request that sets only
that field yields the empty text and no argument, so the column is not assigned. -/
theorem update_builder_skips_present_field (now : Time) (s : String) (b : Bool) :
    ("content", some (Value.str s)) ∈ ({ Content := some s } : item).fields ∧
    prepareItemUpdateQuery { Content := some s } now = ("", []) ∧
    "content" ∉ assignedColumns (prepareItemUpdateQuery { Content := some s } now).1 ∧
    ("deleted", some (Value.bool b)) ∈ ({ Deleted := some b } : eventItem).fields ∧
    prepareEventItemUpdateQuery { Deleted := some b } now = ("", []) ∧
    "deleted" ∉ assignedColumns (prepareEventItemUpdateQuery { Deleted := some b } now).1 := by
  have h1 : prepareItemUpdateQuery { Content := some s } now = ("", []) := rfl
  have h2 : prepareEventItemUpdateQuery { Deleted := some b } now = ("", []) := rfl
  refine ⟨by simp [item.fields], h1, ?_, by simp [eventItem.fields], h2, ?_⟩
  · rw [h1]; decide
  · rw [h2]; decide

/-! ## Each update operation as a guard followed by one `Exec` -/

theorem UpdateAudienceByName_eq {σ : Type} (r : Pool σ) (c : Conn σ) (req : audience) (key : String) :
    UpdateAudienceByName r c req key
      = if (prepareAudienceUpdateQuery req).2.length != 0 then
          execUpdate r c
            ⟨"UPDATE audience SET " ++ (prepareAudienceUpdateQuery req).1 ++ " WHERE name=" ++ key,
              (prepareAudienceUpdateQuery req).2⟩ "problem updating audience: "
        else (some "invalid values", c) := rfl

theorem updateURLByID_eq {σ : Type} (r : Pool σ) (c : Conn σ) (req : broadcastURL) (key : String) (now : Time) :
    updateURLByID r c req key now
      = if (prepareURLUpdateQuery req now).2.length != 0 then
          execUpdate r c
            ⟨"UPDATE broadcast_url SET " ++ (prepareURLUpdateQuery req now).1 ++ " WHERE id=" ++ key,
              (prepareURLUpdateQuery req now).2⟩ "problem updating broadcast url: "
        else (some "invalid values", c) := rfl

theorem updateEventByID_eq {σ : Type} (r : Pool σ) (c : Conn σ) (req : event) (key : String) (now : Time) :
    updateEventByID r c req key now
      = if (prepareEventUpdateQuery req now).2.length != 0 then
          execUpdate r c
            ⟨"UPDATE event SET " ++ (prepareEventUpdateQuery req now).1 ++ " WHERE id=" ++ key,
              (prepareEventUpdateQuery req now).2⟩ "problem updating event: "
        else (some "invalid values", c) := rfl

theorem updateEventItemByID_eq {σ : Type} (r : Pool σ) (c : Conn σ) (req : eventItem) (key : String) (now : Time) :
    updateEventItemByID r c req key now
      = if (prepareEventItemUpdateQuery req now).2.length != 0 then
          execUpdate r c
            ⟨"UPDATE event_item SET " ++ (prepareEventItemUpdateQuery req now).1 ++ " WHERE id=" ++ key,
              (prepareEventItemUpdateQuery req now).2⟩ "problem updating Event Item: "
        else (some "invalid values", c) := rfl

theorem updateEventPartOptionByID_eq {σ : Type} (r : Pool σ) (c : Conn σ) (req : eventPartOption) (key : String) (now : Time) :
    updateEventPartOptionByID r c req key now
      = if (prepareEventPartOptionUpdateQuery req now).2.length != 0 then
          execUpdate r c
            ⟨"UPDATE event_participation_option SET " ++ (prepareEventPartOptionUpdateQuery req now).1 ++ " WHERE id=" ++ key,
              (prepareEventPartOptionUpdateQuery req now).2⟩ "problem updating Event Participation Option: "
        else (some "invalid values", c) := rfl

theorem updateItemByID_eq {σ : Type} (r : Pool σ) (c : Conn σ) (req : item) (key : String) (now : Time) :
    updateItemByID r c req key now
      = if (prepareItemUpdateQuery req now).2.length != 0 then
          execUpdate r c
            ⟨"UPDATE item SET " ++ (prepareItemUpdateQuery req now).1 ++ " WHERE id=" ++ key,
              (prepareItemUpdateQuery req now).2⟩ "problem updating item: "
        else (some "invalid values", c) := rfl

theorem updateItemBroadcastURLByID_eq {σ : Type} (r : Pool σ) (c : Conn σ) (req : itemBroadcastURL) (key : String) (now : Time) :
    updateItemBroadcastURLByID r c req key now
      = if (prepareItemBroadcastURLUpdateQuery req now).2.length != 0 then
          execUpdate r c
            ⟨"UPDATE item_broadcast_url SET " ++ (prepareItemBroadcastURLUpdateQuery req now).1 ++ " WHERE id=" ++ key,
              (prepareItemBroadcastURLUpdateQuery req now).2⟩ "problem updating item broadcast url: "
        else (some "invalid values", c) := rfl

theorem UpdatePartByID_eq {σ : Type} (r : Pool σ) (c : Conn σ) (req : part) (key : String) (now : Time) :
    UpdatePartByID r c req key now
      = if (prepareParticipantUpdateQuery req now).2.length != 0 then
          execUpdate r c
            ⟨"UPDATE participant SET " ++ (prepareParticipantUpdateQuery req now).1 ++ " WHERE id=" ++ key,
              (prepareParticipantUpdateQuery req now).2⟩ "problem updating participant: "
        else (some "invalid values", c) := rfl

theorem updateParticipationStatusByID_eq {σ : Type} (r : Pool σ) (c : Conn σ) (req : participationStatus) (key : String) (now : Time) :
    updateParticipationStatusByID r c req key now
      = if (prepareParticipationStatusUpdateQuery req now).2.length != 0 then
          execUpdate r c
            ⟨"UPDATE participation_status SET " ++ (prepareParticipationStatusUpdateQuery req now).1 ++ " WHERE id=" ++ key,
              (prepareParticipationStatusUpdateQuery req now).2⟩ "problem updating Participation Status: "
        else (some "invalid values", c) := rfl

theorem UpdatePlatformByName_eq {σ : Type} (r : Pool σ) (c : Conn σ) (req : platform) (key : String) :
    UpdatePlatformByName r c req key
      = match req.Name with
        | some reqName =>
          execUpdate r c ⟨"UPDATE platform SET name=$1 WHERE name=$2",
            [Value.str reqName, Value.str key]⟩ "problem updating platform: "
        | none => (some "invalid values", c) := by
  unfold UpdatePlatformByName
  cases req.Name <;> rfl

theorem UpdatePartOptionByName_eq {σ : Type} (r : Pool σ) (c : Conn σ) (req : partOption) (key : String) :
    UpdatePartOptionByName r c req key
      = match req.Name with
        | some reqName =>
          execUpdate r c ⟨"UPDATE participation_option SET name=$1 WHERE name=$2",
            [Value.str reqName, Value.str key]⟩ "problem updating participation_option: "
        | none => (some "invalid values", c) := by
  unfold UpdatePartOptionByName
  cases req.Name <;> rfl

/-! ## Guards and answers -/

theorem updateArgs_length_eq_zero {hs : Fields} {t : Option Time} (h : NoneSet hs) :
    ((updateArgs hs t).length != 0) = false := by
  have hv := presentVals_eq_nil_iff.2 h
  cases t <;> simp [updateArgs, hv]

theorem updateArgs_length_ne_zero {hs : Fields} {t : Option Time} (h : SomeSet hs) :
    ((updateArgs hs t).length != 0) = true := by
  have hv := someSet_iff.1 h
  have : (presentVals hs).length ≠ 0 := by simpa using hv
  cases t <;> simp [updateArgs, hv]

theorem NoneSet.mono {fs hs : Fields} (hsub : hs ⊆ fs) (h : NoneSet fs) : NoneSet hs :=
  fun f hf => h f (hsub hf)

theorem execUpdate_not_found {σ : Type} (r : Pool σ) (c : Conn σ) (stmt : Statement)
    (msg : String) (h : ZeroRowsAffected r c (execUpdate r c stmt msg).2) :
    (execUpdate r c stmt msg).1 = some "not found" := by
  unfold ZeroRowsAffected at h
  unfold execUpdate Pool.Exec at h ⊢
  cases hr : (r.exec stmt c.store).1 with
  | error e =>
    have := h stmt (by simp only [hr])
    rw [hr] at this
    cases this
  | rows n =>
    have := h stmt (by simp only [hr]; split <;> rfl)
    rw [hr] at this
    cases this
    simp [hr]

/-! ## Claims on the update operations -/

/-- C4: every update operation, called with a request in which no field is set,
returns `invalid values` and leaves the connection as it was: the store is
unchanged and no statement has been issued. -/
theorem update_without_fields_is_invalid {σ : Type} (r : Pool σ) (c : Conn σ) (key : String)
    (now : Time) :
    (∀ req : audience, NoneSet req.fields →
      UpdateAudienceByName r c req key = (some "invalid values", c)) ∧
    (∀ req : broadcastURL, NoneSet req.fields →
      updateURLByID r c req key now = (some "invalid values", c)) ∧
    (∀ req : event, NoneSet req.fields →
      updateEventByID r c req key now = (some "invalid values", c)) ∧
    (∀ req : eventItem, NoneSet req.fields →
      updateEventItemByID r c req key now = (some "invalid values", c)) ∧
    (∀ req : eventPartOption, NoneSet req.fields →
      updateEventPartOptionByID r c req key now = (some "invalid values", c)) ∧
    (∀ req : item, NoneSet req.fields →
      updateItemByID r c req key now = (some "invalid values", c)) ∧
    (∀ req : itemBroadcastURL, NoneSet req.fields →
      updateItemBroadcastURLByID r c req key now = (some "invalid values", c)) ∧
    (∀ req : part, NoneSet req.fields →
      UpdatePartByID r c req key now = (some "invalid values", c)) ∧
    (∀ req : participationStatus, NoneSet req.fields →
      updateParticipationStatusByID r c req key now = (some "invalid values", c)) ∧
    (∀ req : platform, NoneSet req.fields →
      UpdatePlatformByName r c req key = (some "invalid values", c)) ∧
    (∀ req : partOption, NoneSet req.fields →
      UpdatePartOptionByName r c req key = (some "invalid values", c)) := by
  refine ⟨fun req h => ?_, fun req h => ?_, fun req h => ?_, fun req h => ?_, fun req h => ?_,
    fun req h => ?_, fun req h => ?_, fun req h => ?_, fun req h => ?_, fun req h => ?_,
    fun req h => ?_⟩
  · rw [UpdateAudienceByName_eq, prepareAudienceUpdateQuery_eq, updateArgs_length_eq_zero h]
    rfl
  · rw [updateURLByID_eq, prepareURLUpdateQuery_eq, updateArgs_length_eq_zero h]
    rfl
  · rw [updateEventByID_eq, prepareEventUpdateQuery_eq, updateArgs_length_eq_zero h]
    rfl
  · rw [updateEventItemByID_eq, prepareEventItemUpdateQuery_eq,
      updateArgs_length_eq_zero (h.mono (eventItem_updateFields_subset req))]
    rfl
  · rw [updateEventPartOptionByID_eq, prepareEventPartOptionUpdateQuery_eq,
      updateArgs_length_eq_zero h]
    rfl
  · rw [updateItemByID_eq, prepareItemUpdateQuery_eq,
      updateArgs_length_eq_zero (h.mono (item_updateFields_subset req))]
    rfl
  · rw [updateItemBroadcastURLByID_eq, prepareItemBroadcastURLUpdateQuery_eq,
      updateArgs_length_eq_zero (h.mono (itemBroadcastURL_updateFields_subset req))]
    rfl
  · rw [UpdatePartByID_eq, prepareParticipantUpdateQuery_eq, updateArgs_length_eq_zero h]
    rfl
  · rw [updateParticipationStatusByID_eq, prepareParticipationStatusUpdateQuery_eq,
      updateArgs_length_eq_zero h]
    rfl
  · have hn : req.Name = none := by
      have := h ("name", req.Name.map Value.str) (by simp [platform.fields])
      simpa using this
    rw [UpdatePlatformByName_eq, hn]
  · have hn : req.Name = none := by
      have := h ("name", req.Name.map Value.str) (by simp [partOption.fields])
      simpa using this
    rw [UpdatePartOptionByName_eq, hn]

/-- C4 at the empty event request, on a connection that already carries one statement. -/
theorem update_without_fields_is_invalid_witness :
    NoneSet ({} : event).fields ∧
    updateEventByID noRowPool { store := (), issued := [⟨"select 1", []⟩] } {} "7" ⟨0⟩
      = (some "invalid values", { store := (), issued := [⟨"select 1", []⟩] }) :=
  ⟨by unfold NoneSet; decide,
   (update_without_fields_is_invalid noRowPool _ "7" ⟨0⟩).2.2.1 {}
     (by unfold NoneSet; decide)⟩

/-- C6 fails on the code: a request that sets only `content` (item) or only
`deleted` (event item) has a field set, yet the operation rejects it with
`invalid values` and issues no statement. -/
theorem update_rejects_request_with_field_set {σ : Type} (r : Pool σ) (c : Conn σ)
    (key : String) (now : Time) (s : String) (b : Bool) :
    SomeSet ({ Content := some s } : item).fields ∧
    updateItemByID r c { Content := some s } key now = (some "invalid values", c) ∧
    SomeSet ({ Deleted := some b } : eventItem).fields ∧
    updateEventItemByID r c { Deleted := some b } key now = (some "invalid values", c) :=
  ⟨⟨("content", some (Value.str s)), by simp [item.fields], rfl⟩, rfl,
   ⟨("deleted", some (Value.bool b)), by simp [eventItem.fields], rfl⟩, rfl⟩

/-- C7 as stated fails: on a store that answers every statement with zero affected
rows, `updateEventByID` with the empty request returns `invalid values`, not
`not found`. -/
theorem update_missing_key_empty_request :
    (∀ stmt s, (noRowPool.exec stmt s).1 = ExecResult.rows 0) ∧
    ZeroRowsAffected noRowPool freshConn (updateEventByID noRowPool freshConn {} "42" ⟨0⟩).2 ∧
    (updateEventByID noRowPool freshConn {} "42" ⟨0⟩).1 = some "invalid values" ∧
    (updateEventByID noRowPool freshConn {} "42" ⟨0⟩).1 ≠ some "not found" := by
  refine ⟨fun _ _ => rfl, fun _ _ => rfl, rfl, by decide⟩

/-- C7 amended: for every update operation and every request in which at least one
field that the operation's builder reads is set, if the store reports zero
affected rows for the statement sent, the operation returns `not found`. -/
theorem update_missing_key_not_found {σ : Type} (r : Pool σ) (c : Conn σ) (key : String)
    (now : Time) :
    (∀ req : audience, SomeSet req.fields →
      ZeroRowsAffected r c (UpdateAudienceByName r c req key).2 →
      (UpdateAudienceByName r c req key).1 = some "not found") ∧
    (∀ req : broadcastURL, SomeSet req.fields →
      ZeroRowsAffected r c (updateURLByID r c req key now).2 →
      (updateURLByID r c req key now).1 = some "not found") ∧
    (∀ req : event, SomeSet req.fields →
      ZeroRowsAffected r c (updateEventByID r c req key now).2 →
      (updateEventByID r c req key now).1 = some "not found") ∧
    (∀ req : eventItem, SomeSet req.updateFields →
      ZeroRowsAffected r c (updateEventItemByID r c req key now).2 →
      (updateEventItemByID r c req key now).1 = some "not found") ∧
    (∀ req : eventPartOption, SomeSet req.fields →
      ZeroRowsAffected r c (updateEventPartOptionByID r c req key now).2 →
      (updateEventPartOptionByID r c req key now).1 = some "not found") ∧
    (∀ req : item, SomeSet req.updateFields →
      ZeroRowsAffected r c (updateItemByID r c req key now).2 →
      (updateItemByID r c req key now).1 = some "not found") ∧
    (∀ req : itemBroadcastURL, SomeSet req.updateFields →
      ZeroRowsAffected r c (updateItemBroadcastURLByID r c req key now).2 →
      (updateItemBroadcastURLByID r c req key now).1 = some "not found") ∧
    (∀ req : part, SomeSet req.fields →
      ZeroRowsAffected r c (UpdatePartByID r c req key now).2 →
      (UpdatePartByID r c req key now).1 = some "not found") ∧
    (∀ req : participationStatus, SomeSet req.fields →
      ZeroRowsAffected r c (updateParticipationStatusByID r c req key now).2 →
      (updateParticipationStatusByID r c req key now).1 = some "not found") ∧
    (∀ req : platform, SomeSet req.fields →
      ZeroRowsAffected r c (UpdatePlatformByName r c req key).2 →
      (UpdatePlatformByName r c req key).1 = some "not found") ∧
    (∀ req : partOption, SomeSet req.fields →
      ZeroRowsAffected r c (UpdatePartOptionByName r c req key).2 →
      (UpdatePartOptionByName r c req key).1 = some "not found") := by
  refine ⟨fun req h => ?_, fun req h => ?_, fun req h => ?_, fun req h => ?_, fun req h => ?_,
    fun req h => ?_, fun req h => ?_, fun req h => ?_, fun req h => ?_, fun req h => ?_,
    fun req h => ?_⟩
  · have e := UpdateAudienceByName_eq r c req key
    rw [prepareAudienceUpdateQuery_eq, updateArgs_length_ne_zero h, if_pos rfl] at e
    rw [e]
    exact execUpdate_not_found r c _ _
  · have e := updateURLByID_eq r c req key now
    rw [prepareURLUpdateQuery_eq, updateArgs_length_ne_zero h, if_pos rfl] at e
    rw [e]
    exact execUpdate_not_found r c _ _
  · have e := updateEventByID_eq r c req key now
    rw [prepareEventUpdateQuery_eq, updateArgs_length_ne_zero h, if_pos rfl] at e
    rw [e]
    exact execUpdate_not_found r c _ _
  · have e := updateEventItemByID_eq r c req key now
    rw [prepareEventItemUpdateQuery_eq, updateArgs_length_ne_zero h, if_pos rfl] at e
    rw [e]
    exact execUpdate_not_found r c _ _
  · have e := updateEventPartOptionByID_eq r c req key now
    rw [prepareEventPartOptionUpdateQuery_eq, updateArgs_length_ne_zero h, if_pos rfl] at e
    rw [e]
    exact execUpdate_not_found r c _ _
  · have e := updateItemByID_eq r c req key now
    rw [prepareItemUpdateQuery_eq, updateArgs_length_ne_zero h, if_pos rfl] at e
    rw [e]
    exact execUpdate_not_found r c _ _
  · have e := updateItemBroadcastURLByID_eq r c req key now
    rw [prepareItemBroadcastURLUpdateQuery_eq, updateArgs_length_ne_zero h, if_pos rfl] at e
    rw [e]
    exact execUpdate_not_found r c _ _
  · have e := UpdatePartByID_eq r c req key now
    rw [prepareParticipantUpdateQuery_eq, updateArgs_length_ne_zero h, if_pos rfl] at e
    rw [e]
    exact execUpdate_not_found r c _ _
  · have e := updateParticipationStatusByID_eq r c req key now
    rw [prepareParticipationStatusUpdateQuery_eq, updateArgs_length_ne_zero h, if_pos rfl] at e
    rw [e]
    exact execUpdate_not_found r c _ _
  · obtain ⟨f, hf, hs⟩ := h
    simp only [platform.fields, List.mem_singleton] at hf
    subst hf
    cases hn : req.Name with
    | none => simp [hn] at hs
    | some v =>
      rw [UpdatePlatformByName_eq, hn]
      exact execUpdate_not_found r c _ _
  · obtain ⟨f, hf, hs⟩ := h
    simp only [partOption.fields, List.mem_singleton] at hf
    subst hf
    cases hn : req.Name with
    | none => simp [hn] at hs
    | some v =>
      rw [UpdatePartOptionByName_eq, hn]
      exact execUpdate_not_found r c _ _

/-- C7 amended at an event request that sets `name`, on a store without matching row. -/
theorem update_missing_key_not_found_witness :
    SomeSet ({ Name := some "n" } : event).fields ∧
    ZeroRowsAffected noRowPool freshConn
      (updateEventByID noRowPool freshConn { Name := some "n" } "42" ⟨0⟩).2 ∧
    (updateEventByID noRowPool freshConn { Name := some "n" } "42" ⟨0⟩).1 = some "not found" :=
  ⟨⟨("name", some (Value.str "n")), by decide, rfl⟩, fun _ _ => rfl,
   (update_missing_key_not_found noRowPool freshConn "42" ⟨0⟩).2.2.1 { Name := some "n" }
     ⟨("name", some (Value.str "n")), by decide, rfl⟩ (fun _ _ => rfl)⟩

/-! ## What a create builder returns -/

theorem placeholders_succ (n : Nat) :
    placeholders 0 (n + 1) = placeholders 0 n ++ ["$" ++ toString (n + 1)] := by
  simp [placeholders, List.range'_concat]

theorem placeholders_length (k n : Nat) : (placeholders k n).length = n := by
  simp [placeholders]

theorem runCreate_eq (fs : Fields) : ∀ (cols : List String) (vals : List Value),
    runCreate fs (cols, placeholders 0 cols.length, vals)
      = (cols ++ presentCols fs, placeholders 0 (cols ++ presentCols fs).length,
          vals ++ presentVals fs) := by
  induction fs with
  | nil => intro cols vals; simp [runCreate, presentCols, presentVals]
  | cons f fs ih =>
    intro cols vals
    obtain ⟨c, v⟩ := f
    cases v with
    | none =>
      have := ih cols vals
      simpa [runCreate, addIfPresent, presentCols, presentVals] using this
    | some x =>
      have := ih (cols ++ [c]) (vals ++ [x])
      simp only [runCreate, List.foldl_cons, addIfPresent] at this ⊢
      rw [placeholders_length]
      have e : placeholders 0 cols.length ++ ["$" ++ toString (cols.length + 1)]
          = placeholders 0 (cols ++ [c]).length := by
        rw [List.length_append, List.length_singleton, placeholders_succ]
      rw [e, this]
      simp [presentCols, presentVals]

theorem create_eq (fs : Fields) :
    joinCreate (runCreate fs ([], [], []))
      = (",".intercalate (presentCols fs),
          ",".intercalate (placeholders 0 (presentCols fs).length), presentVals fs) := by
  have h := runCreate_eq fs [] []
  simp only [List.length_nil, List.nil_append] at h
  have e : placeholders 0 0 = [] := rfl
  rw [e] at h
  rw [h]
  rfl

theorem countSet_eq (fs : Fields) : countSet fs = (presentVals fs).length := by
  induction fs with
  | nil => rfl
  | cons f fs ih =>
    obtain ⟨c, v⟩ := f
    have ih' : List.countP (fun f : String × Option Value => f.2.isSome) fs
        = (List.filterMap (fun f : String × Option Value => f.2) fs).length := ih
    cases v <;> simp [countSet, presentVals, ih']

theorem presentCols_clean {fs : Fields} (hg : GoodCols (fs.map Prod.fst)) :
    ∀ c ∈ presentCols fs, Clean c := by
  intro c hc
  obtain ⟨v, hv⟩ := mem_presentCols.1 hc
  exact hg.2.2 c (List.mem_map.2 ⟨_, hv, rfl⟩)

theorem splitComma_presentCols {fs : Fields} (hg : GoodCols (fs.map Prod.fst)) :
    splitComma (",".intercalate (presentCols fs)) = presentCols fs :=
  splitComma_intercalate _ (fun a ha =>
    ⟨(presentCols_clean hg a ha).1, (presentCols_clean hg a ha).2.2⟩)

theorem present_lookup {fs hs : Fields} (hsub : hs ⊆ fs) (hg : GoodCols (fs.map Prod.fst)) :
    List.Forall₂ (fun c v => (fs.lookup c).join = some v) (presentCols hs) (presentVals hs) := by
  induction hs with
  | nil => simp [presentCols, presentVals]
  | cons f hs ih =>
    obtain ⟨c, v⟩ := f
    have ih' := ih (fun x hx => hsub (List.mem_cons_of_mem _ hx))
    cases v with
    | none => simpa [presentCols, presentVals] using ih'
    | some x =>
      have hmem : (c, some x) ∈ fs := hsub (List.mem_cons_self _ _)
      have hb : (fs.lookup c).join = some x := by
        simp [lookup_of_mem hg.1 hmem]
      simp only [presentCols, presentVals, List.filterMap_cons, Option.map_some']
      exact List.Forall₂.cons hb ih'

theorem createShape_of_good {fs : Fields} (hg : GoodCols (fs.map Prod.fst)) :
    CreateShape fs (joinCreate (runCreate fs ([], [], []))) := by
  rw [create_eq]
  have h := present_lookup (List.Subset.refl fs) hg
  have hl := presentCols_length fs
  unfold CreateShape
  simp only [splitComma_presentCols hg, countSet_eq]
  refine ⟨trivial, hl, by rw [hl], trivial, ?_⟩
  intro i hi
  have hi2 : i < (presentVals fs).length := by rw [← hl]; exact hi
  have := (List.forall₂_iff_get.1 h).2 i hi hi2
  simp only [List.get_eq_getElem] at this
  rw [this, List.getElem?_eq_getElem hi2]

theorem presentCols_of_presence (fs : Fields) :
    presentCols fs = (presence fs).filterMap (fun p => if p.2 then some p.1 else none) := by
  induction fs with
  | nil => rfl
  | cons f fs ih =>
    obtain ⟨c, v⟩ := f
    have ih' : List.filterMap (fun f : String × Option Value => f.2.map (fun _ => f.1)) fs
        = List.filterMap (fun p : String × Bool => if p.2 then some p.1 else none)
            (List.map (fun f : String × Option Value => (f.1, f.2.isSome)) fs) := ih
    cases v <;> simp [presentCols, presence, ih']

theorem updateCols_of_presence {fs gs : Fields} (touch : Bool)
    (h : presence fs = presence gs) : updateCols fs touch = updateCols gs touch := by
  have hc : presentCols fs = presentCols gs := by
    rw [presentCols_of_presence, presentCols_of_presence, h]
  have hl : (presentVals fs).length = (presentVals gs).length := by
    rw [← presentCols_length, ← presentCols_length, hc]
  simp [updateCols, hc, hl]

theorem create_text_of_presence {fs gs : Fields} (h : presence fs = presence gs) :
    (joinCreate (runCreate fs ([], [], []))).1 = (joinCreate (runCreate gs ([], [], []))).1 ∧
    (joinCreate (runCreate fs ([], [], []))).2.1
      = (joinCreate (runCreate gs ([], [], []))).2.1 := by
  have hc : presentCols fs = presentCols gs := by
    rw [presentCols_of_presence, presentCols_of_presence, h]
  rw [create_eq, create_eq, hc]
  exact ⟨rfl, rfl⟩

/-! ## Each create builder as a run of blocks over the fields of its record -/

theorem prepareAudienceCreateQuery_eq (req : audience) :
    prepareAudienceCreateQuery req = joinCreate (runCreate req.fields ([], [], [])) := rfl

theorem prepareEventCreateQuery_eq (req : event) :
    prepareEventCreateQuery req = joinCreate (runCreate req.fields ([], [], [])) := rfl

theorem prepareEventItemCreateQuery_eq (req : eventItem) :
    prepareEventItemCreateQuery req = joinCreate (runCreate req.fields ([], [], [])) := rfl

theorem prepareEventPartOptionCreateQuery_eq (req : eventPartOption) :
    prepareEventPartOptionCreateQuery req = joinCreate (runCreate req.fields ([], [], [])) := rfl

theorem prepareItemCreateQuery_eq (req : item) :
    prepareItemCreateQuery req = joinCreate (runCreate req.fields ([], [], [])) := rfl

theorem prepareParticipantCreateQuery_eq (req : part) :
    prepareParticipantCreateQuery req = joinCreate (runCreate req.fields ([], [], [])) := rfl

theorem prepareParticipationStatusCreateQuery_eq (req : participationStatus) :
    prepareParticipationStatusCreateQuery req = joinCreate (runCreate req.fields ([], [], [])) := rfl

theorem eventItem_updateFields_presence {a b : eventItem}
    (h : presence a.fields = presence b.fields) :
    presence a.updateFields = presence b.updateFields := by
  simp only [presence, eventItem.fields, eventItem.updateFields, List.map_cons, List.map_nil,
    List.cons.injEq, Prod.mk.injEq, true_and, and_true] at h ⊢
  exact ⟨h.1, h.2.1⟩

theorem item_updateFields_presence {a b : item}
    (h : presence a.fields = presence b.fields) :
    presence a.updateFields = presence b.updateFields := by
  simp only [presence, item.fields, item.updateFields, List.map_cons, List.map_nil,
    List.cons.injEq, Prod.mk.injEq, true_and, and_true] at h ⊢
  exact ⟨h.1, h.2.1, h.2.2.1, h.2.2.2.2.1, h.2.2.2.2.2⟩

theorem itemBroadcastURL_updateFields_presence {a b : itemBroadcastURL}
    (h : presence a.fields = presence b.fields) :
    presence a.updateFields = presence b.updateFields := by
  simp only [presence, itemBroadcastURL.fields, itemBroadcastURL.updateFields, List.map_cons,
    List.map_nil, List.cons.injEq, Prod.mk.injEq, true_and, and_true] at h ⊢
  exact ⟨h.2, h.1⟩

/-! ## Claims on the create builders and on the SQL text -/

/-- C8: every create builder, on a record with `n` fields set, returns `n`
comma-separated column names, the placeholder text `$1,...,$n` and `n`
arguments, argument `i` being the value of the field whose column is the `i`-th
column name. -/
theorem create_columns_placeholders_args :
    (∀ req : audience, CreateShape req.fields (prepareAudienceCreateQuery req)) ∧
    (∀ req : event, CreateShape req.fields (prepareEventCreateQuery req)) ∧
    (∀ req : eventItem, CreateShape req.fields (prepareEventItemCreateQuery req)) ∧
    (∀ req : eventPartOption, CreateShape req.fields (prepareEventPartOptionCreateQuery req)) ∧
    (∀ req : item, CreateShape req.fields (prepareItemCreateQuery req)) ∧
    (∀ req : part, CreateShape req.fields (prepareParticipantCreateQuery req)) ∧
    (∀ req : participationStatus, CreateShape req.fields (prepareParticipationStatusCreateQuery req)) := by
  refine ⟨fun req => ?_, fun req => ?_, fun req => ?_, fun req => ?_, fun req => ?_,
    fun req => ?_, fun req => ?_⟩
  · rw [prepareAudienceCreateQuery_eq]; exact createShape_of_good (audience_good req)
  · rw [prepareEventCreateQuery_eq]; exact createShape_of_good (event_good req)
  · rw [prepareEventItemCreateQuery_eq]; exact createShape_of_good (eventItem_good req)
  · rw [prepareEventPartOptionCreateQuery_eq]; exact createShape_of_good (eventPartOption_good req)
  · rw [prepareItemCreateQuery_eq]; exact createShape_of_good (item_good req)
  · rw [prepareParticipantCreateQuery_eq]; exact createShape_of_good (part_good req)
  · rw [prepareParticipationStatusCreateQuery_eq]; exact createShape_of_good (participationStatus_good req)

/-- C9: two request records of the same type with the same set of present fields
get the same SQL text from every update builder (whatever the two instants) and
from every create builder: assignment text, column text and placeholder text. -/
theorem sql_text_depends_on_presence (t₁ t₂ : Time) :
    (∀ a b : audience, presence a.fields = presence b.fields →
      (prepareAudienceUpdateQuery a).1 = (prepareAudienceUpdateQuery b).1 ∧
      (prepareAudienceCreateQuery a).1 = (prepareAudienceCreateQuery b).1 ∧
      (prepareAudienceCreateQuery a).2.1 = (prepareAudienceCreateQuery b).2.1) ∧
    (∀ a b : broadcastURL, presence a.fields = presence b.fields →
      (prepareURLUpdateQuery a t₁).1 = (prepareURLUpdateQuery b t₂).1) ∧
    (∀ a b : event, presence a.fields = presence b.fields →
      (prepareEventUpdateQuery a t₁).1 = (prepareEventUpdateQuery b t₂).1 ∧
      (prepareEventCreateQuery a).1 = (prepareEventCreateQuery b).1 ∧
      (prepareEventCreateQuery a).2.1 = (prepareEventCreateQuery b).2.1) ∧
    (∀ a b : eventItem, presence a.fields = presence b.fields →
      (prepareEventItemUpdateQuery a t₁).1 = (prepareEventItemUpdateQuery b t₂).1 ∧
      (prepareEventItemCreateQuery a).1 = (prepareEventItemCreateQuery b).1 ∧
      (prepareEventItemCreateQuery a).2.1 = (prepareEventItemCreateQuery b).2.1) ∧
    (∀ a b : eventPartOption, presence a.fields = presence b.fields →
      (prepareEventPartOptionUpdateQuery a t₁).1 = (prepareEventPartOptionUpdateQuery b t₂).1 ∧
      (prepareEventPartOptionCreateQuery a).1 = (prepareEventPartOptionCreateQuery b).1 ∧
      (prepareEventPartOptionCreateQuery a).2.1 = (prepareEventPartOptionCreateQuery b).2.1) ∧
    (∀ a b : item, presence a.fields = presence b.fields →
      (prepareItemUpdateQuery a t₁).1 = (prepareItemUpdateQuery b t₂).1 ∧
      (prepareItemCreateQuery a).1 = (prepareItemCreateQuery b).1 ∧
      (prepareItemCreateQuery a).2.1 = (prepareItemCreateQuery b).2.1) ∧
    (∀ a b : itemBroadcastURL, presence a.fields = presence b.fields →
      (prepareItemBroadcastURLUpdateQuery a t₁).1 = (prepareItemBroadcastURLUpdateQuery b t₂).1) ∧
    (∀ a b : part, presence a.fields = presence b.fields →
      (prepareParticipantUpdateQuery a t₁).1 = (prepareParticipantUpdateQuery b t₂).1 ∧
      (prepareParticipantCreateQuery a).1 = (prepareParticipantCreateQuery b).1 ∧
      (prepareParticipantCreateQuery a).2.1 = (prepareParticipantCreateQuery b).2.1) ∧
    (∀ a b : participationStatus, presence a.fields = presence b.fields →
      (prepareParticipationStatusUpdateQuery a t₁).1 = (prepareParticipationStatusUpdateQuery b t₂).1 ∧
      (prepareParticipationStatusCreateQuery a).1 = (prepareParticipationStatusCreateQuery b).1 ∧
      (prepareParticipationStatusCreateQuery a).2.1 = (prepareParticipationStatusCreateQuery b).2.1) := by
  refine ⟨fun a b h => ?_, fun a b h => ?_, fun a b h => ?_, fun a b h => ?_,
    fun a b h => ?_, fun a b h => ?_, fun a b h => ?_, fun a b h => ?_, fun a b h => ?_⟩
  · refine ⟨?_, ?_⟩
    · rw [prepareAudienceUpdateQuery_eq, prepareAudienceUpdateQuery_eq, updateCols_of_presence false h]
    · rw [prepareAudienceCreateQuery_eq, prepareAudienceCreateQuery_eq]
      exact create_text_of_presence h
  · rw [prepareURLUpdateQuery_eq, prepareURLUpdateQuery_eq, updateCols_of_presence true h]
  · refine ⟨?_, ?_⟩
    · rw [prepareEventUpdateQuery_eq, prepareEventUpdateQuery_eq, updateCols_of_presence true h]
    · rw [prepareEventCreateQuery_eq, prepareEventCreateQuery_eq]
      exact create_text_of_presence h
  · refine ⟨?_, ?_⟩
    · rw [prepareEventItemUpdateQuery_eq, prepareEventItemUpdateQuery_eq, updateCols_of_presence true (eventItem_updateFields_presence h)]
    · rw [prepareEventItemCreateQuery_eq, prepareEventItemCreateQuery_eq]
      exact create_text_of_presence h
  · refine ⟨?_, ?_⟩
    · rw [prepareEventPartOptionUpdateQuery_eq, prepareEventPartOptionUpdateQuery_eq, updateCols_of_presence true h]
    · rw [prepareEventPartOptionCreateQuery_eq, prepareEventPartOptionCreateQuery_eq]
      exact create_text_of_presence h
  · refine ⟨?_, ?_⟩
    · rw [prepareItemUpdateQuery_eq, prepareItemUpdateQuery_eq, updateCols_of_presence true (item_updateFields_presence h)]
    · rw [prepareItemCreateQuery_eq, prepareItemCreateQuery_eq]
      exact create_text_of_presence h
  · rw [prepareItemBroadcastURLUpdateQuery_eq, prepareItemBroadcastURLUpdateQuery_eq, updateCols_of_presence true (itemBroadcastURL_updateFields_presence h)]
  · refine ⟨?_, ?_⟩
    · rw [prepareParticipantUpdateQuery_eq, prepareParticipantUpdateQuery_eq, updateCols_of_presence true h]
    · rw [prepareParticipantCreateQuery_eq, prepareParticipantCreateQuery_eq]
      exact create_text_of_presence h
  · refine ⟨?_, ?_⟩
    · rw [prepareParticipationStatusUpdateQuery_eq, prepareParticipationStatusUpdateQuery_eq, updateCols_of_presence true h]
    · rw [prepareParticipationStatusCreateQuery_eq, prepareParticipationStatusCreateQuery_eq]
      exact create_text_of_presence h

/-- C9 at two event requests that both set exactly `slug` and `deleted`, with
different values and at different instants. -/
theorem sql_text_depends_on_presence_witness :
    presence ({ Slug := some "a", Deleted := some true } : event).fields
      = presence ({ Slug := some "b, x=$9", Deleted := some false } : event).fields ∧
    (prepareEventUpdateQuery { Slug := some "a", Deleted := some true } ⟨1⟩).1
      = (prepareEventUpdateQuery { Slug := some "b, x=$9", Deleted := some false } ⟨2⟩).1 :=
  ⟨by decide,
   ((sql_text_depends_on_presence ⟨1⟩ ⟨2⟩).2.2.1 { Slug := some "a", Deleted := some true }
     { Slug := some "b, x=$9", Deleted := some false } (by decide)).1⟩

/-- C10: the column names returned by `prepareEventCreateQuery` are a sublist, in
order, of the eleven event columns; with exactly `slug`, `name`, `starts_on` and
`ends_on` set the result is those four columns, `$1,$2,$3,$4` and the four values. -/
theorem event_create_columns_in_fixed_order :
    (∀ req : event, (splitComma (prepareEventCreateQuery req).1).Sublist
      ["registration_required", "registration_status", "audience", "slug", "name", "logo",
       "content", "deleted", "starts_on", "ends_on", "date_confirmed"]) ∧
    (∀ (slug name : String) (startsOn endsOn : Time),
      prepareEventCreateQuery
          { Slug := some slug, Name := some name, StartsOn := some startsOn,
            EndsOn := some endsOn }
        = ("slug,name,starts_on,ends_on", "$1,$2,$3,$4",
            [Value.str slug, Value.str name, Value.time startsOn, Value.time endsOn])) := by
  refine ⟨fun req => ?_, fun slug name startsOn endsOn => ?_⟩
  · rw [prepareEventCreateQuery_eq, create_eq]
    simp only [splitComma_presentCols (event_good req)]
    exact presentCols_sublist req.fields
  · have h1 : ",".intercalate ["slug", "name", "starts_on", "ends_on"]
        = "slug,name,starts_on,ends_on" := by decide
    have h2 : ",".intercalate (placeholders 0 4) = "$1,$2,$3,$4" := by decide
    rw [prepareEventCreateQuery_eq, create_eq, ← h1, ← h2]
    rfl

/-! ## Each function and handler as an instance of its shape -/

theorem getAudienceByName_eq {σ : Type} (r : AudienceDB σ) (c : Conn σ) (key : String) :
    getAudienceByName r c key = getByKey getAudienceByNameSQL {} r c key := by
  unfold getAudienceByName getByKey DB.QueryRow
  cases r.rows.queryRow ⟨getAudienceByNameSQL, [Value.str key]⟩ c.store <;> rfl

theorem getURLByID_eq {σ : Type} (r : BroadcastURLDB σ) (c : Conn σ) (key : String) :
    getURLByID r c key = getByKey getURLByIDSQL {} r c key := by
  unfold getURLByID getByKey DB.QueryRow
  cases r.rows.queryRow ⟨getURLByIDSQL, [Value.str key]⟩ c.store <;> rfl

theorem getEventByID_eq {σ : Type} (r : EventDB σ) (c : Conn σ) (key : String) :
    getEventByID r c key = getByKey getEventByIDSQL {} r c key := by
  unfold getEventByID getByKey DB.QueryRow
  cases r.rows.queryRow ⟨getEventByIDSQL, [Value.str key]⟩ c.store <;> rfl

theorem getEventItemByID_eq {σ : Type} (r : EventItemDB σ) (c : Conn σ) (key : String) :
    getEventItemByID r c key = getByKey getEventItemByIDSQL {} r c key := by
  unfold getEventItemByID getByKey DB.QueryRow
  cases r.rows.queryRow ⟨getEventItemByIDSQL, [Value.str key]⟩ c.store <;> rfl

theorem getEventPartOptionByID_eq {σ : Type} (r : EventPartOptionDB σ) (c : Conn σ) (key : String) :
    getEventPartOptionByID r c key = getByKey getEventPartOptionByIDSQL {} r c key := by
  unfold getEventPartOptionByID getByKey DB.QueryRow
  cases r.rows.queryRow ⟨getEventPartOptionByIDSQL, [Value.str key]⟩ c.store <;> rfl

theorem getItemByID_eq {σ : Type} (r : ItemDB σ) (c : Conn σ) (key : String) :
    getItemByID r c key = getByKey getItemByIDSQL {} r c key := by
  unfold getItemByID getByKey DB.QueryRow
  cases r.rows.queryRow ⟨getItemByIDSQL, [Value.str key]⟩ c.store <;> rfl

theorem getItemBroadcastURLByID_eq {σ : Type} (r : ItemBroadcastURLDB σ) (c : Conn σ) (key : String) :
    getItemBroadcastURLByID r c key = getByKey getItemBroadcastURLByIDSQL {} r c key := by
  unfold getItemBroadcastURLByID getByKey DB.QueryRow
  cases r.rows.queryRow ⟨getItemBroadcastURLByIDSQL, [Value.str key]⟩ c.store <;> rfl

theorem getPartById_eq {σ : Type} (r : ParticipantDB σ) (c : Conn σ) (key : String) :
    getPartById r c key = getByKey getPartByIdSQL {} r c key := by
  unfold getPartById getByKey DB.QueryRow
  cases r.rows.queryRow ⟨getPartByIdSQL, [Value.str key]⟩ c.store <;> rfl

theorem getPartByEmail_eq {σ : Type} (r : ParticipantDB σ) (c : Conn σ) (key : String) :
    getPartByEmail r c key = getByKey getPartByEmailSQL {} r c key := by
  unfold getPartByEmail getByKey DB.QueryRow
  cases r.rows.queryRow ⟨getPartByEmailSQL, [Value.str key]⟩ c.store <;> rfl

theorem getPartByKeycloakID_eq {σ : Type} (r : ParticipantDB σ) (c : Conn σ) (key : String) :
    getPartByKeycloakID r c key = getByKey getPartByKeycloakIDSQL {} r c key := by
  unfold getPartByKeycloakID getByKey DB.QueryRow
  cases r.rows.queryRow ⟨getPartByKeycloakIDSQL, [Value.str key]⟩ c.store <;> rfl

theorem getPartOptionByName_eq {σ : Type} (r : ParticipationOptionDB σ) (c : Conn σ) (key : String) :
    getPartOptionByName r c key = getByKey getPartOptionByNameSQL {} r c key := by
  unfold getPartOptionByName getByKey DB.QueryRow
  cases r.rows.queryRow ⟨getPartOptionByNameSQL, [Value.str key]⟩ c.store <;> rfl

theorem getParticipationStatusByID_eq {σ : Type} (r : ParticipationStatusDB σ) (c : Conn σ) (key : String) :
    getParticipationStatusByID r c key = getByKey getParticipationStatusByIDSQL {} r c key := by
  unfold getParticipationStatusByID getByKey DB.QueryRow
  cases r.rows.queryRow ⟨getParticipationStatusByIDSQL, [Value.str key]⟩ c.store <;> rfl

theorem getPlatformByName_eq {σ : Type} (r : PlatformDB σ) (c : Conn σ) (key : String) :
    getPlatformByName r c key = getByKey getPlatformByNameSQL {} r c key := by
  unfold getPlatformByName getByKey DB.QueryRow
  cases r.rows.queryRow ⟨getPlatformByNameSQL, [Value.str key]⟩ c.store <;> rfl

theorem AudienceDB.GetAudienceByName_shape {σ : Type} (r : AudienceDB σ) (c : Conn σ) (ctx : Context) :
    AudienceDB.GetAudienceByName r c ctx = respondGet (getAudienceByName r c (ctx.Param "name")) := by
  unfold AudienceDB.GetAudienceByName respondGet
  dsimp only
  generalize getAudienceByName r c (ctx.Param "name") = res
  rcases res with ⟨⟨u, _ | e⟩, c1⟩ <;> rfl

theorem BroadcastURLDB.GetBroadcastURLByID_shape {σ : Type} (r : BroadcastURLDB σ) (c : Conn σ) (ctx : Context) :
    BroadcastURLDB.GetBroadcastURLByID r c ctx = respondGet (getURLByID r c (ctx.Param "id")) := by
  unfold BroadcastURLDB.GetBroadcastURLByID respondGet
  dsimp only
  generalize getURLByID r c (ctx.Param "id") = res
  rcases res with ⟨⟨u, _ | e⟩, c1⟩ <;> rfl

theorem EventDB.GetEventByID_shape {σ : Type} (r : EventDB σ) (c : Conn σ) (ctx : Context) :
    EventDB.GetEventByID r c ctx = respondGet (getEventByID r c (ctx.Param "id")) := by
  unfold EventDB.GetEventByID respondGet
  dsimp only
  generalize getEventByID r c (ctx.Param "id") = res
  rcases res with ⟨⟨u, _ | e⟩, c1⟩ <;> rfl

theorem EventItemDB.GetEventItemByID_shape {σ : Type} (r : EventItemDB σ) (c : Conn σ) (ctx : Context) :
    EventItemDB.GetEventItemByID r c ctx = respondGet (getEventItemByID r c (ctx.Param "id")) := by
  unfold EventItemDB.GetEventItemByID respondGet
  dsimp only
  generalize getEventItemByID r c (ctx.Param "id") = res
  rcases res with ⟨⟨u, _ | e⟩, c1⟩ <;> rfl

theorem EventPartOptionDB.GetEventPartOptionByID_shape {σ : Type} (r : EventPartOptionDB σ) (c : Conn σ) (ctx : Context) :
    EventPartOptionDB.GetEventPartOptionByID r c ctx = respondGet (getEventPartOptionByID r c (ctx.Param "id")) := by
  unfold EventPartOptionDB.GetEventPartOptionByID respondGet
  dsimp only
  generalize getEventPartOptionByID r c (ctx.Param "id") = res
  rcases res with ⟨⟨u, _ | e⟩, c1⟩ <;> rfl

theorem ItemDB.GetItemByID_shape {σ : Type} (r : ItemDB σ) (c : Conn σ) (ctx : Context) :
    ItemDB.GetItemByID r c ctx = respondGet (getItemByID r c (ctx.Param "id")) := by
  unfold ItemDB.GetItemByID respondGet
  dsimp only
  generalize getItemByID r c (ctx.Param "id") = res
  rcases res with ⟨⟨u, _ | e⟩, c1⟩ <;> rfl

theorem ItemBroadcastURLDB.GetItemBroadcastURLByID_shape {σ : Type} (r : ItemBroadcastURLDB σ) (c : Conn σ) (ctx : Context) :
    ItemBroadcastURLDB.GetItemBroadcastURLByID r c ctx = respondGet (getItemBroadcastURLByID r c (ctx.Param "id")) := by
  unfold ItemBroadcastURLDB.GetItemBroadcastURLByID respondGet
  dsimp only
  generalize getItemBroadcastURLByID r c (ctx.Param "id") = res
  rcases res with ⟨⟨u, _ | e⟩, c1⟩ <;> rfl

theorem ParticipantDB.GetParticipantById_shape {σ : Type} (r : ParticipantDB σ) (c : Conn σ) (ctx : Context) :
    ParticipantDB.GetParticipantById r c ctx = respondGet (getPartById r c (ctx.Param "id")) := by
  unfold ParticipantDB.GetParticipantById respondGet
  dsimp only
  generalize getPartById r c (ctx.Param "id") = res
  rcases res with ⟨⟨u, _ | e⟩, c1⟩ <;> rfl

theorem ParticipantDB.GetParticipantByKeycloakID_shape {σ : Type} (r : ParticipantDB σ) (c : Conn σ) (ctx : Context) :
    ParticipantDB.GetParticipantByKeycloakID r c ctx = respondGet (getPartByKeycloakID r c (ctx.Param "id")) := by
  unfold ParticipantDB.GetParticipantByKeycloakID respondGet
  dsimp only
  generalize getPartByKeycloakID r c (ctx.Param "id") = res
  rcases res with ⟨⟨u, _ | e⟩, c1⟩ <;> rfl

theorem ParticipantDB.GetParticipantByEmail_shape {σ : Type} (r : ParticipantDB σ) (c : Conn σ) (ctx : Context) :
    ParticipantDB.GetParticipantByEmail r c ctx = respondGet (getPartByEmail r c (ctx.Param "keycloak-id")) := by
  unfold ParticipantDB.GetParticipantByEmail respondGet
  dsimp only
  generalize getPartByEmail r c (ctx.Param "keycloak-id") = res
  rcases res with ⟨⟨u, _ | e⟩, c1⟩ <;> rfl

theorem ParticipationOptionDB.GetParticipationOptionByName_shape {σ : Type} (r : ParticipationOptionDB σ) (c : Conn σ) (ctx : Context) :
    ParticipationOptionDB.GetParticipationOptionByName r c ctx = respondGet (getPartOptionByName r c (ctx.Param "name")) := by
  unfold ParticipationOptionDB.GetParticipationOptionByName respondGet
  dsimp only
  generalize getPartOptionByName r c (ctx.Param "name") = res
  rcases res with ⟨⟨u, _ | e⟩, c1⟩ <;> rfl

theorem ParticipationStatusDB.GetParticipationStatusByID_shape {σ : Type} (r : ParticipationStatusDB σ) (c : Conn σ) (ctx : Context) :
    ParticipationStatusDB.GetParticipationStatusByID r c ctx = respondGet (getParticipationStatusByID r c (ctx.Param "id")) := by
  unfold ParticipationStatusDB.GetParticipationStatusByID respondGet
  dsimp only
  generalize getParticipationStatusByID r c (ctx.Param "id") = res
  rcases res with ⟨⟨u, _ | e⟩, c1⟩ <;> rfl

theorem PlatformDB.GetPlatformByName_shape {σ : Type} (r : PlatformDB σ) (c : Conn σ) (ctx : Context) :
    PlatformDB.GetPlatformByName r c ctx = respondGet (getPlatformByName r c (ctx.Param "name")) := by
  unfold PlatformDB.GetPlatformByName respondGet
  dsimp only
  generalize getPlatformByName r c (ctx.Param "name") = res
  rcases res with ⟨⟨u, _ | e⟩, c1⟩ <;> rfl

theorem GetAllAudience_eq {σ : Type} (r : AudienceDB σ) (c : Conn σ)
    (skip limit : Int) :
    GetAllAudience r c skip limit
      = runList r c
          ⟨GetAllAudienceSQL ++ " LIMIT " ++ toString limit ++ " OFFSET " ++ toString skip, []⟩ := by
  unfold GetAllAudience runList DB.Query
  generalize r.rows.query _ c.store = ans
  cases ans <;> rfl

theorem getAllURL_eq {σ : Type} (r : BroadcastURLDB σ) (c : Conn σ)
    (skip limit : Int) :
    getAllURL r c skip limit
      = runList r c
          ⟨getAllURLSQL ++ " LIMIT " ++ toString limit ++ " OFFSET " ++ toString skip, []⟩ := by
  unfold getAllURL runList DB.Query
  generalize r.rows.query _ c.store = ans
  cases ans <;> rfl

theorem getAllEvent_eq {σ : Type} (other : List Char → List Int → String) (r : EventDB σ) (c : Conn σ)
    (skip limit : Int) (slug : String) :
    getAllEvent other r c skip limit slug
      = runList r c
          ⟨Sprintf other
          (getAllEventSQL ++ buildAndGetWhereEventQuery slug ++ " LIMIT %d OFFSET %d").data
          [limit, skip], []⟩ := by
  unfold getAllEvent runList DB.Query
  dsimp only
  generalize r.rows.query _ c.store = ans
  cases ans <;> rfl

theorem getAllEventItem_eq {σ : Type} (r : EventItemDB σ) (c : Conn σ)
    (skip limit : Int) :
    getAllEventItem r c skip limit
      = runList r c
          ⟨getAllEventItemSQL ++ " LIMIT " ++ toString limit ++ " OFFSET " ++ toString skip, []⟩ := by
  unfold getAllEventItem runList DB.Query
  generalize r.rows.query _ c.store = ans
  cases ans <;> rfl

theorem getAllEventPartOption_eq {σ : Type} (r : EventPartOptionDB σ) (c : Conn σ)
    (skip limit : Int) :
    getAllEventPartOption r c skip limit
      = runList r c
          ⟨getAllEventPartOptionSQL ++ " LIMIT " ++ toString limit ++ " OFFSET " ++ toString skip, []⟩ := by
  unfold getAllEventPartOption runList DB.Query
  generalize r.rows.query _ c.store = ans
  cases ans <;> rfl

theorem getAllItem_eq {σ : Type} (r : ItemDB σ) (c : Conn σ)
    (skip limit : Int) :
    getAllItem r c skip limit
      = runList r c
          ⟨getAllItemSQL ++ " LIMIT " ++ toString limit ++ " OFFSET " ++ toString skip, []⟩ := by
  unfold getAllItem runList DB.Query
  generalize r.rows.query _ c.store = ans
  cases ans <;> rfl

theorem getAllItemBroadcastURL_eq {σ : Type} (r : ItemBroadcastURLDB σ) (c : Conn σ)
    (skip limit : Int) :
    getAllItemBroadcastURL r c skip limit
      = runList r c
          ⟨getAllItemBroadcastURLSQL ++ " LIMIT " ++ toString limit ++ " OFFSET " ++ toString skip, []⟩ := by
  unfold getAllItemBroadcastURL runList DB.Query
  generalize r.rows.query _ c.store = ans
  cases ans <;> rfl

theorem GetAllPart_eq {σ : Type} (r : ParticipantDB σ) (c : Conn σ)
    (skip limit : Int) :
    GetAllPart r c skip limit
      = runList r c
          ⟨GetAllPartSQL ++ " LIMIT " ++ toString limit ++ " OFFSET " ++ toString skip, []⟩ := by
  unfold GetAllPart runList DB.Query
  generalize r.rows.query _ c.store = ans
  cases ans <;> rfl

theorem GetAllPartOption_eq {σ : Type} (r : ParticipationOptionDB σ) (c : Conn σ)
    (skip limit : Int) :
    GetAllPartOption r c skip limit
      = runList r c
          ⟨GetAllPartOptionSQL ++ " LIMIT " ++ toString limit ++ " OFFSET " ++ toString skip, []⟩ := by
  unfold GetAllPartOption runList DB.Query
  generalize r.rows.query _ c.store = ans
  cases ans <;> rfl

theorem getAllParticipationStatus_eq {σ : Type} (r : ParticipationStatusDB σ) (c : Conn σ)
    (skip limit : Int) (eventID : String) :
    getAllParticipationStatus r c skip limit eventID
      = runList r c
          ⟨getAllParticipationStatusSQL ++ (buildAndGetWhereQuery eventID).1
            ++ (buildAndGetWhereQuery eventID).2 ++ " LIMIT $1 OFFSET $2",
          [Value.int limit, Value.int skip]⟩ := by
  unfold getAllParticipationStatus runList DB.Query
  dsimp only
  generalize r.rows.query _ c.store = ans
  cases ans <;> rfl

theorem GetAllPlatform_eq {σ : Type} (r : PlatformDB σ) (c : Conn σ)
    (skip limit : Int) :
    GetAllPlatform r c skip limit
      = runList r c
          ⟨GetAllPlatformSQL ++ " LIMIT " ++ toString limit ++ " OFFSET " ++ toString skip, []⟩ := by
  unfold GetAllPlatform runList DB.Query
  generalize r.rows.query _ c.store = ans
  cases ans <;> rfl

theorem AudienceDB.GetAllAudience_shape {σ : Type} (r : AudienceDB σ) (c : Conn σ) (ctx : Context) :
    AudienceDB.GetAllAudience r c ctx
      = parsePaging ctx c (fun skip limit =>
          respondList (SrvEvent.GetAllAudience r c skip limit)) := by
  unfold AudienceDB.GetAllAudience parsePaging respondList
  dsimp only
  cases Atoi (if (ctx.Query "skip" == "") = true then "0" else ctx.Query "skip") with
  | none => rfl
  | some a =>
    cases Atoi (if (ctx.Query "limit" == "") = true then "10" else ctx.Query "limit") with
    | none => rfl
    | some b =>
      dsimp only
      generalize SrvEvent.GetAllAudience r c a b = res
      rcases res with ⟨⟨u, _ | e⟩, c1⟩ <;> rfl

theorem BroadcastURLDB.GetAllBroadcastURL_shape {σ : Type} (r : BroadcastURLDB σ) (c : Conn σ) (ctx : Context) :
    BroadcastURLDB.GetAllBroadcastURL r c ctx
      = parsePaging ctx c (fun skip limit =>
          respondList (getAllURL r c skip limit)) := by
  unfold BroadcastURLDB.GetAllBroadcastURL parsePaging respondList
  dsimp only
  cases Atoi (if (ctx.Query "skip" == "") = true then "0" else ctx.Query "skip") with
  | none => rfl
  | some a =>
    cases Atoi (if (ctx.Query "limit" == "") = true then "10" else ctx.Query "limit") with
    | none => rfl
    | some b =>
      dsimp only
      generalize getAllURL r c a b = res
      rcases res with ⟨⟨u, _ | e⟩, c1⟩ <;> rfl

theorem EventDB.GetAllEvent_shape {σ : Type} (other : List Char → List Int → String) (r : EventDB σ) (c : Conn σ) (ctx : Context) :
    EventDB.GetAllEvent other r c ctx
      = parsePaging ctx c (fun skip limit =>
          respondListEvent (getAllEvent other r c skip limit (ctx.Query "slug"))) := by
  unfold EventDB.GetAllEvent parsePaging respondListEvent
  rfl

theorem EventItemDB.GetAllEventItem_shape {σ : Type} (r : EventItemDB σ) (c : Conn σ) (ctx : Context) :
    EventItemDB.GetAllEventItem r c ctx
      = parsePaging ctx c (fun skip limit =>
          respondList (getAllEventItem r c skip limit)) := by
  unfold EventItemDB.GetAllEventItem parsePaging respondList
  dsimp only
  cases Atoi (if (ctx.Query "skip" == "") = true then "0" else ctx.Query "skip") with
  | none => rfl
  | some a =>
    cases Atoi (if (ctx.Query "limit" == "") = true then "10" else ctx.Query "limit") with
    | none => rfl
    | some b =>
      dsimp only
      generalize getAllEventItem r c a b = res
      rcases res with ⟨⟨u, _ | e⟩, c1⟩ <;> rfl

theorem EventPartOptionDB.GetAllEventPartOption_shape {σ : Type} (r : EventPartOptionDB σ) (c : Conn σ) (ctx : Context) :
    EventPartOptionDB.GetAllEventPartOption r c ctx
      = parsePaging ctx c (fun skip limit =>
          respondList (getAllEventPartOption r c skip limit)) := by
  unfold EventPartOptionDB.GetAllEventPartOption parsePaging respondList
  dsimp only
  cases Atoi (if (ctx.Query "skip" == "") = true then "0" else ctx.Query "skip") with
  | none => rfl
  | some a =>
    cases Atoi (if (ctx.Query "limit" == "") = true then "10" else ctx.Query "limit") with
    | none => rfl
    | some b =>
      dsimp only
      generalize getAllEventPartOption r c a b = res
      rcases res with ⟨⟨u, _ | e⟩, c1⟩ <;> rfl

theorem ItemDB.GetAllItem_shape {σ : Type} (r : ItemDB σ) (c : Conn σ) (ctx : Context) :
    ItemDB.GetAllItem r c ctx
      = parsePaging ctx c (fun skip limit =>
          respondList (getAllItem r c skip limit)) := by
  unfold ItemDB.GetAllItem parsePaging respondList
  dsimp only
  cases Atoi (if (ctx.Query "skip" == "") = true then "0" else ctx.Query "skip") with
  | none => rfl
  | some a =>
    cases Atoi (if (ctx.Query "limit" == "") = true then "10" else ctx.Query "limit") with
    | none => rfl
    | some b =>
      dsimp only
      generalize getAllItem r c a b = res
      rcases res with ⟨⟨u, _ | e⟩, c1⟩ <;> rfl

theorem ItemBroadcastURLDB.GetAllItemBroadcastURL_shape {σ : Type} (r : ItemBroadcastURLDB σ) (c : Conn σ) (ctx : Context) :
    ItemBroadcastURLDB.GetAllItemBroadcastURL r c ctx
      = parsePaging ctx c (fun skip limit =>
          respondList (getAllItemBroadcastURL r c skip limit)) := by
  unfold ItemBroadcastURLDB.GetAllItemBroadcastURL parsePaging respondList
  dsimp only
  cases Atoi (if (ctx.Query "skip" == "") = true then "0" else ctx.Query "skip") with
  | none => rfl
  | some a =>
    cases Atoi (if (ctx.Query "limit" == "") = true then "10" else ctx.Query "limit") with
    | none => rfl
    | some b =>
      dsimp only
      generalize getAllItemBroadcastURL r c a b = res
      rcases res with ⟨⟨u, _ | e⟩, c1⟩ <;> rfl

theorem ParticipantDB.GetAllParticipant_shape {σ : Type} (r : ParticipantDB σ) (c : Conn σ) (ctx : Context) :
    ParticipantDB.GetAllParticipant r c ctx
      = parsePaging ctx c (fun skip limit =>
          respondList (GetAllPart r c skip limit)) := by
  unfold ParticipantDB.GetAllParticipant parsePaging respondList
  dsimp only
  cases Atoi (if (ctx.Query "skip" == "") = true then "0" else ctx.Query "skip") with
  | none => rfl
  | some a =>
    cases Atoi (if (ctx.Query "limit" == "") = true then "10" else ctx.Query "limit") with
    | none => rfl
    | some b =>
      dsimp only
      generalize GetAllPart r c a b = res
      rcases res with ⟨⟨u, _ | e⟩, c1⟩ <;> rfl

theorem ParticipationOptionDB.GetAllParticipationOption_shape {σ : Type} (r : ParticipationOptionDB σ) (c : Conn σ) (ctx : Context) :
    ParticipationOptionDB.GetAllParticipationOption r c ctx
      = parsePaging ctx c (fun skip limit =>
          respondList (GetAllPartOption r c skip limit)) := by
  unfold ParticipationOptionDB.GetAllParticipationOption parsePaging respondList
  dsimp only
  cases Atoi (if (ctx.Query "skip" == "") = true then "0" else ctx.Query "skip") with
  | none => rfl
  | some a =>
    cases Atoi (if (ctx.Query "limit" == "") = true then "10" else ctx.Query "limit") with
    | none => rfl
    | some b =>
      dsimp only
      generalize GetAllPartOption r c a b = res
      rcases res with ⟨⟨u, _ | e⟩, c1⟩ <;> rfl

theorem ParticipationStatusDB.GetAllParticipationStatus_shape {σ : Type} (r : ParticipationStatusDB σ) (c : Conn σ) (ctx : Context) :
    ParticipationStatusDB.GetAllParticipationStatus r c ctx
      = parsePaging ctx c (fun skip limit =>
          respondList (getAllParticipationStatus r c skip limit (ctx.Query "eventid"))) := by
  unfold ParticipationStatusDB.GetAllParticipationStatus parsePaging respondList
  dsimp only
  cases Atoi (if (ctx.Query "skip" == "") = true then "0" else ctx.Query "skip") with
  | none => rfl
  | some a =>
    cases Atoi (if (ctx.Query "limit" == "") = true then "10" else ctx.Query "limit") with
    | none => rfl
    | some b =>
      dsimp only
      generalize getAllParticipationStatus r c a b (ctx.Query "eventid") = res
      rcases res with ⟨⟨u, _ | e⟩, c1⟩ <;> rfl

theorem PlatformDB.GetAllPlatform_shape {σ : Type} (r : PlatformDB σ) (c : Conn σ) (ctx : Context) :
    PlatformDB.GetAllPlatform r c ctx
      = parsePaging ctx c (fun skip limit =>
          respondList (SrvEvent.GetAllPlatform r c skip limit)) := by
  unfold PlatformDB.GetAllPlatform parsePaging respondList
  dsimp only
  cases Atoi (if (ctx.Query "skip" == "") = true then "0" else ctx.Query "skip") with
  | none => rfl
  | some a =>
    cases Atoi (if (ctx.Query "limit" == "") = true then "10" else ctx.Query "limit") with
    | none => rfl
    | some b =>
      dsimp only
      generalize SrvEvent.GetAllPlatform r c a b = res
      rcases res with ⟨⟨u, _ | e⟩, c1⟩ <;> rfl

theorem AudienceDB.UpdateAudienceByName_shape {σ : Type} (r : AudienceDB σ) (c : Conn σ) (u : audience)
    (ctx : Context) :
    AudienceDB.UpdateAudienceByName r c (Except.ok u) ctx
      = respondUpdate "Audience updated successfully" u
          (SrvEvent.UpdateAudienceByName r.db c u (ctx.Param "name")) := by
  unfold AudienceDB.UpdateAudienceByName respondUpdate
  rfl

theorem BroadcastURLDB.UpdateBroadcastURLByID_shape {σ : Type} (r : BroadcastURLDB σ) (c : Conn σ) (u : broadcastURL)
    (ctx : Context) (now : Time) :
    BroadcastURLDB.UpdateBroadcastURLByID r c (Except.ok u) ctx now
      = respondUpdate "Broadcast url updated successfully" u
          (updateURLByID r.db c u (ctx.Param "id") now) := by
  unfold BroadcastURLDB.UpdateBroadcastURLByID respondUpdate
  rfl

theorem EventDB.UpdateEventByID_shape {σ : Type} (r : EventDB σ) (c : Conn σ) (u : event)
    (ctx : Context) (now : Time) :
    EventDB.UpdateEventByID r c (Except.ok u) ctx now
      = respondUpdate "Event updated successfully" u
          (updateEventByID r.db c u (ctx.Param "id") now) := by
  unfold EventDB.UpdateEventByID respondUpdate
  rfl

theorem EventItemDB.UpdateEventItemByID_shape {σ : Type} (r : EventItemDB σ) (c : Conn σ) (u : eventItem)
    (ctx : Context) (now : Time) :
    EventItemDB.UpdateEventItemByID r c (Except.ok u) ctx now
      = respondUpdate "Event Item updated successfully" u
          (updateEventItemByID r.db c u (ctx.Param "id") now) := by
  unfold EventItemDB.UpdateEventItemByID respondUpdate
  rfl

theorem EventPartOptionDB.UpdateEventPartOptionByID_shape {σ : Type} (r : EventPartOptionDB σ) (c : Conn σ) (u : eventPartOption)
    (ctx : Context) (now : Time) :
    EventPartOptionDB.UpdateEventPartOptionByID r c (Except.ok u) ctx now
      = respondUpdate "Event Participation Option updated successfully" u
          (updateEventPartOptionByID r.db c u (ctx.Param "id") now) := by
  unfold EventPartOptionDB.UpdateEventPartOptionByID respondUpdate
  rfl

theorem ItemDB.UpdateItemByID_shape {σ : Type} (r : ItemDB σ) (c : Conn σ) (u : item)
    (ctx : Context) (now : Time) :
    ItemDB.UpdateItemByID r c (Except.ok u) ctx now
      = respondUpdate "Item updated successfully" u
          (updateItemByID r.db c u (ctx.Param "id") now) := by
  unfold ItemDB.UpdateItemByID respondUpdate
  rfl

theorem ItemBroadcastURLDB.UpdateItemBroadcastURLByID_shape {σ : Type} (r : ItemBroadcastURLDB σ) (c : Conn σ) (u : itemBroadcastURL)
    (ctx : Context) (now : Time) :
    ItemBroadcastURLDB.UpdateItemBroadcastURLByID r c (Except.ok u) ctx now
      = respondUpdate "Item BroadcastURL updated successfully" u
          (updateItemBroadcastURLByID r.db c u (ctx.Param "id") now) := by
  unfold ItemBroadcastURLDB.UpdateItemBroadcastURLByID respondUpdate
  rfl

theorem ParticipantDB.UpdateParticipantByID_shape {σ : Type} (r : ParticipantDB σ) (c : Conn σ) (u : part)
    (ctx : Context) (now : Time) :
    ParticipantDB.UpdateParticipantByID r c (Except.ok u) ctx now
      = respondUpdate "Participant updated successfully" u
          (UpdatePartByID r.db c u (ctx.Param "id") now) := by
  unfold ParticipantDB.UpdateParticipantByID respondUpdate
  rfl

theorem ParticipationOptionDB.UpdateParticipationOptionByName_shape {σ : Type} (r : ParticipationOptionDB σ) (c : Conn σ) (u : partOption)
    (ctx : Context) :
    ParticipationOptionDB.UpdateParticipationOptionByName r c (Except.ok u) ctx
      = respondUpdate "Participation option updated successfully" u
          (UpdatePartOptionByName r.db c u (ctx.Param "name")) := by
  unfold ParticipationOptionDB.UpdateParticipationOptionByName respondUpdate
  rfl

theorem ParticipationStatusDB.UpdateParticipationStatusByID_shape {σ : Type} (r : ParticipationStatusDB σ) (c : Conn σ) (u : participationStatus)
    (ctx : Context) (now : Time) :
    ParticipationStatusDB.UpdateParticipationStatusByID r c (Except.ok u) ctx now
      = respondUpdate "Participation Status updated successfully" u
          (updateParticipationStatusByID r.db c u (ctx.Param "id") now) := by
  unfold ParticipationStatusDB.UpdateParticipationStatusByID respondUpdate
  rfl

theorem PlatformDB.UpdatePlatformByName_shape {σ : Type} (r : PlatformDB σ) (c : Conn σ) (u : platform)
    (ctx : Context) :
    PlatformDB.UpdatePlatformByName r c (Except.ok u) ctx
      = respondUpdate "platform updated successfully" u
          (SrvEvent.UpdatePlatformByName r.db c u (ctx.Param "name")) := by
  unfold PlatformDB.UpdatePlatformByName respondUpdate
  rfl

theorem AudienceDB.DeleteAudienceByName_shape {σ : Type} (r : AudienceDB σ) (c : Conn σ) (ctx : Context) :
    AudienceDB.DeleteAudienceByName r c ctx
      = respondDelete "Audience deleted successfully!" (SrvEvent.DeleteAudienceByName r.db c (ctx.Param "name")) := by
  unfold AudienceDB.DeleteAudienceByName respondDelete
  rfl

theorem BroadcastURLDB.DeleteBroadcastURLByID_shape {σ : Type} (r : BroadcastURLDB σ) (c : Conn σ) (ctx : Context) :
    BroadcastURLDB.DeleteBroadcastURLByID r c ctx
      = respondDelete "Broadcast url deleted successfully!" (deleteURLByID r.db c (ctx.Param "id")) := by
  unfold BroadcastURLDB.DeleteBroadcastURLByID respondDelete
  rfl

theorem EventDB.DeleteEventByID_shape {σ : Type} (r : EventDB σ) (c : Conn σ) (ctx : Context) :
    EventDB.DeleteEventByID r c ctx
      = respondDelete "Event deleted successfully!" (deleteEventByID r.db c (ctx.Param "id")) := by
  unfold EventDB.DeleteEventByID respondDelete
  rfl

theorem EventDB.DeleteHardEventByID_shape {σ : Type} (r : EventDB σ) (c : Conn σ) (ctx : Context) :
    EventDB.DeleteHardEventByID r c ctx
      = respondDelete "Event deleted successfully!" (deleteHardEventByID r.db c (ctx.Param "id")) := by
  unfold EventDB.DeleteHardEventByID respondDelete
  rfl

theorem EventItemDB.DeleteEventItemByID_shape {σ : Type} (r : EventItemDB σ) (c : Conn σ) (ctx : Context) :
    EventItemDB.DeleteEventItemByID r c ctx
      = respondDelete "Event Item deleted successfully!" (deleteEventItemByID r.db c (ctx.Param "id")) := by
  unfold EventItemDB.DeleteEventItemByID respondDelete
  rfl

theorem EventPartOptionDB.DeleteEventPartOptionByID_shape {σ : Type} (r : EventPartOptionDB σ) (c : Conn σ) (ctx : Context) :
    EventPartOptionDB.DeleteEventPartOptionByID r c ctx
      = respondDelete "Event Participation Option deleted successfully!" (deleteEventPartOptionByID r.db c (ctx.Param "id")) := by
  unfold EventPartOptionDB.DeleteEventPartOptionByID respondDelete
  rfl

theorem ItemDB.DeleteItemByID_shape {σ : Type} (r : ItemDB σ) (c : Conn σ) (ctx : Context) :
    ItemDB.DeleteItemByID r c ctx
      = respondDelete "Item deleted successfully!" (deleteItemByID r.db c (ctx.Param "id")) := by
  unfold ItemDB.DeleteItemByID respondDelete
  rfl

theorem ItemBroadcastURLDB.DeleteItemBroadcastURLByID_shape {σ : Type} (r : ItemBroadcastURLDB σ) (c : Conn σ) (ctx : Context) :
    ItemBroadcastURLDB.DeleteItemBroadcastURLByID r c ctx
      = respondDelete "Item BroadcastURL deleted successfully!" (deleteItemBroadcastURLByID r.db c (ctx.Param "id")) := by
  unfold ItemBroadcastURLDB.DeleteItemBroadcastURLByID respondDelete
  rfl

theorem ParticipantDB.DeleteParticipantByID_shape {σ : Type} (r : ParticipantDB σ) (c : Conn σ) (ctx : Context) :
    ParticipantDB.DeleteParticipantByID r c ctx
      = respondDelete "Participant deleted successfully!" (DeletePartByID r.db c (ctx.Param "id")) := by
  unfold ParticipantDB.DeleteParticipantByID respondDelete
  rfl

theorem ParticipationOptionDB.DeleteParticipationOptionByName_shape {σ : Type} (r : ParticipationOptionDB σ) (c : Conn σ) (ctx : Context) :
    ParticipationOptionDB.DeleteParticipationOptionByName r c ctx
      = respondDelete "Participation option deleted successfully!" (DeletePartOptionByName r.db c (ctx.Param "name")) := by
  unfold ParticipationOptionDB.DeleteParticipationOptionByName respondDelete
  rfl

theorem ParticipationStatusDB.DeleteParticipationStatusByID_shape {σ : Type} (r : ParticipationStatusDB σ) (c : Conn σ) (ctx : Context) :
    ParticipationStatusDB.DeleteParticipationStatusByID r c ctx
      = respondDelete "Participation Status deleted successfully!" (deleteParticipationStatusByID r.db c (ctx.Param "id")) := by
  unfold ParticipationStatusDB.DeleteParticipationStatusByID respondDelete
  rfl

theorem PlatformDB.DeletePlatformByName_shape {σ : Type} (r : PlatformDB σ) (c : Conn σ) (ctx : Context) :
    PlatformDB.DeletePlatformByName r c ctx
      = respondDelete "platform deleted successfully!" (SrvEvent.DeletePlatformByName r.db c (ctx.Param "name")) := by
  unfold PlatformDB.DeletePlatformByName respondDelete
  rfl

theorem AudienceDB.CreateNewAudience_shape {σ : Type} (v : Validator) (r : AudienceDB σ) (c : Conn σ)
    (body : Except String audience) :
    AudienceDB.CreateNewAudience v r c body
      = bindAndValidate v (audience.failedChecks) c body id (fun s =>
          respondCreate "Created new audience!" s (SrvEvent.CreateNewAudience r.db c s)) := by
  unfold AudienceDB.CreateNewAudience bindAndValidate respondCreate
  cases body with
  | error e => rfl
  | ok s =>
    try dsimp only
    cases v.Struct ((audience.failedChecks) s) with
    | some e => rfl
    | none => rfl

theorem BroadcastURLDB.CreateNewBroadcastURL_shape {σ : Type} (v : Validator) (r : BroadcastURLDB σ) (c : Conn σ)
    (body : Except String broadcastURL) :
    BroadcastURLDB.CreateNewBroadcastURL v r c body
      = bindAndValidate v (broadcastURL.failedChecks) c body some (fun s =>
          (createNewURL r.db c s).map (respondCreate "Created new Broadcast url!" s)) := by
  unfold BroadcastURLDB.CreateNewBroadcastURL bindAndValidate respondCreate
  cases body with
  | error e => rfl
  | ok s =>
    try dsimp only
    cases v.Struct ((broadcastURL.failedChecks) s) with
    | some e => rfl
    | none =>
      dsimp only
      generalize createNewURL r.db c s = res
      rcases res with _ | ⟨_ | e, c1⟩ <;> rfl

theorem EventDB.CreateNewEvent_shape {σ : Type} (v : Validator) (r : EventDB σ) (c : Conn σ)
    (body : Except String event) :
    EventDB.CreateNewEvent v r c body
      = bindAndValidate v (event.failedChecks) c body id (fun s =>
          respondCreate "Created new Event!" s (CreateEvent r.db c s)) := by
  unfold EventDB.CreateNewEvent bindAndValidate respondCreate
  cases body with
  | error e => rfl
  | ok s =>
    try dsimp only
    cases v.Struct ((event.failedChecks) s) with
    | some e => rfl
    | none => rfl

theorem EventItemDB.CreateNewEventItem_shape {σ : Type} (v : Validator) (r : EventItemDB σ) (c : Conn σ)
    (body : Except String eventItem) :
    EventItemDB.CreateNewEventItem v r c body
      = bindAndValidate v (eventItem.failedChecks) c body id (fun s =>
          respondCreate "Created new Event Item!" s (createNewEventItem r.db c s)) := by
  unfold EventItemDB.CreateNewEventItem bindAndValidate respondCreate
  cases body with
  | error e => rfl
  | ok s =>
    try dsimp only
    cases v.Struct ((eventItem.failedChecks) s) with
    | some e => rfl
    | none => rfl

theorem EventPartOptionDB.CreateNewEventPartOption_shape {σ : Type} (v : Validator) (r : EventPartOptionDB σ) (c : Conn σ)
    (body : Except String eventPartOption) :
    EventPartOptionDB.CreateNewEventPartOption v r c body
      = bindAndValidate v (eventPartOption.failedChecks) c body id (fun s =>
          respondCreate "Created new Event Participation Option!" s (createNewEventPartOption r.db c s)) := by
  unfold EventPartOptionDB.CreateNewEventPartOption bindAndValidate respondCreate
  cases body with
  | error e => rfl
  | ok s =>
    try dsimp only
    cases v.Struct ((eventPartOption.failedChecks) s) with
    | some e => rfl
    | none => rfl

theorem ItemDB.CreateNewItem_shape {σ : Type} (v : Validator) (r : ItemDB σ) (c : Conn σ)
    (body : Except String item) :
    ItemDB.CreateNewItem v r c body
      = bindAndValidate v (item.failedChecks) c body id (fun s =>
          respondCreate "Created new Item!" s (createNewItem r.db c s)) := by
  unfold ItemDB.CreateNewItem bindAndValidate respondCreate
  cases body with
  | error e => rfl
  | ok s =>
    try dsimp only
    cases v.Struct ((item.failedChecks) s) with
    | some e => rfl
    | none => rfl

theorem ItemBroadcastURLDB.CreateNewItemBroadcastURL_shape {σ : Type} (v : Validator) (r : ItemBroadcastURLDB σ) (c : Conn σ)
    (body : Except String itemBroadcastURL) :
    ItemBroadcastURLDB.CreateNewItemBroadcastURL v r c body
      = bindAndValidate v (itemBroadcastURL.failedChecks) c body some (fun s =>
          (createNewItemBroadcastURL r.db c s).map (respondCreate "Created new Item BroadcastURL!" s)) := by
  unfold ItemBroadcastURLDB.CreateNewItemBroadcastURL bindAndValidate respondCreate
  cases body with
  | error e => rfl
  | ok s =>
    try dsimp only
    cases v.Struct ((itemBroadcastURL.failedChecks) s) with
    | some e => rfl
    | none =>
      dsimp only
      generalize createNewItemBroadcastURL r.db c s = res
      rcases res with _ | ⟨_ | e, c1⟩ <;> rfl

theorem ParticipantDB.CreateNewParticipant_shape {σ : Type} (v : Validator) (r : ParticipantDB σ) (c : Conn σ)
    (body : Except String part) :
    ParticipantDB.CreateNewParticipant v r c body
      = bindAndValidate v (part.failedChecks v) c body id (fun s =>
          respondCreate "Created new participant!" s (CreateNewPart r.db c s)) := by
  unfold ParticipantDB.CreateNewParticipant bindAndValidate respondCreate
  cases body with
  | error e => rfl
  | ok s =>
    try dsimp only
    cases v.Struct ((part.failedChecks v) s) with
    | some e => rfl
    | none => rfl

theorem ParticipationOptionDB.CreateNewParticipationOption_shape {σ : Type} (v : Validator) (r : ParticipationOptionDB σ) (c : Conn σ)
    (body : Except String partOption) :
    ParticipationOptionDB.CreateNewParticipationOption v r c body
      = bindAndValidate v (partOption.failedChecks) c body some (fun s =>
          (CreateNewPartOption r.db c s).map (respondCreate "Created new participation option!" s)) := by
  unfold ParticipationOptionDB.CreateNewParticipationOption bindAndValidate respondCreate
  cases body with
  | error e => rfl
  | ok s =>
    try dsimp only
    cases v.Struct ((partOption.failedChecks) s) with
    | some e => rfl
    | none =>
      dsimp only
      generalize CreateNewPartOption r.db c s = res
      rcases res with _ | ⟨_ | e, c1⟩ <;> rfl

theorem ParticipationStatusDB.CreateNewParticipationStatus_shape {σ : Type} (v : Validator) (r : ParticipationStatusDB σ) (c : Conn σ)
    (body : Except String participationStatus) :
    ParticipationStatusDB.CreateNewParticipationStatus v r c body
      = bindAndValidate v (participationStatus.failedChecks) c body id (fun s =>
          respondCreate "Created new Participation Status!" s (createNewParticipationStatus r.db c s)) := by
  unfold ParticipationStatusDB.CreateNewParticipationStatus bindAndValidate respondCreate
  cases body with
  | error e => rfl
  | ok s =>
    try dsimp only
    cases v.Struct ((participationStatus.failedChecks) s) with
    | some e => rfl
    | none => rfl

theorem PlatformDB.CreateNewPlatform_shape {σ : Type} (v : Validator) (r : PlatformDB σ) (c : Conn σ)
    (body : Except String platform) :
    PlatformDB.CreateNewPlatform v r c body
      = bindAndValidate v (platform.failedChecks) c body some (fun s =>
          (SrvEvent.CreateNewPlatform r.db c s).map (respondCreate "Created new platform!" s)) := by
  unfold PlatformDB.CreateNewPlatform bindAndValidate respondCreate
  cases body with
  | error e => rfl
  | ok s =>
    try dsimp only
    cases v.Struct ((platform.failedChecks) s) with
    | some e => rfl
    | none =>
      dsimp only
      generalize SrvEvent.CreateNewPlatform r.db c s = res
      rcases res with _ | ⟨_ | e, c1⟩ <;> rfl

/-! ## Claims on the handlers -/

theorem getByKey_contract {σ ρ : Type} (sql : String) (empty : ρ) (param : String) :
    GetByKeyContract (σ := σ) sql empty param (getByKey sql empty)
      (fun r c ctx => respondGet (getByKey sql empty r c (ctx.Param param))) := by
  intro r c ctx
  simp only [getByKey, respondGet, DB.QueryRow]
  generalize r.rows.queryRow ⟨sql, [Value.str (ctx.Param param)]⟩ c.store = ans
  cases ans with
  | row u => exact ⟨rfl, rfl⟩
  | noRows => exact ⟨rfl, rfl⟩
  | error msg =>
    refine ⟨rfl, fun hne => ?_⟩
    have : (msg == "not found") = false := by simpa using hne
    simp [this]

theorem failedChecks_nonempty_event (s : event)
    (h : s.Slug = none ∨ s.Name = none ∨ s.StartsOn = none ∨ s.EndsOn = none) :
    (event.failedChecks s).isEmpty = false := by
  rcases h with h | h | h | h <;>
    cases hs : s.Slug <;> cases hn : s.Name <;> cases h1 : s.StartsOn <;> cases h2 : s.EndsOn <;>
    simp_all [event.failedChecks, required]

/-- C11: for a parsed body in which `slug`, `name`, `starts_on` or `ends_on` is
absent, `CreateNewEvent` answers 400 with `success` false and leaves the
connection as it was: no INSERT is issued. -/
theorem create_event_rejects_missing_required {σ : Type} (v : Validator) (r : EventDB σ)
    (c : Conn σ) (s : event)
    (h : s.Slug = none ∨ s.Name = none ∨ s.StartsOn = none ∨ s.EndsOn = none) :
    ∃ msg, EventDB.CreateNewEvent v r c (Except.ok s)
      = (⟨StatusBadRequest, [("error", Entry.text msg), ("success", Entry.flag false)]⟩, c) := by
  refine ⟨v.describe (event.failedChecks s), ?_⟩
  rw [EventDB.CreateNewEvent_shape]
  simp [bindAndValidate, Validator.Struct, failedChecks_nonempty_event s h]

/-- C11 at a body that has every required field but `ends_on`. -/
theorem create_event_rejects_missing_required_witness :
    ∃ msg, EventDB.CreateNewEvent plainValidator noEvents freshConn
        (Except.ok { Slug := some "s", Name := some "n", StartsOn := some ⟨0⟩ })
      = (⟨StatusBadRequest, [("error", Entry.text msg), ("success", Entry.flag false)]⟩,
          freshConn) :=
  create_event_rejects_missing_required plainValidator noEvents freshConn
    { Slug := some "s", Name := some "n", StartsOn := some ⟨0⟩ } (Or.inr (Or.inr (Or.inr rfl)))

/-- C12: every get-by-key operation and its handler meet `GetByKeyContract`: no
row gives `not found` with the empty record and 404; a row gives its record and
200 with `success` true; another store error is returned unchanged and answered
with 500 (its text not being `not found`, the text the handler tests for). -/
theorem get_by_key_contract {σ : Type} :
    GetByKeyContract (σ := σ) getAudienceByNameSQL {} "name" getAudienceByName
      AudienceDB.GetAudienceByName ∧
    GetByKeyContract (σ := σ) getURLByIDSQL {} "id" getURLByID
      BroadcastURLDB.GetBroadcastURLByID ∧
    GetByKeyContract (σ := σ) getEventByIDSQL {} "id" getEventByID
      EventDB.GetEventByID ∧
    GetByKeyContract (σ := σ) getEventItemByIDSQL {} "id" getEventItemByID
      EventItemDB.GetEventItemByID ∧
    GetByKeyContract (σ := σ) getEventPartOptionByIDSQL {} "id" getEventPartOptionByID
      EventPartOptionDB.GetEventPartOptionByID ∧
    GetByKeyContract (σ := σ) getItemByIDSQL {} "id" getItemByID
      ItemDB.GetItemByID ∧
    GetByKeyContract (σ := σ) getItemBroadcastURLByIDSQL {} "id" getItemBroadcastURLByID
      ItemBroadcastURLDB.GetItemBroadcastURLByID ∧
    GetByKeyContract (σ := σ) getPartByIdSQL {} "id" getPartById
      ParticipantDB.GetParticipantById ∧
    GetByKeyContract (σ := σ) getPartByKeycloakIDSQL {} "id" getPartByKeycloakID
      ParticipantDB.GetParticipantByKeycloakID ∧
    GetByKeyContract (σ := σ) getPartByEmailSQL {} "keycloak-id" getPartByEmail
      ParticipantDB.GetParticipantByEmail ∧
    GetByKeyContract (σ := σ) getPartOptionByNameSQL {} "name" getPartOptionByName
      ParticipationOptionDB.GetParticipationOptionByName ∧
    GetByKeyContract (σ := σ) getParticipationStatusByIDSQL {} "id" getParticipationStatusByID
      ParticipationStatusDB.GetParticipationStatusByID ∧
    GetByKeyContract (σ := σ) getPlatformByNameSQL {} "name" getPlatformByName
      PlatformDB.GetPlatformByName := by
  refine ⟨?_, ?_, ?_, ?_, ?_, ?_, ?_, ?_, ?_, ?_, ?_, ?_, ?_⟩
  · have h := getByKey_contract (σ := σ) getAudienceByNameSQL ({} : audienceResponse) "name"
    intro r c ctx
    have := h r c ctx
    simp only [← getAudienceByName_eq, ← AudienceDB.GetAudienceByName_shape] at this
    exact this
  · have h := getByKey_contract (σ := σ) getURLByIDSQL ({} : broadcastURLResponse) "id"
    intro r c ctx
    have := h r c ctx
    simp only [← getURLByID_eq, ← BroadcastURLDB.GetBroadcastURLByID_shape] at this
    exact this
  · have h := getByKey_contract (σ := σ) getEventByIDSQL ({} : eventResponse) "id"
    intro r c ctx
    have := h r c ctx
    simp only [← getEventByID_eq, ← EventDB.GetEventByID_shape] at this
    exact this
  · have h := getByKey_contract (σ := σ) getEventItemByIDSQL ({} : eventItemResponse) "id"
    intro r c ctx
    have := h r c ctx
    simp only [← getEventItemByID_eq, ← EventItemDB.GetEventItemByID_shape] at this
    exact this
  · have h := getByKey_contract (σ := σ) getEventPartOptionByIDSQL ({} : eventPartOptionResponse) "id"
    intro r c ctx
    have := h r c ctx
    simp only [← getEventPartOptionByID_eq, ← EventPartOptionDB.GetEventPartOptionByID_shape] at this
    exact this
  · have h := getByKey_contract (σ := σ) getItemByIDSQL ({} : itemResponse) "id"
    intro r c ctx
    have := h r c ctx
    simp only [← getItemByID_eq, ← ItemDB.GetItemByID_shape] at this
    exact this
  · have h := getByKey_contract (σ := σ) getItemBroadcastURLByIDSQL ({} : itemBroadcastURLResponse) "id"
    intro r c ctx
    have := h r c ctx
    simp only [← getItemBroadcastURLByID_eq, ← ItemBroadcastURLDB.GetItemBroadcastURLByID_shape] at this
    exact this
  · have h := getByKey_contract (σ := σ) getPartByIdSQL ({} : partResponse) "id"
    intro r c ctx
    have := h r c ctx
    simp only [← getPartById_eq, ← ParticipantDB.GetParticipantById_shape] at this
    exact this
  · have h := getByKey_contract (σ := σ) getPartByKeycloakIDSQL ({} : partResponse) "id"
    intro r c ctx
    have := h r c ctx
    simp only [← getPartByKeycloakID_eq, ← ParticipantDB.GetParticipantByKeycloakID_shape] at this
    exact this
  · have h := getByKey_contract (σ := σ) getPartByEmailSQL ({} : partResponse) "keycloak-id"
    intro r c ctx
    have := h r c ctx
    simp only [← getPartByEmail_eq, ← ParticipantDB.GetParticipantByEmail_shape] at this
    exact this
  · have h := getByKey_contract (σ := σ) getPartOptionByNameSQL ({} : partOptionResponse) "name"
    intro r c ctx
    have := h r c ctx
    simp only [← getPartOptionByName_eq, ← ParticipationOptionDB.GetParticipationOptionByName_shape] at this
    exact this
  · have h := getByKey_contract (σ := σ) getParticipationStatusByIDSQL ({} : participationStatusResponse) "id"
    intro r c ctx
    have := h r c ctx
    simp only [← getParticipationStatusByID_eq, ← ParticipationStatusDB.GetParticipationStatusByID_shape] at this
    exact this
  · have h := getByKey_contract (σ := σ) getPlatformByNameSQL ({} : platformResponse) "name"
    intro r c ctx
    have := h r c ctx
    simp only [← getPlatformByName_eq, ← PlatformDB.GetPlatformByName_shape] at this
    exact this

/-- C12 at a participant store that finds a row: `GetParticipantById` answers 200
with the record of the row. -/
theorem get_by_key_contract_witness :
    (getPartById oneParticipant freshConn "1").1
      = ({ ID := some 1, Email := some "a@b.c" }, none) ∧
    (ParticipantDB.GetParticipantById oneParticipant freshConn { Params := [("id", "1")] }).1
      = ⟨StatusOK, [("message", Entry.text "Fetched!"),
          ("data", Entry.data { ID := some 1, Email := some "a@b.c" }),
          ("success", Entry.flag true)]⟩ :=
  (get_by_key_contract (σ := Unit)).2.2.2.2.2.2.2.1 oneParticipant freshConn
    { Params := [("id", "1")] }

/-- C13 fails on the code: `GetParticipantByEmail` reads the route parameter
`keycloak-id`, which the route `email/:email` does not bind, so whatever the
`:email` segment the participant is looked up by the empty string. -/
theorem participant_by_email_looks_up_empty_key {σ : Type} (r : ParticipantDB σ) (c : Conn σ)
    (email : String) (queryValues : List (String × String)) :
    (routeParticipantByEmail r c email queryValues).2.issued
      = c.issued ++ [⟨getPartByEmailSQL, [Value.str ""]⟩] ∧
    routeParticipantByEmail r c email queryValues
      = respondGet (getPartByEmail r c "") := by
  have h : routeParticipantByEmail r c email queryValues
      = respondGet (getPartByEmail r c "") := by
    unfold routeParticipantByEmail
    rw [ParticipantDB.GetParticipantByEmail_shape]
    rfl
  refine ⟨?_, h⟩
  rw [h, getPartByEmail_eq]
  unfold respondGet getByKey DB.QueryRow
  cases r.rows.queryRow ⟨getPartByEmailSQL, [Value.str ""]⟩ c.store with
  | row u => rfl
  | noRows => rfl
  | error msg => dsimp only; split <;> rfl

/-! ## Lemmas on paging and lists -/

theorem atoi_zero : Atoi "0" = some 0 := by decide

theorem atoi_ten : Atoi "10" = some 10 := by decide

theorem atoi_empty : Atoi "" = none := by decide

theorem parsePaging_of_paging {σ α : Type} (ctx : Context) (c : Conn σ)
    (next : Int → Int → Response α × Conn σ) (skip limit : Int) (h : Paging ctx skip limit) :
    parsePaging ctx c next = next skip limit := by
  obtain ⟨hs, hl⟩ := h
  have e1 : Atoi (if (ctx.Query "skip" == "") = true then "0" else ctx.Query "skip")
      = some skip := by
    rcases hs with ⟨h0, rfl⟩ | h1
    · simp [h0, atoi_zero]
    · have hne : ctx.Query "skip" ≠ "" := fun e => by rw [e, atoi_empty] at h1; cases h1
      simp [hne, h1]
  have e2 : Atoi (if (ctx.Query "limit" == "") = true then "10" else ctx.Query "limit")
      = some limit := by
    rcases hl with ⟨h0, rfl⟩ | h1
    · simp [h0, atoi_ten]
    · have hne : ctx.Query "limit" ≠ "" := fun e => by rw [e, atoi_empty] at h1; cases h1
      simp [hne, h1]
  unfold parsePaging
  simp only [e1, e2]

theorem runList_issued {σ ρ : Type} (r : DB σ ρ) (c : Conn σ) (stmt : Statement) :
    (runList r c stmt).2.issued = c.issued ++ [stmt] := by
  unfold runList DB.Query
  cases r.rows.query stmt c.store <;> rfl

theorem respondList_conn {σ ρ : Type} (res : (List ρ × Option String) × Conn σ) :
    (respondList res).2 = res.2 := by
  rcases res with ⟨⟨u, _ | e⟩, c1⟩ <;> rfl

theorem respondListEvent_conn {σ ρ : Type} (res : (List ρ × Option String) × Conn σ) :
    (respondListEvent res).2 = res.2 := by
  rcases res with ⟨⟨u, e⟩, c1⟩
  unfold respondListEvent
  dsimp only
  split
  · rfl
  · cases e <;> rfl

theorem queriesWithPaging_list {σ ρ : Type} (stmt : Context → Int → Int → Statement) :
    QueriesWithPaging (σ := σ) (ρ := ρ)
      (fun r c ctx => parsePaging ctx c (fun skip limit =>
        respondList (runList r c (stmt ctx limit skip)))) stmt := by
  intro r c ctx skip limit h
  simp only [parsePaging_of_paging ctx c _ skip limit h, respondList_conn, runList_issued]

theorem queriesWithPaging_event {σ ρ : Type} (stmt : Context → Int → Int → Statement) :
    QueriesWithPaging (σ := σ) (ρ := ρ)
      (fun r c ctx => parsePaging ctx c (fun skip limit =>
        respondListEvent (runList r c (stmt ctx limit skip)))) stmt := by
  intro r c ctx skip limit h
  simp only [parsePaging_of_paging ctx c _ skip limit h, respondListEvent_conn, runList_issued]

theorem paging_zero_ten (ctx : Context) (h0 : ctx.Query "skip" = "0")
    (h1 : ctx.Query "limit" = "10") : Paging ctx 0 10 :=
  ⟨Or.inr (by rw [h0, atoi_zero]), Or.inr (by rw [h1, atoi_ten])⟩

theorem emptyListIsOK_list {σ ρ : Type} (stmt : Context → Int → Int → Statement) :
    EmptyListIsOK (σ := σ) (ρ := ρ)
      (fun r c ctx => parsePaging ctx c (fun skip limit =>
        respondList (runList r c (stmt ctx limit skip)))) stmt := by
  intro r c ctx h0 h1 hq
  simp only [parsePaging_of_paging ctx c _ 0 10 (paging_zero_ten ctx h0 h1)]
  unfold runList DB.Query
  rw [hq]
  rfl

theorem failedListIs500_list {σ ρ : Type} (stmt : Context → Int → Int → Statement) :
    FailedListIs500 (σ := σ) (ρ := ρ)
      (fun r c ctx => parsePaging ctx c (fun skip limit =>
        respondList (runList r c (stmt ctx limit skip)))) stmt := by
  intro r c ctx skip limit msg scanned h hq
  simp only [parsePaging_of_paging ctx c _ skip limit h]
  unfold runList DB.Query
  rcases hq with hq | hq <;> rw [hq] <;> rfl

/-- C16 as stated fails: on an event store without rows, `GetAllEvent` answers a
request with `skip=0` and `limit=10` with 404 and the error `no event found`. -/
theorem list_events_empty_is_not_found :
    noEvents.rows.query
        (eventListStatement (fun _ _ => "") "" 10 0) freshConn.store = RowsAnswer.rows [] none ∧
    (EventDB.GetAllEvent (fun _ _ => "") noEvents freshConn
        { QueryValues := [("skip", "0"), ("limit", "10")] }).1
      = ⟨StatusNotFound, [("error", Entry.text "no event found"),
          ("success", Entry.flag false)]⟩ := by
  refine ⟨rfl, ?_⟩
  rw [EventDB.GetAllEvent_shape,
    parsePaging_of_paging _ _ _ 0 10 ⟨Or.inr (by decide), Or.inr (by decide)⟩, getAllEvent_eq]
  rfl

/-- C16 amended: every list handler other than `GetAllEvent` answers a request with
`skip=0` and `limit=10` on a store without rows with 200, `success` true and the
empty sequence; `GetAllEvent` answers it with 404 and the error `no event found`. -/
theorem list_handlers_on_empty_store {σ : Type} (other : List Char → List Int → String) :
    EmptyListIsOK (σ := σ) AudienceDB.GetAllAudience
      (fun _ limit skip => listStatement GetAllAudienceSQL limit skip) ∧
    EmptyListIsOK (σ := σ) BroadcastURLDB.GetAllBroadcastURL
      (fun _ limit skip => listStatement getAllURLSQL limit skip) ∧
    EmptyListIsOK (σ := σ) EventItemDB.GetAllEventItem
      (fun _ limit skip => listStatement getAllEventItemSQL limit skip) ∧
    EmptyListIsOK (σ := σ) EventPartOptionDB.GetAllEventPartOption
      (fun _ limit skip => listStatement getAllEventPartOptionSQL limit skip) ∧
    EmptyListIsOK (σ := σ) ItemDB.GetAllItem
      (fun _ limit skip => listStatement getAllItemSQL limit skip) ∧
    EmptyListIsOK (σ := σ) ItemBroadcastURLDB.GetAllItemBroadcastURL
      (fun _ limit skip => listStatement getAllItemBroadcastURLSQL limit skip) ∧
    EmptyListIsOK (σ := σ) ParticipantDB.GetAllParticipant
      (fun _ limit skip => listStatement GetAllPartSQL limit skip) ∧
    EmptyListIsOK (σ := σ) ParticipationOptionDB.GetAllParticipationOption
      (fun _ limit skip => listStatement GetAllPartOptionSQL limit skip) ∧
    EmptyListIsOK (σ := σ) ParticipationStatusDB.GetAllParticipationStatus
      (fun ctx limit skip =>
        participationStatusListStatement (ctx.Query "eventid") limit skip) ∧
    EmptyListIsOK (σ := σ) PlatformDB.GetAllPlatform
      (fun _ limit skip => listStatement GetAllPlatformSQL limit skip) ∧
    (∀ (r : EventDB σ) (c : Conn σ) (ctx : Context),
      ctx.Query "skip" = "0" → ctx.Query "limit" = "10" →
      r.rows.query (eventListStatement other (ctx.Query "slug") 10 0) c.store
        = RowsAnswer.rows [] none →
      (EventDB.GetAllEvent other r c ctx).1
        = ⟨StatusNotFound, [("error", Entry.text "no event found"),
            ("success", Entry.flag false)]⟩) := by
  refine ⟨?_, ?_, ?_, ?_, ?_, ?_, ?_, ?_, ?_, ?_, ?_⟩
  · intro r c ctx h0 h1 hq
    have := emptyListIsOK_list (σ := σ) (fun _ limit skip => listStatement GetAllAudienceSQL limit skip) r c ctx h0 h1 hq
    rw [AudienceDB.GetAllAudience_shape]
    simp only [GetAllAudience_eq]
    exact this
  · intro r c ctx h0 h1 hq
    have := emptyListIsOK_list (σ := σ) (fun _ limit skip => listStatement getAllURLSQL limit skip) r c ctx h0 h1 hq
    rw [BroadcastURLDB.GetAllBroadcastURL_shape]
    simp only [getAllURL_eq]
    exact this
  · intro r c ctx h0 h1 hq
    have := emptyListIsOK_list (σ := σ) (fun _ limit skip => listStatement getAllEventItemSQL limit skip) r c ctx h0 h1 hq
    rw [EventItemDB.GetAllEventItem_shape]
    simp only [getAllEventItem_eq]
    exact this
  · intro r c ctx h0 h1 hq
    have := emptyListIsOK_list (σ := σ) (fun _ limit skip => listStatement getAllEventPartOptionSQL limit skip) r c ctx h0 h1 hq
    rw [EventPartOptionDB.GetAllEventPartOption_shape]
    simp only [getAllEventPartOption_eq]
    exact this
  · intro r c ctx h0 h1 hq
    have := emptyListIsOK_list (σ := σ) (fun _ limit skip => listStatement getAllItemSQL limit skip) r c ctx h0 h1 hq
    rw [ItemDB.GetAllItem_shape]
    simp only [getAllItem_eq]
    exact this
  · intro r c ctx h0 h1 hq
    have := emptyListIsOK_list (σ := σ) (fun _ limit skip => listStatement getAllItemBroadcastURLSQL limit skip) r c ctx h0 h1 hq
    rw [ItemBroadcastURLDB.GetAllItemBroadcastURL_shape]
    simp only [getAllItemBroadcastURL_eq]
    exact this
  · intro r c ctx h0 h1 hq
    have := emptyListIsOK_list (σ := σ) (fun _ limit skip => listStatement GetAllPartSQL limit skip) r c ctx h0 h1 hq
    rw [ParticipantDB.GetAllParticipant_shape]
    simp only [GetAllPart_eq]
    exact this
  · intro r c ctx h0 h1 hq
    have := emptyListIsOK_list (σ := σ) (fun _ limit skip => listStatement GetAllPartOptionSQL limit skip) r c ctx h0 h1 hq
    rw [ParticipationOptionDB.GetAllParticipationOption_shape]
    simp only [GetAllPartOption_eq]
    exact this
  · intro r c ctx h0 h1 hq
    have := emptyListIsOK_list (σ := σ) (fun ctx limit skip =>
        participationStatusListStatement (ctx.Query "eventid") limit skip) r c ctx h0 h1 hq
    rw [ParticipationStatusDB.GetAllParticipationStatus_shape]
    simp only [getAllParticipationStatus_eq]
    exact this
  · intro r c ctx h0 h1 hq
    have := emptyListIsOK_list (σ := σ) (fun _ limit skip => listStatement GetAllPlatformSQL limit skip) r c ctx h0 h1 hq
    rw [PlatformDB.GetAllPlatform_shape]
    simp only [GetAllPlatform_eq]
    exact this
  · intro r c ctx h0 h1 hq
    rw [EventDB.GetAllEvent_shape, parsePaging_of_paging ctx c _ 0 10 (paging_zero_ten ctx h0 h1),
      getAllEvent_eq]
    unfold runList DB.Query
    unfold eventListStatement at hq
    rw [hq]
    rfl

/-- C16 amended at the audience list on a store without rows. -/
theorem list_handlers_on_empty_store_witness :
    (AudienceDB.GetAllAudience
        { db := noRowPool,
          rows := { queryRow := fun _ _ => RowAnswer.noRows,
                    query := fun _ _ => RowsAnswer.rows [] none } }
        freshConn { QueryValues := [("skip", "0"), ("limit", "10")] }).1
      = ⟨StatusOK, [("message", Entry.text "Fetched!"), ("data", Entry.data []),
          ("success", Entry.flag true)]⟩ :=
  (list_handlers_on_empty_store (σ := Unit) (fun _ _ => "")).1 _ freshConn
    { QueryValues := [("skip", "0"), ("limit", "10")] } rfl rfl rfl

/-- C18 fails on the code for `GetAllEvent`: its length check comes before its
error check, so when the query fails `getAllEvent` returns the error with an
empty list and the handler answers 404 `no event found`; it never answers 500
on such a store.  The ten other list handlers answer 500 with the error. -/
theorem list_events_error_is_masked {σ : Type} (other : List Char → List Int → String)
    (msg : String) :
    (∀ (skip limit : Int) (slug : String),
      (getAllEvent other (failingEvents msg) freshConn skip limit slug).1 = ([], some msg)) ∧
    (EventDB.GetAllEvent other (failingEvents msg) freshConn {}).1
      = ⟨StatusNotFound, [("error", Entry.text "no event found"),
          ("success", Entry.flag false)]⟩ ∧
    (∀ ctx : Context,
      (EventDB.GetAllEvent other (failingEvents msg) freshConn ctx).1.status
        ≠ StatusInternalServerError) ∧
    FailedListIs500 (σ := σ) AudienceDB.GetAllAudience
      (fun _ limit skip => listStatement GetAllAudienceSQL limit skip) ∧
    FailedListIs500 (σ := σ) BroadcastURLDB.GetAllBroadcastURL
      (fun _ limit skip => listStatement getAllURLSQL limit skip) ∧
    FailedListIs500 (σ := σ) EventItemDB.GetAllEventItem
      (fun _ limit skip => listStatement getAllEventItemSQL limit skip) ∧
    FailedListIs500 (σ := σ) EventPartOptionDB.GetAllEventPartOption
      (fun _ limit skip => listStatement getAllEventPartOptionSQL limit skip) ∧
    FailedListIs500 (σ := σ) ItemDB.GetAllItem
      (fun _ limit skip => listStatement getAllItemSQL limit skip) ∧
    FailedListIs500 (σ := σ) ItemBroadcastURLDB.GetAllItemBroadcastURL
      (fun _ limit skip => listStatement getAllItemBroadcastURLSQL limit skip) ∧
    FailedListIs500 (σ := σ) ParticipantDB.GetAllParticipant
      (fun _ limit skip => listStatement GetAllPartSQL limit skip) ∧
    FailedListIs500 (σ := σ) ParticipationOptionDB.GetAllParticipationOption
      (fun _ limit skip => listStatement GetAllPartOptionSQL limit skip) ∧
    FailedListIs500 (σ := σ) ParticipationStatusDB.GetAllParticipationStatus
      (fun ctx limit skip =>
        participationStatusListStatement (ctx.Query "eventid") limit skip) ∧
    FailedListIs500 (σ := σ) PlatformDB.GetAllPlatform
      (fun _ limit skip => listStatement GetAllPlatformSQL limit skip) := by
  have hget : ∀ (skip limit : Int) (slug : String),
      getAllEvent other (failingEvents msg) freshConn skip limit slug
        = (([], some msg), ⟨(), [eventListStatement other slug limit skip]⟩) := by
    intro skip limit slug
    rw [getAllEvent_eq]
    rfl
  refine ⟨fun skip limit slug => by rw [hget], ?_, ?_, ?_, ?_, ?_, ?_, ?_, ?_, ?_, ?_, ?_, ?_⟩
  · rw [EventDB.GetAllEvent_shape,
      parsePaging_of_paging ({} : Context) freshConn _ 0 10
        ⟨Or.inl ⟨rfl, rfl⟩, Or.inl ⟨rfl, rfl⟩⟩, hget]
    rfl
  · intro ctx
    rw [EventDB.GetAllEvent_shape]
    unfold parsePaging
    dsimp only
    cases Atoi (if (ctx.Query "skip" == "") = true then "0" else ctx.Query "skip") with
    | none => simp
    | some a =>
      cases Atoi (if (ctx.Query "limit" == "") = true then "10" else ctx.Query "limit") with
      | none => simp
      | some b =>
        dsimp only
        rw [hget]
        simp [respondListEvent]
  · intro r c ctx skip limit msg scanned h hq
    have := failedListIs500_list (σ := σ) (fun _ limit skip => listStatement GetAllAudienceSQL limit skip) r c ctx skip limit msg scanned h hq
    rw [AudienceDB.GetAllAudience_shape]
    simp only [GetAllAudience_eq]
    exact this
  · intro r c ctx skip limit msg scanned h hq
    have := failedListIs500_list (σ := σ) (fun _ limit skip => listStatement getAllURLSQL limit skip) r c ctx skip limit msg scanned h hq
    rw [BroadcastURLDB.GetAllBroadcastURL_shape]
    simp only [getAllURL_eq]
    exact this
  · intro r c ctx skip limit msg scanned h hq
    have := failedListIs500_list (σ := σ) (fun _ limit skip => listStatement getAllEventItemSQL limit skip) r c ctx skip limit msg scanned h hq
    rw [EventItemDB.GetAllEventItem_shape]
    simp only [getAllEventItem_eq]
    exact this
  · intro r c ctx skip limit msg scanned h hq
    have := failedListIs500_list (σ := σ) (fun _ limit skip => listStatement getAllEventPartOptionSQL limit skip) r c ctx skip limit msg scanned h hq
    rw [EventPartOptionDB.GetAllEventPartOption_shape]
    simp only [getAllEventPartOption_eq]
    exact this
  · intro r c ctx skip limit msg scanned h hq
    have := failedListIs500_list (σ := σ) (fun _ limit skip => listStatement getAllItemSQL limit skip) r c ctx skip limit msg scanned h hq
    rw [ItemDB.GetAllItem_shape]
    simp only [getAllItem_eq]
    exact this
  · intro r c ctx skip limit msg scanned h hq
    have := failedListIs500_list (σ := σ) (fun _ limit skip => listStatement getAllItemBroadcastURLSQL limit skip) r c ctx skip limit msg scanned h hq
    rw [ItemBroadcastURLDB.GetAllItemBroadcastURL_shape]
    simp only [getAllItemBroadcastURL_eq]
    exact this
  · intro r c ctx skip limit msg scanned h hq
    have := failedListIs500_list (σ := σ) (fun _ limit skip => listStatement GetAllPartSQL limit skip) r c ctx skip limit msg scanned h hq
    rw [ParticipantDB.GetAllParticipant_shape]
    simp only [GetAllPart_eq]
    exact this
  · intro r c ctx skip limit msg scanned h hq
    have := failedListIs500_list (σ := σ) (fun _ limit skip => listStatement GetAllPartOptionSQL limit skip) r c ctx skip limit msg scanned h hq
    rw [ParticipationOptionDB.GetAllParticipationOption_shape]
    simp only [GetAllPartOption_eq]
    exact this
  · intro r c ctx skip limit msg scanned h hq
    have := failedListIs500_list (σ := σ) (fun ctx limit skip =>
        participationStatusListStatement (ctx.Query "eventid") limit skip) r c ctx skip limit msg scanned h hq
    rw [ParticipationStatusDB.GetAllParticipationStatus_shape]
    simp only [getAllParticipationStatus_eq]
    exact this
  · intro r c ctx skip limit msg scanned h hq
    have := failedListIs500_list (σ := σ) (fun _ limit skip => listStatement GetAllPlatformSQL limit skip) r c ctx skip limit msg scanned h hq
    rw [PlatformDB.GetAllPlatform_shape]
    simp only [GetAllPlatform_eq]
    exact this

theorem respondUpdate_fst {σ α : Type} (message : String) (u : α)
    (res : Option String × Conn σ) :
    (respondUpdate message u res).1 =
      match res.1 with
      | none =>
        ⟨StatusOK, [("message", Entry.text message), ("data", Entry.data u),
          ("success", Entry.flag true)]⟩
      | some msg =>
        ⟨if msg = "not found" then StatusNotFound
          else if msg = "invalid values" then StatusBadRequest
          else StatusInternalServerError,
          [("error", Entry.text msg), ("success", Entry.flag false)]⟩ := by
  rcases res with ⟨_ | e, c1⟩
  · rfl
  · unfold respondUpdate
    dsimp only
    by_cases h1 : e = "not found"
    · simp [h1]
    · by_cases h2 : e = "invalid values"
      · simp [h2]
      · simp [h1, h2]

/-- C17: every update handler maps the result of its data-access function as
`UpdateStatusMapping` says: 404 exactly for the error `not found`, 400 exactly for
`invalid values`, 500 for any other error, each with the body of error text and
`success` false; and 200 with `success` true when there is no error. -/
theorem update_handlers_map_errors {σ : Type} (now : Time) :
    (∀ r : AudienceDB σ, UpdateStatusMapping "Audience updated successfully" "name"
      (fun c u key => SrvEvent.UpdateAudienceByName r.db c u key)
      (fun c body ctx => AudienceDB.UpdateAudienceByName r c body ctx)) ∧
    (∀ r : BroadcastURLDB σ, UpdateStatusMapping "Broadcast url updated successfully" "id"
      (fun c u key => updateURLByID r.db c u key now)
      (fun c body ctx => BroadcastURLDB.UpdateBroadcastURLByID r c body ctx now)) ∧
    (∀ r : EventDB σ, UpdateStatusMapping "Event updated successfully" "id"
      (fun c u key => updateEventByID r.db c u key now)
      (fun c body ctx => EventDB.UpdateEventByID r c body ctx now)) ∧
    (∀ r : EventItemDB σ, UpdateStatusMapping "Event Item updated successfully" "id"
      (fun c u key => updateEventItemByID r.db c u key now)
      (fun c body ctx => EventItemDB.UpdateEventItemByID r c body ctx now)) ∧
    (∀ r : EventPartOptionDB σ, UpdateStatusMapping "Event Participation Option updated successfully" "id"
      (fun c u key => updateEventPartOptionByID r.db c u key now)
      (fun c body ctx => EventPartOptionDB.UpdateEventPartOptionByID r c body ctx now)) ∧
    (∀ r : ItemDB σ, UpdateStatusMapping "Item updated successfully" "id"
      (fun c u key => updateItemByID r.db c u key now)
      (fun c body ctx => ItemDB.UpdateItemByID r c body ctx now)) ∧
    (∀ r : ItemBroadcastURLDB σ, UpdateStatusMapping "Item BroadcastURL updated successfully" "id"
      (fun c u key => updateItemBroadcastURLByID r.db c u key now)
      (fun c body ctx => ItemBroadcastURLDB.UpdateItemBroadcastURLByID r c body ctx now)) ∧
    (∀ r : ParticipantDB σ, UpdateStatusMapping "Participant updated successfully" "id"
      (fun c u key => UpdatePartByID r.db c u key now)
      (fun c body ctx => ParticipantDB.UpdateParticipantByID r c body ctx now)) ∧
    (∀ r : ParticipationOptionDB σ, UpdateStatusMapping "Participation option updated successfully" "name"
      (fun c u key => UpdatePartOptionByName r.db c u key)
      (fun c body ctx => ParticipationOptionDB.UpdateParticipationOptionByName r c body ctx)) ∧
    (∀ r : ParticipationStatusDB σ, UpdateStatusMapping "Participation Status updated successfully" "id"
      (fun c u key => updateParticipationStatusByID r.db c u key now)
      (fun c body ctx => ParticipationStatusDB.UpdateParticipationStatusByID r c body ctx now)) ∧
    (∀ r : PlatformDB σ, UpdateStatusMapping "platform updated successfully" "name"
      (fun c u key => SrvEvent.UpdatePlatformByName r.db c u key)
      (fun c body ctx => PlatformDB.UpdatePlatformByName r c body ctx)) := by
  refine ⟨?_, ?_, ?_, ?_, ?_, ?_, ?_, ?_, ?_, ?_, ?_⟩
  · intro r c u ctx
    beta_reduce
    rw [AudienceDB.UpdateAudienceByName_shape]
    exact respondUpdate_fst _ _ _
  · intro r c u ctx
    beta_reduce
    rw [BroadcastURLDB.UpdateBroadcastURLByID_shape]
    exact respondUpdate_fst _ _ _
  · intro r c u ctx
    beta_reduce
    rw [EventDB.UpdateEventByID_shape]
    exact respondUpdate_fst _ _ _
  · intro r c u ctx
    beta_reduce
    rw [EventItemDB.UpdateEventItemByID_shape]
    exact respondUpdate_fst _ _ _
  · intro r c u ctx
    beta_reduce
    rw [EventPartOptionDB.UpdateEventPartOptionByID_shape]
    exact respondUpdate_fst _ _ _
  · intro r c u ctx
    beta_reduce
    rw [ItemDB.UpdateItemByID_shape]
    exact respondUpdate_fst _ _ _
  · intro r c u ctx
    beta_reduce
    rw [ItemBroadcastURLDB.UpdateItemBroadcastURLByID_shape]
    exact respondUpdate_fst _ _ _
  · intro r c u ctx
    beta_reduce
    rw [ParticipantDB.UpdateParticipantByID_shape]
    exact respondUpdate_fst _ _ _
  · intro r c u ctx
    beta_reduce
    rw [ParticipationOptionDB.UpdateParticipationOptionByName_shape]
    exact respondUpdate_fst _ _ _
  · intro r c u ctx
    beta_reduce
    rw [ParticipationStatusDB.UpdateParticipationStatusByID_shape]
    exact respondUpdate_fst _ _ _
  · intro r c u ctx
    beta_reduce
    rw [PlatformDB.UpdatePlatformByName_shape]
    exact respondUpdate_fst _ _ _

/-! ## The format of the event list -/

theorem sprintf_literal (other : List Char → List Int → String) (l rest : List Char)
    (args : List Int) (h : '%' ∉ l) :
    Sprintf other (l ++ rest) args = String.mk l ++ Sprintf other rest args := by
  induction l with
  | nil => rfl
  | cons ch l ih =>
    have hch : (ch != '%') = true := by
      have : ch ≠ '%' := fun e => h (e ▸ List.mem_cons_self _ _)
      simpa using this
    have ih' := ih (fun e => h (List.mem_cons_of_mem _ e))
    rw [List.cons_append, Sprintf.eq_def]
    simp only [hch, if_true, ih']
    apply String.ext
    simp [String.data_append, String.singleton]

theorem sprintf_d (other : List Char → List Int → String) (rest : List Char) (a : Int)
    (args : List Int) :
    Sprintf other ('%' :: 'd' :: rest) (a :: args) = toString a ++ Sprintf other rest args := by
  rw [Sprintf]
  rfl

theorem sprintf_d_missing (other : List Char → List Int → String) (rest : List Char) :
    Sprintf other ('%' :: 'd' :: rest) [] = "%!d(MISSING)" ++ Sprintf other rest [] := by
  rw [Sprintf]
  rfl

theorem sprintf_paging (other : List Char → List Int → String) (limit skip : Int) :
    Sprintf other " LIMIT %d OFFSET %d".data [limit, skip]
      = " LIMIT " ++ toString limit ++ " OFFSET " ++ toString skip := by
  have e : " LIMIT %d OFFSET %d".data
      = " LIMIT ".data ++ ('%' :: 'd' :: (" OFFSET ".data ++ ('%' :: 'd' :: []))) := by decide
  rw [e, sprintf_literal _ _ _ _ (by decide), sprintf_d,
    sprintf_literal _ _ _ _ (by decide), sprintf_d]
  apply String.ext
  simp [Sprintf, sprintfExtra, String.data_append]

theorem where_event_query (slug : String) :
    buildAndGetWhereEventQuery slug
      = if slug = "" then "" else " WHERE slug='" ++ slug ++ "'" := by
  unfold buildAndGetWhereEventQuery
  by_cases h : slug = ""
  · subst h; decide
  · have hne : " slug='" ++ slug ++ "'" ≠ "" := by
      intro e
      have := congrArg String.length e
      simp [String.length_append] at this
      exact absurd this.1.1 (by decide)
    have e2 : "" ++ (" slug='" ++ slug ++ "'") = " slug='" ++ slug ++ "'" := by
      apply String.ext; simp [String.data_append]
    have e3 : " WHERE" ++ (" slug='" ++ slug ++ "'") = " WHERE slug='" ++ slug ++ "'" := by
      apply String.ext; simp [String.data_append]
    simp [h, e2, hne, e3]

set_option maxRecDepth 8192 in
theorem event_list_text_without_percent (other : List Char → List Int → String)
    (slug : String) (limit skip : Int) (h : '%' ∉ slug.data) :
    eventListStatement other slug limit skip
      = ⟨getAllEventSQL ++ buildAndGetWhereEventQuery slug ++ " LIMIT " ++ toString limit
          ++ " OFFSET " ++ toString skip, []⟩ := by
  unfold eventListStatement
  have hfree : '%' ∉ (getAllEventSQL ++ buildAndGetWhereEventQuery slug).data := by
    rw [where_event_query]
    have h0 : '%' ∉ getAllEventSQL.data := by decide
    by_cases hs : slug = ""
    · simp only [hs, if_true, String.data_append, List.mem_append, not_or]
      exact ⟨h0, by decide⟩
    · simp only [hs, if_false, String.data_append, List.mem_append, not_or]
      exact ⟨h0, ⟨by decide, h⟩, by decide⟩
  have e : (getAllEventSQL ++ buildAndGetWhereEventQuery slug ++ " LIMIT %d OFFSET %d").data
      = (getAllEventSQL ++ buildAndGetWhereEventQuery slug).data ++ " LIMIT %d OFFSET %d".data := by
    simp [String.data_append]
  rw [e, sprintf_literal _ _ _ _ hfree, sprintf_paging]
  congr 1
  apply String.ext
  simp [String.data_append]

set_option maxRecDepth 8192 in
/-- C15 holds for the where clause and fails on the code for the statement text:
`getAllEvent` hands the clause to `fmt.Sprintf` as part of the format, so a `%`
in the slug is read as a verb.  For the slug `%d`, limit 10 and skip 0 the text
is `... WHERE slug='10' LIMIT 0 OFFSET %!d(MISSING)`, whatever the store. -/
theorem event_list_slug_is_read_as_format {σ : Type} (other : List Char → List Int → String)
    (r : EventDB σ) (c : Conn σ) :
    (∀ slug : String, buildAndGetWhereEventQuery slug
      = if slug = "" then "" else " WHERE slug='" ++ slug ++ "'") ∧
    (getAllEvent other r c 0 10 "%d").2.issued
      = c.issued ++
        [⟨getAllEventSQL ++ " WHERE slug='10' LIMIT 0 OFFSET %!d(MISSING)", []⟩] ∧
    getAllEventSQL ++ " WHERE slug='10' LIMIT 0 OFFSET %!d(MISSING)"
      ≠ getAllEventSQL ++ " WHERE slug='%d'" ++ " LIMIT 10 OFFSET 0" := by
  refine ⟨where_event_query, ?_, by decide⟩
  rw [getAllEvent_eq, runList_issued]
  have hw : buildAndGetWhereEventQuery "%d" = " WHERE slug='%d'" := by decide
  have e : (getAllEventSQL ++ " WHERE slug='%d'" ++ " LIMIT %d OFFSET %d").data
      = (getAllEventSQL ++ " WHERE slug='").data
        ++ ('%' :: 'd' :: ("' LIMIT ".data
        ++ ('%' :: 'd' :: (" OFFSET ".data ++ ('%' :: 'd' :: []))))) := by decide
  have hs : Sprintf other
      (getAllEventSQL ++ " WHERE slug='%d'" ++ " LIMIT %d OFFSET %d").data [10, 0]
      = getAllEventSQL ++ " WHERE slug='10' LIMIT 0 OFFSET %!d(MISSING)" := by
    rw [e, sprintf_literal _ _ _ _ (by decide), sprintf_d,
      sprintf_literal _ _ _ _ (by decide), sprintf_d,
      sprintf_literal _ _ _ _ (by decide), sprintf_d_missing]
    have : Sprintf other [] [] = "" := rfl
    rw [this]
    decide
  rw [hw, hs]

/-! ## The response envelope -/

theorem envelope_failure {α : Type} (status : Nat) (msg : String) (h : ¬ status < 400) :
    Envelope (α := α) ⟨status, [("error", Entry.text msg), ("success", Entry.flag false)]⟩ := by
  unfold Envelope
  rw [if_neg h]
  exact ⟨rfl, rfl⟩

theorem envelope_success {α : Type} (status : Nat) (msg : String) (a : α) (h : status < 400) :
    Envelope ⟨status, [("message", Entry.text msg), ("data", Entry.data a),
      ("success", Entry.flag true)]⟩ := by
  unfold Envelope
  rw [if_pos h]
  exact ⟨rfl, rfl⟩

theorem envelope_respondGet {σ ρ : Type} (res : (ρ × Option String) × Conn σ) :
    Envelope (respondGet res).1 := by
  rcases res with ⟨⟨u, _ | e⟩, c1⟩
  · exact envelope_success _ _ _ (by decide)
  · unfold respondGet
    dsimp only
    split
    · exact envelope_failure _ _ (by decide)
    · exact envelope_failure _ _ (by decide)

theorem envelope_respondList {σ ρ : Type} (res : (List ρ × Option String) × Conn σ) :
    Envelope (respondList res).1 := by
  rcases res with ⟨⟨u, _ | e⟩, c1⟩
  · exact envelope_success _ _ _ (by decide)
  · exact envelope_failure _ _ (by decide)

theorem envelope_respondListEvent {σ ρ : Type} (res : (List ρ × Option String) × Conn σ) :
    Envelope (respondListEvent res).1 := by
  rcases res with ⟨⟨u, e⟩, c1⟩
  unfold respondListEvent
  dsimp only
  split
  · exact envelope_failure _ _ (by decide)
  · cases e
    · exact envelope_success _ _ _ (by decide)
    · exact envelope_failure _ _ (by decide)

theorem envelope_parsePaging {σ α : Type} (ctx : Context) (c : Conn σ)
    (next : Int → Int → Response α × Conn σ) (h : ∀ skip limit, Envelope (next skip limit).1) :
    Envelope (parsePaging ctx c next).1 := by
  unfold parsePaging
  dsimp only
  cases Atoi (if (ctx.Query "skip" == "") = true then "0" else ctx.Query "skip") with
  | none => exact envelope_failure _ _ (by decide)
  | some a =>
    cases Atoi (if (ctx.Query "limit" == "") = true then "10" else ctx.Query "limit") with
    | none => exact envelope_failure _ _ (by decide)
    | some b => exact h a b

theorem envelope_respondUpdate {σ α : Type} (message : String) (u : α)
    (res : Option String × Conn σ) : Envelope (respondUpdate message u res).1 := by
  rcases res with ⟨_ | e, c1⟩
  · exact envelope_success _ _ _ (by decide)
  · unfold respondUpdate
    dsimp only
    split
    · exact envelope_failure _ _ (by decide)
    · split
      · exact envelope_failure _ _ (by decide)
      · exact envelope_failure _ _ (by decide)

theorem envelope_respondCreate {σ α : Type} (message : String) (s : α)
    (res : Option String × Conn σ) : Envelope (respondCreate message s res).1 := by
  rcases res with ⟨_ | e, c1⟩
  · exact envelope_success _ _ _ (by decide)
  · exact envelope_failure _ _ (by decide)

theorem deleteEnvelope_respondDelete {σ : Type} (message : String)
    (res : Option String × Conn σ) : DeleteEnvelope (respondDelete message res).1 := by
  rcases res with ⟨_ | e, c1⟩
  · unfold respondDelete DeleteEnvelope
    exact ⟨rfl, rfl⟩
  · unfold respondDelete DeleteEnvelope
    exact ⟨rfl, rfl⟩

theorem envelope_bindAndValidate {σ α : Type} (v : Validator)
    (failed : α → List (String × String)) (c : Conn σ) (body : Except String α)
    (next : α → Response α × Conn σ) (h : ∀ s, Envelope (next s).1) :
    Envelope (bindAndValidate v failed c body id next).1 := by
  unfold bindAndValidate
  cases body with
  | error e => exact envelope_failure _ _ (by decide)
  | ok s =>
    dsimp only
    cases v.Struct (failed s) with
    | some e => exact envelope_failure _ _ (by decide)
    | none => exact h s

theorem envelope_bindAndValidate_direct {σ α : Type} (v : Validator)
    (failed : α → List (String × String)) (c : Conn σ) (body : Except String α)
    (next : α → Option (Response α × Conn σ))
    (h : ∀ s, failed s = [] → ∃ out, next s = some out ∧ Envelope out.1) :
    ∃ out, bindAndValidate v failed c body some next = some out ∧ Envelope out.1 := by
  unfold bindAndValidate
  cases body with
  | error e => exact ⟨_, rfl, envelope_failure _ _ (by decide)⟩
  | ok s =>
    dsimp only
    cases hv : v.Struct (failed s) with
    | some e => exact ⟨_, rfl, envelope_failure _ _ (by decide)⟩
    | none =>
      have hf : failed s = [] := by
        unfold Validator.Struct at hv
        split at hv
        · simpa using ‹(failed s).isEmpty = true›
        · cases hv
      exact h s hf

theorem required_eq_nil {α : Type} {name : String} {field : Option α}
    (h : required name field = []) : ∃ a, field = some a := by
  cases field with
  | none => simp [required] at h
  | some a => exact ⟨a, rfl⟩

theorem createNewURL_some {σ : Type} (r : Pool σ) (c : Conn σ) (s : broadcastURL)
    (h : broadcastURL.failedChecks s = []) :
    ∃ res, createNewURL r c s = some res := by
  unfold broadcastURL.failedChecks at h
  try simp only [List.append_eq_nil, and_assoc] at h
  obtain ⟨a0, h0⟩ := required_eq_nil h.1
  obtain ⟨a1, h1⟩ := required_eq_nil h.2.1
  obtain ⟨a2, h2⟩ := required_eq_nil h.2.2
  unfold createNewURL
  rw [h0, h1, h2]
  dsimp only
  generalize r.Exec c _ = res
  rcases res with ⟨_ | _, c1⟩ <;> exact ⟨_, rfl⟩

theorem createNewItemBroadcastURL_some {σ : Type} (r : Pool σ) (c : Conn σ) (s : itemBroadcastURL)
    (h : itemBroadcastURL.failedChecks s = []) :
    ∃ res, createNewItemBroadcastURL r c s = some res := by
  unfold itemBroadcastURL.failedChecks at h
  try simp only [List.append_eq_nil, and_assoc] at h
  obtain ⟨a0, h0⟩ := required_eq_nil h.1
  obtain ⟨a1, h1⟩ := required_eq_nil h.2
  unfold createNewItemBroadcastURL
  rw [h0, h1]
  dsimp only
  generalize r.Exec c _ = res
  rcases res with ⟨_ | _, c1⟩ <;> exact ⟨_, rfl⟩

theorem CreateNewPartOption_some {σ : Type} (r : Pool σ) (c : Conn σ) (s : partOption)
    (h : partOption.failedChecks s = []) :
    ∃ res, CreateNewPartOption r c s = some res := by
  unfold partOption.failedChecks at h
  try simp only [List.append_eq_nil, and_assoc] at h
  obtain ⟨a0, h0⟩ := required_eq_nil h
  unfold CreateNewPartOption
  rw [h0]
  dsimp only
  generalize r.Exec c _ = res
  rcases res with ⟨_ | _, c1⟩ <;> exact ⟨_, rfl⟩

theorem CreateNewPlatform_some {σ : Type} (r : Pool σ) (c : Conn σ) (s : platform)
    (h : platform.failedChecks s = []) :
    ∃ res, SrvEvent.CreateNewPlatform r c s = some res := by
  unfold platform.failedChecks at h
  try simp only [List.append_eq_nil, and_assoc] at h
  obtain ⟨a0, h0⟩ := required_eq_nil h
  unfold SrvEvent.CreateNewPlatform
  rw [h0]
  dsimp only
  generalize r.Exec c _ = res
  rcases res with ⟨_ | _, c1⟩ <;> exact ⟨_, rfl⟩

/-- C20 as stated fails: a successful `DeleteEventByID` answers with the keys
`message` and `success` only; there is no `data`. -/
theorem delete_event_success_has_no_data :
    (EventDB.DeleteEventByID noEvents freshConn { Params := [("id", "7")] }).1
      = ⟨StatusOK, [("message", Entry.text "Event deleted successfully!"),
          ("success", Entry.flag true)]⟩ ∧
    ¬ Envelope (EventDB.DeleteEventByID noEvents freshConn { Params := [("id", "7")] }).1 := by
  have h : (EventDB.DeleteEventByID noEvents freshConn { Params := [("id", "7")] }).1
      = ⟨StatusOK, [("message", Entry.text "Event deleted successfully!"),
          ("success", Entry.flag true)]⟩ := rfl
  refine ⟨h, ?_⟩
  rw [h]
  simp [Envelope, SuccessBody, StatusOK]

/-- C20 amended: every response of every handler other than the delete handlers
has the envelope: the keys `message`, `data`, `success` with `success` true on
success, the keys `error`, `success` with `success` false on failure; the create
handlers that dereference required fields always return.  Every response of a
delete handler has the keys `message`, `success` with `success` true on success,
and the keys `error`, `success` with `success` false on failure. -/
theorem responses_have_envelope {σ : Type} (other : List Char → List Int → String)
    (v : Validator) (now : Time) :
    (∀ (r : AudienceDB σ) (c : Conn σ) (ctx : Context),
      Envelope (AudienceDB.GetAudienceByName r c ctx).1) ∧
    (∀ (r : BroadcastURLDB σ) (c : Conn σ) (ctx : Context),
      Envelope (BroadcastURLDB.GetBroadcastURLByID r c ctx).1) ∧
    (∀ (r : EventDB σ) (c : Conn σ) (ctx : Context),
      Envelope (EventDB.GetEventByID r c ctx).1) ∧
    (∀ (r : EventItemDB σ) (c : Conn σ) (ctx : Context),
      Envelope (EventItemDB.GetEventItemByID r c ctx).1) ∧
    (∀ (r : EventPartOptionDB σ) (c : Conn σ) (ctx : Context),
      Envelope (EventPartOptionDB.GetEventPartOptionByID r c ctx).1) ∧
    (∀ (r : ItemDB σ) (c : Conn σ) (ctx : Context),
      Envelope (ItemDB.GetItemByID r c ctx).1) ∧
    (∀ (r : ItemBroadcastURLDB σ) (c : Conn σ) (ctx : Context),
      Envelope (ItemBroadcastURLDB.GetItemBroadcastURLByID r c ctx).1) ∧
    (∀ (r : ParticipantDB σ) (c : Conn σ) (ctx : Context),
      Envelope (ParticipantDB.GetParticipantById r c ctx).1) ∧
    (∀ (r : ParticipantDB σ) (c : Conn σ) (ctx : Context),
      Envelope (ParticipantDB.GetParticipantByKeycloakID r c ctx).1) ∧
    (∀ (r : ParticipantDB σ) (c : Conn σ) (ctx : Context),
      Envelope (ParticipantDB.GetParticipantByEmail r c ctx).1) ∧
    (∀ (r : ParticipationOptionDB σ) (c : Conn σ) (ctx : Context),
      Envelope (ParticipationOptionDB.GetParticipationOptionByName r c ctx).1) ∧
    (∀ (r : ParticipationStatusDB σ) (c : Conn σ) (ctx : Context),
      Envelope (ParticipationStatusDB.GetParticipationStatusByID r c ctx).1) ∧
    (∀ (r : PlatformDB σ) (c : Conn σ) (ctx : Context),
      Envelope (PlatformDB.GetPlatformByName r c ctx).1) ∧
    (∀ (r : AudienceDB σ) (c : Conn σ) (ctx : Context),
      Envelope (AudienceDB.GetAllAudience r c ctx).1) ∧
    (∀ (r : BroadcastURLDB σ) (c : Conn σ) (ctx : Context),
      Envelope (BroadcastURLDB.GetAllBroadcastURL r c ctx).1) ∧
    (∀ (r : EventDB σ) (c : Conn σ) (ctx : Context),
      Envelope (EventDB.GetAllEvent other r c ctx).1) ∧
    (∀ (r : EventItemDB σ) (c : Conn σ) (ctx : Context),
      Envelope (EventItemDB.GetAllEventItem r c ctx).1) ∧
    (∀ (r : EventPartOptionDB σ) (c : Conn σ) (ctx : Context),
      Envelope (EventPartOptionDB.GetAllEventPartOption r c ctx).1) ∧
    (∀ (r : ItemDB σ) (c : Conn σ) (ctx : Context),
      Envelope (ItemDB.GetAllItem r c ctx).1) ∧
    (∀ (r : ItemBroadcastURLDB σ) (c : Conn σ) (ctx : Context),
      Envelope (ItemBroadcastURLDB.GetAllItemBroadcastURL r c ctx).1) ∧
    (∀ (r : ParticipantDB σ) (c : Conn σ) (ctx : Context),
      Envelope (ParticipantDB.GetAllParticipant r c ctx).1) ∧
    (∀ (r : ParticipationOptionDB σ) (c : Conn σ) (ctx : Context),
      Envelope (ParticipationOptionDB.GetAllParticipationOption r c ctx).1) ∧
    (∀ (r : ParticipationStatusDB σ) (c : Conn σ) (ctx : Context),
      Envelope (ParticipationStatusDB.GetAllParticipationStatus r c ctx).1) ∧
    (∀ (r : PlatformDB σ) (c : Conn σ) (ctx : Context),
      Envelope (PlatformDB.GetAllPlatform r c ctx).1) ∧
    (∀ (r : AudienceDB σ) (c : Conn σ) (body : Except String audience),
      Envelope (AudienceDB.CreateNewAudience v r c body).1) ∧
    (∀ (r : BroadcastURLDB σ) (c : Conn σ) (body : Except String broadcastURL),
      ∃ out, BroadcastURLDB.CreateNewBroadcastURL v r c body = some out ∧ Envelope out.1) ∧
    (∀ (r : EventDB σ) (c : Conn σ) (body : Except String event),
      Envelope (EventDB.CreateNewEvent v r c body).1) ∧
    (∀ (r : EventItemDB σ) (c : Conn σ) (body : Except String eventItem),
      Envelope (EventItemDB.CreateNewEventItem v r c body).1) ∧
    (∀ (r : EventPartOptionDB σ) (c : Conn σ) (body : Except String eventPartOption),
      Envelope (EventPartOptionDB.CreateNewEventPartOption v r c body).1) ∧
    (∀ (r : ItemDB σ) (c : Conn σ) (body : Except String item),
      Envelope (ItemDB.CreateNewItem v r c body).1) ∧
    (∀ (r : ItemBroadcastURLDB σ) (c : Conn σ) (body : Except String itemBroadcastURL),
      ∃ out, ItemBroadcastURLDB.CreateNewItemBroadcastURL v r c body = some out ∧ Envelope out.1) ∧
    (∀ (r : ParticipantDB σ) (c : Conn σ) (body : Except String part),
      Envelope (ParticipantDB.CreateNewParticipant v r c body).1) ∧
    (∀ (r : ParticipationOptionDB σ) (c : Conn σ) (body : Except String partOption),
      ∃ out, ParticipationOptionDB.CreateNewParticipationOption v r c body = some out ∧ Envelope out.1) ∧
    (∀ (r : ParticipationStatusDB σ) (c : Conn σ) (body : Except String participationStatus),
      Envelope (ParticipationStatusDB.CreateNewParticipationStatus v r c body).1) ∧
    (∀ (r : PlatformDB σ) (c : Conn σ) (body : Except String platform),
      ∃ out, PlatformDB.CreateNewPlatform v r c body = some out ∧ Envelope out.1) ∧
    (∀ (r : AudienceDB σ) (c : Conn σ) (body : Except String audience) (ctx : Context),
      Envelope (AudienceDB.UpdateAudienceByName r c body ctx).1) ∧
    (∀ (r : BroadcastURLDB σ) (c : Conn σ) (body : Except String broadcastURL) (ctx : Context),
      Envelope (BroadcastURLDB.UpdateBroadcastURLByID r c body ctx now).1) ∧
    (∀ (r : EventDB σ) (c : Conn σ) (body : Except String event) (ctx : Context),
      Envelope (EventDB.UpdateEventByID r c body ctx now).1) ∧
    (∀ (r : EventItemDB σ) (c : Conn σ) (body : Except String eventItem) (ctx : Context),
      Envelope (EventItemDB.UpdateEventItemByID r c body ctx now).1) ∧
    (∀ (r : EventPartOptionDB σ) (c : Conn σ) (body : Except String eventPartOption) (ctx : Context),
      Envelope (EventPartOptionDB.UpdateEventPartOptionByID r c body ctx now).1) ∧
    (∀ (r : ItemDB σ) (c : Conn σ) (body : Except String item) (ctx : Context),
      Envelope (ItemDB.UpdateItemByID r c body ctx now).1) ∧
    (∀ (r : ItemBroadcastURLDB σ) (c : Conn σ) (body : Except String itemBroadcastURL) (ctx : Context),
      Envelope (ItemBroadcastURLDB.UpdateItemBroadcastURLByID r c body ctx now).1) ∧
    (∀ (r : ParticipantDB σ) (c : Conn σ) (body : Except String part) (ctx : Context),
      Envelope (ParticipantDB.UpdateParticipantByID r c body ctx now).1) ∧
    (∀ (r : ParticipationOptionDB σ) (c : Conn σ) (body : Except String partOption) (ctx : Context),
      Envelope (ParticipationOptionDB.UpdateParticipationOptionByName r c body ctx).1) ∧
    (∀ (r : ParticipationStatusDB σ) (c : Conn σ) (body : Except String participationStatus) (ctx : Context),
      Envelope (ParticipationStatusDB.UpdateParticipationStatusByID r c body ctx now).1) ∧
    (∀ (r : PlatformDB σ) (c : Conn σ) (body : Except String platform) (ctx : Context),
      Envelope (PlatformDB.UpdatePlatformByName r c body ctx).1) ∧
    (∀ (r : AudienceDB σ) (c : Conn σ) (ctx : Context),
      DeleteEnvelope (AudienceDB.DeleteAudienceByName r c ctx).1) ∧
    (∀ (r : BroadcastURLDB σ) (c : Conn σ) (ctx : Context),
      DeleteEnvelope (BroadcastURLDB.DeleteBroadcastURLByID r c ctx).1) ∧
    (∀ (r : EventDB σ) (c : Conn σ) (ctx : Context),
      DeleteEnvelope (EventDB.DeleteEventByID r c ctx).1) ∧
    (∀ (r : EventDB σ) (c : Conn σ) (ctx : Context),
      DeleteEnvelope (EventDB.DeleteHardEventByID r c ctx).1) ∧
    (∀ (r : EventItemDB σ) (c : Conn σ) (ctx : Context),
      DeleteEnvelope (EventItemDB.DeleteEventItemByID r c ctx).1) ∧
    (∀ (r : EventPartOptionDB σ) (c : Conn σ) (ctx : Context),
      DeleteEnvelope (EventPartOptionDB.DeleteEventPartOptionByID r c ctx).1) ∧
    (∀ (r : ItemDB σ) (c : Conn σ) (ctx : Context),
      DeleteEnvelope (ItemDB.DeleteItemByID r c ctx).1) ∧
    (∀ (r : ItemBroadcastURLDB σ) (c : Conn σ) (ctx : Context),
      DeleteEnvelope (ItemBroadcastURLDB.DeleteItemBroadcastURLByID r c ctx).1) ∧
    (∀ (r : ParticipantDB σ) (c : Conn σ) (ctx : Context),
      DeleteEnvelope (ParticipantDB.DeleteParticipantByID r c ctx).1) ∧
    (∀ (r : ParticipationOptionDB σ) (c : Conn σ) (ctx : Context),
      DeleteEnvelope (ParticipationOptionDB.DeleteParticipationOptionByName r c ctx).1) ∧
    (∀ (r : ParticipationStatusDB σ) (c : Conn σ) (ctx : Context),
      DeleteEnvelope (ParticipationStatusDB.DeleteParticipationStatusByID r c ctx).1) ∧
    (∀ (r : PlatformDB σ) (c : Conn σ) (ctx : Context),
      DeleteEnvelope (PlatformDB.DeletePlatformByName r c ctx).1) := by
  refine ⟨?_, ?_, ?_, ?_, ?_, ?_, ?_, ?_, ?_, ?_, ?_, ?_, ?_, ?_, ?_, ?_, ?_, ?_, ?_, ?_, ?_, ?_, ?_, ?_, ?_, ?_, ?_, ?_, ?_, ?_, ?_, ?_, ?_, ?_, ?_, ?_, ?_, ?_, ?_, ?_, ?_, ?_, ?_, ?_, ?_, ?_, ?_, ?_, ?_, ?_, ?_, ?_, ?_, ?_, ?_, ?_, ?_, ?_⟩
  · intro r c ctx
    rw [AudienceDB.GetAudienceByName_shape]
    exact envelope_respondGet _
  · intro r c ctx
    rw [BroadcastURLDB.GetBroadcastURLByID_shape]
    exact envelope_respondGet _
  · intro r c ctx
    rw [EventDB.GetEventByID_shape]
    exact envelope_respondGet _
  · intro r c ctx
    rw [EventItemDB.GetEventItemByID_shape]
    exact envelope_respondGet _
  · intro r c ctx
    rw [EventPartOptionDB.GetEventPartOptionByID_shape]
    exact envelope_respondGet _
  · intro r c ctx
    rw [ItemDB.GetItemByID_shape]
    exact envelope_respondGet _
  · intro r c ctx
    rw [ItemBroadcastURLDB.GetItemBroadcastURLByID_shape]
    exact envelope_respondGet _
  · intro r c ctx
    rw [ParticipantDB.GetParticipantById_shape]
    exact envelope_respondGet _
  · intro r c ctx
    rw [ParticipantDB.GetParticipantByKeycloakID_shape]
    exact envelope_respondGet _
  · intro r c ctx
    rw [ParticipantDB.GetParticipantByEmail_shape]
    exact envelope_respondGet _
  · intro r c ctx
    rw [ParticipationOptionDB.GetParticipationOptionByName_shape]
    exact envelope_respondGet _
  · intro r c ctx
    rw [ParticipationStatusDB.GetParticipationStatusByID_shape]
    exact envelope_respondGet _
  · intro r c ctx
    rw [PlatformDB.GetPlatformByName_shape]
    exact envelope_respondGet _
  · intro r c ctx
    rw [AudienceDB.GetAllAudience_shape]
    exact envelope_parsePaging _ _ _ (fun _ _ => envelope_respondList _)
  · intro r c ctx
    rw [BroadcastURLDB.GetAllBroadcastURL_shape]
    exact envelope_parsePaging _ _ _ (fun _ _ => envelope_respondList _)
  · intro r c ctx
    rw [EventDB.GetAllEvent_shape]
    exact envelope_parsePaging _ _ _ (fun _ _ => envelope_respondListEvent _)
  · intro r c ctx
    rw [EventItemDB.GetAllEventItem_shape]
    exact envelope_parsePaging _ _ _ (fun _ _ => envelope_respondList _)
  · intro r c ctx
    rw [EventPartOptionDB.GetAllEventPartOption_shape]
    exact envelope_parsePaging _ _ _ (fun _ _ => envelope_respondList _)
  · intro r c ctx
    rw [ItemDB.GetAllItem_shape]
    exact envelope_parsePaging _ _ _ (fun _ _ => envelope_respondList _)
  · intro r c ctx
    rw [ItemBroadcastURLDB.GetAllItemBroadcastURL_shape]
    exact envelope_parsePaging _ _ _ (fun _ _ => envelope_respondList _)
  · intro r c ctx
    rw [ParticipantDB.GetAllParticipant_shape]
    exact envelope_parsePaging _ _ _ (fun _ _ => envelope_respondList _)
  · intro r c ctx
    rw [ParticipationOptionDB.GetAllParticipationOption_shape]
    exact envelope_parsePaging _ _ _ (fun _ _ => envelope_respondList _)
  · intro r c ctx
    rw [ParticipationStatusDB.GetAllParticipationStatus_shape]
    exact envelope_parsePaging _ _ _ (fun _ _ => envelope_respondList _)
  · intro r c ctx
    rw [PlatformDB.GetAllPlatform_shape]
    exact envelope_parsePaging _ _ _ (fun _ _ => envelope_respondList _)
  · intro r c body
    rw [AudienceDB.CreateNewAudience_shape]
    exact envelope_bindAndValidate _ _ _ _ _ (fun _ => envelope_respondCreate _ _ _)
  · intro r c body
    rw [BroadcastURLDB.CreateNewBroadcastURL_shape]
    refine envelope_bindAndValidate_direct _ _ _ _ _ (fun s hs => ?_)
    obtain ⟨res, hres⟩ := createNewURL_some r.db c s hs
    exact ⟨_, by rw [hres]; rfl, envelope_respondCreate _ _ _⟩
  · intro r c body
    rw [EventDB.CreateNewEvent_shape]
    exact envelope_bindAndValidate _ _ _ _ _ (fun _ => envelope_respondCreate _ _ _)
  · intro r c body
    rw [EventItemDB.CreateNewEventItem_shape]
    exact envelope_bindAndValidate _ _ _ _ _ (fun _ => envelope_respondCreate _ _ _)
  · intro r c body
    rw [EventPartOptionDB.CreateNewEventPartOption_shape]
    exact envelope_bindAndValidate _ _ _ _ _ (fun _ => envelope_respondCreate _ _ _)
  · intro r c body
    rw [ItemDB.CreateNewItem_shape]
    exact envelope_bindAndValidate _ _ _ _ _ (fun _ => envelope_respondCreate _ _ _)
  · intro r c body
    rw [ItemBroadcastURLDB.CreateNewItemBroadcastURL_shape]
    refine envelope_bindAndValidate_direct _ _ _ _ _ (fun s hs => ?_)
    obtain ⟨res, hres⟩ := createNewItemBroadcastURL_some r.db c s hs
    exact ⟨_, by rw [hres]; rfl, envelope_respondCreate _ _ _⟩
  · intro r c body
    rw [ParticipantDB.CreateNewParticipant_shape]
    exact envelope_bindAndValidate _ _ _ _ _ (fun _ => envelope_respondCreate _ _ _)
  · intro r c body
    rw [ParticipationOptionDB.CreateNewParticipationOption_shape]
    refine envelope_bindAndValidate_direct _ _ _ _ _ (fun s hs => ?_)
    obtain ⟨res, hres⟩ := CreateNewPartOption_some r.db c s hs
    exact ⟨_, by rw [hres]; rfl, envelope_respondCreate _ _ _⟩
  · intro r c body
    rw [ParticipationStatusDB.CreateNewParticipationStatus_shape]
    exact envelope_bindAndValidate _ _ _ _ _ (fun _ => envelope_respondCreate _ _ _)
  · intro r c body
    rw [PlatformDB.CreateNewPlatform_shape]
    refine envelope_bindAndValidate_direct _ _ _ _ _ (fun s hs => ?_)
    obtain ⟨res, hres⟩ := CreateNewPlatform_some r.db c s hs
    exact ⟨_, by rw [hres]; rfl, envelope_respondCreate _ _ _⟩
  · intro r c body ctx
    cases body with
    | error e => exact envelope_failure _ _ (by decide)
    | ok u =>
      rw [AudienceDB.UpdateAudienceByName_shape]
      exact envelope_respondUpdate _ _ _
  · intro r c body ctx
    cases body with
    | error e => exact envelope_failure _ _ (by decide)
    | ok u =>
      rw [BroadcastURLDB.UpdateBroadcastURLByID_shape]
      exact envelope_respondUpdate _ _ _
  · intro r c body ctx
    cases body with
    | error e => exact envelope_failure _ _ (by decide)
    | ok u =>
      rw [EventDB.UpdateEventByID_shape]
      exact envelope_respondUpdate _ _ _
  · intro r c body ctx
    cases body with
    | error e => exact envelope_failure _ _ (by decide)
    | ok u =>
      rw [EventItemDB.UpdateEventItemByID_shape]
      exact envelope_respondUpdate _ _ _
  · intro r c body ctx
    cases body with
    | error e => exact envelope_failure _ _ (by decide)
    | ok u =>
      rw [EventPartOptionDB.UpdateEventPartOptionByID_shape]
      exact envelope_respondUpdate _ _ _
  · intro r c body ctx
    cases body with
    | error e => exact envelope_failure _ _ (by decide)
    | ok u =>
      rw [ItemDB.UpdateItemByID_shape]
      exact envelope_respondUpdate _ _ _
  · intro r c body ctx
    cases body with
    | error e => exact envelope_failure _ _ (by decide)
    | ok u =>
      rw [ItemBroadcastURLDB.UpdateItemBroadcastURLByID_shape]
      exact envelope_respondUpdate _ _ _
  · intro r c body ctx
    cases body with
    | error e => exact envelope_failure _ _ (by decide)
    | ok u =>
      rw [ParticipantDB.UpdateParticipantByID_shape]
      exact envelope_respondUpdate _ _ _
  · intro r c body ctx
    cases body with
    | error e => exact envelope_failure _ _ (by decide)
    | ok u =>
      rw [ParticipationOptionDB.UpdateParticipationOptionByName_shape]
      exact envelope_respondUpdate _ _ _
  · intro r c body ctx
    cases body with
    | error e => exact envelope_failure _ _ (by decide)
    | ok u =>
      rw [ParticipationStatusDB.UpdateParticipationStatusByID_shape]
      exact envelope_respondUpdate _ _ _
  · intro r c body ctx
    cases body with
    | error e => exact envelope_failure _ _ (by decide)
    | ok u =>
      rw [PlatformDB.UpdatePlatformByName_shape]
      exact envelope_respondUpdate _ _ _
  · intro r c ctx
    rw [AudienceDB.DeleteAudienceByName_shape]
    exact deleteEnvelope_respondDelete _ _
  · intro r c ctx
    rw [BroadcastURLDB.DeleteBroadcastURLByID_shape]
    exact deleteEnvelope_respondDelete _ _
  · intro r c ctx
    rw [EventDB.DeleteEventByID_shape]
    exact deleteEnvelope_respondDelete _ _
  · intro r c ctx
    rw [EventDB.DeleteHardEventByID_shape]
    exact deleteEnvelope_respondDelete _ _
  · intro r c ctx
    rw [EventItemDB.DeleteEventItemByID_shape]
    exact deleteEnvelope_respondDelete _ _
  · intro r c ctx
    rw [EventPartOptionDB.DeleteEventPartOptionByID_shape]
    exact deleteEnvelope_respondDelete _ _
  · intro r c ctx
    rw [ItemDB.DeleteItemByID_shape]
    exact deleteEnvelope_respondDelete _ _
  · intro r c ctx
    rw [ItemBroadcastURLDB.DeleteItemBroadcastURLByID_shape]
    exact deleteEnvelope_respondDelete _ _
  · intro r c ctx
    rw [ParticipantDB.DeleteParticipantByID_shape]
    exact deleteEnvelope_respondDelete _ _
  · intro r c ctx
    rw [ParticipationOptionDB.DeleteParticipationOptionByName_shape]
    exact deleteEnvelope_respondDelete _ _
  · intro r c ctx
    rw [ParticipationStatusDB.DeleteParticipationStatusByID_shape]
    exact deleteEnvelope_respondDelete _ _
  · intro r c ctx
    rw [PlatformDB.DeletePlatformByName_shape]
    exact deleteEnvelope_respondDelete _ _

/-- C20 amended at a platform create request without `Name`: the handler returns,
with 400 and the failure envelope. -/
theorem responses_have_envelope_witness :
    ∃ out, PlatformDB.CreateNewPlatform plainValidator
        { db := noRowPool,
          rows := { queryRow := fun _ _ => RowAnswer.noRows,
                    query := fun _ _ => RowsAnswer.rows [] none } }
        freshConn (Except.ok {}) = some out ∧ Envelope out.1 :=
  (responses_have_envelope (σ := Unit) (fun _ _ => "") plainValidator ⟨0⟩).2.2.2.2.2.2.2.2.2.2.2.2.2.2.2.2.2.2.2.2.2.2.2.2.2.2.2.2.2.2.2.2.2.2.1 _ freshConn (Except.ok {})

/-! ## Outcomes of the store call of an update -/

theorem append_ne_of_head (p e t : String) (hp : p.data ≠ [])
    (h : p.data.head? ≠ t.data.head?) : p ++ e ≠ t := by
  intro he
  apply h
  have hd := congrArg String.data he
  rw [String.data_append] at hd
  rw [← hd]
  cases hl : p.data with
  | nil => exact absurd hl hp
  | cons a as => rfl

theorem execUpdate_outcomes {σ : Type} (r : Pool σ) (c : Conn σ) (stmt : Statement)
    (msg : String) :
    (∀ e, (r.exec stmt c.store).1 = ExecResult.error e →
      (execUpdate r c stmt msg).1 = some (msg ++ e)) ∧
    ((r.exec stmt c.store).1 = ExecResult.rows 0 →
      (execUpdate r c stmt msg).1 = some "not found") ∧
    (∀ n, 0 < n → (r.exec stmt c.store).1 = ExecResult.rows n →
      (execUpdate r c stmt msg).1 = none) := by
  unfold execUpdate Pool.Exec
  refine ⟨fun e h => ?_, fun h => ?_, fun n hn h => ?_⟩
  · simp only [h]
  · simp only [h]
    rfl
  · simp only [h]
    have : (n == 0) = false := by
      cases n with
      | zero => exact absurd hn (by decide)
      | succ m => rfl
    rw [this]
    rfl

theorem execUpdate_issued {σ : Type} (r : Pool σ) (c : Conn σ) (stmt : Statement)
    (msg : String) : (execUpdate r c stmt msg).2.issued = c.issued ++ [stmt] := by
  unfold execUpdate
  have h : (r.Exec c stmt).2.issued = c.issued ++ [stmt] := rfl
  generalize r.Exec c stmt = res at h
  rcases res with ⟨_ | _, c1⟩
  · dsimp only
    split <;> exact h
  · exact h

theorem event_update_guard (req : event) (now : Time) (h : SomeSet req.fields) :
    ((prepareEventUpdateQuery req now).2.length != 0) = true := by
  rw [prepareEventUpdateQuery_eq]
  exact @updateArgs_length_ne_zero req.fields (some now) h

/-- C21: `updateEventByID` with a request in which at least one field is set sends
one `UPDATE event` statement and maps what the store answers: an error `e` gives
the error `problem updating event: ` followed by `e`, which is neither `not found`
nor `invalid values`, so that the handler answers 500 with it; zero affected rows
give `not found`; one or more affected rows give no error. -/
theorem update_event_store_outcomes {σ : Type} (r : EventDB σ) (c : Conn σ) (req : event)
    (ctx : Context) (now : Time) (h : SomeSet req.fields) :
    (updateEventByID r.db c req (ctx.Param "id") now).2.issued
      = c.issued ++ [⟨"UPDATE event SET " ++ (prepareEventUpdateQuery req now).1
          ++ " WHERE id=" ++ ctx.Param "id", (prepareEventUpdateQuery req now).2⟩] ∧
    (∀ e, (r.db.exec ⟨"UPDATE event SET " ++ (prepareEventUpdateQuery req now).1
          ++ " WHERE id=" ++ ctx.Param "id", (prepareEventUpdateQuery req now).2⟩ c.store).1
        = ExecResult.error e →
      (updateEventByID r.db c req (ctx.Param "id") now).1
        = some ("problem updating event: " ++ e) ∧
      "problem updating event: " ++ e ≠ "not found" ∧
      "problem updating event: " ++ e ≠ "invalid values" ∧
      (EventDB.UpdateEventByID r c (Except.ok req) ctx now).1
        = ⟨StatusInternalServerError, [("error", Entry.text ("problem updating event: " ++ e)),
            ("success", Entry.flag false)]⟩) ∧
    ((r.db.exec ⟨"UPDATE event SET " ++ (prepareEventUpdateQuery req now).1
          ++ " WHERE id=" ++ ctx.Param "id", (prepareEventUpdateQuery req now).2⟩ c.store).1
        = ExecResult.rows 0 →
      (updateEventByID r.db c req (ctx.Param "id") now).1 = some "not found") ∧
    (∀ n, 0 < n →
      (r.db.exec ⟨"UPDATE event SET " ++ (prepareEventUpdateQuery req now).1
          ++ " WHERE id=" ++ ctx.Param "id", (prepareEventUpdateQuery req now).2⟩ c.store).1
        = ExecResult.rows n →
      (updateEventByID r.db c req (ctx.Param "id") now).1 = none) := by
  have e := updateEventByID_eq r.db c req (ctx.Param "id") now
  rw [event_update_guard req now h, if_pos rfl] at e
  have ho := execUpdate_outcomes r.db c
    ⟨"UPDATE event SET " ++ (prepareEventUpdateQuery req now).1
      ++ " WHERE id=" ++ ctx.Param "id", (prepareEventUpdateQuery req now).2⟩
    "problem updating event: "
  have h1 : ∀ e : String, "problem updating event: " ++ e ≠ "not found" :=
    fun e => append_ne_of_head _ _ _ (by decide) (by decide)
  have h2 : ∀ e : String, "problem updating event: " ++ e ≠ "invalid values" :=
    fun e => append_ne_of_head _ _ _ (by decide) (by decide)
  refine ⟨?_, fun err he => ⟨?_, h1 err, h2 err, ?_⟩, fun h0 => ?_, fun n hn hr => ?_⟩
  · rw [e]
    exact execUpdate_issued _ _ _ _
  · rw [e]
    exact ho.1 err he
  · rw [EventDB.UpdateEventByID_shape]
    have hres := ho.1 err he
    rw [← e] at hres
    generalize updateEventByID r.db c req (ctx.Param "id") now = res at hres
    rcases res with ⟨msg, c1⟩
    cases hres
    unfold respondUpdate
    simp [h1 err, h2 err]
  · rw [e]
    exact ho.2.1 h0
  · rw [e]
    exact ho.2.2 n hn hr

/-- C21 at an event request that sets `name`, on a store that reports zero affected
rows: the result is `not found`. -/
theorem update_event_store_outcomes_witness :
    SomeSet ({ Name := some "n" } : event).fields ∧
    (updateEventByID noEvents.db freshConn { Name := some "n" } "42" ⟨0⟩).1
      = some "not found" :=
  ⟨⟨("name", some (Value.str "n")), by decide, rfl⟩,
   (update_event_store_outcomes noEvents freshConn { Name := some "n" }
     { Params := [("id", "42")] } ⟨0⟩
     ⟨("name", some (Value.str "n")), by decide, rfl⟩).2.2.1 rfl⟩

/-! ## The event update builder by the number of fields set -/

theorem numbered_clean {k : Nat} {cols : List String} (h : ∀ c ∈ cols, Clean c) :
    ∀ a ∈ numbered k cols, ',' ∉ a.data ∧ a ≠ "" := by
  intro a ha
  obtain ⟨c, hc, n, rfl⟩ := numbered_mem ha
  constructor
  · simp only [String.data_append, List.mem_append, not_or]
    exact ⟨⟨(h c hc).1, by decide⟩, comma_not_mem_toString n⟩
  · intro e
    have := congrArg String.length e
    simp [String.length_append] at this
    exact absurd this.1.2 (by decide)

theorem splitComma_numbered (k : Nat) (cols : List String) (h : ∀ c ∈ cols, Clean c) :
    splitComma (",".intercalate (numbered k cols)) = numbered k cols :=
  splitComma_intercalate _ (numbered_clean h)

theorem updateCols_of_set {fs : Fields} (h : 1 ≤ countSet fs) :
    updateCols fs true = presentCols fs ++ ["updated_at"] := by
  rw [countSet_eq] at h
  have : (presentVals fs).length ≠ 0 := by omega
  simp [updateCols, this]

theorem updateArgs_of_set {fs : Fields} (now : Time) (h : 1 ≤ countSet fs) :
    updateArgs fs (some now) = presentVals fs ++ [Value.time now] := by
  rw [countSet_eq] at h
  have : (presentVals fs).length ≠ 0 := by omega
  simp [updateArgs, this]

/-- C22: `prepareEventUpdateQuery` on an event record with `k` of its eleven fields
set: for `k = 0` it returns the empty text and no argument; for `k ≥ 1` it returns
`k + 1` assignments and `k + 1` arguments, the columns before the last are those of
the fields that are set, in the order `registration_required`, ..., `date_confirmed`,
the last assignment is `updated_at=$(k+1)` and the last argument is the current time. -/
theorem event_update_builder_by_count (req : event) (now : Time) :
    req.fields.length = 11 ∧
    (countSet req.fields = 0 → prepareEventUpdateQuery req now = ("", [])) ∧
    (1 ≤ countSet req.fields →
      (splitComma (prepareEventUpdateQuery req now).1).length = countSet req.fields + 1 ∧
      (prepareEventUpdateQuery req now).2.length = countSet req.fields + 1 ∧
      (assignedColumns (prepareEventUpdateQuery req now).1).dropLast.Sublist
        ["registration_required", "registration_status", "audience", "slug", "name", "logo",
          "content", "deleted", "starts_on", "ends_on", "date_confirmed"] ∧
      (∀ col, col ∈ (assignedColumns (prepareEventUpdateQuery req now).1).dropLast ↔
        ∃ v, (col, some v) ∈ req.fields) ∧
      (splitComma (prepareEventUpdateQuery req now).1).getLast?
        = some ("updated_at=$" ++ toString (countSet req.fields + 1)) ∧
      (prepareEventUpdateQuery req now).2.getLast? = some (Value.time now)) := by
  refine ⟨rfl, fun h0 => ?_, fun h1 => ?_⟩
  · rw [prepareEventUpdateQuery_eq]
    rw [countSet_eq] at h0
    have hv : presentVals req.fields = [] := List.length_eq_zero.1 h0
    have hc : presentCols req.fields = [] :=
      List.length_eq_zero.1 (by rw [presentCols_length, h0])
    simp [updateCols, updateArgs, hv, hc, numbered, String.intercalate]
  · have hclean : ∀ c ∈ updateCols req.fields true, Clean c :=
      updateCols_clean (List.Subset.refl _) (event_good req)
    have hk : (presentCols req.fields).length = countSet req.fields := by
      rw [presentCols_length, countSet_eq]
    rw [prepareEventUpdateQuery_eq]
    dsimp only
    rw [assignedColumns_update (List.Subset.refl _) (event_good req),
      splitComma_numbered 0 _ hclean, updateCols_of_set h1, updateArgs_of_set now h1]
    refine ⟨?_, ?_, ?_, ?_, ?_, ?_⟩
    · rw [numbered_length, List.length_append, hk]
      rfl
    · rw [List.length_append, ← countSet_eq]
      rfl
    · rw [List.dropLast_concat]
      exact presentCols_sublist req.fields
    · intro col
      rw [List.dropLast_concat]
      exact mem_presentCols
    · rw [numbered_append, hk]
      simp [numbered]
    · simp

/-- C22 at an event request that sets `slug` and `name`: three assignments, the
last one `updated_at=$3`. -/
theorem event_update_builder_by_count_witness :
    1 ≤ countSet ({ Slug := some "s", Name := some "n" } : event).fields ∧
    prepareEventUpdateQuery { Slug := some "s", Name := some "n" } ⟨7⟩
      = ("slug=$1,name=$2,updated_at=$3", [Value.str "s", Value.str "n", Value.time ⟨7⟩]) ∧
    (splitComma (prepareEventUpdateQuery { Slug := some "s", Name := some "n" } ⟨7⟩).1).getLast?
      = some ("updated_at=$" ++ toString
          (countSet ({ Slug := some "s", Name := some "n" } : event).fields + 1)) :=
  ⟨by decide, by decide,
   ((event_update_builder_by_count { Slug := some "s", Name := some "n" } ⟨7⟩).2.2
     (by decide)).2.2.2.2.1⟩

/-! ## Where the key of an update goes -/

theorem updateStatement_text (table keyColumn : String) (built : String × List Value)
    (key : String) (pre mid : String) (h1 : pre = "UPDATE " ++ table ++ " SET ")
    (h2 : mid = " WHERE " ++ keyColumn ++ "=") :
    (⟨pre ++ built.1 ++ mid ++ key, built.2⟩ : Statement)
      = updateStatement table keyColumn built key := by
  subst h1 h2
  unfold updateStatement
  congr 1
  apply String.ext
  simp [String.data_append]

theorem interpolatesKey_of {σ : Type} (table keyColumn msg : String) (fs hs : Fields)
    (touch : Option Time) (hsub : hs ⊆ fs) (hg : GoodCols (fs.map Prod.fst)) (hset : SomeSet hs)
    (update : Pool σ → Conn σ → String → Option String × Conn σ) (pre mid : String)
    (h1 : pre = "UPDATE " ++ table ++ " SET ") (h2 : mid = " WHERE " ++ keyColumn ++ "=")
    (hu : ∀ r c key, update r c key
      = if (updateArgs hs touch).length != 0 then
          execUpdate r c
            ⟨pre ++ ",".intercalate (numbered 0 (updateCols hs touch.isSome)) ++ mid ++ key,
              updateArgs hs touch⟩ msg
        else (some "invalid values", c)) :
    InterpolatesKey table keyColumn
      (",".intercalate (numbered 0 (updateCols hs touch.isSome)), updateArgs hs touch) update := by
  intro r c key
  constructor
  · rw [hu, updateArgs_length_ne_zero hset, if_pos rfl, execUpdate_issued]
    exact congrArg (fun s => c.issued ++ [s])
      (updateStatement_text table keyColumn
        (",".intercalate (numbered 0 (updateCols hs touch.isSome)), updateArgs hs touch)
        key pre mid h1 h2)
  · show (updateArgs hs touch).length = _
    rw [splitComma_numbered 0 _ (updateCols_clean hsub hg), numbered_length]
    cases touch with
    | none => exact (@update_forall₂ fs hs ⟨0⟩ false hsub hg).length_eq.symm
    | some t => exact (@update_forall₂ fs hs t true hsub hg).length_eq.symm

/-- C23: each of the nine builder-based update operations, for a request in which
a field that its builder reads is set, sends the text `UPDATE <table> SET
<assignments> WHERE <keycolumn>=` followed by the key as it is, with the arguments
of the assignments only (as many arguments as assignments, none for the key);
`UpdatePlatformByName` and `UpdatePartOptionByName` send the fixed text
`... SET name=$1 WHERE name=$2` with the key as second argument. -/
theorem update_key_in_text_or_argument {σ : Type} (now : Time) :
    (∀ req : audience, SomeSet req.fields →
      InterpolatesKey (σ := σ) "audience" "name" (prepareAudienceUpdateQuery req)
        (fun r c key => UpdateAudienceByName r c req key)) ∧
    (∀ req : broadcastURL, SomeSet req.fields →
      InterpolatesKey (σ := σ) "broadcast_url" "id" (prepareURLUpdateQuery req now)
        (fun r c key => updateURLByID r c req key now)) ∧
    (∀ req : event, SomeSet req.fields →
      InterpolatesKey (σ := σ) "event" "id" (prepareEventUpdateQuery req now)
        (fun r c key => updateEventByID r c req key now)) ∧
    (∀ req : eventItem, SomeSet req.updateFields →
      InterpolatesKey (σ := σ) "event_item" "id" (prepareEventItemUpdateQuery req now)
        (fun r c key => updateEventItemByID r c req key now)) ∧
    (∀ req : eventPartOption, SomeSet req.fields →
      InterpolatesKey (σ := σ) "event_participation_option" "id" (prepareEventPartOptionUpdateQuery req now)
        (fun r c key => updateEventPartOptionByID r c req key now)) ∧
    (∀ req : item, SomeSet req.updateFields →
      InterpolatesKey (σ := σ) "item" "id" (prepareItemUpdateQuery req now)
        (fun r c key => updateItemByID r c req key now)) ∧
    (∀ req : itemBroadcastURL, SomeSet req.updateFields →
      InterpolatesKey (σ := σ) "item_broadcast_url" "id" (prepareItemBroadcastURLUpdateQuery req now)
        (fun r c key => updateItemBroadcastURLByID r c req key now)) ∧
    (∀ req : part, SomeSet req.fields →
      InterpolatesKey (σ := σ) "participant" "id" (prepareParticipantUpdateQuery req now)
        (fun r c key => UpdatePartByID r c req key now)) ∧
    (∀ req : participationStatus, SomeSet req.fields →
      InterpolatesKey (σ := σ) "participation_status" "id" (prepareParticipationStatusUpdateQuery req now)
        (fun r c key => updateParticipationStatusByID r c req key now)) ∧
    (∀ (req : platform) (newName : String), req.Name = some newName →
      BindsKey (σ := σ) "UPDATE platform SET name=$1 WHERE name=$2" newName
        (fun r c key => UpdatePlatformByName r c req key)) ∧
    (∀ (req : partOption) (newName : String), req.Name = some newName →
      BindsKey (σ := σ) "UPDATE participation_option SET name=$1 WHERE name=$2" newName
        (fun r c key => UpdatePartOptionByName r c req key)) := by
  refine ⟨?_, ?_, ?_, ?_, ?_, ?_, ?_, ?_, ?_, ?_, ?_⟩
  · intro req h
    rw [prepareAudienceUpdateQuery_eq]
    exact interpolatesKey_of "audience" "name" "problem updating audience: " req.fields req.fields none
      (List.Subset.refl _) (audience_good req) h _ "UPDATE audience SET " " WHERE name=" (by decide) (by decide)
      (fun r c key => by rw [UpdateAudienceByName_eq, prepareAudienceUpdateQuery_eq]; rfl)
  · intro req h
    rw [prepareURLUpdateQuery_eq]
    exact interpolatesKey_of "broadcast_url" "id" "problem updating broadcast url: " req.fields req.fields (some now)
      (List.Subset.refl _) (broadcastURL_good req) h _ "UPDATE broadcast_url SET " " WHERE id=" (by decide) (by decide)
      (fun r c key => by rw [updateURLByID_eq, prepareURLUpdateQuery_eq]; rfl)
  · intro req h
    rw [prepareEventUpdateQuery_eq]
    exact interpolatesKey_of "event" "id" "problem updating event: " req.fields req.fields (some now)
      (List.Subset.refl _) (event_good req) h _ "UPDATE event SET " " WHERE id=" (by decide) (by decide)
      (fun r c key => by rw [updateEventByID_eq, prepareEventUpdateQuery_eq]; rfl)
  · intro req h
    rw [prepareEventItemUpdateQuery_eq]
    exact interpolatesKey_of "event_item" "id" "problem updating Event Item: " req.fields req.updateFields (some now)
      (eventItem_updateFields_subset req) (eventItem_good req) h _ "UPDATE event_item SET " " WHERE id=" (by decide) (by decide)
      (fun r c key => by rw [updateEventItemByID_eq, prepareEventItemUpdateQuery_eq]; rfl)
  · intro req h
    rw [prepareEventPartOptionUpdateQuery_eq]
    exact interpolatesKey_of "event_participation_option" "id" "problem updating Event Participation Option: " req.fields req.fields (some now)
      (List.Subset.refl _) (eventPartOption_good req) h _ "UPDATE event_participation_option SET " " WHERE id=" (by decide) (by decide)
      (fun r c key => by rw [updateEventPartOptionByID_eq, prepareEventPartOptionUpdateQuery_eq]; rfl)
  · intro req h
    rw [prepareItemUpdateQuery_eq]
    exact interpolatesKey_of "item" "id" "problem updating item: " req.fields req.updateFields (some now)
      (item_updateFields_subset req) (item_good req) h _ "UPDATE item SET " " WHERE id=" (by decide) (by decide)
      (fun r c key => by rw [updateItemByID_eq, prepareItemUpdateQuery_eq]; rfl)
  · intro req h
    rw [prepareItemBroadcastURLUpdateQuery_eq]
    exact interpolatesKey_of "item_broadcast_url" "id" "problem updating item broadcast url: " req.fields req.updateFields (some now)
      (itemBroadcastURL_updateFields_subset req) (itemBroadcastURL_good req) h _ "UPDATE item_broadcast_url SET " " WHERE id=" (by decide) (by decide)
      (fun r c key => by rw [updateItemBroadcastURLByID_eq, prepareItemBroadcastURLUpdateQuery_eq]; rfl)
  · intro req h
    rw [prepareParticipantUpdateQuery_eq]
    exact interpolatesKey_of "participant" "id" "problem updating participant: " req.fields req.fields (some now)
      (List.Subset.refl _) (part_good req) h _ "UPDATE participant SET " " WHERE id=" (by decide) (by decide)
      (fun r c key => by rw [UpdatePartByID_eq, prepareParticipantUpdateQuery_eq]; rfl)
  · intro req h
    rw [prepareParticipationStatusUpdateQuery_eq]
    exact interpolatesKey_of "participation_status" "id" "problem updating Participation Status: " req.fields req.fields (some now)
      (List.Subset.refl _) (participationStatus_good req) h _ "UPDATE participation_status SET " " WHERE id=" (by decide) (by decide)
      (fun r c key => by rw [updateParticipationStatusByID_eq, prepareParticipationStatusUpdateQuery_eq]; rfl)
  · intro req newName h r c key
    show (UpdatePlatformByName r c req key).2.issued = _
    rw [UpdatePlatformByName_eq, h]
    exact execUpdate_issued _ _ _ _
  · intro req newName h r c key
    show (UpdatePartOptionByName r c req key).2.issued = _
    rw [UpdatePartOptionByName_eq, h]
    exact execUpdate_issued _ _ _ _

/-- C23 at an event request that sets `name`, with the key `7 OR 1=1`: the key is
part of the text as it is, and the arguments are those of the two assignments. -/
theorem update_key_in_text_or_argument_witness :
    SomeSet ({ Name := some "n" } : event).fields ∧
    (updateEventByID noRowPool freshConn { Name := some "n" } "7 OR 1=1" ⟨0⟩).2.issued
      = [⟨"UPDATE event SET name=$1,updated_at=$2 WHERE id=7 OR 1=1",
          [Value.str "n", Value.time ⟨0⟩]⟩] :=
  ⟨⟨("name", some (Value.str "n")), by decide, rfl⟩,
   ((update_key_in_text_or_argument (σ := Unit) ⟨0⟩).2.2.1 { Name := some "n" }
     ⟨("name", some (Value.str "n")), by decide, rfl⟩ noRowPool freshConn "7 OR 1=1").1⟩

/-! ## The participation-status list -/

theorem where_query (eventID : String) :
    buildAndGetWhereQuery eventID
      = (if eventID = "" then "" else " WHERE event_id=" ++ eventID,
          " ORDER BY created_at asc") := by
  unfold buildAndGetWhereQuery
  by_cases h : eventID = ""
  · subst h; decide
  · have hne : " event_id=" ++ eventID ≠ "" := by
      intro e
      have := congrArg String.length e
      simp [String.length_append] at this
      exact absurd this.1 (by decide)
    have e2 : "" ++ (" event_id=" ++ eventID) = " event_id=" ++ eventID := by
      apply String.ext; simp [String.data_append]
    have e3 : " WHERE" ++ (" event_id=" ++ eventID) = " WHERE event_id=" ++ eventID := by
      apply String.ext; simp [String.data_append]
    have e4 : "" ++ (" ORDER BY created_at " ++ "asc") = " ORDER BY created_at asc" := by
      decide
    simp [h, e2, hne, e3, e4]

/-- C24: `buildAndGetWhereQuery` returns the empty where clause for the empty event
id and ` WHERE event_id=<eventID>` otherwise, always with the ordering clause
` ORDER BY created_at asc`; `getAllParticipationStatus` sends the fixed select
followed by both clauses and ` LIMIT $1 OFFSET $2`, with the arguments `limit`,
`skip` in this order. -/
theorem participation_status_list_statement {σ : Type} (r : ParticipationStatusDB σ)
    (c : Conn σ) (skip limit : Int) (eventID : String) :
    buildAndGetWhereQuery "" = ("", " ORDER BY created_at asc") ∧
    (eventID ≠ "" → buildAndGetWhereQuery eventID
      = (" WHERE event_id=" ++ eventID, " ORDER BY created_at asc")) ∧
    (buildAndGetWhereQuery eventID).2 = " ORDER BY created_at asc" ∧
    (getAllParticipationStatus r c skip limit eventID).2.issued
      = c.issued ++
          [⟨getAllParticipationStatusSQL ++ (buildAndGetWhereQuery eventID).1
              ++ " ORDER BY created_at asc" ++ " LIMIT $1 OFFSET $2",
            [Value.int limit, Value.int skip]⟩] := by
  refine ⟨by decide, fun h => ?_, ?_, ?_⟩
  · rw [where_query, if_neg h]
  · rw [where_query]
  · rw [getAllParticipationStatus_eq, runList_issued, where_query]

/-- C24 at the event id `7`: the where clause is ` WHERE event_id=7`. -/
theorem participation_status_list_statement_witness :
    ("7" : String) ≠ "" ∧
    buildAndGetWhereQuery "7" = (" WHERE event_id=" ++ "7", " ORDER BY created_at asc") :=
  ⟨by decide,
   (participation_status_list_statement
    ({ db := noRowPool,
       rows := { queryRow := fun _ _ => RowAnswer.noRows,
                 query := fun _ _ => RowsAnswer.rows [] none } } : ParticipationStatusDB Unit)
    freshConn 20 10 "7").2.1 (by decide)⟩

/-! ## Paging values that do not convert -/

theorem atoi_of_not_digit (s : String) (ch : Char) (hm : ch ∈ s.data)
    (hd : ch.isDigit = false) (hp : ch ≠ '+') (hn : ch ≠ '-') : Atoi s = none := by
  have key : ∀ digits : List Char, ch ∈ digits →
      (digits.isEmpty || !digits.all Char.isDigit) = true := by
    intro digits h
    have : digits.all Char.isDigit = false := by
      rw [List.all_eq_false]
      exact ⟨ch, h, by simp [hd]⟩
    simp [this]
  unfold Atoi
  dsimp only
  rw [if_pos]
  apply key
  split
  · next rest he =>
    rw [he] at hm
    rcases List.mem_cons.1 hm with h | h
    · exact absurd h hp
    · exact h
  · next rest he =>
    rw [he] at hm
    rcases List.mem_cons.1 hm with h | h
    · exact absurd h hn
    · exact h
  · exact hm

theorem rejectsBadPaging_parse {σ α : Type} (next : Conn σ → Context → Int → Int → Response α × Conn σ) :
    RejectsBadPaging (fun c ctx => parsePaging ctx c (next c ctx)) := by
  intro c ctx
  constructor
  · intro hne hs
    have e1 : Atoi (if (ctx.Query "skip" == "") = true then "0" else ctx.Query "skip") = none := by
      simp [hne, hs]
    unfold parsePaging
    simp only [e1]
  · intro hs hne hl
    have e1 : ∃ a, Atoi (if (ctx.Query "skip" == "") = true then "0" else ctx.Query "skip")
        = some a := by
      rcases hs with h0 | h1
      · exact ⟨0, by simp [h0, atoi_zero]⟩
      · have hne : ctx.Query "skip" ≠ "" := fun e => by rw [e, atoi_empty] at h1; cases h1
        obtain ⟨a, ha⟩ := Option.isSome_iff_exists.1 h1
        exact ⟨a, by simp [hne, ha]⟩
    obtain ⟨a, ha⟩ := e1
    have e2 : Atoi (if (ctx.Query "limit" == "") = true then "10" else ctx.Query "limit")
        = none := by
      simp [hne, hl]
    unfold parsePaging
    simp only [ha, e2]

/-- C25: every list handler answers 400 with `Invalid skip value! Accepted value is
INTEGER` when the non-empty `skip` does not convert to an integer, whatever
`limit` is; otherwise it answers 400 with `Invalid limit value! Accepted value is
INTEGER` when the non-empty `limit` does not convert; in both cases the connection
is left as it was, so the store is not queried.  A text with a character that is
neither a digit nor a sign does not convert. -/
theorem list_handlers_reject_bad_paging {σ : Type} (other : List Char → List Int → String) :
    (∀ (s : String) (ch : Char), ch ∈ s.data → ch.isDigit = false → ch ≠ '+' → ch ≠ '-' →
      Atoi s = none) ∧
    (∀ r : AudienceDB σ, RejectsBadPaging (fun c ctx => AudienceDB.GetAllAudience r c ctx)) ∧
    (∀ r : BroadcastURLDB σ, RejectsBadPaging (fun c ctx => BroadcastURLDB.GetAllBroadcastURL r c ctx)) ∧
    (∀ r : EventDB σ, RejectsBadPaging (fun c ctx => EventDB.GetAllEvent other r c ctx)) ∧
    (∀ r : EventItemDB σ, RejectsBadPaging (fun c ctx => EventItemDB.GetAllEventItem r c ctx)) ∧
    (∀ r : EventPartOptionDB σ, RejectsBadPaging (fun c ctx => EventPartOptionDB.GetAllEventPartOption r c ctx)) ∧
    (∀ r : ItemDB σ, RejectsBadPaging (fun c ctx => ItemDB.GetAllItem r c ctx)) ∧
    (∀ r : ItemBroadcastURLDB σ, RejectsBadPaging (fun c ctx => ItemBroadcastURLDB.GetAllItemBroadcastURL r c ctx)) ∧
    (∀ r : ParticipantDB σ, RejectsBadPaging (fun c ctx => ParticipantDB.GetAllParticipant r c ctx)) ∧
    (∀ r : ParticipationOptionDB σ, RejectsBadPaging (fun c ctx => ParticipationOptionDB.GetAllParticipationOption r c ctx)) ∧
    (∀ r : ParticipationStatusDB σ, RejectsBadPaging (fun c ctx => ParticipationStatusDB.GetAllParticipationStatus r c ctx)) ∧
    (∀ r : PlatformDB σ, RejectsBadPaging (fun c ctx => PlatformDB.GetAllPlatform r c ctx)) := by
  refine ⟨atoi_of_not_digit, ?_, ?_, ?_, ?_, ?_, ?_, ?_, ?_, ?_, ?_, ?_⟩
  · intro r c ctx
    have h := rejectsBadPaging_parse (σ := σ)
      (fun c ctx skip limit => respondList (SrvEvent.GetAllAudience r c skip limit)) c ctx
    beta_reduce at h ⊢
    rw [AudienceDB.GetAllAudience_shape]
    exact h
  · intro r c ctx
    have h := rejectsBadPaging_parse (σ := σ)
      (fun c ctx skip limit => respondList (getAllURL r c skip limit)) c ctx
    beta_reduce at h ⊢
    rw [BroadcastURLDB.GetAllBroadcastURL_shape]
    exact h
  · intro r c ctx
    have h := rejectsBadPaging_parse (σ := σ)
      (fun c ctx skip limit => respondListEvent (getAllEvent other r c skip limit (ctx.Query "slug"))) c ctx
    beta_reduce at h ⊢
    rw [EventDB.GetAllEvent_shape]
    exact h
  · intro r c ctx
    have h := rejectsBadPaging_parse (σ := σ)
      (fun c ctx skip limit => respondList (getAllEventItem r c skip limit)) c ctx
    beta_reduce at h ⊢
    rw [EventItemDB.GetAllEventItem_shape]
    exact h
  · intro r c ctx
    have h := rejectsBadPaging_parse (σ := σ)
      (fun c ctx skip limit => respondList (getAllEventPartOption r c skip limit)) c ctx
    beta_reduce at h ⊢
    rw [EventPartOptionDB.GetAllEventPartOption_shape]
    exact h
  · intro r c ctx
    have h := rejectsBadPaging_parse (σ := σ)
      (fun c ctx skip limit => respondList (getAllItem r c skip limit)) c ctx
    beta_reduce at h ⊢
    rw [ItemDB.GetAllItem_shape]
    exact h
  · intro r c ctx
    have h := rejectsBadPaging_parse (σ := σ)
      (fun c ctx skip limit => respondList (getAllItemBroadcastURL r c skip limit)) c ctx
    beta_reduce at h ⊢
    rw [ItemBroadcastURLDB.GetAllItemBroadcastURL_shape]
    exact h
  · intro r c ctx
    have h := rejectsBadPaging_parse (σ := σ)
      (fun c ctx skip limit => respondList (GetAllPart r c skip limit)) c ctx
    beta_reduce at h ⊢
    rw [ParticipantDB.GetAllParticipant_shape]
    exact h
  · intro r c ctx
    have h := rejectsBadPaging_parse (σ := σ)
      (fun c ctx skip limit => respondList (GetAllPartOption r c skip limit)) c ctx
    beta_reduce at h ⊢
    rw [ParticipationOptionDB.GetAllParticipationOption_shape]
    exact h
  · intro r c ctx
    have h := rejectsBadPaging_parse (σ := σ)
      (fun c ctx skip limit => respondList (getAllParticipationStatus r c skip limit (ctx.Query "eventid"))) c ctx
    beta_reduce at h ⊢
    rw [ParticipationStatusDB.GetAllParticipationStatus_shape]
    exact h
  · intro r c ctx
    have h := rejectsBadPaging_parse (σ := σ)
      (fun c ctx skip limit => respondList (SrvEvent.GetAllPlatform r c skip limit)) c ctx
    beta_reduce at h ⊢
    rw [PlatformDB.GetAllPlatform_shape]
    exact h

/-- C25 at an item list request with `skip=abc` and `limit=xyz`: the skip error,
and no statement is issued. -/
theorem list_handlers_reject_bad_paging_witness :
    ItemDB.GetAllItem
        ({ db := noRowPool,
           rows := { queryRow := fun _ _ => RowAnswer.noRows,
                     query := fun _ _ => RowsAnswer.rows [] none } } : ItemDB Unit)
        freshConn { QueryValues := [("skip", "abc"), ("limit", "xyz")] }
      = (⟨StatusBadRequest, [("error", Entry.text "Invalid skip value! Accepted value is INTEGER"),
          ("success", Entry.flag false)]⟩, freshConn) :=
  ((list_handlers_reject_bad_paging (σ := Unit) (fun _ _ => "")).2.2.2.2.2.2.1 _ freshConn
    { QueryValues := [("skip", "abc"), ("limit", "xyz")] }).1 (by decide) (by decide)

/-! ## Create operations after validation -/

theorem struct_none {v : Validator} {failed : List (String × String)}
    (h : v.Struct failed = none) : failed = [] := by
  unfold Validator.Struct at h
  split at h
  · simpa using ‹failed.isEmpty = true›
  · cases h

theorem requiredAnd_eq_nil {name tag : String} {check : String → Bool} {field : Option String}
    (h : requiredAnd name tag check field = []) : ∃ a, field = some a := by
  cases field with
  | none => simp [requiredAnd] at h
  | some a => exact ⟨a, rfl⟩

theorem create_args_of_some {fs : Fields} (h : SomeSet fs) :
    (joinCreate (runCreate fs ([], [], []))).2.2 ≠ [] := by
  rw [create_eq]
  exact someSet_iff.1 h

theorem execCreate_ne_invalid {σ : Type} (r : Pool σ) (c : Conn σ) (stmt : Statement)
    (msg : String) (hp : msg.data ≠ []) (h : msg.data.head? ≠ "invalid values".data.head?) :
    (execCreate r c stmt msg).1 ≠ some "invalid values" := by
  unfold execCreate
  generalize r.Exec c stmt = res
  rcases res with ⟨n | e, c1⟩
  · simp
  · intro he
    exact append_ne_of_head msg e "invalid values" hp h (Option.some.inj he)

theorem CreateNewAudience_eq {σ : Type} (r : Pool σ) (c : Conn σ) (req : audience) :
    SrvEvent.CreateNewAudience r c req
      = if (prepareAudienceCreateQuery req).2.2.length != 0 then
          execCreate r c
            ⟨"INSERT INTO audience (" ++ (prepareAudienceCreateQuery req).1 ++ ") VALUES (" ++ (prepareAudienceCreateQuery req).2.1 ++ ")",
              (prepareAudienceCreateQuery req).2.2⟩ "problem creating item: "
        else (some "invalid values", c) := rfl

theorem audience_checked_args (s : audience) (h : audience.failedChecks s = []) :
    (prepareAudienceCreateQuery s).2.2 ≠ [] := by
  unfold audience.failedChecks at h
  try simp only [List.append_eq_nil, and_assoc] at h
  obtain ⟨a, ha⟩ := required_eq_nil h
  rw [prepareAudienceCreateQuery_eq]
  apply create_args_of_some
  unfold SomeSet audience.fields
  rw [ha]
  simp

theorem CreateEvent_eq {σ : Type} (r : Pool σ) (c : Conn σ) (req : event) :
    CreateEvent r c req
      = if (prepareEventCreateQuery req).2.2.length != 0 then
          execCreate r c
            ⟨"INSERT INTO event (" ++ (prepareEventCreateQuery req).1 ++ ") VALUES (" ++ (prepareEventCreateQuery req).2.1 ++ ")",
              (prepareEventCreateQuery req).2.2⟩ "problem creating event: "
        else (some "invalid values", c) := rfl

theorem event_checked_args (s : event) (h : event.failedChecks s = []) :
    (prepareEventCreateQuery s).2.2 ≠ [] := by
  unfold event.failedChecks at h
  try simp only [List.append_eq_nil, and_assoc] at h
  obtain ⟨a, ha⟩ := required_eq_nil h.1
  rw [prepareEventCreateQuery_eq]
  apply create_args_of_some
  unfold SomeSet event.fields
  rw [ha]
  simp

theorem createNewEventItem_eq {σ : Type} (r : Pool σ) (c : Conn σ) (req : eventItem) :
    createNewEventItem r c req
      = if (prepareEventItemCreateQuery req).2.2.length != 0 then
          execCreate r c
            ⟨"INSERT INTO event_item (" ++ (prepareEventItemCreateQuery req).1 ++ ") VALUES (" ++ (prepareEventItemCreateQuery req).2.1 ++ ")",
              (prepareEventItemCreateQuery req).2.2⟩ "problem creating event item: "
        else (some "invalid values", c) := rfl

theorem eventItem_checked_args (s : eventItem) (h : eventItem.failedChecks s = []) :
    (prepareEventItemCreateQuery s).2.2 ≠ [] := by
  unfold eventItem.failedChecks at h
  try simp only [List.append_eq_nil, and_assoc] at h
  obtain ⟨a, ha⟩ := required_eq_nil h.1
  rw [prepareEventItemCreateQuery_eq]
  apply create_args_of_some
  unfold SomeSet eventItem.fields
  rw [ha]
  simp

theorem createNewEventPartOption_eq {σ : Type} (r : Pool σ) (c : Conn σ) (req : eventPartOption) :
    createNewEventPartOption r c req
      = if (prepareEventPartOptionCreateQuery req).2.2.length != 0 then
          execCreate r c
            ⟨"INSERT INTO event_participation_option (" ++ (prepareEventPartOptionCreateQuery req).1 ++ ") VALUES (" ++ (prepareEventPartOptionCreateQuery req).2.1 ++ ")",
              (prepareEventPartOptionCreateQuery req).2.2⟩ "problem creating participation status: "
        else (some "invalid values", c) := rfl

theorem eventPartOption_checked_args (s : eventPartOption) (h : eventPartOption.failedChecks s = []) :
    (prepareEventPartOptionCreateQuery s).2.2 ≠ [] := by
  unfold eventPartOption.failedChecks at h
  try simp only [List.append_eq_nil, and_assoc] at h
  obtain ⟨a, ha⟩ := required_eq_nil h.1
  rw [prepareEventPartOptionCreateQuery_eq]
  apply create_args_of_some
  unfold SomeSet eventPartOption.fields
  rw [ha]
  simp

theorem createNewItem_eq {σ : Type} (r : Pool σ) (c : Conn σ) (req : item) :
    createNewItem r c req
      = if (prepareItemCreateQuery req).2.2.length != 0 then
          execCreate r c
            ⟨"INSERT INTO item (" ++ (prepareItemCreateQuery req).1 ++ ") VALUES (" ++ (prepareItemCreateQuery req).2.1 ++ ")",
              (prepareItemCreateQuery req).2.2⟩ "problem creating item: "
        else (some "invalid values", c) := rfl

theorem item_checked_args (s : item) (h : item.failedChecks s = []) :
    (prepareItemCreateQuery s).2.2 ≠ [] := by
  unfold item.failedChecks at h
  try simp only [List.append_eq_nil, and_assoc] at h
  obtain ⟨a, ha⟩ := required_eq_nil h.1
  rw [prepareItemCreateQuery_eq]
  apply create_args_of_some
  unfold SomeSet item.fields
  rw [ha]
  simp

theorem CreateNewPart_eq {σ : Type} (r : Pool σ) (c : Conn σ) (req : part) :
    CreateNewPart r c req
      = if (prepareParticipantCreateQuery req).2.2.length != 0 then
          execCreate r c
            ⟨"INSERT INTO participant (" ++ (prepareParticipantCreateQuery req).1 ++ ") VALUES (" ++ (prepareParticipantCreateQuery req).2.1 ++ ")",
              (prepareParticipantCreateQuery req).2.2⟩ "problem creating participant: "
        else (some "invalid values", c) := rfl

theorem part_checked_args (v : Validator) (s : part) (h : part.failedChecks v s = []) :
    (prepareParticipantCreateQuery s).2.2 ≠ [] := by
  unfold part.failedChecks at h
  try simp only [List.append_eq_nil, and_assoc] at h
  obtain ⟨a, ha⟩ := requiredAnd_eq_nil h.1
  rw [prepareParticipantCreateQuery_eq]
  apply create_args_of_some
  unfold SomeSet part.fields
  rw [ha]
  simp

theorem createNewParticipationStatus_eq {σ : Type} (r : Pool σ) (c : Conn σ) (req : participationStatus) :
    createNewParticipationStatus r c req
      = if (prepareParticipationStatusCreateQuery req).2.2.length != 0 then
          execCreate r c
            ⟨"INSERT INTO participation_status (" ++ (prepareParticipationStatusCreateQuery req).1 ++ ") VALUES (" ++ (prepareParticipationStatusCreateQuery req).2.1 ++ ")",
              (prepareParticipationStatusCreateQuery req).2.2⟩ "problem creating participation status: "
        else (some "invalid values", c) := rfl

theorem participationStatus_checked_args (s : participationStatus) (h : participationStatus.failedChecks s = []) :
    (prepareParticipationStatusCreateQuery s).2.2 ≠ [] := by
  unfold participationStatus.failedChecks at h
  try simp only [List.append_eq_nil, and_assoc] at h
  obtain ⟨a, ha⟩ := required_eq_nil h.1
  rw [prepareParticipationStatusCreateQuery_eq]
  apply create_args_of_some
  unfold SomeSet participationStatus.fields
  rw [ha]
  simp

/-- C26: for a request record that passed the validation of its create handler,
each builder-based create function builds a non-empty argument list and does not
return `invalid values`, whatever the store answers; each direct-insert create
function returns, that is, it dereferences no nil field. -/
theorem validated_create_is_safe {σ : Type} (v : Validator) (r : Pool σ) (c : Conn σ) :
    (∀ s : audience, v.Struct (audience.failedChecks s) = none →
      (prepareAudienceCreateQuery s).2.2 ≠ [] ∧ (SrvEvent.CreateNewAudience r c s).1 ≠ some "invalid values") ∧
    (∀ s : broadcastURL, v.Struct (broadcastURL.failedChecks s) = none →
      ∃ res, createNewURL r c s = some res) ∧
    (∀ s : event, v.Struct (event.failedChecks s) = none →
      (prepareEventCreateQuery s).2.2 ≠ [] ∧ (CreateEvent r c s).1 ≠ some "invalid values") ∧
    (∀ s : eventItem, v.Struct (eventItem.failedChecks s) = none →
      (prepareEventItemCreateQuery s).2.2 ≠ [] ∧ (createNewEventItem r c s).1 ≠ some "invalid values") ∧
    (∀ s : eventPartOption, v.Struct (eventPartOption.failedChecks s) = none →
      (prepareEventPartOptionCreateQuery s).2.2 ≠ [] ∧ (createNewEventPartOption r c s).1 ≠ some "invalid values") ∧
    (∀ s : item, v.Struct (item.failedChecks s) = none →
      (prepareItemCreateQuery s).2.2 ≠ [] ∧ (createNewItem r c s).1 ≠ some "invalid values") ∧
    (∀ s : itemBroadcastURL, v.Struct (itemBroadcastURL.failedChecks s) = none →
      ∃ res, createNewItemBroadcastURL r c s = some res) ∧
    (∀ s : part, v.Struct (part.failedChecks v s) = none →
      (prepareParticipantCreateQuery s).2.2 ≠ [] ∧ (CreateNewPart r c s).1 ≠ some "invalid values") ∧
    (∀ s : partOption, v.Struct (partOption.failedChecks s) = none →
      ∃ res, CreateNewPartOption r c s = some res) ∧
    (∀ s : participationStatus, v.Struct (participationStatus.failedChecks s) = none →
      (prepareParticipationStatusCreateQuery s).2.2 ≠ [] ∧ (createNewParticipationStatus r c s).1 ≠ some "invalid values") ∧
    (∀ s : platform, v.Struct (platform.failedChecks s) = none →
      ∃ res, SrvEvent.CreateNewPlatform r c s = some res) := by
  refine ⟨?_, ?_, ?_, ?_, ?_, ?_, ?_, ?_, ?_, ?_, ?_⟩
  · intro s h
    have ha := audience_checked_args s (struct_none h)
    refine ⟨ha, ?_⟩
    have hl : ((prepareAudienceCreateQuery s).2.2.length != 0) = true := by simpa using ha
    rw [CreateNewAudience_eq, hl, if_pos rfl]
    exact execCreate_ne_invalid _ _ _ _ (by decide) (by decide)
  · intro s h
    exact createNewURL_some r c s (struct_none h)
  · intro s h
    have ha := event_checked_args s (struct_none h)
    refine ⟨ha, ?_⟩
    have hl : ((prepareEventCreateQuery s).2.2.length != 0) = true := by simpa using ha
    rw [CreateEvent_eq, hl, if_pos rfl]
    exact execCreate_ne_invalid _ _ _ _ (by decide) (by decide)
  · intro s h
    have ha := eventItem_checked_args s (struct_none h)
    refine ⟨ha, ?_⟩
    have hl : ((prepareEventItemCreateQuery s).2.2.length != 0) = true := by simpa using ha
    rw [createNewEventItem_eq, hl, if_pos rfl]
    exact execCreate_ne_invalid _ _ _ _ (by decide) (by decide)
  · intro s h
    have ha := eventPartOption_checked_args s (struct_none h)
    refine ⟨ha, ?_⟩
    have hl : ((prepareEventPartOptionCreateQuery s).2.2.length != 0) = true := by simpa using ha
    rw [createNewEventPartOption_eq, hl, if_pos rfl]
    exact execCreate_ne_invalid _ _ _ _ (by decide) (by decide)
  · intro s h
    have ha := item_checked_args s (struct_none h)
    refine ⟨ha, ?_⟩
    have hl : ((prepareItemCreateQuery s).2.2.length != 0) = true := by simpa using ha
    rw [createNewItem_eq, hl, if_pos rfl]
    exact execCreate_ne_invalid _ _ _ _ (by decide) (by decide)
  · intro s h
    exact createNewItemBroadcastURL_some r c s (struct_none h)
  · intro s h
    have ha := part_checked_args v s (struct_none h)
    refine ⟨ha, ?_⟩
    have hl : ((prepareParticipantCreateQuery s).2.2.length != 0) = true := by simpa using ha
    rw [CreateNewPart_eq, hl, if_pos rfl]
    exact execCreate_ne_invalid _ _ _ _ (by decide) (by decide)
  · intro s h
    exact CreateNewPartOption_some r c s (struct_none h)
  · intro s h
    have ha := participationStatus_checked_args s (struct_none h)
    refine ⟨ha, ?_⟩
    have hl : ((prepareParticipationStatusCreateQuery s).2.2.length != 0) = true := by simpa using ha
    rw [createNewParticipationStatus_eq, hl, if_pos rfl]
    exact execCreate_ne_invalid _ _ _ _ (by decide) (by decide)
  · intro s h
    exact CreateNewPlatform_some r c s (struct_none h)

/-- C26 at an event request with the four required fields, on a store that accepts
the insert: four arguments, and no error. -/
theorem validated_create_is_safe_witness :
    plainValidator.Struct (event.failedChecks
      { Slug := some "s", Name := some "n", StartsOn := some ⟨1⟩, EndsOn := some ⟨2⟩ }) = none ∧
    (prepareEventCreateQuery
      { Slug := some "s", Name := some "n", StartsOn := some ⟨1⟩, EndsOn := some ⟨2⟩ }).2.2 ≠ [] ∧
    (CreateEvent noRowPool freshConn
      { Slug := some "s", Name := some "n", StartsOn := some ⟨1⟩, EndsOn := some ⟨2⟩ }).1
      ≠ some "invalid values" :=
  ⟨by decide,
   (validated_create_is_safe plainValidator noRowPool freshConn).2.2.1
     { Slug := some "s", Name := some "n", StartsOn := some ⟨1⟩, EndsOn := some ⟨2⟩ }
     (by decide)⟩

/-! ## Columns written at creation and columns read back -/

theorem created_columns_subset {fs : Fields} (hg : GoodCols (fs.map Prod.fst)) :
    ∀ col ∈ splitComma (joinCreate (runCreate fs ([], [], []))).1, col ∈ fs.map Prod.fst := by
  intro col hc
  rw [create_eq] at hc
  dsimp only at hc
  rw [splitComma_presentCols hg] at hc
  exact (presentCols_sublist fs).subset hc

theorem issued_of_exec {σ : Type} (r : Pool σ) (c : Conn σ) (stmt stmt1 : Statement)
    (c1 : Conn σ) (h : (r.Exec c stmt).2 = c1) (h1 : c1.issued = c.issued ++ [stmt1]) :
    stmt1 = stmt := by
  subst h
  have : (r.Exec c stmt).2.issued = c.issued ++ [stmt] := rfl
  rw [this] at h1
  simpa using (List.append_cancel_left h1).symm

set_option maxRecDepth 16384 in
/-- C27 fails on the code for item: `prepareItemCreateQuery` writes the column
`content` when the request sets it, but the select list of `getItemByID` is `id,
start_date, duration, name, original_language, translated, created_at, updated_at`,
without `content`; every other column of an item is selected.  For every other
entity, each column its create operation can write is selected by its get-by-key
statements. -/
theorem item_content_is_not_selected {σ : Type} :
    "content" ∈ splitComma (prepareItemCreateQuery
      { StartDate := some ⟨0⟩, Duration := some 1, Name := some "n", Content := some "c",
        OriginalLanguage := some "en", Translated := some false }).1 ∧
    selectedColumns getItemByIDSQL = ["id", "start_date", "duration", "name",
      "original_language", "translated", "created_at", "updated_at"] ∧
    "content" ∉ selectedColumns getItemByIDSQL ∧
    ¬ WritesOnlySelected prepareItemCreateQuery getItemByIDSQL ∧
    (∀ (req : item), ∀ col ∈ splitComma (prepareItemCreateQuery req).1,
      col ≠ "content" → col ∈ selectedColumns getItemByIDSQL) ∧
    WritesOnlySelected prepareAudienceCreateQuery getAudienceByNameSQL ∧
    WritesOnlySelected prepareEventCreateQuery getEventByIDSQL ∧
    WritesOnlySelected prepareEventItemCreateQuery getEventItemByIDSQL ∧
    WritesOnlySelected prepareEventPartOptionCreateQuery getEventPartOptionByIDSQL ∧
    WritesOnlySelected prepareParticipantCreateQuery getPartByIdSQL ∧
    WritesOnlySelected prepareParticipantCreateQuery getPartByEmailSQL ∧
    WritesOnlySelected prepareParticipantCreateQuery getPartByKeycloakIDSQL ∧
    WritesOnlySelected prepareParticipationStatusCreateQuery getParticipationStatusByIDSQL ∧
    InsertsOnlySelected (σ := σ) createNewURL getURLByIDSQL ∧
    InsertsOnlySelected (σ := σ) createNewItemBroadcastURL getItemBroadcastURLByIDSQL ∧
    InsertsOnlySelected (σ := σ) CreateNewPartOption getPartOptionByNameSQL ∧
    InsertsOnlySelected (σ := σ) SrvEvent.CreateNewPlatform getPlatformByNameSQL := by
  have hsel : selectedColumns getItemByIDSQL = ["id", "start_date", "duration", "name",
      "original_language", "translated", "created_at", "updated_at"] := by decide
  refine ⟨by decide, hsel, by rw [hsel]; decide, ?_, ?_, ?_, ?_, ?_, ?_, ?_, ?_, ?_, ?_, ?_, ?_, ?_, ?_⟩
  · intro hw
    have := hw
      { StartDate := some ⟨0⟩, Duration := some 1, Name := some "n", Content := some "c",
        OriginalLanguage := some "en", Translated := some false } "content" (by decide)
    rw [hsel] at this
    revert this
    decide
  · intro req col hc hne
    have hm := created_columns_subset (item_good req) col hc
    rw [hsel]
    have e : req.fields.map Prod.fst = ["start_date", "duration", "name", "content",
        "original_language", "translated"] := rfl
    rw [e] at hm
    simp only [List.mem_cons, List.mem_singleton, List.not_mem_nil, or_false] at hm ⊢
    rcases hm with h | h | h | h | h | h
    all_goals first | exact absurd h hne | simp [h]
  · intro req col hc
    have hm := created_columns_subset (audience_good req) col hc
    have hall : ∀ x ∈ req.fields.map Prod.fst, x ∈ selectedColumns getAudienceByNameSQL := by
      have e : ∀ r : audience, r.fields.map Prod.fst = ({} : audience).fields.map Prod.fst :=
        fun _ => rfl
      rw [e req]
      decide
    exact hall col hm
  · intro req col hc
    have hm := created_columns_subset (event_good req) col hc
    have hall : ∀ x ∈ req.fields.map Prod.fst, x ∈ selectedColumns getEventByIDSQL := by
      have e : ∀ r : event, r.fields.map Prod.fst = ({} : event).fields.map Prod.fst :=
        fun _ => rfl
      rw [e req]
      decide
    exact hall col hm
  · intro req col hc
    have hm := created_columns_subset (eventItem_good req) col hc
    have hall : ∀ x ∈ req.fields.map Prod.fst, x ∈ selectedColumns getEventItemByIDSQL := by
      have e : ∀ r : eventItem, r.fields.map Prod.fst = ({} : eventItem).fields.map Prod.fst :=
        fun _ => rfl
      rw [e req]
      decide
    exact hall col hm
  · intro req col hc
    have hm := created_columns_subset (eventPartOption_good req) col hc
    have hall : ∀ x ∈ req.fields.map Prod.fst, x ∈ selectedColumns getEventPartOptionByIDSQL := by
      have e : ∀ r : eventPartOption, r.fields.map Prod.fst = ({} : eventPartOption).fields.map Prod.fst :=
        fun _ => rfl
      rw [e req]
      decide
    exact hall col hm
  · intro req col hc
    have hm := created_columns_subset (part_good req) col hc
    have hall : ∀ x ∈ req.fields.map Prod.fst, x ∈ selectedColumns getPartByIdSQL := by
      have e : ∀ r : part, r.fields.map Prod.fst = ({} : part).fields.map Prod.fst :=
        fun _ => rfl
      rw [e req]
      decide
    exact hall col hm
  · intro req col hc
    have hm := created_columns_subset (part_good req) col hc
    have hall : ∀ x ∈ req.fields.map Prod.fst, x ∈ selectedColumns getPartByEmailSQL := by
      have e : ∀ r : part, r.fields.map Prod.fst = ({} : part).fields.map Prod.fst :=
        fun _ => rfl
      rw [e req]
      decide
    exact hall col hm
  · intro req col hc
    have hm := created_columns_subset (part_good req) col hc
    have hall : ∀ x ∈ req.fields.map Prod.fst, x ∈ selectedColumns getPartByKeycloakIDSQL := by
      have e : ∀ r : part, r.fields.map Prod.fst = ({} : part).fields.map Prod.fst :=
        fun _ => rfl
      rw [e req]
      decide
    exact hall col hm
  · intro req col hc
    have hm := created_columns_subset (participationStatus_good req) col hc
    have hall : ∀ x ∈ req.fields.map Prod.fst, x ∈ selectedColumns getParticipationStatusByIDSQL := by
      have e : ∀ r : participationStatus, r.fields.map Prod.fst = ({} : participationStatus).fields.map Prod.fst :=
        fun _ => rfl
      rw [e req]
      decide
    exact hall col hm
  · intro r c req res stmt h hi col hc
    have hs : ∃ args, stmt = ⟨(createNewURL noRowPool freshConn
        { URL := some default, Platform := some default, Language := some default }).elim "" (fun x => (x.2.issued.headD ⟨"", []⟩).sql), args⟩ := by
      unfold createNewURL at h
      split at h
      · rename_i heq
        generalize hr : r.Exec c _ = ex at h
        have hc1 := congrArg Prod.snd hr
        rcases ex with ⟨_ | _, c1⟩ <;>
          (cases h; exact ⟨_, issued_of_exec r c _ stmt c1 hc1 hi⟩)
      · cases h
    obtain ⟨args, rfl⟩ := hs
    revert col
    dsimp only
    decide
  · intro r c req res stmt h hi col hc
    have hs : ∃ args, stmt = ⟨(createNewItemBroadcastURL noRowPool freshConn
        { ItemID := some default, BoradcastURLID := some default }).elim "" (fun x => (x.2.issued.headD ⟨"", []⟩).sql), args⟩ := by
      unfold createNewItemBroadcastURL at h
      split at h
      · rename_i heq
        generalize hr : r.Exec c _ = ex at h
        have hc1 := congrArg Prod.snd hr
        rcases ex with ⟨_ | _, c1⟩ <;>
          (cases h; exact ⟨_, issued_of_exec r c _ stmt c1 hc1 hi⟩)
      · cases h
    obtain ⟨args, rfl⟩ := hs
    revert col
    dsimp only
    decide
  · intro r c req res stmt h hi col hc
    have hs : ∃ args, stmt = ⟨(CreateNewPartOption noRowPool freshConn
        { Name := some default }).elim "" (fun x => (x.2.issued.headD ⟨"", []⟩).sql), args⟩ := by
      unfold CreateNewPartOption at h
      split at h
      · rename_i heq
        generalize hr : r.Exec c _ = ex at h
        have hc1 := congrArg Prod.snd hr
        rcases ex with ⟨_ | _, c1⟩ <;>
          (cases h; exact ⟨_, issued_of_exec r c _ stmt c1 hc1 hi⟩)
      · cases h
    obtain ⟨args, rfl⟩ := hs
    revert col
    dsimp only
    decide
  · intro r c req res stmt h hi col hc
    have hs : ∃ args, stmt = ⟨(SrvEvent.CreateNewPlatform noRowPool freshConn
        { Name := some default }).elim "" (fun x => (x.2.issued.headD ⟨"", []⟩).sql), args⟩ := by
      unfold SrvEvent.CreateNewPlatform at h
      split at h
      · rename_i heq
        generalize hr : r.Exec c _ = ex at h
        have hc1 := congrArg Prod.snd hr
        rcases ex with ⟨_ | _, c1⟩ <;>
          (cases h; exact ⟨_, issued_of_exec r c _ stmt c1 hc1 hi⟩)
      · cases h
    obtain ⟨args, rfl⟩ := hs
    revert col
    dsimp only
    decide

/-! ## Delete handlers -/

theorem deleteContract_of {σ ρ : Type} (message : String) (stmt : Context → Statement) :
    DeleteContract (σ := σ) (ρ := ρ) message stmt
      (fun r c ctx => respondDelete message (execDelete r.db c (stmt ctx))) := by
  intro r c ctx
  unfold respondDelete execDelete Pool.Exec
  dsimp only
  cases h : (r.db.exec (stmt ctx) c.store).1 with
  | rows n =>
    refine ⟨rfl, fun m _ => rfl, fun e he => (by cases he), by simp, by simp⟩
  | error msg =>
    refine ⟨rfl, fun m hm => (by cases hm), fun e he => ?_, by simp, by simp⟩
    cases he
    rfl

theorem DeleteAudienceByName_eq {σ : Type} (r : Pool σ) (c : Conn σ) (name : String) :
    SrvEvent.DeleteAudienceByName r c name = execDelete r c ⟨"delete from audience where name=$1", [Value.str name]⟩ := by
  unfold SrvEvent.DeleteAudienceByName execDelete
  generalize r.Exec c _ = res
  rcases res with ⟨_ | _, c1⟩ <;> rfl

theorem deleteURLByID_eq {σ : Type} (r : Pool σ) (c : Conn σ) (id : String) :
    deleteURLByID r c id = execDelete r c ⟨"delete from broadcast_url where id=$1", [Value.str id]⟩ := by
  unfold deleteURLByID execDelete
  generalize r.Exec c _ = res
  rcases res with ⟨_ | _, c1⟩ <;> rfl

theorem deleteEventByID_eq {σ : Type} (r : Pool σ) (c : Conn σ) (id : String) :
    deleteEventByID r c id = execDelete r c (softDeleteEventStatement id) := by
  unfold deleteEventByID execDelete softDeleteEventStatement
  dsimp only
  

theorem deleteHardEventByID_eq {σ : Type} (r : Pool σ) (c : Conn σ) (id : String) :
    deleteHardEventByID r c id = execDelete r c ⟨"delete from event where id=$1", [Value.str id]⟩ := by
  unfold deleteHardEventByID execDelete
  generalize r.Exec c _ = res
  rcases res with ⟨_ | _, c1⟩ <;> rfl

theorem deleteEventItemByID_eq {σ : Type} (r : Pool σ) (c : Conn σ) (id : String) :
    deleteEventItemByID r c id = execDelete r c ⟨"delete from event_item where id=$1", [Value.str id]⟩ := by
  unfold deleteEventItemByID execDelete
  generalize r.Exec c _ = res
  rcases res with ⟨_ | _, c1⟩ <;> rfl

theorem deleteEventPartOptionByID_eq {σ : Type} (r : Pool σ) (c : Conn σ) (id : String) :
    deleteEventPartOptionByID r c id = execDelete r c ⟨"delete from event_participation_option where id=$1", [Value.str id]⟩ := by
  unfold deleteEventPartOptionByID execDelete
  generalize r.Exec c _ = res
  rcases res with ⟨_ | _, c1⟩ <;> rfl

theorem deleteItemByID_eq {σ : Type} (r : Pool σ) (c : Conn σ) (id : String) :
    deleteItemByID r c id = execDelete r c ⟨"delete from item where id=$1", [Value.str id]⟩ := by
  unfold deleteItemByID execDelete
  generalize r.Exec c _ = res
  rcases res with ⟨_ | _, c1⟩ <;> rfl

theorem deleteItemBroadcastURLByID_eq {σ : Type} (r : Pool σ) (c : Conn σ) (id : String) :
    deleteItemBroadcastURLByID r c id = execDelete r c ⟨"delete from item_broadcast_url where id=$1", [Value.str id]⟩ := by
  unfold deleteItemBroadcastURLByID execDelete
  generalize r.Exec c _ = res
  rcases res with ⟨_ | _, c1⟩ <;> rfl

theorem DeletePartByID_eq {σ : Type} (r : Pool σ) (c : Conn σ) (id : String) :
    DeletePartByID r c id = execDelete r c ⟨"delete from participant where id=$1", [Value.str id]⟩ := by
  unfold DeletePartByID execDelete
  generalize r.Exec c _ = res
  rcases res with ⟨_ | _, c1⟩ <;> rfl

theorem DeletePartOptionByName_eq {σ : Type} (r : Pool σ) (c : Conn σ) (name : String) :
    DeletePartOptionByName r c name = execDelete r c ⟨"delete from participation_option where name=$1", [Value.str name]⟩ := by
  unfold DeletePartOptionByName execDelete
  generalize r.Exec c _ = res
  rcases res with ⟨_ | _, c1⟩ <;> rfl

theorem deleteParticipationStatusByID_eq {σ : Type} (r : Pool σ) (c : Conn σ) (id : String) :
    deleteParticipationStatusByID r c id = execDelete r c ⟨"delete from participation_status where id=$1", [Value.str id]⟩ := by
  unfold deleteParticipationStatusByID execDelete
  generalize r.Exec c _ = res
  rcases res with ⟨_ | _, c1⟩ <;> rfl

theorem DeletePlatformByName_eq {σ : Type} (r : Pool σ) (c : Conn σ) (name : String) :
    SrvEvent.DeletePlatformByName r c name = execDelete r c ⟨"delete from platform where name=$1", [Value.str name]⟩ := by
  unfold SrvEvent.DeletePlatformByName execDelete
  generalize r.Exec c _ = res
  rcases res with ⟨_ | _, c1⟩ <;> rfl

/-- C28: every delete handler sends its one statement for the key and answers 200
with `success` true whenever the store returns no error, whatever the number of
affected rows (zero included), and 500 with the text of the error otherwise; it
never answers 404 or 400. -/
theorem delete_handlers_ignore_row_count {σ : Type} :
    DeleteContract (σ := σ) "Audience deleted successfully!"
      (fun ctx => ⟨"delete from audience where name=$1", [Value.str (ctx.Param "name")]⟩)
      AudienceDB.DeleteAudienceByName ∧
    DeleteContract (σ := σ) "Broadcast url deleted successfully!"
      (fun ctx => ⟨"delete from broadcast_url where id=$1", [Value.str (ctx.Param "id")]⟩)
      BroadcastURLDB.DeleteBroadcastURLByID ∧
    DeleteContract (σ := σ) "Event deleted successfully!"
      (fun ctx => softDeleteEventStatement (ctx.Param "id"))
      EventDB.DeleteEventByID ∧
    DeleteContract (σ := σ) "Event deleted successfully!"
      (fun ctx => ⟨"delete from event where id=$1", [Value.str (ctx.Param "id")]⟩)
      EventDB.DeleteHardEventByID ∧
    DeleteContract (σ := σ) "Event Item deleted successfully!"
      (fun ctx => ⟨"delete from event_item where id=$1", [Value.str (ctx.Param "id")]⟩)
      EventItemDB.DeleteEventItemByID ∧
    DeleteContract (σ := σ) "Event Participation Option deleted successfully!"
      (fun ctx => ⟨"delete from event_participation_option where id=$1", [Value.str (ctx.Param "id")]⟩)
      EventPartOptionDB.DeleteEventPartOptionByID ∧
    DeleteContract (σ := σ) "Item deleted successfully!"
      (fun ctx => ⟨"delete from item where id=$1", [Value.str (ctx.Param "id")]⟩)
      ItemDB.DeleteItemByID ∧
    DeleteContract (σ := σ) "Item BroadcastURL deleted successfully!"
      (fun ctx => ⟨"delete from item_broadcast_url where id=$1", [Value.str (ctx.Param "id")]⟩)
      ItemBroadcastURLDB.DeleteItemBroadcastURLByID ∧
    DeleteContract (σ := σ) "Participant deleted successfully!"
      (fun ctx => ⟨"delete from participant where id=$1", [Value.str (ctx.Param "id")]⟩)
      ParticipantDB.DeleteParticipantByID ∧
    DeleteContract (σ := σ) "Participation option deleted successfully!"
      (fun ctx => ⟨"delete from participation_option where name=$1", [Value.str (ctx.Param "name")]⟩)
      ParticipationOptionDB.DeleteParticipationOptionByName ∧
    DeleteContract (σ := σ) "Participation Status deleted successfully!"
      (fun ctx => ⟨"delete from participation_status where id=$1", [Value.str (ctx.Param "id")]⟩)
      ParticipationStatusDB.DeleteParticipationStatusByID ∧
    DeleteContract (σ := σ) "platform deleted successfully!"
      (fun ctx => ⟨"delete from platform where name=$1", [Value.str (ctx.Param "name")]⟩)
      PlatformDB.DeletePlatformByName := by
  refine ⟨?_, ?_, ?_, ?_, ?_, ?_, ?_, ?_, ?_, ?_, ?_, ?_⟩
  · intro r c ctx
    have h := deleteContract_of (σ := σ) (ρ := _) "Audience deleted successfully!"
      (fun ctx => ⟨"delete from audience where name=$1", [Value.str (ctx.Param "name")]⟩) r c ctx
    beta_reduce at h
    rw [← DeleteAudienceByName_eq, ← AudienceDB.DeleteAudienceByName_shape] at h
    exact h
  · intro r c ctx
    have h := deleteContract_of (σ := σ) (ρ := _) "Broadcast url deleted successfully!"
      (fun ctx => ⟨"delete from broadcast_url where id=$1", [Value.str (ctx.Param "id")]⟩) r c ctx
    beta_reduce at h
    rw [← deleteURLByID_eq, ← BroadcastURLDB.DeleteBroadcastURLByID_shape] at h
    exact h
  · intro r c ctx
    have h := deleteContract_of (σ := σ) (ρ := _) "Event deleted successfully!"
      (fun ctx => softDeleteEventStatement (ctx.Param "id")) r c ctx
    beta_reduce at h
    rw [← deleteEventByID_eq, ← EventDB.DeleteEventByID_shape] at h
    exact h
  · intro r c ctx
    have h := deleteContract_of (σ := σ) (ρ := _) "Event deleted successfully!"
      (fun ctx => ⟨"delete from event where id=$1", [Value.str (ctx.Param "id")]⟩) r c ctx
    beta_reduce at h
    rw [← deleteHardEventByID_eq, ← EventDB.DeleteHardEventByID_shape] at h
    exact h
  · intro r c ctx
    have h := deleteContract_of (σ := σ) (ρ := _) "Event Item deleted successfully!"
      (fun ctx => ⟨"delete from event_item where id=$1", [Value.str (ctx.Param "id")]⟩) r c ctx
    beta_reduce at h
    rw [← deleteEventItemByID_eq, ← EventItemDB.DeleteEventItemByID_shape] at h
    exact h
  · intro r c ctx
    have h := deleteContract_of (σ := σ) (ρ := _) "Event Participation Option deleted successfully!"
      (fun ctx => ⟨"delete from event_participation_option where id=$1", [Value.str (ctx.Param "id")]⟩) r c ctx
    beta_reduce at h
    rw [← deleteEventPartOptionByID_eq, ← EventPartOptionDB.DeleteEventPartOptionByID_shape] at h
    exact h
  · intro r c ctx
    have h := deleteContract_of (σ := σ) (ρ := _) "Item deleted successfully!"
      (fun ctx => ⟨"delete from item where id=$1", [Value.str (ctx.Param "id")]⟩) r c ctx
    beta_reduce at h
    rw [← deleteItemByID_eq, ← ItemDB.DeleteItemByID_shape] at h
    exact h
  · intro r c ctx
    have h := deleteContract_of (σ := σ) (ρ := _) "Item BroadcastURL deleted successfully!"
      (fun ctx => ⟨"delete from item_broadcast_url where id=$1", [Value.str (ctx.Param "id")]⟩) r c ctx
    beta_reduce at h
    rw [← deleteItemBroadcastURLByID_eq, ← ItemBroadcastURLDB.DeleteItemBroadcastURLByID_shape] at h
    exact h
  · intro r c ctx
    have h := deleteContract_of (σ := σ) (ρ := _) "Participant deleted successfully!"
      (fun ctx => ⟨"delete from participant where id=$1", [Value.str (ctx.Param "id")]⟩) r c ctx
    beta_reduce at h
    rw [← DeletePartByID_eq, ← ParticipantDB.DeleteParticipantByID_shape] at h
    exact h
  · intro r c ctx
    have h := deleteContract_of (σ := σ) (ρ := _) "Participation option deleted successfully!"
      (fun ctx => ⟨"delete from participation_option where name=$1", [Value.str (ctx.Param "name")]⟩) r c ctx
    beta_reduce at h
    rw [← DeletePartOptionByName_eq, ← ParticipationOptionDB.DeleteParticipationOptionByName_shape] at h
    exact h
  · intro r c ctx
    have h := deleteContract_of (σ := σ) (ρ := _) "Participation Status deleted successfully!"
      (fun ctx => ⟨"delete from participation_status where id=$1", [Value.str (ctx.Param "id")]⟩) r c ctx
    beta_reduce at h
    rw [← deleteParticipationStatusByID_eq, ← ParticipationStatusDB.DeleteParticipationStatusByID_shape] at h
    exact h
  · intro r c ctx
    have h := deleteContract_of (σ := σ) (ρ := _) "platform deleted successfully!"
      (fun ctx => ⟨"delete from platform where name=$1", [Value.str (ctx.Param "name")]⟩) r c ctx
    beta_reduce at h
    rw [← DeletePlatformByName_eq, ← PlatformDB.DeletePlatformByName_shape] at h
    exact h

/-- C28 at a participant delete for a key that matches no row: the store reports
zero affected rows and the handler answers 200. -/
theorem delete_handlers_ignore_row_count_witness :
    (noRowPool.exec ⟨"delete from participant where id=$1", [Value.str "42"]⟩ ()).1
      = ExecResult.rows 0 ∧
    (ParticipantDB.DeleteParticipantByID oneParticipant freshConn
        { Params := [("id", "42")] }).1
      = ⟨StatusOK, [("message", Entry.text "Participant deleted successfully!"),
          ("success", Entry.flag true)]⟩ :=
  ⟨rfl, ((delete_handlers_ignore_row_count (σ := Unit)).2.2.2.2.2.2.2.2.1 oneParticipant freshConn
    { Params := [("id", "42")] }).2.1 0 rfl⟩

/-! ## Paging values are passed on as they are -/

theorem passesPaging_of {σ ρ : Type}
    {handler : DB σ ρ → Conn σ → Context → Response (List ρ) × Conn σ}
    {stmt : Context → Int → Int → Statement} (h : QueriesWithPaging handler stmt) :
    PassesPaging handler stmt :=
  fun r c ctx skip limit hs hl => h r c ctx skip limit ⟨Or.inr hs, Or.inr hl⟩

/-! ## The cascading delete, statement by statement -/

theorem sqlStatements_of_pieces (ps : List String) (h : ∀ p ∈ ps, ';' ∉ p.data ∧ p ≠ "") :
    sqlStatements (String.mk ((ps.map (fun p => p.data ++ [';'])).flatten)) = ps := by
  unfold sqlStatements
  have e : (ps.map (fun p => p.data ++ [';'])).flatten
      = [';'].intercalate (ps.map String.data ++ [[]]) := by
    induction ps with
    | nil => rfl
    | cons p ps ih =>
      have ih' := ih (fun q hq => h q (List.mem_cons_of_mem _ hq))
      cases ps with
      | nil => simp [List.intercalate, List.intersperse]
      | cons q qs =>
        simp only [List.map_cons, List.flatten_cons, List.cons_append] at ih' ⊢
        rw [ih']
        simp [List.intercalate, List.intersperse]
  have hs : ((ps.map (fun p => p.data ++ [';'])).flatten).splitOn ';'
      = ps.map String.data ++ [[]] := by
    rw [e]
    apply List.splitOn_intercalate
    · intro l hl
      rcases List.mem_append.1 hl with hl | hl
      · obtain ⟨p, hp, rfl⟩ := List.mem_map.1 hl
        exact (h p hp).1
      · simp at hl
        subst hl
        simp
    · simp
  show List.map String.mk (List.filter (fun p => !p.isEmpty)
    (List.splitOn ';' ((ps.map (fun p => p.data ++ [';'])).flatten))) = ps
  rw [hs, List.filter_append]
  have hf : List.filter (fun p : List Char => !p.isEmpty) (ps.map String.data)
      = ps.map String.data := by
    apply List.filter_eq_self.2
    intro l hl
    obtain ⟨p, hp, rfl⟩ := List.mem_map.1 hl
    have : p.data ≠ [] := fun e0 => (h p hp).2 (String.ext e0)
    cases hd : p.data with
    | nil => exact absurd hd this
    | cons a as => rfl
  rw [hf]
  have hid : (String.mk ∘ String.data) = id := by funext p; rfl
  simp [hid]

theorem not_mem_of_all_digits {id : String} (h : id.data.all Char.isDigit = true) :
    ';' ∉ id.data := by
  intro hm
  have := List.all_eq_true.1 h ';' hm
  revert this
  decide

theorem softDelete_piece (lit id : String) (hl : ';' ∉ lit.data) (hne : lit.data ≠ [])
    (h : id.data.all Char.isDigit = true) : ';' ∉ (lit ++ id).data ∧ lit ++ id ≠ "" := by
  constructor
  · simp only [String.data_append, List.mem_append, not_or]
    exact ⟨hl, not_mem_of_all_digits h⟩
  · intro e
    have := congrArg String.data e
    rw [String.data_append] at this
    cases hd : lit.data with
    | nil => exact absurd hd hne
    | cons a as => rw [hd] at this; cases this

set_option maxRecDepth 16384 in
/-- C19 holds for the text and fails on the code for what the text does:
`deleteEventByID` sends one statement without arguments whose text is the four
soft-delete updates for the id, in the order event, event_item,
event_participation_option, participation_status.  The id is copied into the
text as it is: for an id of decimal digits the text is exactly these four
`UPDATE ... SET deleted = true` statements, but for the id
`0;DELETE FROM event WHERE true` the same call carries `DELETE FROM event WHERE
true` as a statement of its own, and `DeleteEventByID` answers 200. -/
theorem delete_event_id_carries_statements {σ : Type} (r : Pool σ) (c : Conn σ) (id : String) :
    (deleteEventByID r c id).2.issued
      = c.issued ++
        [⟨"UPDATE event SET deleted = true WHERE id=" ++ id ++ ";"
            ++ ("UPDATE event_item SET deleted = true WHERE event_id=" ++ id ++ ";")
            ++ ("UPDATE event_participation_option SET deleted = true WHERE event_id="
                  ++ id ++ ";")
            ++ ("UPDATE participation_status SET deleted = true WHERE event_id=" ++ id ++ ";"),
          []⟩] ∧
    (id.data.all Char.isDigit = true →
      ∀ stmt, (deleteEventByID r c id).2.issued = c.issued ++ [stmt] →
        sqlStatements stmt.sql
          = ["UPDATE event SET deleted = true WHERE id=" ++ id,
             "UPDATE event_item SET deleted = true WHERE event_id=" ++ id,
             "UPDATE event_participation_option SET deleted = true WHERE event_id=" ++ id,
             "UPDATE participation_status SET deleted = true WHERE event_id=" ++ id]) ∧
    (∀ stmt, (deleteEventByID noRowPool freshConn "0;DELETE FROM event WHERE true").2.issued
        = [stmt] →
      sqlStatements stmt.sql
        = ["UPDATE event SET deleted = true WHERE id=0",
           "DELETE FROM event WHERE true",
           "UPDATE event_item SET deleted = true WHERE event_id=0",
           "DELETE FROM event WHERE true",
           "UPDATE event_participation_option SET deleted = true WHERE event_id=0",
           "DELETE FROM event WHERE true",
           "UPDATE participation_status SET deleted = true WHERE event_id=0",
           "DELETE FROM event WHERE true"]) ∧
    (EventDB.DeleteEventByID noEvents freshConn
        { Params := [("id", "0;DELETE FROM event WHERE true")] }).1
      = ⟨StatusOK, [("message", Entry.text "Event deleted successfully!"),
          ("success", Entry.flag true)]⟩ ∧
    (EventDB.DeleteEventByID noEvents freshConn
        { Params := [("id", "0;DELETE FROM event WHERE true")] }).2.issued
      = (deleteEventByID noRowPool freshConn "0;DELETE FROM event WHERE true").2.issued := by
  have hi : ∀ {τ : Type} (p : Pool τ) (d : Conn τ) (k : String),
      (deleteEventByID p d k).2.issued = d.issued ++ [softDeleteEventStatement k] := by
    intro τ p d k
    rw [deleteEventByID_eq]
    unfold execDelete
    have h : (p.Exec d (softDeleteEventStatement k)).2.issued
        = d.issued ++ [softDeleteEventStatement k] := rfl
    generalize p.Exec d (softDeleteEventStatement k) = res at h
    rcases res with ⟨_ | _, c1⟩ <;> exact h
  refine ⟨hi r c id, fun hd stmt hs => ?_, fun stmt hs => ?_, rfl, rfl⟩
  · rw [hi] at hs
    have e := List.append_cancel_left hs
    simp only [List.cons.injEq, and_true] at e
    subst e
    have hp := sqlStatements_of_pieces
      ["UPDATE event SET deleted = true WHERE id=" ++ id,
       "UPDATE event_item SET deleted = true WHERE event_id=" ++ id,
       "UPDATE event_participation_option SET deleted = true WHERE event_id=" ++ id,
       "UPDATE participation_status SET deleted = true WHERE event_id=" ++ id]
      (by
        intro p hp
        simp only [List.mem_cons, List.mem_singleton, List.not_mem_nil, or_false] at hp
        rcases hp with rfl | rfl | rfl | rfl <;>
          exact softDelete_piece _ _ (by decide) (by decide) hd)
    rw [← hp]
    congr 1
    apply String.ext
    simp [softDeleteEventStatement, String.data_append]
  · rw [hi] at hs
    have e : softDeleteEventStatement "0;DELETE FROM event WHERE true" = stmt := by
      simpa [freshConn] using hs
    subst e
    decide

/-! ## Paging of the event list -/

theorem getAllEvent_handler_issued {σ : Type} (other : List Char → List Int → String)
    (r : EventDB σ) (c : Conn σ) (ctx : Context) (skip limit : Int)
    (h : Paging ctx skip limit) :
    (EventDB.GetAllEvent other r c ctx).2.issued
      = c.issued ++ [eventListStatement other (ctx.Query "slug") limit skip] := by
  have := queriesWithPaging_event (σ := σ)
    (fun ctx limit skip => eventListStatement other (ctx.Query "slug") limit skip)
    r c ctx skip limit h
  rw [EventDB.GetAllEvent_shape]
  simp only [getAllEvent_eq]
  exact this

set_option maxRecDepth 8192 in
theorem eventListStatement_verb (other : List Char → List Int → String) (limit skip : Int) :
    eventListStatement other "%d" limit skip
      = ⟨getAllEventSQL ++ " WHERE slug='" ++ toString limit ++ "' LIMIT " ++ toString skip
          ++ " OFFSET %!d(MISSING)", []⟩ := by
  unfold eventListStatement
  have hw : buildAndGetWhereEventQuery "%d" = " WHERE slug='%d'" := by decide
  have e : (getAllEventSQL ++ " WHERE slug='%d'" ++ " LIMIT %d OFFSET %d").data
      = (getAllEventSQL ++ " WHERE slug='").data
        ++ ('%' :: 'd' :: ("' LIMIT ".data
        ++ ('%' :: 'd' :: (" OFFSET ".data ++ ('%' :: 'd' :: []))))) := by decide
  rw [hw, e, sprintf_literal _ _ _ _ (by decide), sprintf_d,
    sprintf_literal _ _ _ _ (by decide), sprintf_d,
    sprintf_literal _ _ _ _ (by decide), sprintf_d_missing]
  have : Sprintf other [] [] = "" := rfl
  rw [this]
  congr 1
  apply String.ext
  simp [String.data_append]

theorem getAllEvent_handler_text {σ : Type} (other : List Char → List Int → String)
    (r : EventDB σ) (c : Conn σ) (ctx : Context) (skip limit : Int)
    (h : Paging ctx skip limit) (hs : '%' ∉ (ctx.Query "slug").data) :
    (EventDB.GetAllEvent other r c ctx).2.issued
      = c.issued ++
          [⟨getAllEventSQL ++ buildAndGetWhereEventQuery (ctx.Query "slug") ++ " LIMIT "
              ++ toString limit ++ " OFFSET " ++ toString skip, []⟩] := by
  rw [getAllEvent_handler_issued other r c ctx skip limit h,
    event_list_text_without_percent other _ limit skip hs]

theorem getAllEvent_handler_verb {σ : Type} (other : List Char → List Int → String)
    (r : EventDB σ) (c : Conn σ) (ctx : Context) (skip limit : Int)
    (h : Paging ctx skip limit) (hs : ctx.Query "slug" = "%d") :
    (EventDB.GetAllEvent other r c ctx).2.issued
      = c.issued ++
          [⟨getAllEventSQL ++ " WHERE slug='" ++ toString limit ++ "' LIMIT " ++ toString skip
              ++ " OFFSET %!d(MISSING)", []⟩] := by
  rw [getAllEvent_handler_issued other r c ctx skip limit h, hs, eventListStatement_verb]

set_option maxRecDepth 8192 in
/-- C14 fails on the code for `GetAllEvent`: `getAllEvent` hands the slug to
`fmt.Sprintf` as part of the format, so for the request `?slug=%d` without `skip`
and `limit` the verb in the slug takes the default limit, `LIMIT` gets the default
offset and `OFFSET` gets nothing: the store receives `... WHERE slug='10' LIMIT 0
OFFSET %!d(MISSING)`, not limit 10 and offset 0.  For a slug without `%` the text
ends in ` LIMIT <limit> OFFSET <skip>` with 0 for a missing or empty `skip` and 10
for a missing or empty `limit`; the ten other list handlers query the store with
these values on every request. -/
theorem list_events_slug_takes_default_limit {σ : Type}
    (other : List Char → List Int → String) :
    (∀ (r : EventDB σ) (c : Conn σ),
      (EventDB.GetAllEvent other r c { QueryValues := [("slug", "%d")] }).2.issued
        = c.issued ++
            [⟨getAllEventSQL ++ " WHERE slug='10' LIMIT 0 OFFSET %!d(MISSING)", []⟩]) ∧
    getAllEventSQL ++ " WHERE slug='10' LIMIT 0 OFFSET %!d(MISSING)"
      ≠ getAllEventSQL ++ " WHERE slug='%d'" ++ " LIMIT 10 OFFSET 0" ∧
    (∀ (r : EventDB σ) (c : Conn σ) (ctx : Context) (skip limit : Int),
      Paging ctx skip limit → '%' ∉ (ctx.Query "slug").data →
      (EventDB.GetAllEvent other r c ctx).2.issued
        = c.issued ++
            [⟨getAllEventSQL ++ buildAndGetWhereEventQuery (ctx.Query "slug") ++ " LIMIT "
                ++ toString limit ++ " OFFSET " ++ toString skip, []⟩]) ∧
    QueriesWithPaging (σ := σ) AudienceDB.GetAllAudience
      (fun _ limit skip => listStatement GetAllAudienceSQL limit skip) ∧
    QueriesWithPaging (σ := σ) BroadcastURLDB.GetAllBroadcastURL
      (fun _ limit skip => listStatement getAllURLSQL limit skip) ∧
    QueriesWithPaging (σ := σ) EventItemDB.GetAllEventItem
      (fun _ limit skip => listStatement getAllEventItemSQL limit skip) ∧
    QueriesWithPaging (σ := σ) EventPartOptionDB.GetAllEventPartOption
      (fun _ limit skip => listStatement getAllEventPartOptionSQL limit skip) ∧
    QueriesWithPaging (σ := σ) ItemDB.GetAllItem
      (fun _ limit skip => listStatement getAllItemSQL limit skip) ∧
    QueriesWithPaging (σ := σ) ItemBroadcastURLDB.GetAllItemBroadcastURL
      (fun _ limit skip => listStatement getAllItemBroadcastURLSQL limit skip) ∧
    QueriesWithPaging (σ := σ) ParticipantDB.GetAllParticipant
      (fun _ limit skip => listStatement GetAllPartSQL limit skip) ∧
    QueriesWithPaging (σ := σ) ParticipationOptionDB.GetAllParticipationOption
      (fun _ limit skip => listStatement GetAllPartOptionSQL limit skip) ∧
    QueriesWithPaging (σ := σ) ParticipationStatusDB.GetAllParticipationStatus
      (fun ctx limit skip =>
        participationStatusListStatement (ctx.Query "eventid") limit skip) ∧
    QueriesWithPaging (σ := σ) PlatformDB.GetAllPlatform
      (fun _ limit skip => listStatement GetAllPlatformSQL limit skip) := by
  refine ⟨fun r c => ?_, by decide, fun r c ctx skip limit h hs => ?_, ?_, ?_, ?_, ?_, ?_, ?_, ?_, ?_, ?_, ?_⟩
  · rw [getAllEvent_handler_verb other r c { QueryValues := [("slug", "%d")] } 0 10
      ⟨Or.inl ⟨rfl, rfl⟩, Or.inl ⟨rfl, rfl⟩⟩ rfl]
    have e : getAllEventSQL ++ " WHERE slug='" ++ toString (10 : Int) ++ "' LIMIT "
        ++ toString (0 : Int) ++ " OFFSET %!d(MISSING)"
        = getAllEventSQL ++ " WHERE slug='10' LIMIT 0 OFFSET %!d(MISSING)" := by decide
    rw [e]
  · exact getAllEvent_handler_text other r c ctx skip limit h hs
  · intro r c ctx skip limit h
    have := queriesWithPaging_list (σ := σ) (fun _ limit skip => listStatement GetAllAudienceSQL limit skip) r c ctx skip limit h
    rw [AudienceDB.GetAllAudience_shape]
    simp only [GetAllAudience_eq]
    exact this
  · intro r c ctx skip limit h
    have := queriesWithPaging_list (σ := σ) (fun _ limit skip => listStatement getAllURLSQL limit skip) r c ctx skip limit h
    rw [BroadcastURLDB.GetAllBroadcastURL_shape]
    simp only [getAllURL_eq]
    exact this
  · intro r c ctx skip limit h
    have := queriesWithPaging_list (σ := σ) (fun _ limit skip => listStatement getAllEventItemSQL limit skip) r c ctx skip limit h
    rw [EventItemDB.GetAllEventItem_shape]
    simp only [getAllEventItem_eq]
    exact this
  · intro r c ctx skip limit h
    have := queriesWithPaging_list (σ := σ) (fun _ limit skip => listStatement getAllEventPartOptionSQL limit skip) r c ctx skip limit h
    rw [EventPartOptionDB.GetAllEventPartOption_shape]
    simp only [getAllEventPartOption_eq]
    exact this
  · intro r c ctx skip limit h
    have := queriesWithPaging_list (σ := σ) (fun _ limit skip => listStatement getAllItemSQL limit skip) r c ctx skip limit h
    rw [ItemDB.GetAllItem_shape]
    simp only [getAllItem_eq]
    exact this
  · intro r c ctx skip limit h
    have := queriesWithPaging_list (σ := σ) (fun _ limit skip => listStatement getAllItemBroadcastURLSQL limit skip) r c ctx skip limit h
    rw [ItemBroadcastURLDB.GetAllItemBroadcastURL_shape]
    simp only [getAllItemBroadcastURL_eq]
    exact this
  · intro r c ctx skip limit h
    have := queriesWithPaging_list (σ := σ) (fun _ limit skip => listStatement GetAllPartSQL limit skip) r c ctx skip limit h
    rw [ParticipantDB.GetAllParticipant_shape]
    simp only [GetAllPart_eq]
    exact this
  · intro r c ctx skip limit h
    have := queriesWithPaging_list (σ := σ) (fun _ limit skip => listStatement GetAllPartOptionSQL limit skip) r c ctx skip limit h
    rw [ParticipationOptionDB.GetAllParticipationOption_shape]
    simp only [GetAllPartOption_eq]
    exact this
  · intro r c ctx skip limit h
    have := queriesWithPaging_list (σ := σ) (fun ctx limit skip =>
        participationStatusListStatement (ctx.Query "eventid") limit skip) r c ctx skip limit h
    rw [ParticipationStatusDB.GetAllParticipationStatus_shape]
    simp only [getAllParticipationStatus_eq]
    exact this
  · intro r c ctx skip limit h
    have := queriesWithPaging_list (σ := σ) (fun _ limit skip => listStatement GetAllPlatformSQL limit skip) r c ctx skip limit h
    rw [PlatformDB.GetAllPlatform_shape]
    simp only [GetAllPlatform_eq]
    exact this

set_option maxRecDepth 8192 in
/-- C29 fails on the code for `GetAllEvent`: for the request
`?slug=%d&skip=7&limit=3` both values convert, yet the store receives
`... WHERE slug='3' LIMIT 7 OFFSET %!d(MISSING)`: the verb in the slug takes the
limit, `LIMIT` gets the skip and `OFFSET` gets nothing.  For a slug without `%`
the text ends in ` LIMIT <limit> OFFSET <skip>` for exactly the converted values,
negative ones and zero included; the ten other list handlers query the store with
exactly the converted values on every request, without a range check. -/
theorem list_events_slug_takes_parsed_limit {σ : Type}
    (other : List Char → List Int → String) :
    (∀ (r : EventDB σ) (c : Conn σ),
      (EventDB.GetAllEvent other r c
          { QueryValues := [("slug", "%d"), ("skip", "7"), ("limit", "3")] }).2.issued
        = c.issued ++
            [⟨getAllEventSQL ++ " WHERE slug='3' LIMIT 7 OFFSET %!d(MISSING)", []⟩]) ∧
    getAllEventSQL ++ " WHERE slug='3' LIMIT 7 OFFSET %!d(MISSING)"
      ≠ getAllEventSQL ++ " WHERE slug='%d'" ++ " LIMIT 3 OFFSET 7" ∧
    (∀ (r : EventDB σ) (c : Conn σ) (ctx : Context) (skip limit : Int),
      Atoi (ctx.Query "skip") = some skip → Atoi (ctx.Query "limit") = some limit →
      '%' ∉ (ctx.Query "slug").data →
      (EventDB.GetAllEvent other r c ctx).2.issued
        = c.issued ++
            [⟨getAllEventSQL ++ buildAndGetWhereEventQuery (ctx.Query "slug") ++ " LIMIT "
                ++ toString limit ++ " OFFSET " ++ toString skip, []⟩]) ∧
    (AudienceDB.GetAllAudience
        ({ db := noRowPool,
           rows := { queryRow := fun _ _ => RowAnswer.noRows,
                     query := fun _ _ => RowsAnswer.rows [] none } } : AudienceDB Unit)
        freshConn { QueryValues := [("skip", "-5"), ("limit", "0")] }).2.issued
      = [⟨GetAllAudienceSQL ++ " LIMIT 0 OFFSET -5", []⟩] ∧
    PassesPaging (σ := σ) AudienceDB.GetAllAudience
      (fun _ limit skip => listStatement GetAllAudienceSQL limit skip) ∧
    PassesPaging (σ := σ) BroadcastURLDB.GetAllBroadcastURL
      (fun _ limit skip => listStatement getAllURLSQL limit skip) ∧
    PassesPaging (σ := σ) EventItemDB.GetAllEventItem
      (fun _ limit skip => listStatement getAllEventItemSQL limit skip) ∧
    PassesPaging (σ := σ) EventPartOptionDB.GetAllEventPartOption
      (fun _ limit skip => listStatement getAllEventPartOptionSQL limit skip) ∧
    PassesPaging (σ := σ) ItemDB.GetAllItem
      (fun _ limit skip => listStatement getAllItemSQL limit skip) ∧
    PassesPaging (σ := σ) ItemBroadcastURLDB.GetAllItemBroadcastURL
      (fun _ limit skip => listStatement getAllItemBroadcastURLSQL limit skip) ∧
    PassesPaging (σ := σ) ParticipantDB.GetAllParticipant
      (fun _ limit skip => listStatement GetAllPartSQL limit skip) ∧
    PassesPaging (σ := σ) ParticipationOptionDB.GetAllParticipationOption
      (fun _ limit skip => listStatement GetAllPartOptionSQL limit skip) ∧
    PassesPaging (σ := σ) ParticipationStatusDB.GetAllParticipationStatus
      (fun ctx limit skip =>
        participationStatusListStatement (ctx.Query "eventid") limit skip) ∧
    PassesPaging (σ := σ) PlatformDB.GetAllPlatform
      (fun _ limit skip => listStatement GetAllPlatformSQL limit skip) := by
  refine ⟨fun r c => ?_, by decide, fun r c ctx skip limit h1 h2 hs => ?_, ?_, ?_, ?_, ?_, ?_, ?_, ?_, ?_, ?_, ?_, ?_⟩
  · rw [getAllEvent_handler_verb other r c
      { QueryValues := [("slug", "%d"), ("skip", "7"), ("limit", "3")] } 7 3
      ⟨Or.inr (by decide), Or.inr (by decide)⟩ rfl]
    have e : getAllEventSQL ++ " WHERE slug='" ++ toString (3 : Int) ++ "' LIMIT "
        ++ toString (7 : Int) ++ " OFFSET %!d(MISSING)"
        = getAllEventSQL ++ " WHERE slug='3' LIMIT 7 OFFSET %!d(MISSING)" := by decide
    rw [e]
  · exact getAllEvent_handler_text other r c ctx skip limit ⟨Or.inr h1, Or.inr h2⟩ hs
  · rw [AudienceDB.GetAllAudience_shape,
      parsePaging_of_paging _ _ _ (-5) 0 ⟨Or.inr (by decide), Or.inr (by decide)⟩,
      respondList_conn, GetAllAudience_eq, runList_issued]
    decide
  · apply passesPaging_of
    intro r c ctx skip limit h
    have := queriesWithPaging_list (σ := σ) (fun _ limit skip => listStatement GetAllAudienceSQL limit skip) r c ctx skip limit h
    rw [AudienceDB.GetAllAudience_shape]
    simp only [GetAllAudience_eq]
    exact this
  · apply passesPaging_of
    intro r c ctx skip limit h
    have := queriesWithPaging_list (σ := σ) (fun _ limit skip => listStatement getAllURLSQL limit skip) r c ctx skip limit h
    rw [BroadcastURLDB.GetAllBroadcastURL_shape]
    simp only [getAllURL_eq]
    exact this
  · apply passesPaging_of
    intro r c ctx skip limit h
    have := queriesWithPaging_list (σ := σ) (fun _ limit skip => listStatement getAllEventItemSQL limit skip) r c ctx skip limit h
    rw [EventItemDB.GetAllEventItem_shape]
    simp only [getAllEventItem_eq]
    exact this
  · apply passesPaging_of
    intro r c ctx skip limit h
    have := queriesWithPaging_list (σ := σ) (fun _ limit skip => listStatement getAllEventPartOptionSQL limit skip) r c ctx skip limit h
    rw [EventPartOptionDB.GetAllEventPartOption_shape]
    simp only [getAllEventPartOption_eq]
    exact this
  · apply passesPaging_of
    intro r c ctx skip limit h
    have := queriesWithPaging_list (σ := σ) (fun _ limit skip => listStatement getAllItemSQL limit skip) r c ctx skip limit h
    rw [ItemDB.GetAllItem_shape]
    simp only [getAllItem_eq]
    exact this
  · apply passesPaging_of
    intro r c ctx skip limit h
    have := queriesWithPaging_list (σ := σ) (fun _ limit skip => listStatement getAllItemBroadcastURLSQL limit skip) r c ctx skip limit h
    rw [ItemBroadcastURLDB.GetAllItemBroadcastURL_shape]
    simp only [getAllItemBroadcastURL_eq]
    exact this
  · apply passesPaging_of
    intro r c ctx skip limit h
    have := queriesWithPaging_list (σ := σ) (fun _ limit skip => listStatement GetAllPartSQL limit skip) r c ctx skip limit h
    rw [ParticipantDB.GetAllParticipant_shape]
    simp only [GetAllPart_eq]
    exact this
  · apply passesPaging_of
    intro r c ctx skip limit h
    have := queriesWithPaging_list (σ := σ) (fun _ limit skip => listStatement GetAllPartOptionSQL limit skip) r c ctx skip limit h
    rw [ParticipationOptionDB.GetAllParticipationOption_shape]
    simp only [GetAllPartOption_eq]
    exact this
  · apply passesPaging_of
    intro r c ctx skip limit h
    have := queriesWithPaging_list (σ := σ) (fun ctx limit skip =>
        participationStatusListStatement (ctx.Query "eventid") limit skip) r c ctx skip limit h
    rw [ParticipationStatusDB.GetAllParticipationStatus_shape]
    simp only [getAllParticipationStatus_eq]
    exact this
  · apply passesPaging_of
    intro r c ctx skip limit h
    have := queriesWithPaging_list (σ := σ) (fun _ limit skip => listStatement GetAllPlatformSQL limit skip) r c ctx skip limit h
    rw [PlatformDB.GetAllPlatform_shape]
    simp only [GetAllPlatform_eq]
    exact this

end SrvEvent
